import Mathlib

/-! # A shallow embedding of `src/pc/gfx/gfx_rt64.cpp`

The draw-call cache and interpolation engine of the RT64 rendering backend.

Conventions of the embedding.

* `float` values are elements of a linearly ordered field `α` with a floor
  function; the theorems hold for every such field and the concrete
  evaluations are carried out over `ℚ`.  Where a comparison of computed
  `float`s decides a branch, or a statement gives a computed value, the
  operations are those of IEEE 754 binary32 (section "Floating point
  numbers"): the vector helpers, the light placement, the rotation guard, the
  delta computation and the weights of the sub-frames.  The interpolation of
  `gfx_rt64_rapi_draw_frame`, the matrix product and the camera are in the
  exact arithmetic of the field.
* A C pointer to a backend object is an `Option Handle`, `none` being
  `nullptr`.  A `void *` coming from the game is a `Nat`, `0` being `nullptr`.
* `std::unordered_map` / `std::map` are association lists with unique keys.
* A heap buffer (`float *`) is an `Option (List α)`.
* The global singleton `RT64` is the record `RT64State`, passed explicitly.
* A failed `assert` makes the function return `none`; where a claim tells the
  assertion from other faults the function returns an `Except`.
* A `std::string` is a `String`; its bytes are those of the UTF-8 encoding.
* Calls into the render library (`RT64.lib.*`) are appended to a call log.
* Constants and functions of headers that are not part of the translated
  file are fields of the record `Extern`.
* A document of `json/json.hpp` is a value of the type `json`; the files are
  left out: a load function takes the document read from the file, a save
  function returns the document it writes.
-/

namespace RT64

/-! ## Basic data -/

/-- Address of an object created by the render library. -/
abbrev Handle := Nat

/-- The type `RT64_VECTOR3`. -/
structure RT64_VECTOR3 (α : Type) where
  x : α
  y : α
  z : α
deriving DecidableEq, Repr

/-- The type `RT64_VECTOR4`. -/
structure RT64_VECTOR4 (α : Type) where
  x : α
  y : α
  z : α
  w : α
deriving DecidableEq, Repr

/-- The type `RT64_MATRIX4`: `m i j` is `m[i][j]`. -/
abbrev RT64_MATRIX4 (α : Type) := Fin 4 → Fin 4 → α

/-- The type `RT64_RECT`. -/
structure RT64_RECT where
  x : Int
  y : Int
  w : Int
  h : Int
deriving DecidableEq, Repr

/-- The fields of `RT64_MATERIAL` that the translated file reads or writes. -/
structure RT64_MATERIAL (α : Type) where
  ignoreNormalFactor : α
  uvDetailScale : α
  reflectionFactor : α
  reflectionFresnelFactor : α
  reflectionShineFactor : α
  refractionFactor : α
  specularColor : RT64_VECTOR3 α
  specularExponent : α
  solidAlphaMultiplier : α
  shadowAlphaMultiplier : α
  depthBias : α
  shadowRayBias : α
  selfLight : RT64_VECTOR3 α
  lightGroupMaskBits : Nat
  diffuseColorMix : RT64_VECTOR4 α
  fogColor : RT64_VECTOR3 α
  fogMul : Int
  fogOffset : Int
  fogEnabled : Bool
  enabledAttributes : Nat
deriving DecidableEq, Repr

/-- The type `RT64_LIGHT`. -/
structure RT64_LIGHT (α : Type) where
  position : RT64_VECTOR3 α
  diffuseColor : RT64_VECTOR3 α
  attenuationRadius : α
  pointRadius : α
  specularColor : RT64_VECTOR3 α
  shadowOffset : α
  attenuationExponent : α
  flickerIntensity : α
  groupBits : Nat
deriving DecidableEq, Repr

/-- The type `RT64_INSTANCE_DESC`. -/
structure RT64_INSTANCE_DESC (α : Type) where
  scissorRect : RT64_RECT
  viewportRect : RT64_RECT
  mesh : Option Handle
  transform : RT64_MATRIX4 α
  diffuseTexture : Option Handle
  normalTexture : Option Handle
  specularTexture : Option Handle
  material : RT64_MATERIAL α
  shader : Option Handle
  flags : Nat

/-- Value initialisation of a vector (`{}` / `new T()`). -/
def RT64_VECTOR3.zero [Zero α] : RT64_VECTOR3 α := ⟨0, 0, 0⟩

/-- Value initialisation of a vector (`{}` / `new T()`). -/
def RT64_VECTOR4.zero [Zero α] : RT64_VECTOR4 α := ⟨0, 0, 0, 0⟩

/-- The rectangle `{ 0, 0, 0, 0 }`. -/
def RT64_RECT.zero : RT64_RECT := ⟨0, 0, 0, 0⟩

/-- The object `new RT64_MATERIAL()`: every field zero. -/
def RT64_MATERIAL.zero [Zero α] : RT64_MATERIAL α :=
  { ignoreNormalFactor := 0, uvDetailScale := 0, reflectionFactor := 0,
    reflectionFresnelFactor := 0, reflectionShineFactor := 0, refractionFactor := 0,
    specularColor := RT64_VECTOR3.zero, specularExponent := 0, solidAlphaMultiplier := 0,
    shadowAlphaMultiplier := 0, depthBias := 0, shadowRayBias := 0,
    selfLight := RT64_VECTOR3.zero, lightGroupMaskBits := 0,
    diffuseColorMix := RT64_VECTOR4.zero, fogColor := RT64_VECTOR3.zero,
    fogMul := 0, fogOffset := 0, fogEnabled := false, enabledAttributes := 0 }

/-- The object `new RT64_LIGHT()`: every field zero. -/
def RT64_LIGHT.zero [Zero α] : RT64_LIGHT α :=
  { position := RT64_VECTOR3.zero, diffuseColor := RT64_VECTOR3.zero,
    attenuationRadius := 0, pointRadius := 0, specularColor := RT64_VECTOR3.zero,
    shadowOffset := 0, attenuationExponent := 0, flickerIntensity := 0, groupBits := 0 }

/-- A zeroed instance description. -/
def RT64_INSTANCE_DESC.zero [Zero α] : RT64_INSTANCE_DESC α :=
  { scissorRect := RT64_RECT.zero, viewportRect := RT64_RECT.zero, mesh := none,
    transform := fun _ _ => 0, diffuseTexture := none, normalTexture := none,
    specularTexture := none, material := RT64_MATERIAL.zero, shader := none, flags := 0 }

/-! ## Association lists standing for the C++ maps -/

/-- The lookup `m.find(k)`: the value of the first entry with key `k`. -/
def mapFind [DecidableEq κ] (m : List (κ × ν)) (k : κ) : Option ν :=
  match m with
  | [] => none
  | (k', v) :: t => if k' = k then some v else mapFind t k

/-- The assignment `m[k] = v`: replaces the value in place, or adds an entry. -/
def mapInsert [DecidableEq κ] (m : List (κ × ν)) (k : κ) (v : ν) : List (κ × ν) :=
  match m with
  | [] => [(k, v)]
  | (k', v') :: t => if k' = k then (k, v) :: t else (k', v') :: mapInsert t k v

/-- The removal `m.erase(k)`. -/
def mapErase [DecidableEq κ] (m : List (κ × ν)) (k : κ) : List (κ × ν) :=
  m.filter (fun p => decide (p.1 ≠ k))

/-- The access `m[k]` of a C++ map: the entry is created with `d` when absent. -/
def mapGetOrCreate [DecidableEq κ] (m : List (κ × ν)) (k : κ) (d : ν) : ν :=
  (mapFind m k).getD d

/-- The access `m[k]` of a C++ map seen as a map update: an absent key is added
with the value `d`, a present key leaves the map as it is. -/
def mapTouch [DecidableEq κ] (m : List (κ × ν)) (k : κ) (d : ν) : List (κ × ν) :=
  match mapFind m k with
  | some _ => m
  | none => m ++ [(k, d)]

/-! ## External constants and functions -/

/-- Declarations the translated file takes from headers that are not part of it:
`<cmath>`, `xxhash/xxhash64.h`, `gfx_cc.h`, `PR/gbi.h` and `rt64/rt64.h`. -/
structure Extern (α : Type) where
  /-- The function `sqrt` of `<cmath>`, at a `double`. -/
  sqrt : α → α
  /-- The digest `XXHash64(0).add(buf, len * sizeof(float)).hash()` of a float buffer. -/
  xxhash64 : List α → Nat
  SHADER_OPT_ALPHA : Nat
  SHADER_OPT_FOG : Nat
  SHADER_INPUT_1 : Nat
  SHADER_INPUT_4 : Nat
  SHADER_TEXEL0 : Nat
  SHADER_TEXEL0A : Nat
  SHADER_TEXEL1 : Nat
  G_TX_CLAMP : Nat
  G_TX_MIRROR : Nat
  RT64_MESH_RAYTRACE_ENABLED : Nat
  RT64_MESH_RAYTRACE_UPDATABLE : Nat
  RT64_INSTANCE_RASTER_BACKGROUND : Nat
  RT64_INSTANCE_DISABLE_BACKFACE_CULLING : Nat
  RT64_SHADER_FILTER_POINT : Nat
  RT64_SHADER_FILTER_LINEAR : Nat
  RT64_SHADER_ADDRESSING_WRAP : Nat
  RT64_SHADER_ADDRESSING_MIRROR : Nat
  RT64_SHADER_ADDRESSING_CLAMP : Nat
  RT64_SHADER_RAYTRACE_ENABLED : Nat
  RT64_SHADER_RASTER_ENABLED : Nat
  RT64_SHADER_NORMAL_MAP_ENABLED : Nat
  RT64_SHADER_SPECULAR_MAP_ENABLED : Nat
  RT64_LIGHT_GROUP_DEFAULT : Nat
  RT64_ATTRIBUTE_IGNORE_NORMAL_FACTOR : Nat
  RT64_ATTRIBUTE_UV_DETAIL_SCALE : Nat
  RT64_ATTRIBUTE_REFLECTION_FACTOR : Nat
  RT64_ATTRIBUTE_REFLECTION_FRESNEL_FACTOR : Nat
  RT64_ATTRIBUTE_REFLECTION_SHINE_FACTOR : Nat
  RT64_ATTRIBUTE_REFRACTION_FACTOR : Nat
  RT64_ATTRIBUTE_SPECULAR_COLOR : Nat
  RT64_ATTRIBUTE_SPECULAR_EXPONENT : Nat
  RT64_ATTRIBUTE_SOLID_ALPHA_MULTIPLIER : Nat
  RT64_ATTRIBUTE_SHADOW_ALPHA_MULTIPLIER : Nat
  RT64_ATTRIBUTE_DEPTH_BIAS : Nat
  RT64_ATTRIBUTE_SHADOW_RAY_BIAS : Nat
  RT64_ATTRIBUTE_SELF_LIGHT : Nat
  RT64_ATTRIBUTE_LIGHT_GROUP_MASK_BITS : Nat
  RT64_ATTRIBUTE_DIFFUSE_COLOR_MIX : Nat

/-- Modelled from the spec: the constant `RT64_ATTRIBUTE_NONE` of `rt64/rt64.h`,
the attribute-enabled bitmask of a mod that enables nothing. -/
def RT64_ATTRIBUTE_NONE : Nat := 0

/-- Modelled from the spec: the function `RT64_ApplyMaterialAttributes(dst, src)` of
`rt64/rt64.h`, which "overwrites enabled material fields" of `dst`: each field
whose attribute bit is set in `src->enabledAttributes` takes the value of `src`; the
bitmask of `dst` itself is left alone (the callers union it themselves). -/
def RT64_ApplyMaterialAttributes (ext : Extern α) (dst src : RT64_MATERIAL α) :
    RT64_MATERIAL α :=
  let isOn := fun (flag : Nat) => src.enabledAttributes &&& flag != 0
  { dst with
    ignoreNormalFactor :=
      if isOn ext.RT64_ATTRIBUTE_IGNORE_NORMAL_FACTOR then src.ignoreNormalFactor
      else dst.ignoreNormalFactor
    uvDetailScale :=
      if isOn ext.RT64_ATTRIBUTE_UV_DETAIL_SCALE then src.uvDetailScale else dst.uvDetailScale
    reflectionFactor :=
      if isOn ext.RT64_ATTRIBUTE_REFLECTION_FACTOR then src.reflectionFactor
      else dst.reflectionFactor
    reflectionFresnelFactor :=
      if isOn ext.RT64_ATTRIBUTE_REFLECTION_FRESNEL_FACTOR then src.reflectionFresnelFactor
      else dst.reflectionFresnelFactor
    reflectionShineFactor :=
      if isOn ext.RT64_ATTRIBUTE_REFLECTION_SHINE_FACTOR then src.reflectionShineFactor
      else dst.reflectionShineFactor
    refractionFactor :=
      if isOn ext.RT64_ATTRIBUTE_REFRACTION_FACTOR then src.refractionFactor
      else dst.refractionFactor
    specularColor :=
      if isOn ext.RT64_ATTRIBUTE_SPECULAR_COLOR then src.specularColor else dst.specularColor
    specularExponent :=
      if isOn ext.RT64_ATTRIBUTE_SPECULAR_EXPONENT then src.specularExponent
      else dst.specularExponent
    solidAlphaMultiplier :=
      if isOn ext.RT64_ATTRIBUTE_SOLID_ALPHA_MULTIPLIER then src.solidAlphaMultiplier
      else dst.solidAlphaMultiplier
    shadowAlphaMultiplier :=
      if isOn ext.RT64_ATTRIBUTE_SHADOW_ALPHA_MULTIPLIER then src.shadowAlphaMultiplier
      else dst.shadowAlphaMultiplier
    depthBias := if isOn ext.RT64_ATTRIBUTE_DEPTH_BIAS then src.depthBias else dst.depthBias
    shadowRayBias :=
      if isOn ext.RT64_ATTRIBUTE_SHADOW_RAY_BIAS then src.shadowRayBias else dst.shadowRayBias
    selfLight := if isOn ext.RT64_ATTRIBUTE_SELF_LIGHT then src.selfLight else dst.selfLight
    lightGroupMaskBits :=
      if isOn ext.RT64_ATTRIBUTE_LIGHT_GROUP_MASK_BITS then src.lightGroupMaskBits
      else dst.lightGroupMaskBits
    diffuseColorMix :=
      if isOn ext.RT64_ATTRIBUTE_DIFFUSE_COLOR_MIX then src.diffuseColorMix
      else dst.diffuseColorMix }

/-! ## Constants of the translated file -/

def MAX_LIGHTS : Nat := 512
def MAX_LEVEL_LIGHTS : Nat := 128
/-- The macro `MAX_DYNAMIC_LIGHTS`, which expands to `MAX_LIGHTS - MAX_LEVEL_LIGHTS`. -/
def MAX_DYNAMIC_LIGHTS : Nat := MAX_LIGHTS - MAX_LEVEL_LIGHTS
def MAX_LEVELS : Nat := 40
def MAX_AREAS : Nat := 3

/-- Number of values of `unsigned int` / `uint32_t`. -/
def UINT_MOD : Nat := 2 ^ 32

/-- Number of values of `size_t` (64-bit build). -/
def SIZE_MOD : Nat := 2 ^ 64

/-- Number of values of `uint16_t`. -/
def U16_MOD : Nat := 2 ^ 16

/-- The function `shaderVariantKey`; `key` and `fact` are `uint16_t`. -/
def shaderVariantKey (raytrace : Bool) (filter hAddr vAddr : Nat)
    (normalMap specularMap : Bool) : Nat :=
  let key := 0
  let fact := 1
  let key := (key + (if raytrace then fact else 0)) % U16_MOD
  let fact := (fact * 2) % U16_MOD
  let key := (key + filter * fact) % U16_MOD
  let fact := (fact * 2) % U16_MOD
  let key := (key + hAddr * fact) % U16_MOD
  let fact := (fact * 3) % U16_MOD
  let key := (key + vAddr * fact) % U16_MOD
  let fact := (fact * 3) % U16_MOD
  let key := (key + (if normalMap then fact else 0)) % U16_MOD
  let fact := (fact * 2) % U16_MOD
  let key := (key + (if specularMap then fact else 0)) % U16_MOD
  key

/-! ## Records of the translated file -/

/-- The struct `ShaderProgram`; `shaderVariantMap` sends a variant key to the
shader pointer stored for it. -/
structure ShaderProgram where
  shaderId : Nat
  numInputs : Nat
  usedTextures0 : Bool
  usedTextures1 : Bool
  shaderVariantMap : List (Nat × Option Handle)
deriving DecidableEq, Repr

/-- The struct `RecordedMesh` with its default member initialisers. -/
structure RecordedMesh (α : Type) where
  prevVertexBuffer : Option (List α) := none
  prevVertexBufferHash : Nat := 0
  newVertexBuffer : Option (List α) := none
  newVertexBufferHash : Nat := 0
  newVertexBufferValid : Bool := false
  deltaVertexBuffer : Option (List α) := none
  mesh : Option Handle := none
  vertexCount : Nat := 0
  vertexStride : Nat := 0
  indexCount : Nat := 0
  useTexture : Bool := false
  raytrace : Bool := false
deriving DecidableEq, Repr

/-- The value-initialised `RecordedMesh` that `vector::resize` creates. -/
def RecordedMesh.zero : RecordedMesh α := {}

/-- The struct `RecordedInstance` (the field `instance` is `instance_` here). -/
structure RecordedInstance (α : Type) where
  instance_ : Option Handle
  desc : RT64_INSTANCE_DESC α
  prevTransform : RT64_MATRIX4 α
  newTransform : RT64_MATRIX4 α
  prevScissorRect : RT64_RECT
  newScissorRect : RT64_RECT
  prevViewportRect : RT64_RECT
  newViewportRect : RT64_RECT
  prevValid : Bool
  newValid : Bool

/-- The value-initialised `RecordedInstance` that `vector::resize` creates. -/
def RecordedInstance.zero [Zero α] : RecordedInstance α :=
  { instance_ := none, desc := RT64_INSTANCE_DESC.zero,
    prevTransform := fun _ _ => 0, newTransform := fun _ _ => 0,
    prevScissorRect := RT64_RECT.zero, newScissorRect := RT64_RECT.zero,
    prevViewportRect := RT64_RECT.zero, newViewportRect := RT64_RECT.zero,
    prevValid := false, newValid := false }

/-- The struct `RecordedTexture`. -/
structure RecordedTexture where
  texture : Option Handle
  linearFilter : Bool
  cms : Nat
  cmt : Nat
  hash : Nat
deriving DecidableEq, Repr

/-- The value-initialised `RecordedTexture` that `textures[key]` creates. -/
def RecordedTexture.zero : RecordedTexture :=
  { texture := none, linearFilter := false, cms := 0, cmt := 0, hash := 0 }

/-- The struct `RecordedMod`; the two owned pointers are options, the object
`new RecordedMod()` is `{}`. -/
structure RecordedMod (α : Type) where
  materialMod : Option (RT64_MATERIAL α) := none
  lightMod : Option (RT64_LIGHT α) := none
  normalMapHash : Nat := 0
  specularMapHash : Nat := 0
  interpolationEnabled : Bool := true
deriving DecidableEq, Repr

/-- The struct `RecordedCamera`. -/
structure RecordedCamera (α : Type) where
  viewMatrix : RT64_MATRIX4 α
  invViewMatrix : RT64_MATRIX4 α
  fovRadians : α
  nearDist : α
  farDist : α

/-- The struct `RecordedDisplayList`. -/
structure RecordedDisplayList (α : Type) where
  instances : List (RecordedInstance α)
  meshes : List (RecordedMesh α)
  prevTransform : RT64_MATRIX4 α
  newTransform : RT64_MATRIX4 α
  prevValid : Bool
  newValid : Bool
  newCount : Nat

/-- The value-initialised `RecordedDisplayList` that `displayLists[uid]` creates. -/
def RecordedDisplayList.zero [Zero α] : RecordedDisplayList α :=
  { instances := [], meshes := [], prevTransform := fun _ _ => 0,
    newTransform := fun _ _ => 0, prevValid := false, newValid := false, newCount := 0 }

/-- The struct `RecordedLight`. -/
structure RecordedLight (α : Type) where
  prevLight : RT64_LIGHT α
  newLight : RT64_LIGHT α
deriving DecidableEq, Repr

/-! ## The render library -/

/-- One call of a function of `RT64.lib`, with the arguments the translated file
passes and, for the creating functions, the pointer that came back. -/
inductive BackendCall (α : Type) where
  | CreateMesh (flags : Nat) (result : Handle)
  | DestroyMesh (mesh : Option Handle)
  | SetMesh (mesh : Option Handle) (vertexBuffer : List α)
      (vertexCount vertexStride indexCount : Nat)
  | CreateInstance (result : Handle)
  | DestroyInstance (inst : Option Handle)
  | SetInstanceDescription (inst : Option Handle) (desc : RT64_INSTANCE_DESC α)
  | CreateShader (shaderId filter hAddr vAddr flags : Nat) (result : Handle)
  | SetViewPerspective (viewMatrix : RT64_MATRIX4 α) (fovRadians nearDist farDist : α)
  | SetViewSkyPlane (texture : Option Handle)
  | SetSceneDescription
  | SetSceneLights (lights : List (RT64_LIGHT α)) (lightCount : Nat)
  | DrawDevice (vsyncInterval : Nat)
  | CreateTextureFromRGBA8 (width height stride : Int) (result : Handle)
  | GetViewRaytracedInstanceAt (result : Option Handle)
  | SetMaterialInspector (inspector : Option Handle) (material : Option (RT64_MATERIAL α))
      (materialName : List Nat)
  | PrintMessageInspector (inspector : Option Handle) (message : String)

/-- The render library: every created object gets the next unused address, and
every call is appended to `calls`. -/
structure Backend (α : Type) where
  nextHandle : Handle
  calls : List (BackendCall α)

/-- Appends a call to the log. -/
def Backend.call (b : Backend α) (c : BackendCall α) : Backend α :=
  { b with calls := b.calls ++ [c] }

/-- The call `RT64.lib.CreateMesh(RT64.device, flags)`. -/
def Backend.CreateMesh (b : Backend α) (flags : Nat) : Option Handle × Backend α :=
  (some b.nextHandle,
    { nextHandle := b.nextHandle + 1,
      calls := b.calls ++ [BackendCall.CreateMesh flags b.nextHandle] })

/-- The call `RT64.lib.CreateInstance(RT64.scene)`. -/
def Backend.CreateInstance (b : Backend α) : Option Handle × Backend α :=
  (some b.nextHandle,
    { nextHandle := b.nextHandle + 1,
      calls := b.calls ++ [BackendCall.CreateInstance b.nextHandle] })

/-- The call `RT64.lib.CreateTextureFromRGBA8(RT64.device, bytes, width, height, stride)`;
the pixel data is not recorded. -/
def Backend.CreateTextureFromRGBA8 (b : Backend α) (width height stride : Int) :
    Option Handle × Backend α :=
  (some b.nextHandle,
    { nextHandle := b.nextHandle + 1,
      calls := b.calls ++ [BackendCall.CreateTextureFromRGBA8 width height stride b.nextHandle] })

/-- The call `RT64.lib.CreateShader(RT64.device, shader_id, filter, hAddr, vAddr, flags)`. -/
def Backend.CreateShader (b : Backend α) (shaderId filter hAddr vAddr flags : Nat) :
    Option Handle × Backend α :=
  (some b.nextHandle,
    { nextHandle := b.nextHandle + 1,
      calls := b.calls ++ [BackendCall.CreateShader shaderId filter hAddr vAddr flags
        b.nextHandle] })

/-! ## The global state -/

/-- The fields of the global `RT64` that the translated functions use, together
with the function-local statics of `gfx_rt64_rapi_draw_frame`.

* `shaderHeap` holds the objects made by `new ShaderProgram()`; a
  `ShaderProgram *` is an index into it.
* `lights`, `dynamicLights` are the fixed-size arrays; a write at an index
  outside the array is dropped.
* `textureHashIdMap` has `uint32_t` keys, so a 64-bit hash is reduced modulo
  `2 ^ 32` when it is used as a key.
* `texHashAliasesMap` and `nameGeoLayoutMap` are empty until something is put
  into them, and `inspector` is `nullptr` until the inspector window is opened. -/
structure RT64State (α : Type) where
  lib : Backend α
  defaultMaterial : RT64_MATERIAL α
  blankTexture : Option Handle
  textureHashIdMap : List (Nat × Nat)
  textures : List (Nat × RecordedTexture)
  shaderHeap : List ShaderProgram
  shaderPrograms : List (Nat × Nat)
  displayLists : List (Nat × RecordedDisplayList α)
  lights : List (RT64_LIGHT α)
  lightCount : Nat
  levelLights : Nat → Nat → List (RT64_LIGHT α)
  levelLightCounts : Nat → Nat → Nat
  dynamicLights : List (RecordedLight α)
  dynamicLightCount : Nat
  pickTextureNextFrame : Bool
  pickTextureHighlight : Bool
  pickedTextureHash : Nat
  lastInstanceTextureHashes : List (Option Handle × Nat)
  geoLayoutMods : List (Nat × RecordedMod α)
  graphNodeMods : List (Nat × RecordedMod α)
  texNameMap : List (Nat × String)
  nameTexMap : List (String × Nat)
  texMods : List (Nat × RecordedMod α)
  texHashAliasMap : List (Nat × Nat)
  camera : RecordedCamera α
  prevCamera : RecordedCamera α
  prevCameraValid : Bool
  identityTransform : RT64_MATRIX4 α
  currentTile : Int
  currentTextureIds : Nat × Nat
  shaderProgram : Option Nat
  background : Bool
  fogColor : RT64_VECTOR3 α
  scissorRect : RT64_RECT
  viewportRect : RT64_RECT
  fogMul : Int
  fogOffset : Int
  graphNodeMod : Option (RecordedMod α)
  targetFPS : Nat
  turboMode : Bool
  tempVertexBuffer : List α
  tempVertexBufferSize : Nat
  texHashAliasesMap : List (Nat × List Nat) := []
  nameGeoLayoutMap : List (String × Nat) := []
  inspector : Option Handle := none

/-- The game variables the translated functions read: the results of
`gfx_rt64_get_level_index()` and `gfx_rt64_get_area_index()`, the position
`gMarioState->pos`, and the pointer that `GetViewRaytracedInstanceAt` gives for
the cursor position. -/
structure Game (α : Type) where
  levelIndex : Nat
  areaIndex : Nat
  marioPos : RT64_VECTOR3 α
  pickedInstance : Option Handle

/-! ## Floating point numbers

The arithmetic of `float` is that of IEEE 754 binary32: the exact result of an
operation is rounded to the nearest `float`, ties to even, with gradual
underflow; a negative zero is the number `0`.  Infinities and NaN are not
values of the model: every result is taken to lie in the range of the format. -/

section Floats
variable {α : Type} [LinearOrderedField α] [FloorRing α]

/-- The power of two `2 ^ e` for an integer exponent. -/
def pow2 (e : ℤ) : α :=
  if 0 ≤ e then ((2 ^ e.toNat : ℕ) : α) else 1 / ((2 ^ (-e).toNat : ℕ) : α)

/-- The integer nearest to `q`, the even one when two integers are equally near. -/
def roundNearestEven (q : α) : ℤ :=
  let f := ⌊q⌋
  let r := q - (f : α)
  if r < 1 / 2 then f else if 1 / 2 < r then f + 1 else if f % 2 = 0 then f else f + 1

/-- The position of the leading bit of `n`; the first argument bounds the recursion. -/
def log2Aux : ℕ → ℕ → ℕ
  | 0, _ => 0
  | fuel + 1, n => if 2 ≤ n then log2Aux fuel (n / 2) + 1 else 0

/-- The position of the leading bit of `n`. -/
def log2 (n : ℕ) : ℕ := log2Aux n n

/-- The exponent `e` of the binade of a positive number: `2 ^ e ≤ x < 2 ^ (e + 1)`. -/
def ilog2 (x : α) : ℤ :=
  if 1 ≤ x then (log2 ⌊x⌋₊ : ℤ) else -((log2 (⌈x⁻¹⌉₊ - 1) + 1 : ℕ) : ℤ)

/-- The exponent of the unit in the last place of `x` in a binary format with
`prec` significant bits whose smallest positive number is `2 ^ emin`. -/
def ulpExponent (prec : ℕ) (emin : ℤ) (x : α) : ℤ :=
  max (ilog2 |x| - ((prec : ℤ) - 1)) emin

/-- Rounding to the nearest number of a binary format, ties to even, with gradual
underflow; no number is too large for the format. -/
def roundFloat (prec : ℕ) (emin : ℤ) (x : α) : α :=
  if x = 0 then 0
  else (roundNearestEven (x / pow2 (ulpExponent prec emin x)) : α) * pow2 (ulpExponent prec emin x)

/-- Rounding to `float` (IEEE 754 binary32). -/
def roundF32 (x : α) : α := roundFloat 24 (-149) x

/-- Rounding to `double` (IEEE 754 binary64). -/
def roundF64 (x : α) : α := roundFloat 53 (-1074) x

/-- The values of the type `float`. -/
def IsF32 (x : α) : Prop := roundF32 x = x

instance (x : α) : Decidable (IsF32 x) := by unfold IsF32; infer_instance

/-- The loop of the integer square root: the bits of the root from bit `k - 1` down. -/
def isqrtAux (n : ℕ) : ℕ → ℕ → ℕ
  | 0, r => r
  | k + 1, r => isqrtAux n k (if (r + 2 ^ k) * (r + 2 ^ k) ≤ n then r + 2 ^ k else r)

/-- The integer square root: the largest `r` with `r * r ≤ n`. -/
def isqrt (n : ℕ) : ℕ := isqrtAux n (log2 n / 2 + 1) 0

/-- The number of a binary format nearest to the square root of `x`, ties to even. -/
def sqrtFloat (prec : ℕ) (emin : ℤ) (x : α) : α :=
  if x ≤ 0 then 0
  else
    let u := max (ilog2 x / 2 - ((prec : ℤ) - 1)) emin
    let y := x / pow2 (2 * u)
    let n := isqrt ⌊y⌋₊
    let h : α := (n : α) * n + n + 1 / 4
    let m := if y < h then n else if h < y then n + 1 else if n % 2 = 0 then n else n + 1
    (m : α) * pow2 u

/-- The `double` nearest to the square root of `x`: what the function `sqrt` of
`<cmath>` returns, IEEE 754 asking for a correctly rounded root. -/
def sqrtF64 (x : α) : α := sqrtFloat 53 (-1074) x

/-- The sum of two `float`s. -/
def addF32 (a b : α) : α := roundF32 (a + b)

/-- The difference of two `float`s. -/
def subF32 (a b : α) : α := roundF32 (a - b)

/-- The product of two `float`s. -/
def mulF32 (a b : α) : α := roundF32 (a * b)

/-- The quotient of two `float`s. -/
def divF32 (a b : α) : α := roundF32 (a / b)

end Floats

/-! ## Vector helpers -/

section Geometry
variable {α : Type} [LinearOrderedField α] [FloorRing α]

/-- The function `transform_position_affine`; every product and every sum is
rounded to `float`, the sums from left to right. -/
def transform_position_affine (m : RT64_MATRIX4 α) (v : RT64_VECTOR3 α) :
    RT64_VECTOR3 α :=
  { x := addF32 (addF32 (addF32 (mulF32 v.x (m 0 0)) (mulF32 v.y (m 1 0)))
      (mulF32 v.z (m 2 0))) (m 3 0)
    y := addF32 (addF32 (addF32 (mulF32 v.x (m 0 1)) (mulF32 v.y (m 1 1)))
      (mulF32 v.z (m 2 1))) (m 3 1)
    z := addF32 (addF32 (addF32 (mulF32 v.x (m 0 2)) (mulF32 v.y (m 1 2)))
      (mulF32 v.z (m 2 2))) (m 3 2) }

/-- The function `transform_direction_affine`, in `float` arithmetic. -/
def transform_direction_affine (m : RT64_MATRIX4 α) (v : RT64_VECTOR3 α) :
    RT64_VECTOR3 α :=
  { x := addF32 (addF32 (mulF32 v.x (m 0 0)) (mulF32 v.y (m 1 0))) (mulF32 v.z (m 2 0))
    y := addF32 (addF32 (mulF32 v.x (m 0 1)) (mulF32 v.y (m 1 1))) (mulF32 v.z (m 2 1))
    z := addF32 (addF32 (mulF32 v.x (m 0 2)) (mulF32 v.y (m 1 2))) (mulF32 v.z (m 2 2)) }

/-- The function `vector_length`, in `float` arithmetic.  The root of a `float`
is the `float` nearest to the exact root whether `sqrt` is taken at `float` or at
`double` and the result narrowed, a `double` having more than twice the bits of
a `float`; the model narrows the `double`. -/
def vector_length (ext : Extern α) (v : RT64_VECTOR3 α) : α :=
  roundF32 (ext.sqrt (addF32 (addF32 (mulF32 v.x v.x) (mulF32 v.y v.y)) (mulF32 v.z v.z)))

/-- The function `normalize_vector`, in `float` arithmetic. -/
def normalize_vector (ext : Extern α) (v : RT64_VECTOR3 α) : RT64_VECTOR3 α :=
  let length := vector_length ext v
  if length > 0 then
    { x := divF32 v.x length, y := divF32 v.y length, z := divF32 v.z length }
  else
    { x := 0, y := 0, z := 0 }

/-- The function `vector_dot_product`, in `float` arithmetic. -/
def vector_dot_product (a b : RT64_VECTOR3 α) : α :=
  addF32 (addF32 (mulF32 a.x b.x) (mulF32 a.y b.y)) (mulF32 a.z b.z)

/-- The function `gfx_matrix_mul`, returning `res`. -/
def gfx_matrix_mul (a b : RT64_MATRIX4 α) : RT64_MATRIX4 α :=
  fun i j => a i 0 * b 0 j + a i 1 * b 1 j + a i 2 * b 2 j + a i 3 * b 3 j

/-- The function `gfx_rt64_lerp_float`. -/
def gfx_rt64_lerp_float (a b t : α) : α :=
  a + t * (b - a)

/-- The function `lround` of `<cmath>`: the nearest integer, halves away from zero. -/
def lround (x : α) : Int :=
  if 0 ≤ x then ⌊x + 1 / 2⌋ else -⌊-x + 1 / 2⌋

/-- The function `gfx_rt64_lerp_int`. -/
def gfx_rt64_lerp_int (a b : Int) (t : α) : Int :=
  a + lround (t * ((b - a : Int) : α))

/-- The function `gfx_rt64_lerp_vector3`. -/
def gfx_rt64_lerp_vector3 (a b : RT64_VECTOR3 α) (t : α) : RT64_VECTOR3 α :=
  { x := gfx_rt64_lerp_float a.x b.x t
    y := gfx_rt64_lerp_float a.y b.y t
    z := gfx_rt64_lerp_float a.z b.z t }

/-- The function `gfx_rt64_lerp_rect`. -/
def gfx_rt64_lerp_rect (a b : RT64_RECT) (t : α) : RT64_RECT :=
  { x := gfx_rt64_lerp_int a.x b.x t
    y := gfx_rt64_lerp_int a.y b.y t
    w := gfx_rt64_lerp_int a.w b.w t
    h := gfx_rt64_lerp_int a.h b.h t }

/-- The function `gfx_rt64_lerp_matrix`: every component on its own. -/
def gfx_rt64_lerp_matrix (a b : RT64_MATRIX4 α) (t : α) : RT64_MATRIX4 α :=
  fun i j => gfx_rt64_lerp_float (a i j) (b i j) t

end Geometry

/-! ## Dynamic lights -/

section Lights
variable {α : Type} [LinearOrderedField α] [FloorRing α]

/-- The function `gfx_rt64_reset_logic_frame`, called before every game iteration. -/
def gfx_rt64_reset_logic_frame (s : RT64State α) : RT64State α :=
  { s with
    lib := s.lib.call (BackendCall.SetViewSkyPlane none)
    dynamicLightCount := 0 }

/-- The lambda `configureLight` of `gfx_rt64_add_light`, returning `*targetLight`.
In `vector_length(scaleVector) / sqrt(3)` the argument `3` is an `int`, so the
root and the quotient are taken in `double` and the quotient is narrowed to the
`float scale`. -/
def configureLight (ext : Extern α) (lightMod : RT64_LIGHT α) (transform : RT64_MATRIX4 α) :
    RT64_LIGHT α :=
  let targetLight := lightMod
  let targetLight :=
    { targetLight with position := transform_position_affine transform lightMod.position }
  let scaleVector := transform_direction_affine transform { x := 1, y := 1, z := 1 }
  let scale := roundF32 (roundF64 (vector_length ext scaleVector / ext.sqrt 3))
  { targetLight with
    attenuationRadius := mulF32 targetLight.attenuationRadius scale
    pointRadius := mulF32 targetLight.pointRadius scale
    shadowOffset := mulF32 targetLight.shadowOffset scale }

/-- The function `gfx_rt64_add_light`; `none` when the assertion
`RT64.dynamicLightCount < MAX_DYNAMIC_LIGHTS` fails. -/
def gfx_rt64_add_light (ext : Extern α) (s : RT64State α) (lightMod : RT64_LIGHT α)
    (prevTransform newTransform : RT64_MATRIX4 α) : Option (RT64State α) :=
  if s.dynamicLightCount < MAX_DYNAMIC_LIGHTS then
    let index := s.dynamicLightCount
    let dynLight : RecordedLight α :=
      { prevLight := configureLight ext lightMod prevTransform
        newLight := configureLight ext lightMod newTransform }
    some { s with
      dynamicLightCount := (index + 1) % UINT_MOD
      dynamicLights := s.dynamicLights.set index dynLight }
  else
    none

/-- The function `gfx_rt64_rapi_set_special_stage_lights`.  The element
`RT64.dynamicLights[RT64.dynamicLightCount++]` is taken without an assertion. -/
def gfx_rt64_rapi_set_special_stage_lights (ext : Extern α) (g : Game α) (s : RT64State α)
    (levelIndex areaIndex : Nat) : RT64State α :=
  if levelIndex = 8 ∧ areaIndex = 2 then
    let index := s.dynamicLightCount
    let dynLight := s.dynamicLights.getD index ⟨RT64_LIGHT.zero, RT64_LIGHT.zero⟩
    let viewPos : RT64_VECTOR3 α :=
      { x := s.camera.invViewMatrix 3 0
        y := s.camera.invViewMatrix 3 1
        z := s.camera.invViewMatrix 3 2 }
    let marioPos := g.marioPos
    let prevLight : RT64_LIGHT α :=
      { dynLight.prevLight with
        diffuseColor := { x := 1, y := 9 / 10, z := 5 / 10 }
        position :=
          { x := viewPos.x + (viewPos.x - marioPos.x)
            y := viewPos.y + 150
            z := viewPos.z + (viewPos.z - marioPos.z) }
        attenuationRadius := 4000
        attenuationExponent := 1
        pointRadius := 25
        specularColor := { x := 65 / 100, y := 585 / 1000, z := 325 / 1000 }
        shadowOffset := 1000
        groupBits := ext.RT64_LIGHT_GROUP_DEFAULT }
    { s with
      dynamicLightCount := (index + 1) % UINT_MOD
      dynamicLights := s.dynamicLights.set index { prevLight := prevLight, newLight := prevLight } }
  else
    s

/-- The first block of `gfx_rt64_rapi_end_frame`: the special stage lights are
added and the array `RT64.lights` is built out of the static level lights and the
dynamic lights; `none` when the assertion `RT64.lightCount <= MAX_LIGHTS` fails. -/
def end_frame_lights (ext : Extern α) (g : Game α) (s : RT64State α) :
    Option (RT64State α) :=
  let levelIndex := g.levelIndex
  let areaIndex := g.areaIndex
  let s := gfx_rt64_rapi_set_special_stage_lights ext g s levelIndex areaIndex
  let s := { s with lib := s.lib.call BackendCall.SetSceneDescription }
  let levelLightCount := s.levelLightCounts levelIndex areaIndex
  let lightCount := (levelLightCount + s.dynamicLightCount) % UINT_MOD
  if lightCount ≤ MAX_LIGHTS then
    let level := s.levelLights levelIndex areaIndex
    let lights := (List.range levelLightCount).foldl
      (fun l j => l.set j (level.getD j RT64_LIGHT.zero)) s.lights
    let lights := (List.range s.dynamicLightCount).foldl
      (fun l i => l.set (levelLightCount + i)
        (s.dynamicLights.getD i ⟨RT64_LIGHT.zero, RT64_LIGHT.zero⟩).newLight) lights
    some { s with lightCount := lightCount, lights := lights }
  else
    none

end Lights

/-! ## Mods -/

section Mods
variable {α : Type} [LinearOrderedField α] [FloorRing α]

/-- What `gfx_rt64_rapi_apply_mod` leaves in the objects behind its pointer
arguments, and in the global state. -/
structure ApplyModResult (α : Type) where
  state : RT64State α
  material : RT64_MATERIAL α
  normal : Option Handle
  specular : Option Handle
  interpolate : Bool

/-- The lookup of a normal or specular map in `gfx_rt64_rapi_apply_mod`: the
texture recorded under the key that `textureHashIdMap` has for the hash, or
`current` when either lookup misses. -/
def lookupMapTexture (s : RT64State α) (mapHash : Nat) (current : Option Handle) :
    Option Handle :=
  if mapHash ≠ 0 then
    match mapFind s.textureHashIdMap (mapHash % UINT_MOD) with
    | some textureKey =>
      match mapFind s.textures (textureKey % UINT_MOD) with
      | some recordedTexture => recordedTexture.texture
      | none => current
    | none => current
  else
    current

/-- The function `gfx_rt64_rapi_apply_mod`; `none` when the light cannot be added. -/
def gfx_rt64_rapi_apply_mod (ext : Extern α) (s : RT64State α) (material : RT64_MATERIAL α)
    (normal specular : Option Handle) (interpolate : Bool) (mod : RecordedMod α)
    (prevTransform newTransform : RT64_MATRIX4 α) (applyLight : Bool) :
    Option (ApplyModResult α) :=
  let interpolate := if !mod.interpolationEnabled then false else interpolate
  let material :=
    match mod.materialMod with
    | some materialMod => RT64_ApplyMaterialAttributes ext material materialMod
    | none => material
  let added : Option (RT64State α) :=
    match applyLight, mod.lightMod with
    | true, some lightMod =>
      gfx_rt64_add_light ext s lightMod (if interpolate then prevTransform else newTransform)
        newTransform
    | _, _ => some s
  match added with
  | none => none
  | some s =>
    some
      { state := s
        material := material
        normal := lookupMapTexture s mod.normalMapHash normal
        specular := lookupMapTexture s mod.specularMapHash specular
        interpolate := interpolate }

/-- The block of `gfx_rt64_rapi_register_layout_graph_node` that merges the mod
`geoMod` of a geo layout into the mod `graphMod` of a graph node. -/
def mergeGeoLayoutMod (ext : Extern α) (graphMod geoMod : RecordedMod α) : RecordedMod α :=
  let graphMod :=
    match geoMod.materialMod with
    | some geoMaterial =>
      let graphMaterial :=
        match graphMod.materialMod with
        | some m => m
        | none => { (RT64_MATERIAL.zero : RT64_MATERIAL α) with
                    enabledAttributes := RT64_ATTRIBUTE_NONE }
      let graphMaterial := RT64_ApplyMaterialAttributes ext graphMaterial geoMaterial
      let graphMaterial :=
        { graphMaterial with
          enabledAttributes := graphMaterial.enabledAttributes ||| geoMaterial.enabledAttributes }
      { graphMod with materialMod := some graphMaterial }
    | none => graphMod
  let graphMod :=
    match geoMod.lightMod with
    | some geoLight => { graphMod with lightMod := some geoLight }
    | none => graphMod
  let graphMod :=
    if geoMod.normalMapHash ≠ 0 then { graphMod with normalMapHash := geoMod.normalMapHash }
    else graphMod
  let graphMod :=
    if geoMod.specularMapHash ≠ 0 then
      { graphMod with specularMapHash := geoMod.specularMapHash }
    else graphMod
  if !geoMod.interpolationEnabled then
    { graphMod with interpolationEnabled := geoMod.interpolationEnabled }
  else graphMod

/-- The function `gfx_rt64_rapi_register_layout_graph_node`; the two `void *`
arguments are addresses, `0` being `nullptr`. -/
def gfx_rt64_rapi_register_layout_graph_node (ext : Extern α) (s : RT64State α)
    (geoLayout graphNode : Nat) : RT64State α :=
  let s :=
    if graphNode ≠ 0 then
      match mapFind s.graphNodeMods graphNode with
      | some _ => { s with graphNodeMods := mapErase s.graphNodeMods graphNode }
      | none => s
    else s
  if geoLayout ≠ 0 ∧ graphNode ≠ 0 then
    match mapFind s.geoLayoutMods geoLayout with
    | some geoMod =>
      let graphMod : RecordedMod α :=
        match mapFind s.graphNodeMods graphNode with
        | some graphMod => graphMod
        | none => {}
      let graphMod := mergeGeoLayoutMod ext graphMod geoMod
      { s with graphNodeMods := mapInsert s.graphNodeMods graphNode graphMod }
    | none => s
  else s

/-- The function `gfx_rt64_rapi_build_graph_node_mod`: the returned pointer and
the new state; `none` when the light cannot be added. -/
def gfx_rt64_rapi_build_graph_node_mod (ext : Extern α) (s : RT64State α) (graphNode : Nat)
    (modelview_matrix : RT64_MATRIX4 α) (uid : Nat) :
    Option (Option (RecordedMod α) × RT64State α) :=
  match mapFind s.graphNodeMods graphNode with
  | some graphNodeMod =>
    match graphNodeMod.lightMod with
    | some lightMod =>
      let newTransform := gfx_matrix_mul modelview_matrix s.camera.invViewMatrix
      let prevTransform := newTransform
      let interpolate := (uid != 0) && graphNodeMod.interpolationEnabled
      let (prevTransform, s) :=
        if interpolate then
          let displayList := mapGetOrCreate s.displayLists uid RecordedDisplayList.zero
          let prevTransform :=
            if displayList.prevValid then displayList.prevTransform else prevTransform
          let displayList := { displayList with newTransform := newTransform, newValid := true }
          (prevTransform, { s with displayLists := mapInsert s.displayLists uid displayList })
        else (prevTransform, s)
      match gfx_rt64_add_light ext s lightMod prevTransform newTransform with
      | some s => some (some graphNodeMod, s)
      | none => none
    | none => some (some graphNodeMod, s)
  | none => some (none, s)

/-- The function `gfx_rt64_rapi_set_graph_node_mod`. -/
def gfx_rt64_rapi_set_graph_node_mod (s : RT64State α) (graph_node_mod : Option (RecordedMod α)) :
    RT64State α :=
  { s with graphNodeMod := graph_node_mod }

end Mods

/-! ## Shader programs -/

section Shaders
variable {α : Type}

/-- The object behind the pointer `RT64.shaderProgram`, when there is one. -/
def currentShaderProgram (s : RT64State α) : Option ShaderProgram :=
  match s.shaderProgram with
  | some p => s.shaderHeap[p]?
  | none => none

/-- The function `gfx_rt64_rapi_load_shader`. -/
def gfx_rt64_rapi_load_shader (s : RT64State α) (new_prg : Option Nat) : RT64State α :=
  { s with shaderProgram := new_prg }

/-- The function `gfx_rt64_rapi_create_and_load_new_shader`: the address of the
new program and the new state. -/
def gfx_rt64_rapi_create_and_load_new_shader (ext : Extern α) (s : RT64State α)
    (shader_id : Nat) : Nat × RT64State α :=
  let c0 := (List.range 4).map (fun i => (shader_id >>> (i * 3)) &&& 7)
  let c1 := (List.range 4).map (fun i => (shader_id >>> (12 + i * 3)) &&& 7)
  let shaderProgram : ShaderProgram :=
    { shaderId := shader_id, numInputs := 0, usedTextures0 := false, usedTextures1 := false,
      shaderVariantMap := [] }
  let shaderProgram := (c0 ++ c1).foldl
    (fun (prg : ShaderProgram) (c : Nat) =>
      let prg :=
        if ext.SHADER_INPUT_1 ≤ c ∧ c ≤ ext.SHADER_INPUT_4 then
          if c > prg.numInputs then { prg with numInputs := c } else prg
        else prg
      let prg :=
        if c = ext.SHADER_TEXEL0 ∨ c = ext.SHADER_TEXEL0A then
          { prg with usedTextures0 := true }
        else prg
      if c = ext.SHADER_TEXEL1 then { prg with usedTextures1 := true } else prg)
    shaderProgram
  let address := s.shaderHeap.length
  let s :=
    { s with
      shaderHeap := s.shaderHeap ++ [shaderProgram]
      shaderPrograms := mapInsert s.shaderPrograms shader_id address }
  (address, gfx_rt64_rapi_load_shader s (some address))

/-- The function `gfx_rt64_rapi_lookup_shader`. -/
def gfx_rt64_rapi_lookup_shader (s : RT64State α) (shader_id : Nat) : Option Nat :=
  mapFind s.shaderPrograms shader_id

/-- The function `gfx_rt64_rapi_preload_shader`. -/
def gfx_rt64_rapi_preload_shader (ext : Extern α) (s : RT64State α) (shader_id : Nat)
    (raytrace : Bool) (filter hAddr vAddr : Nat) (normalMap specularMap : Bool) :
    RT64State α :=
  let (address, s) :=
    match gfx_rt64_rapi_lookup_shader s shader_id with
    | some address => (address, s)
    | none => gfx_rt64_rapi_create_and_load_new_shader ext s shader_id
  match s.shaderHeap[address]? with
  | none => s
  | some shaderProgram =>
    let variantKey := shaderVariantKey raytrace filter hAddr vAddr normalMap specularMap
    match (mapFind shaderProgram.shaderVariantMap variantKey).join with
    | some _ =>
      let shaderProgram :=
        { shaderProgram with
          shaderVariantMap := mapTouch shaderProgram.shaderVariantMap variantKey none }
      { s with shaderHeap := s.shaderHeap.set address shaderProgram }
    | none =>
      let flags :=
        if raytrace then ext.RT64_SHADER_RAYTRACE_ENABLED else ext.RT64_SHADER_RASTER_ENABLED
      let flags := if normalMap then flags ||| ext.RT64_SHADER_NORMAL_MAP_ENABLED else flags
      let flags := if specularMap then flags ||| ext.RT64_SHADER_SPECULAR_MAP_ENABLED else flags
      let (shader, lib) := s.lib.CreateShader shader_id filter hAddr vAddr flags
      let shaderProgram :=
        { shaderProgram with
          shaderVariantMap := mapInsert shaderProgram.shaderVariantMap variantKey shader }
      { s with lib := lib, shaderHeap := s.shaderHeap.set address shaderProgram }

/-- The expression `RT64.shaderProgram->shaderVariantMap[variantKey]`: the pointer
read and the state in which the entry exists; `none` when the program pointer is
null. -/
def readShaderVariant (s : RT64State α) (variantKey : Nat) :
    Option (Option Handle × RT64State α) :=
  match s.shaderProgram with
  | none => none
  | some p =>
    match s.shaderHeap[p]? with
    | none => none
    | some shaderProgram =>
      let touched : ShaderProgram :=
        { shaderProgram with
          shaderVariantMap := mapTouch shaderProgram.shaderVariantMap variantKey none }
      some ((mapFind shaderProgram.shaderVariantMap variantKey).join,
        { s with shaderHeap := s.shaderHeap.set p touched })

end Shaders

/-! ## Meshes -/

section Meshes
variable {α : Type} [LinearOrderedField α] [FloorRing α]

/-- The call `memcpy(dst, src, n * sizeof(float))` on float buffers. -/
def memcpyFloats (dst src : List α) (n : Nat) : List α :=
  src.take n ++ dst.drop n

/-- The call `v.resize(n)` of a vector that is shorter than `n`. -/
def resizeTo (v : List β) (n : Nat) (d : β) : List β :=
  v ++ List.replicate (n - v.length) d

/-- The per-vertex size in bytes that `gfx_rt64_rapi_process_mesh` computes. -/
def meshVertexStride (ext : Extern α) (sp : ShaderProgram) : Nat :=
  let useTexture := sp.usedTextures0 || sp.usedTextures1
  let numInputs := sp.numInputs
  let useAlpha := (sp.shaderId &&& ext.SHADER_OPT_ALPHA) != 0
  let vertexFixedStride := 16 + 12
  (vertexFixedStride + (if useTexture then 8 else 0) + numInputs * (if useAlpha then 16 else 12))
    % UINT_MOD

/-- The vertex count that `gfx_rt64_rapi_process_mesh` computes. -/
def meshVertexCount (ext : Extern α) (sp : ShaderProgram) (buf_vbo_len : Nat) : Nat :=
  ((buf_vbo_len * 4) % SIZE_MOD / meshVertexStride ext sp) % UINT_MOD

/-- The body of the branch of `gfx_rt64_rapi_process_mesh` that stages the
submitted buffer for interpolation: the two buffers are allocated when they are
null, the buffer is copied when its hash is not the staged hash, and the slot is
marked. -/
def stageMesh (buf_vbo : List α) (hash : Nat) (dynMesh : RecordedMesh α) : RecordedMesh α :=
  let buf_vbo_len := buf_vbo.length
  let vertexBuffer := buf_vbo
  -- Allocate the vertex buffers if they haven't been created yet.
  let newVertexBuffer : Option (List α) :=
    match dynMesh.newVertexBuffer with
    | none => some (List.replicate buf_vbo_len 0)
    | some b => some b
  let deltaVertexBuffer : Option (List α) :=
    match dynMesh.deltaVertexBuffer with
    | none => some (List.replicate buf_vbo_len 0)
    | some b => some b
  -- Update the vertex buffer and the hash with the new contents if the hashes are different.
  let updated : Option (List α) × Nat :=
    if hash ≠ dynMesh.newVertexBufferHash then
      (some (memcpyFloats (newVertexBuffer.getD []) vertexBuffer buf_vbo_len), hash)
    else (newVertexBuffer, dynMesh.newVertexBufferHash)
  { dynMesh with
    newVertexBuffer := updated.1
    newVertexBufferHash := updated.2
    deltaVertexBuffer := deltaVertexBuffer
    newVertexBufferValid := true }

/-- The block "Try reusing the mesh that was stored in this index first" of
`gfx_rt64_rapi_process_mesh`: the returned pointer and the display list when the
function returns from this block, `none` when it goes on to create the mesh. -/
def processMeshReuse (buf_vbo : List α) (hash vertexCount vertexStride indexCount : Nat)
    (raytrace : Bool) (displayList : RecordedDisplayList α) (prevValid interpolate : Bool) :
    Option (Option Handle × RecordedDisplayList α) :=
  if prevValid && decide (displayList.newCount < displayList.meshes.length) then
    match displayList.meshes[displayList.newCount]? with
    | none => none
    | some dynMesh =>
      let prevHash := dynMesh.prevVertexBufferHash
      if hash ≠ prevHash then
        -- We can only reuse the mesh and interpolate if the vertex formats are compatible.
        if interpolate && decide (dynMesh.vertexCount = vertexCount)
            && decide (dynMesh.vertexStride = vertexStride)
            && decide (dynMesh.indexCount = indexCount)
            && decide (dynMesh.raytrace = raytrace) then
          let dynMesh := stageMesh buf_vbo hash dynMesh
          some (dynMesh.mesh,
            { displayList with meshes := displayList.meshes.set displayList.newCount dynMesh })
        else none
      else some (dynMesh.mesh, displayList)
  else none

/-- The rest of `gfx_rt64_rapi_process_mesh`, from "Make the vector large enough to
fit the required meshes": the old mesh of the slot is destroyed and a new mesh is
created from the submitted buffer. -/
def processMeshCreate (ext : Extern α) (lib : Backend α) (buf_vbo : List α)
    (hash vertexCount vertexStride indexCount : Nat) (useTexture raytrace : Bool)
    (displayList : RecordedDisplayList α) :
    Option Handle × RecordedDisplayList α × Backend α :=
  let buf_vbo_len := buf_vbo.length
  let vertexBuffer := buf_vbo
  let displayList :=
    if displayList.meshes.length < displayList.newCount + 1 then
      { displayList with
        meshes := resizeTo displayList.meshes (displayList.newCount + 1) RecordedMesh.zero }
    else displayList
  let dynMesh := displayList.meshes.getD displayList.newCount RecordedMesh.zero
  -- Destroy any previous pointers if they exist.
  let destroyed : RecordedMesh α × Backend α :=
    match dynMesh.mesh with
    | some _ =>
      ({ dynMesh with
          prevVertexBuffer := none, newVertexBuffer := none, deltaVertexBuffer := none,
          mesh := none },
        lib.call (BackendCall.DestroyMesh dynMesh.mesh))
    | none => (dynMesh, lib)
  -- Create the mesh.
  let created := destroyed.2.CreateMesh
    (if raytrace then ext.RT64_MESH_RAYTRACE_ENABLED ||| ext.RT64_MESH_RAYTRACE_UPDATABLE
     else 0)
  let dynMesh : RecordedMesh α :=
    { destroyed.1 with
      mesh := created.1
      vertexCount := vertexCount
      vertexStride := vertexStride
      indexCount := indexCount
      useTexture := useTexture
      raytrace := raytrace
      prevVertexBuffer :=
        some (memcpyFloats (List.replicate buf_vbo_len 0) vertexBuffer buf_vbo_len)
      prevVertexBufferHash := hash
      newVertexBuffer := none
      newVertexBufferHash := 0
      newVertexBufferValid := false
      deltaVertexBuffer := none }
  let lib := created.2.call
    (BackendCall.SetMesh dynMesh.mesh vertexBuffer vertexCount vertexStride indexCount)
  (dynMesh.mesh,
    { displayList with meshes := displayList.meshes.set displayList.newCount dynMesh }, lib)

/-- The function `gfx_rt64_rapi_process_mesh`.  The arguments `shaderProgram` and
`lib` are the objects `*RT64.shaderProgram` and `RT64.lib` it works on; the result
is the returned mesh pointer with the display list and the library afterwards, or
`none` when an assertion fails. -/
def gfx_rt64_rapi_process_mesh (ext : Extern α) (shaderProgram : Option ShaderProgram)
    (lib : Backend α) (buf_vbo : List α) (buf_vbo_num_tris : Nat) (raytrace : Bool)
    (displayList : RecordedDisplayList α) (prevValid interpolate : Bool) :
    Option (Option Handle × RecordedDisplayList α × Backend α) :=
  match shaderProgram with
  | none => none
  | some sp =>
    let buf_vbo_len := buf_vbo.length
    let useTexture := sp.usedTextures0 || sp.usedTextures1
    let indexCount := (buf_vbo_num_tris * 3) % UINT_MOD
    let vertexStride := meshVertexStride ext sp
    let vertexCount := meshVertexCount ext sp buf_vbo_len
    if buf_vbo_num_tris ≠ vertexCount / 3 then none
    else
      -- Calculate hash and use it as key.
      let hash := ext.xxhash64 buf_vbo
      match processMeshReuse buf_vbo hash vertexCount vertexStride indexCount raytrace
          displayList prevValid interpolate with
      | some (mesh, displayList) => some (mesh, displayList, lib)
      | none =>
        some (processMeshCreate ext lib buf_vbo hash vertexCount vertexStride indexCount
          useTexture raytrace displayList)

end Meshes

/-! ## Draw submission -/

section Draw
variable {α : Type} [LinearOrderedField α] [FloorRing α]

/-- The element `RT64.currentTextureIds[tile]` of the two-slot array. -/
def readTextureId (ids : Nat × Nat) (tile : Int) : Nat :=
  if tile = 0 then ids.1 else if tile = 1 then ids.2 else 0

/-- The addressing mode that `gfx_rt64_rapi_draw_triangles_common` derives from a
clamp/mirror setting. -/
def shaderAddressing (ext : Extern α) (cm : Nat) : Nat :=
  if cm &&& ext.G_TX_CLAMP != 0 then ext.RT64_SHADER_ADDRESSING_CLAMP
  else if cm &&& ext.G_TX_MIRROR != 0 then ext.RT64_SHADER_ADDRESSING_MIRROR
  else ext.RT64_SHADER_ADDRESSING_WRAP

/-- The local variables of `gfx_rt64_rapi_draw_triangles_common`, with the global
state: `displayList` and `displayListInstance` are the objects behind the two
references of the same name, `instDesc` the object behind
`displayListInstance.desc`; they are written back when the function ends. -/
structure DrawLocals (α : Type) where
  state : RT64State α
  displayList : RecordedDisplayList α
  displayListInstance : RecordedInstance α
  instDesc : RT64_INSTANCE_DESC α
  textureMod : Option (RecordedMod α)
  linearFilter : Bool
  interpolate : Bool
  cms : Nat
  cmt : Nat
  highlightMaterial : Bool

/-- The display list `RT64.displayLists[uid]` with the vector of instances made
large enough for the instance at index `newCount`. -/
def drawDisplayList (s : RT64State α) (uid : Nat) : RecordedDisplayList α :=
  let displayList := mapGetOrCreate s.displayLists uid RecordedDisplayList.zero
  if displayList.instances.length < displayList.newCount + 1 then
    { displayList with
      instances := resizeTo displayList.instances (displayList.newCount + 1)
        RecordedInstance.zero }
  else displayList

/-- The function `gfx_rt64_rapi_draw_triangles_common` up to "Describe the
instance": the instance is created when it does not exist, and the data that can be
interpolated is stored. -/
def drawBegin (s : RT64State α) (transform : RT64_MATRIX4 α) (uid : Nat) : DrawLocals α :=
  let interpolate := uid != 0
  let displayList := drawDisplayList s uid
  let displayListInstance := displayList.instances.getD displayList.newCount RecordedInstance.zero
  let created : Option Handle × Backend α :=
    match displayListInstance.instance_ with
    | none => s.lib.CreateInstance
    | some h => (some h, s.lib)
  let s := { s with lib := created.2 }
  let displayListInstance :=
    { displayListInstance with
      instance_ := created.1
      newScissorRect := s.scissorRect
      newViewportRect := s.viewportRect
      newTransform := transform
      newValid := true }
  let displayList := { displayList with newValid := true }
  let instDesc :=
    { displayListInstance.desc with
      diffuseTexture := s.blankTexture
      normalTexture := none
      specularTexture := none
      scissorRect := s.scissorRect
      viewportRect := s.viewportRect }
  { state := s, displayList := displayList, displayListInstance := displayListInstance,
    instDesc := instDesc, textureMod := none, linearFilter := false,
    interpolate := interpolate, cms := 0, cmt := 0, highlightMaterial := false }

/-- The block "Find all parameters associated to the texture if it's used". -/
def drawTexture (l : DrawLocals α) (shaderProgram : ShaderProgram) : DrawLocals α :=
  if shaderProgram.usedTextures0 then
    let s := l.state
    let textureKey := readTextureId s.currentTextureIds s.currentTile
    let recordedTexture := mapGetOrCreate s.textures textureKey RecordedTexture.zero
    let instDesc :=
      if recordedTexture.texture.isSome then
        { l.instDesc with diffuseTexture := recordedTexture.texture }
      else l.instDesc
    -- Use the hash from the texture alias if it exists.
    let textureHash :=
      match mapFind s.texHashAliasMap recordedTexture.hash with
      | some target => target
      | none => recordedTexture.hash
    -- Use the texture mod for the matching texture hash.
    let textureMod :=
      match mapFind s.texMods textureHash with
      | some texMod => some texMod
      | none => l.textureMod
    let highlightMaterial :=
      if s.pickTextureHighlight && decide (recordedTexture.hash = s.pickedTextureHash) then true
      else l.highlightMaterial
    let s :=
      { s with
        textures := mapTouch s.textures textureKey RecordedTexture.zero
        lastInstanceTextureHashes :=
          mapInsert s.lastInstanceTextureHashes l.displayListInstance.instance_
            recordedTexture.hash }
    { l with
      state := s
      instDesc := instDesc
      textureMod := textureMod
      linearFilter := recordedTexture.linearFilter
      cms := recordedTexture.cms
      cmt := recordedTexture.cmt
      highlightMaterial := highlightMaterial }
  else l

/-- One call `gfx_rt64_rapi_apply_mod(&instDesc.material, &instDesc.normalTexture,
&instDesc.specularTexture, &interpolate, mod, prevTransform, transform, applyLight)`
of `gfx_rt64_rapi_draw_triangles_common`. -/
def drawApplyMod (ext : Extern α) (l : DrawLocals α) (mod : RecordedMod α)
    (prevTransform transform : RT64_MATRIX4 α) (applyLight : Bool) : Option (DrawLocals α) :=
  match gfx_rt64_rapi_apply_mod ext l.state l.instDesc.material l.instDesc.normalTexture
      l.instDesc.specularTexture l.interpolate mod prevTransform transform applyLight with
  | none => none
  | some r =>
    some { l with
      state := r.state
      instDesc :=
        { l.instDesc with
          material := r.material, normalTexture := r.normal, specularTexture := r.specular }
      interpolate := r.interpolate }

/-- The blocks "Build material with applied mods" and "Skip interpolation if
specified". -/
def drawApplyMods (ext : Extern α) (l : DrawLocals α) (transform : RT64_MATRIX4 α) :
    Option (DrawLocals α) :=
  let l := { l with instDesc := { l.instDesc with material := l.state.defaultMaterial } }
  let prevTransform :=
    if l.displayListInstance.prevValid && l.interpolate then l.displayListInstance.prevTransform
    else transform
  let afterGraphNodeMod : Option (DrawLocals α) :=
    match l.state.graphNodeMod with
    | some graphNodeMod => drawApplyMod ext l graphNodeMod prevTransform transform false
    | none => some l
  match afterGraphNodeMod with
  | none => none
  | some l =>
    let afterTextureMod : Option (DrawLocals α) :=
      match l.textureMod with
      | some textureMod => drawApplyMod ext l textureMod prevTransform transform true
      | none => some l
    match afterTextureMod with
    | none => none
    | some l =>
      -- Skip interpolation if specified.
      if !l.displayListInstance.prevValid || !l.interpolate then
        some { l with
          displayListInstance :=
            { l.displayListInstance with
              prevScissorRect := l.state.scissorRect
              prevViewportRect := l.state.viewportRect
              prevTransform := transform } }
      else some l

/-- The blocks "Apply a higlight color if the material is selected" and "Copy the
fog to the material". -/
def drawMaterialFog (ext : Extern α) (l : DrawLocals α) (shaderId : Nat) : DrawLocals α :=
  let material := l.instDesc.material
  let material :=
    if l.highlightMaterial then
      { material with
        diffuseColorMix := { x := 1, y := 0, z := 1, w := 1 / 2 }
        selfLight := { x := 1, y := 1, z := 1 }
        lightGroupMaskBits := 0 }
    else material
  let material :=
    { material with
      fogColor := l.state.fogColor
      fogMul := l.state.fogMul
      fogOffset := l.state.fogOffset
      fogEnabled := (shaderId &&& ext.SHADER_OPT_FOG) != 0 }
  { l with instDesc := { l.instDesc with material := material } }

/-- The block "Determine the right shader to use and create if it hasn't been
loaded yet"; `none` when the program pointer is null. -/
def drawSelectShader (ext : Extern α) (l : DrawLocals α) (raytrace : Bool) (shaderId : Nat) :
    Option (DrawLocals α) :=
  let filter :=
    if l.linearFilter then ext.RT64_SHADER_FILTER_LINEAR else ext.RT64_SHADER_FILTER_POINT
  let hAddr := shaderAddressing ext l.cms
  let vAddr := shaderAddressing ext l.cmt
  let normalMap := l.instDesc.normalTexture.isSome
  let specularMap := l.instDesc.specularTexture.isSome
  let variantKey := shaderVariantKey raytrace filter hAddr vAddr normalMap specularMap
  match readShaderVariant l.state variantKey with
  | none => none
  | some (shader, s) =>
    let preloaded : Option (Option Handle × RT64State α) :=
      match shader with
      | some h => some (some h, s)
      | none =>
        readShaderVariant
          (gfx_rt64_rapi_preload_shader ext s shaderId raytrace filter hAddr vAddr normalMap
            specularMap)
          variantKey
    match preloaded with
    | none => none
    | some (shader, s) =>
      some { l with state := s, instDesc := { l.instDesc with shader := shader } }

/-- The end of `gfx_rt64_rapi_draw_triangles_common`: "Process the mesh that
corresponds to the VBO", "Mark the right instance flags", "Increase the counter". -/
def drawFinish (ext : Extern α) (l : DrawLocals α) (buf_vbo : List α) (buf_vbo_num_tris : Nat)
    (double_sided raytrace : Bool) (uid : Nat) : Option (RT64State α) :=
  let s := l.state
  match gfx_rt64_rapi_process_mesh ext (currentShaderProgram s) s.lib buf_vbo buf_vbo_num_tris
      raytrace l.displayList l.displayListInstance.prevValid l.interpolate with
  | none => none
  | some (mesh, displayList, lib) =>
    let instDesc := { l.instDesc with mesh := mesh }
    let flags := 0
    let flags := if s.background then flags ||| ext.RT64_INSTANCE_RASTER_BACKGROUND else flags
    let flags :=
      if double_sided then flags ||| ext.RT64_INSTANCE_DISABLE_BACKFACE_CULLING else flags
    let instDesc := { instDesc with flags := flags }
    let displayListInstance := { l.displayListInstance with desc := instDesc }
    let displayList :=
      { displayList with
        instances := displayList.instances.set displayList.newCount displayListInstance
        newCount := displayList.newCount + 1 }
    some { s with lib := lib, displayLists := mapInsert s.displayLists uid displayList }

/-- The function `gfx_rt64_rapi_draw_triangles_common`, as the sequence of its
blocks; `none` when an assertion fails or the null shader program is dereferenced. -/
def gfx_rt64_rapi_draw_triangles_common (ext : Extern α) (s : RT64State α)
    (transform : RT64_MATRIX4 α) (buf_vbo : List α) (buf_vbo_num_tris : Nat)
    (double_sided raytrace : Bool) (uid : Nat) : Option (RT64State α) :=
  let l := drawBegin s transform uid
  match currentShaderProgram l.state with
  | none => none
  | some shaderProgram =>
    let l := drawTexture l shaderProgram
    match drawApplyMods ext l transform with
    | none => none
    | some l =>
      let l := drawMaterialFog ext l shaderProgram.shaderId
      match drawSelectShader ext l raytrace shaderProgram.shaderId with
      | none => none
      | some l => drawFinish ext l buf_vbo buf_vbo_num_tris double_sided raytrace uid

/-- The function `gfx_rt64_rapi_draw_triangles_ortho`. -/
def gfx_rt64_rapi_draw_triangles_ortho (ext : Extern α) (s : RT64State α) (buf_vbo : List α)
    (buf_vbo_num_tris : Nat) (double_sided : Bool) (uid : Nat) : Option (RT64State α) :=
  gfx_rt64_rapi_draw_triangles_common ext s s.identityTransform buf_vbo buf_vbo_num_tris
    double_sided false uid

/-- The function `gfx_rt64_rapi_draw_triangles_persp`. -/
def gfx_rt64_rapi_draw_triangles_persp (ext : Extern α) (s : RT64State α) (buf_vbo : List α)
    (buf_vbo_num_tris : Nat) (transform_affine : RT64_MATRIX4 α) (double_sided : Bool)
    (uid : Nat) : Option (RT64State α) :=
  let s := if s.background then { s with background := false } else s
  gfx_rt64_rapi_draw_triangles_common ext s transform_affine buf_vbo buf_vbo_num_tris
    double_sided true uid

end Draw

/-! ## Textures -/

section Textures
variable {α : Type}

/-- The bytes of `name.c_str()` before the terminating zero: the encoding of the
name, up to the first zero byte. -/
def cStringBytes (name : String) : List Nat :=
  (name.toUTF8.data.toList.map fun b => b.toNat).takeWhile fun b => b != 0

/-- The function `string_hash`, on the bytes before the terminating zero; `h` is a
`size_t`. -/
def string_hash (str : List Nat) : Nat :=
  str.foldl (fun h p => (31 * h + p) % SIZE_MOD) 0

/-- The function `gfx_rt64_get_texture_name_hash`: the returned hash and the new
state. -/
def gfx_rt64_get_texture_name_hash (s : RT64State α) (name : String) : Nat × RT64State α :=
  let hash := string_hash (cStringBytes name)
  (hash,
    { s with
      texNameMap := mapInsert s.texNameMap hash name
      nameTexMap := mapInsert s.nameTexMap name hash })

/-- The function `gfx_rt64_rapi_new_texture`: the returned key and the new state.  The
keys of `RT64.textureHashIdMap` are `uint32_t`, so the hash is reduced when it is used as
a key. -/
def gfx_rt64_rapi_new_texture (s : RT64State α) (name : String) : Nat × RT64State α :=
  let textureKey := s.textures.length % UINT_MOD
  let s := { s with textures := mapTouch s.textures textureKey RecordedTexture.zero }
  let (hash, s) := gfx_rt64_get_texture_name_hash s name
  let recordedTexture : RecordedTexture :=
    { texture := none, linearFilter := false, cms := 0, cmt := 0, hash := hash }
  (textureKey,
    { s with
      textures := mapInsert s.textures textureKey recordedTexture
      textureHashIdMap := mapInsert s.textureHashIdMap (hash % UINT_MOD) textureKey })

/-- The ways in which `gfx_rt64_rapi_select_texture` does not return normally: the
assertion fails, or the array `RT64.currentTextureIds` is written outside its two
elements. -/
inductive SelectFault where
  | assertion
  | outOfBounds
deriving DecidableEq, Repr

/-- The function `gfx_rt64_rapi_select_texture`; `tile` is an `int`, `texture_id` a
`uint32_t`.  The only check is `assert(tile < 2)`. -/
def gfx_rt64_rapi_select_texture (s : RT64State α) (tile : Int) (texture_id : Nat) :
    Except SelectFault (RT64State α) :=
  if ¬ tile < 2 then Except.error SelectFault.assertion
  else
    let s := { s with currentTile := tile }
    if tile = 0 then Except.ok { s with currentTextureIds := (texture_id, s.currentTextureIds.2) }
    else if tile = 1 then
      Except.ok { s with currentTextureIds := (s.currentTextureIds.1, texture_id) }
    else Except.error SelectFault.outOfBounds

/-- The function `gfx_rt64_rapi_upload_texture`; the pixel data is left out. -/
def gfx_rt64_rapi_upload_texture (s : RT64State α) (width height : Int) : RT64State α :=
  let (texture, lib) := s.lib.CreateTextureFromRGBA8 width height 4
  let textureKey := readTextureId s.currentTextureIds s.currentTile
  let recordedTexture := mapGetOrCreate s.textures textureKey RecordedTexture.zero
  { s with
    lib := lib
    textures := mapInsert s.textures textureKey { recordedTexture with texture := texture } }

end Textures

/-! ## Persisted mods -/

section Persist
variable {α : Type} [LinearOrderedField α] [FloorRing α]

/-- Modelled from the spec: the type `json` of `json/json.hpp`, the "structured,
human-readable, name/value documents" in which the mods are persisted.  An object has
one value per name. -/
inductive json (α : Type) where
  | null
  | boolean (b : Bool)
  | number_float (x : α)
  | number_unsigned (n : Nat)
  | string (s : String)
  | array (items : List (json α))
  | object (entries : List (String × json α))

/-- Modelled from the spec: the lookup `j.find(key)` in a document, which is also the
value `j[key]` of a constant document; `none` when the name is absent. -/
def json.find? (j : json α) (key : String) : Option (json α) :=
  match j with
  | json.object entries => mapFind entries key
  | _ => none

/-- Modelled from the spec: the assignment `j[key] = v`; an empty document becomes an
object. -/
def json.assign (j : json α) (key : String) (v : json α) : json α :=
  match j with
  | json.object entries => json.object (mapInsert entries key v)
  | json.null => json.object [(key, v)]
  | other => other

/-- Modelled from the spec: the call `j.push_back(v)`; an empty document becomes an
array. -/
def json.push_back (j : json α) (v : json α) : json α :=
  match j with
  | json.array items => json.array (items ++ [v])
  | json.null => json.array [v]
  | other => other

/-- Modelled from the spec: the call `j[key].push_back(v)` on a document that is
not constant. -/
def json.push_back_at (j : json α) (key : String) (v : json α) : json α :=
  j.assign key (((j.find? key).getD json.null).push_back v)

/-- Modelled from the spec: the element `j[i]` of an array. -/
def json.at? (j : json α) (i : Nat) : Option (json α) :=
  match j with
  | json.array items => items[i]?
  | _ => none

/-- Modelled from the spec: the elements that `for (const json &e : j)` visits. -/
def json.elements (j : json α) : List (json α) :=
  match j with
  | json.array items => items
  | json.object entries => entries.map Prod.snd
  | json.null => []
  | other => [other]

/-- Modelled from the spec: the conversion of a document to `float`; `none` when the
document is not a number. -/
def json.toFloat? (j : json α) : Option α :=
  match j with
  | json.number_float x => some x
  | json.number_unsigned n => some (n : α)
  | _ => none

/-- Modelled from the spec: the conversion of a document to `unsigned int`; `none`
when the document is not a number. -/
def json.toUnsigned? (j : json α) : Option Nat :=
  match j with
  | json.number_unsigned n => some (n % UINT_MOD)
  | json.number_float x => some (Int.toNat ⌊x⌋ % UINT_MOD)
  | _ => none

/-- Modelled from the spec: the conversion of a document to `std::string`; `none`
when the document is not a string. -/
def json.toString? (j : json α) : Option String :=
  match j with
  | json.string s => some s
  | _ => none

/-- Modelled from the spec: the conversion of a document to `bool`; `none` when the
document is not a boolean. -/
def json.toBool? (j : json α) : Option Bool :=
  match j with
  | json.boolean b => some b
  | _ => none

/-- The document `{ v.x, v.y, v.z }`. -/
def jsonVector3 (v : RT64_VECTOR3 α) : json α :=
  json.array [json.number_float v.x, json.number_float v.y, json.number_float v.z]

/-- The three assignments `dst.x = j[0]; dst.y = j[1]; dst.z = j[2]`. -/
def loadVector3 (j : json α) : Option (RT64_VECTOR3 α) :=
  ((j.at? 0).bind json.toFloat?).bind fun x =>
  ((j.at? 1).bind json.toFloat?).bind fun y =>
  ((j.at? 2).bind json.toFloat?).bind fun z =>
  some { x := x, y := y, z := z }

/-- The function `gfx_rt64_load_light`; `none` when a name is missing or a value has the
wrong type. -/
def gfx_rt64_load_light (jlight : json α) (light : RT64_LIGHT α) : Option (RT64_LIGHT α) :=
  -- General parameters
  ((jlight.find? "position").bind loadVector3).bind fun position =>
  ((jlight.find? "attenuationRadius").bind json.toFloat?).bind fun attenuationRadius =>
  ((jlight.find? "pointRadius").bind json.toFloat?).bind fun pointRadius =>
  ((jlight.find? "diffuseColor").bind loadVector3).bind fun diffuseColor =>
  ((jlight.find? "shadowOffset").bind json.toFloat?).bind fun shadowOffset =>
  ((jlight.find? "attenuationExponent").bind json.toFloat?).bind fun attenuationExponent =>
  ((jlight.find? "flickerIntensity").bind json.toFloat?).bind fun flickerIntensity =>
  ((jlight.find? "groupBits").bind json.toUnsigned?).bind fun groupBits =>
  let light : RT64_LIGHT α :=
    { position := position, diffuseColor := diffuseColor,
      attenuationRadius := attenuationRadius, pointRadius := pointRadius,
      specularColor := light.specularColor, shadowOffset := shadowOffset,
      attenuationExponent := attenuationExponent, flickerIntensity := flickerIntensity,
      groupBits := groupBits }
  -- Backwards compatibility
  let compat : Option (RT64_LIGHT α) :=
    match jlight.find? "specularIntensity" with
    | some v =>
      v.toFloat?.map fun specularIntensity =>
        { light with
          specularColor :=
            { x := specularIntensity * light.diffuseColor.x
              y := specularIntensity * light.diffuseColor.y
              z := specularIntensity * light.diffuseColor.z } }
    | none => some light
  compat.bind fun light =>
  -- New parameters
  match jlight.find? "specularColor" with
  | some v => (loadVector3 v).map fun specularColor => { light with specularColor := specularColor }
  | none => some light

/-- The function `gfx_rt64_save_light`. -/
def gfx_rt64_save_light (light : RT64_LIGHT α) : json α :=
  let jlight : json α := json.null
  let jlight := jlight.assign "position" (jsonVector3 light.position)
  let jlight := jlight.assign "attenuationRadius" (json.number_float light.attenuationRadius)
  let jlight := jlight.assign "pointRadius" (json.number_float light.pointRadius)
  let jlight := jlight.assign "diffuseColor" (jsonVector3 light.diffuseColor)
  let jlight := jlight.assign "specularColor" (jsonVector3 light.specularColor)
  let jlight := jlight.assign "shadowOffset" (json.number_float light.shadowOffset)
  let jlight :=
    jlight.assign "attenuationExponent" (json.number_float light.attenuationExponent)
  let jlight := jlight.assign "flickerIntensity" (json.number_float light.flickerIntensity)
  let jlight := jlight.assign "groupBits" (json.number_unsigned light.groupBits)
  jlight

/-- The function `gfx_rt64_load_normal_map_mod`: the hash and the new state. -/
def gfx_rt64_load_normal_map_mod (s : RT64State α) (jnormal : json α) :
    Option (Nat × RT64State α) :=
  ((jnormal.find? "name").bind json.toString?).map fun name =>
    gfx_rt64_get_texture_name_hash s name

/-- The function `gfx_rt64_load_specular_map_mod`: the hash and the new state. -/
def gfx_rt64_load_specular_map_mod (s : RT64State α) (jspecular : json α) :
    Option (Nat × RT64State α) :=
  ((jspecular.find? "name").bind json.toString?).map fun name =>
    gfx_rt64_get_texture_name_hash s name

/-- The function `gfx_rt64_save_normal_map_mod`. -/
def gfx_rt64_save_normal_map_mod (normalTexName : String) : json α :=
  let jnormal : json α := json.null
  jnormal.assign "name" (json.string normalTexName)

/-- The function `gfx_rt64_save_specular_map_mod`. -/
def gfx_rt64_save_specular_map_mod (specularTexName : String) : json α :=
  let jspecular : json α := json.null
  jspecular.assign "name" (json.string specularTexName)

/-- The function `gfx_rt64_load_material_mod_uint`: the value and the attributes
behind the two pointers. -/
def gfx_rt64_load_material_mod_uint (jmatmod : json α) (name : String) (flag : Nat)
    (dstValue : Nat) (dstAttributes : Nat) : Option (Nat × Nat) :=
  match jmatmod.find? name with
  | some v => v.toUnsigned?.map fun value => (value, dstAttributes ||| flag)
  | none => some (dstValue, dstAttributes)

/-- The function `gfx_rt64_load_material_mod_float`. -/
def gfx_rt64_load_material_mod_float (jmatmod : json α) (name : String) (flag : Nat)
    (dstValue : α) (dstAttributes : Nat) : Option (α × Nat) :=
  match jmatmod.find? name with
  | some v => v.toFloat?.map fun value => (value, dstAttributes ||| flag)
  | none => some (dstValue, dstAttributes)

/-- The function `gfx_rt64_load_material_mod_vector3`. -/
def gfx_rt64_load_material_mod_vector3 (jmatmod : json α) (name : String) (flag : Nat)
    (dstValue : RT64_VECTOR3 α) (dstAttributes : Nat) : Option (RT64_VECTOR3 α × Nat) :=
  match jmatmod.find? name with
  | some v => (loadVector3 v).map fun value => (value, dstAttributes ||| flag)
  | none => some (dstValue, dstAttributes)

/-- The function `gfx_rt64_load_material_mod_vector4`. -/
def gfx_rt64_load_material_mod_vector4 (jmatmod : json α) (name : String) (flag : Nat)
    (dstValue : RT64_VECTOR4 α) (dstAttributes : Nat) : Option (RT64_VECTOR4 α × Nat) :=
  match jmatmod.find? name with
  | some v =>
    ((v.at? 0).bind json.toFloat?).bind fun x =>
    ((v.at? 1).bind json.toFloat?).bind fun y =>
    ((v.at? 2).bind json.toFloat?).bind fun z =>
    ((v.at? 3).bind json.toFloat?).bind fun w =>
    some ({ x := x, y := y, z := z, w := w }, dstAttributes ||| flag)
  | none => some (dstValue, dstAttributes)

/-- The statements of `gfx_rt64_load_material_mod`, each as a step on the material
behind `materialMod`. -/
def loadMaterialSteps (ext : Extern α) (jmatmod : json α) :
    List (RT64_MATERIAL α → Option (RT64_MATERIAL α)) :=
  [ -- Backwards compatibility
    fun m => (gfx_rt64_load_material_mod_float jmatmod "normalMapScale"
        ext.RT64_ATTRIBUTE_UV_DETAIL_SCALE m.uvDetailScale m.enabledAttributes).map
      fun r => { m with uvDetailScale := r.1, enabledAttributes := r.2 },
    fun m =>
      match jmatmod.find? "specularIntensity" with
      | some j =>
        j.toFloat?.map fun specularIntensity =>
          { m with
            specularColor :=
              { x := specularIntensity, y := specularIntensity, z := specularIntensity }
            enabledAttributes := m.enabledAttributes ||| ext.RT64_ATTRIBUTE_SPECULAR_COLOR }
      | none => some m,
    -- Current version
    fun m => (gfx_rt64_load_material_mod_float jmatmod "ignoreNormalFactor"
        ext.RT64_ATTRIBUTE_IGNORE_NORMAL_FACTOR m.ignoreNormalFactor m.enabledAttributes).map
      fun r => { m with ignoreNormalFactor := r.1, enabledAttributes := r.2 },
    fun m => (gfx_rt64_load_material_mod_float jmatmod "uvDetailScale"
        ext.RT64_ATTRIBUTE_UV_DETAIL_SCALE m.uvDetailScale m.enabledAttributes).map
      fun r => { m with uvDetailScale := r.1, enabledAttributes := r.2 },
    fun m => (gfx_rt64_load_material_mod_float jmatmod "reflectionFactor"
        ext.RT64_ATTRIBUTE_REFLECTION_FACTOR m.reflectionFactor m.enabledAttributes).map
      fun r => { m with reflectionFactor := r.1, enabledAttributes := r.2 },
    fun m => (gfx_rt64_load_material_mod_float jmatmod "reflectionFresnelFactor"
        ext.RT64_ATTRIBUTE_REFLECTION_FRESNEL_FACTOR m.reflectionFresnelFactor
        m.enabledAttributes).map
      fun r => { m with reflectionFresnelFactor := r.1, enabledAttributes := r.2 },
    fun m => (gfx_rt64_load_material_mod_float jmatmod "reflectionShineFactor"
        ext.RT64_ATTRIBUTE_REFLECTION_SHINE_FACTOR m.reflectionShineFactor
        m.enabledAttributes).map
      fun r => { m with reflectionShineFactor := r.1, enabledAttributes := r.2 },
    fun m => (gfx_rt64_load_material_mod_float jmatmod "refractionFactor"
        ext.RT64_ATTRIBUTE_REFRACTION_FACTOR m.refractionFactor m.enabledAttributes).map
      fun r => { m with refractionFactor := r.1, enabledAttributes := r.2 },
    fun m => (gfx_rt64_load_material_mod_vector3 jmatmod "specularColor"
        ext.RT64_ATTRIBUTE_SPECULAR_COLOR m.specularColor m.enabledAttributes).map
      fun r => { m with specularColor := r.1, enabledAttributes := r.2 },
    fun m => (gfx_rt64_load_material_mod_float jmatmod "specularExponent"
        ext.RT64_ATTRIBUTE_SPECULAR_EXPONENT m.specularExponent m.enabledAttributes).map
      fun r => { m with specularExponent := r.1, enabledAttributes := r.2 },
    fun m => (gfx_rt64_load_material_mod_float jmatmod "solidAlphaMultiplier"
        ext.RT64_ATTRIBUTE_SOLID_ALPHA_MULTIPLIER m.solidAlphaMultiplier
        m.enabledAttributes).map
      fun r => { m with solidAlphaMultiplier := r.1, enabledAttributes := r.2 },
    fun m => (gfx_rt64_load_material_mod_float jmatmod "shadowAlphaMultiplier"
        ext.RT64_ATTRIBUTE_SHADOW_ALPHA_MULTIPLIER m.shadowAlphaMultiplier
        m.enabledAttributes).map
      fun r => { m with shadowAlphaMultiplier := r.1, enabledAttributes := r.2 },
    fun m => (gfx_rt64_load_material_mod_float jmatmod "depthBias"
        ext.RT64_ATTRIBUTE_DEPTH_BIAS m.depthBias m.enabledAttributes).map
      fun r => { m with depthBias := r.1, enabledAttributes := r.2 },
    fun m => (gfx_rt64_load_material_mod_float jmatmod "shadowRayBias"
        ext.RT64_ATTRIBUTE_SHADOW_RAY_BIAS m.shadowRayBias m.enabledAttributes).map
      fun r => { m with shadowRayBias := r.1, enabledAttributes := r.2 },
    fun m => (gfx_rt64_load_material_mod_vector3 jmatmod "selfLight"
        ext.RT64_ATTRIBUTE_SELF_LIGHT m.selfLight m.enabledAttributes).map
      fun r => { m with selfLight := r.1, enabledAttributes := r.2 },
    fun m => (gfx_rt64_load_material_mod_uint jmatmod "lightGroupMaskBits"
        ext.RT64_ATTRIBUTE_LIGHT_GROUP_MASK_BITS m.lightGroupMaskBits m.enabledAttributes).map
      fun r => { m with lightGroupMaskBits := r.1, enabledAttributes := r.2 },
    fun m => (gfx_rt64_load_material_mod_vector4 jmatmod "diffuseColorMix"
        ext.RT64_ATTRIBUTE_DIFFUSE_COLOR_MIX m.diffuseColorMix m.enabledAttributes).map
      fun r => { m with diffuseColorMix := r.1, enabledAttributes := r.2 } ]

/-- The function `gfx_rt64_load_material_mod`: its statements in sequence; `none`
when a value has the wrong type. -/
def gfx_rt64_load_material_mod (ext : Extern α) (jmatmod : json α)
    (materialMod : RT64_MATERIAL α) : Option (RT64_MATERIAL α) :=
  (loadMaterialSteps ext jmatmod).foldl (fun m step => m.bind step) (some materialMod)

/-- The function `gfx_rt64_save_material_mod_uint`. -/
def gfx_rt64_save_material_mod_uint (jmatmod : json α) (materialMod : RT64_MATERIAL α)
    (flag : Nat) (name : String) (value : Nat) : json α :=
  if materialMod.enabledAttributes &&& flag != 0 then
    jmatmod.assign name (json.number_unsigned value)
  else jmatmod

/-- The function `gfx_rt64_save_material_mod_float`. -/
def gfx_rt64_save_material_mod_float (jmatmod : json α) (materialMod : RT64_MATERIAL α)
    (flag : Nat) (name : String) (value : α) : json α :=
  if materialMod.enabledAttributes &&& flag != 0 then
    jmatmod.assign name (json.number_float value)
  else jmatmod

/-- The function `gfx_rt64_save_material_mod_vector3`. -/
def gfx_rt64_save_material_mod_vector3 (jmatmod : json α) (materialMod : RT64_MATERIAL α)
    (flag : Nat) (name : String) (value : RT64_VECTOR3 α) : json α :=
  if materialMod.enabledAttributes &&& flag != 0 then
    jmatmod.assign name (jsonVector3 value)
  else jmatmod

/-- The function `gfx_rt64_save_material_mod_vector4`. -/
def gfx_rt64_save_material_mod_vector4 (jmatmod : json α) (materialMod : RT64_MATERIAL α)
    (flag : Nat) (name : String) (value : RT64_VECTOR4 α) : json α :=
  if materialMod.enabledAttributes &&& flag != 0 then
    jmatmod.assign name
      (json.array [json.number_float value.x, json.number_float value.y,
        json.number_float value.z, json.number_float value.w])
  else jmatmod

/-- The function `gfx_rt64_save_material_mod`. -/
def gfx_rt64_save_material_mod (ext : Extern α) (materialMod : RT64_MATERIAL α) : json α :=
  let m := materialMod
  let jmatmod : json α := json.null
  let jmatmod := gfx_rt64_save_material_mod_float jmatmod m
    ext.RT64_ATTRIBUTE_IGNORE_NORMAL_FACTOR "ignoreNormalFactor" m.ignoreNormalFactor
  let jmatmod := gfx_rt64_save_material_mod_float jmatmod m
    ext.RT64_ATTRIBUTE_UV_DETAIL_SCALE "uvDetailScale" m.uvDetailScale
  let jmatmod := gfx_rt64_save_material_mod_float jmatmod m
    ext.RT64_ATTRIBUTE_REFLECTION_FACTOR "reflectionFactor" m.reflectionFactor
  let jmatmod := gfx_rt64_save_material_mod_float jmatmod m
    ext.RT64_ATTRIBUTE_REFLECTION_FRESNEL_FACTOR "reflectionFresnelFactor"
    m.reflectionFresnelFactor
  let jmatmod := gfx_rt64_save_material_mod_float jmatmod m
    ext.RT64_ATTRIBUTE_REFLECTION_SHINE_FACTOR "reflectionShineFactor" m.reflectionShineFactor
  let jmatmod := gfx_rt64_save_material_mod_float jmatmod m
    ext.RT64_ATTRIBUTE_REFRACTION_FACTOR "refractionFactor" m.refractionFactor
  let jmatmod := gfx_rt64_save_material_mod_vector3 jmatmod m
    ext.RT64_ATTRIBUTE_SPECULAR_COLOR "specularColor" m.specularColor
  let jmatmod := gfx_rt64_save_material_mod_float jmatmod m
    ext.RT64_ATTRIBUTE_SPECULAR_EXPONENT "specularExponent" m.specularExponent
  let jmatmod := gfx_rt64_save_material_mod_float jmatmod m
    ext.RT64_ATTRIBUTE_SOLID_ALPHA_MULTIPLIER "solidAlphaMultiplier" m.solidAlphaMultiplier
  let jmatmod := gfx_rt64_save_material_mod_float jmatmod m
    ext.RT64_ATTRIBUTE_SHADOW_ALPHA_MULTIPLIER "shadowAlphaMultiplier" m.shadowAlphaMultiplier
  let jmatmod := gfx_rt64_save_material_mod_float jmatmod m
    ext.RT64_ATTRIBUTE_DEPTH_BIAS "depthBias" m.depthBias
  let jmatmod := gfx_rt64_save_material_mod_float jmatmod m
    ext.RT64_ATTRIBUTE_SHADOW_RAY_BIAS "shadowRayBias" m.shadowRayBias
  let jmatmod := gfx_rt64_save_material_mod_vector3 jmatmod m
    ext.RT64_ATTRIBUTE_SELF_LIGHT "selfLight" m.selfLight
  let jmatmod := gfx_rt64_save_material_mod_uint jmatmod m
    ext.RT64_ATTRIBUTE_LIGHT_GROUP_MASK_BITS "lightGroupMaskBits" m.lightGroupMaskBits
  let jmatmod := gfx_rt64_save_material_mod_vector4 jmatmod m
    ext.RT64_ATTRIBUTE_DIFFUSE_COLOR_MIX "diffuseColorMix" m.diffuseColorMix
  jmatmod

/-- The entries "materialMod", "lightMod", "normalMapMod" and "specularMapMod" that
`gfx_rt64_save_geo_layout_mods` and `gfx_rt64_save_texture_mods` write for a mod, in the
same lines in both functions: the document and the new state (the two reads
`RT64.texNameMap[...]` create the entries they do not find).  The entry "specularMapMod"
is written under the condition `!normName.empty()`. -/
def saveModEntries (ext : Extern α) (s : RT64State α) (jmod : json α) (mod : RecordedMod α) :
    json α × RT64State α :=
  let jmod :=
    match mod.materialMod with
    | some materialMod => jmod.assign "materialMod" (gfx_rt64_save_material_mod ext materialMod)
    | none => jmod
  let jmod :=
    match mod.lightMod with
    | some lightMod => jmod.assign "lightMod" (gfx_rt64_save_light lightMod)
    | none => jmod
  let normName := mapGetOrCreate s.texNameMap mod.normalMapHash ""
  let s := { s with texNameMap := mapTouch s.texNameMap mod.normalMapHash "" }
  let jmod :=
    if normName ≠ "" then jmod.assign "normalMapMod" (gfx_rt64_save_normal_map_mod normName)
    else jmod
  let specName := mapGetOrCreate s.texNameMap mod.specularMapHash ""
  let s := { s with texNameMap := mapTouch s.texNameMap mod.specularMapHash "" }
  let jmod :=
    if normName ≠ "" then
      jmod.assign "specularMapMod" (gfx_rt64_save_specular_map_mod specName)
    else jmod
  (jmod, s)

/-- The function `gfx_rt64_save_geo_layout_mods`: the document `jroot` that it writes
to the file, and the new state.  (The pairs of `RT64.nameGeoLayoutMap` are visited in the
order of the list.) -/
def gfx_rt64_save_geo_layout_mods (ext : Extern α) (s : RT64State α) : json α × RT64State α :=
  s.nameGeoLayoutMap.foldl
    (fun (acc : json α × RT64State α) (pair : String × Nat) =>
      let jroot := acc.1
      let s := acc.2
      let geoName := pair.1
      let geoLayout := pair.2
      match mapFind s.geoLayoutMods geoLayout with
      | some geoMod =>
        let jgeo : json α := json.null
        let jgeo := jgeo.assign "name" (json.string geoName)
        let (jgeo, s) := saveModEntries ext s jgeo geoMod
        let jgeo :=
          if !geoMod.interpolationEnabled then
            jgeo.assign "interpolationEnabled" (json.boolean false)
          else jgeo
        (jroot.push_back_at "geoLayouts" jgeo, s)
      | none => (jroot, s))
    (json.null, s)

/-- The block "Parse texture name aliases" of `gfx_rt64_load_texture_mods` for one
alias. -/
def loadTextureAlias (texHash : Nat) (s : Option (RT64State α)) (jalias : json α) :
    Option (RT64State α) :=
  s.bind fun s =>
    jalias.toString?.map fun aliasName =>
      let r := gfx_rt64_get_texture_name_hash s aliasName
      let aliasHash := r.1
      let s := r.2
      { s with
        texHashAliasMap := mapInsert s.texHashAliasMap aliasHash texHash
        texHashAliasesMap := mapInsert s.texHashAliasesMap texHash
          (mapGetOrCreate s.texHashAliasesMap texHash [] ++ [aliasHash]) }

/-- The body of the loop of `gfx_rt64_load_texture_mods` for one element of
"textures"; `none` when a name is missing or a value has the wrong type. -/
def loadTextureMod (ext : Extern α) (s : RT64State α) (jtex : json α) :
    Option (RT64State α) :=
  ((jtex.find? "name").bind json.toString?).bind fun name =>
  let r := gfx_rt64_get_texture_name_hash s name
  let texHash := r.1
  let s := r.2
  -- Parse material mod.
  let materialMod : Option (Option (RT64_MATERIAL α)) :=
    match jtex.find? "materialMod" with
    | some jmatmod =>
      (gfx_rt64_load_material_mod ext jmatmod
        { (RT64_MATERIAL.zero : RT64_MATERIAL α) with
          enabledAttributes := RT64_ATTRIBUTE_NONE }).map some
    | none => some none
  materialMod.bind fun materialMod =>
  -- Parse light mod.
  let lightMod : Option (Option (RT64_LIGHT α)) :=
    match jtex.find? "lightMod" with
    | some jlight => (gfx_rt64_load_light jlight RT64_LIGHT.zero).map some
    | none => some none
  lightMod.bind fun lightMod =>
  -- Parse normal map mod.
  let normal : Option (Nat × RT64State α) :=
    match jtex.find? "normalMapMod" with
    | some jnormal => gfx_rt64_load_normal_map_mod s jnormal
    | none => some (0, s)
  normal.bind fun normal =>
  let normalMapHash := normal.1
  let s := normal.2
  -- Parse specular map mod.
  let specular : Option (Nat × RT64State α) :=
    match jtex.find? "specularMapMod" with
    | some jspecular => gfx_rt64_load_specular_map_mod s jspecular
    | none => some (0, s)
  specular.bind fun specular =>
  let specularMapHash := specular.1
  let s := specular.2
  let texMod : RecordedMod α :=
    { materialMod := materialMod, lightMod := lightMod, normalMapHash := normalMapHash,
      specularMapHash := specularMapHash }
  let s := { s with texMods := mapInsert s.texMods texHash texMod }
  -- Parse texture name aliases.
  match jtex.find? "aliases" with
  | some jaliases => jaliases.elements.foldl (loadTextureAlias texHash) (some s)
  | none => some s

/-- The function `gfx_rt64_load_texture_mods` for the document `j` read from the
file. -/
def gfx_rt64_load_texture_mods (ext : Extern α) (s : RT64State α) (j : json α) :
    Option (RT64State α) :=
  ((j.find? "textures").getD json.null).elements.foldl
    (fun s jtex => s.bind fun s => loadTextureMod ext s jtex) (some s)

/-- The function `gfx_rt64_save_texture_mods`: the document `jroot` that it writes to
the file, and the new state.  (The pairs of `RT64.nameTexMap` are visited in the order of
the list.) -/
def gfx_rt64_save_texture_mods (ext : Extern α) (s : RT64State α) : json α × RT64State α :=
  s.nameTexMap.foldl
    (fun (acc : json α × RT64State α) (pair : String × Nat) =>
      let jroot := acc.1
      let s := acc.2
      let texName := pair.1
      let texHash := pair.2
      match mapFind s.texMods texHash with
      | some texMod =>
        let jtex : json α := json.null
        let jtex := jtex.assign "name" (json.string texName)
        let (jtex, s) := saveModEntries ext s jtex texMod
        let aliasHashes := mapGetOrCreate s.texHashAliasesMap texHash []
        let s := { s with texHashAliasesMap := mapTouch s.texHashAliasesMap texHash [] }
        let (jtex, s) := aliasHashes.foldl
          (fun (a : json α × RT64State α) (aliasHash : Nat) =>
            (a.1.push_back_at "aliases"
              (json.string (mapGetOrCreate a.2.texNameMap aliasHash "")),
              { a.2 with texNameMap := mapTouch a.2.texNameMap aliasHash "" }))
          (jtex, s)
        (jroot.push_back_at "textures" jtex, s)
      | none => (jroot, s))
    (json.null, s)

end Persist

/-! ## Sub-frames -/

section Frames
variable {α : Type} [LinearOrderedField α] [FloorRing α]

/-- The first loop over a display list in `gfx_rt64_rapi_draw_frame`: the
description of one instance is interpolated and handed to the library. -/
def draw_frame_instance (frameWeight : α) (acc : List (RecordedInstance α) × Backend α)
    (dynInstance : RecordedInstance α) : List (RecordedInstance α) × Backend α :=
  let desc :=
    { dynInstance.desc with
      transform := gfx_rt64_lerp_matrix dynInstance.prevTransform dynInstance.newTransform
        frameWeight
      scissorRect := gfx_rt64_lerp_rect dynInstance.prevScissorRect dynInstance.newScissorRect
        frameWeight
      viewportRect := gfx_rt64_lerp_rect dynInstance.prevViewportRect
        dynInstance.newViewportRect frameWeight }
  (acc.1 ++ [{ dynInstance with desc := desc }],
    acc.2.call (BackendCall.SetInstanceDescription dynInstance.instance_ desc))

/-- The loop `while (f < floatCount)` of `gfx_rt64_rapi_draw_frame`: float `f` of
the temporal buffer becomes the interpolation of float `f` of the two buffers. -/
def interpolateFloats (prevPtr newPtr : List α) (frameWeight : α) (floatCount : Nat)
    (tempPtr : List α) : List α :=
  (List.range floatCount).foldl
    (fun temp f =>
      temp.set f (gfx_rt64_lerp_float (prevPtr.getD f 0) (newPtr.getD f 0) frameWeight))
    tempPtr

/-- The statics `tempVertexBuffer`, `tempVertexBufferSize` of
`gfx_rt64_rapi_draw_frame` together with the library. -/
structure TempBuffers (α : Type) where
  tempVertexBuffer : List α
  tempVertexBufferSize : Nat
  lib : Backend α

/-- The second loop over a display list in `gfx_rt64_rapi_draw_frame`, for one
mesh.  The product `vertexCount * vertexStride` is computed in `uint32_t`. -/
def draw_frame_mesh (frameWeight : α) (acc : TempBuffers α) (dynMesh : RecordedMesh α) :
    TempBuffers α :=
  if !dynMesh.newVertexBufferValid then acc
  else
    let requiredVertexBufferSize := (dynMesh.vertexCount * dynMesh.vertexStride) % UINT_MOD
    let acc :=
      if requiredVertexBufferSize > acc.tempVertexBufferSize then
        { acc with
          tempVertexBuffer := List.replicate (requiredVertexBufferSize / 4) 0
          tempVertexBufferSize := requiredVertexBufferSize }
      else acc
    let floatCount := requiredVertexBufferSize / 4
    let tempVertexBuffer :=
      interpolateFloats (dynMesh.prevVertexBuffer.getD []) (dynMesh.newVertexBuffer.getD [])
        frameWeight floatCount acc.tempVertexBuffer
    { acc with
      tempVertexBuffer := tempVertexBuffer
      lib := acc.lib.call
        (BackendCall.SetMesh dynMesh.mesh tempVertexBuffer dynMesh.vertexCount
          dynMesh.vertexStride dynMesh.indexCount) }

/-- The body of the loop over `RT64.displayLists` in `gfx_rt64_rapi_draw_frame`. -/
def draw_frame_display_list (frameWeight : α)
    (acc : List (Nat × RecordedDisplayList α) × TempBuffers α)
    (entry : Nat × RecordedDisplayList α) :
    List (Nat × RecordedDisplayList α) × TempBuffers α :=
  let (instances, lib) :=
    entry.2.instances.foldl (draw_frame_instance frameWeight) ([], acc.2.lib)
  let temp := entry.2.meshes.foldl (draw_frame_mesh frameWeight) { acc.2 with lib := lib }
  (acc.1 ++ [(entry.1, { entry.2 with instances := instances })], temp)

/-- The interpolation of dynamic light `i` in `gfx_rt64_rapi_draw_frame`. -/
def draw_frame_light (s : RT64State α) (levelLightCount : Nat) (frameWeight : α)
    (lights : List (RT64_LIGHT α)) (i : Nat) : List (RT64_LIGHT α) :=
  let light := lights.getD (levelLightCount + i) RT64_LIGHT.zero
  let dyn := s.dynamicLights.getD i ⟨RT64_LIGHT.zero, RT64_LIGHT.zero⟩
  let prevLight := dyn.prevLight
  let newLight := dyn.newLight
  lights.set (levelLightCount + i)
    { light with
      position := gfx_rt64_lerp_vector3 prevLight.position newLight.position frameWeight
      attenuationRadius :=
        gfx_rt64_lerp_float prevLight.attenuationRadius newLight.attenuationRadius frameWeight
      pointRadius := gfx_rt64_lerp_float prevLight.pointRadius newLight.pointRadius frameWeight
      shadowOffset :=
        gfx_rt64_lerp_float prevLight.shadowOffset newLight.shadowOffset frameWeight }

/-- The function `gfx_rt64_rapi_draw_frame`. -/
def gfx_rt64_rapi_draw_frame (g : Game α) (s : RT64State α) (frameWeight : α) : RT64State α :=
  let viewMatrix :=
    if s.prevCameraValid then
      gfx_rt64_lerp_matrix s.prevCamera.viewMatrix s.camera.viewMatrix frameWeight
    else s.camera.viewMatrix
  let fovRadians :=
    if s.prevCameraValid then
      gfx_rt64_lerp_float s.prevCamera.fovRadians s.camera.fovRadians frameWeight
    else s.camera.fovRadians
  let lib := s.lib.call
    (BackendCall.SetViewPerspective viewMatrix fovRadians s.camera.nearDist s.camera.farDist)
  let (displayLists, temp) :=
    s.displayLists.foldl (draw_frame_display_list frameWeight)
      ([], { tempVertexBuffer := s.tempVertexBuffer
             tempVertexBufferSize := s.tempVertexBufferSize
             lib := lib })
  let levelLightCount := s.levelLightCounts g.levelIndex g.areaIndex
  let lights :=
    (List.range s.dynamicLightCount).foldl (draw_frame_light s levelLightCount frameWeight)
      s.lights
  let lib := temp.lib.call (BackendCall.SetSceneLights lights s.lightCount)
  let lib := lib.call (BackendCall.DrawDevice (if s.turboMode then 0 else 1))
  { s with
    lib := lib
    displayLists := displayLists
    lights := lights
    tempVertexBuffer := temp.tempVertexBuffer
    tempVertexBufferSize := temp.tempVertexBufferSize }

end Frames

/-! ## Tick commit -/

section Commit
variable {α : Type} [LinearOrderedField α] [FloorRing α]

/-- The loop `while (dl.instances.size() > dl.newCount)` of
`gfx_rt64_rapi_end_frame`; the first argument bounds the number of iterations. -/
def destroyUnusedInstances (newCount : Nat) :
    Nat → List (RecordedInstance α) → Backend α → List (RecordedInstance α) × Backend α
  | 0, instances, lib => (instances, lib)
  | fuel + 1, instances, lib =>
    if instances.length > newCount then
      match instances.getLast? with
      | some dynInst =>
        destroyUnusedInstances newCount fuel instances.dropLast
          (lib.call (BackendCall.DestroyInstance dynInst.instance_))
      | none => (instances, lib)
    else (instances, lib)

/-- The loop `while (dl.meshes.size() > dl.newCount)` of `gfx_rt64_rapi_end_frame`;
the first argument bounds the number of iterations. -/
def destroyUnusedMeshes (newCount : Nat) :
    Nat → List (RecordedMesh α) → Backend α → List (RecordedMesh α) × Backend α
  | 0, meshes, lib => (meshes, lib)
  | fuel + 1, meshes, lib =>
    if meshes.length > newCount then
      match meshes.getLast? with
      | some dynMesh =>
        destroyUnusedMeshes newCount fuel meshes.dropLast
          (lib.call (BackendCall.DestroyMesh dynMesh.mesh))
      | none => (meshes, lib)
    else (meshes, lib)

/-- The constant `MinDot` of `gfx_rt64_rapi_end_frame`: `sqrt(2.0f) / -2.0f`, a
`float`. -/
def MinDot (ext : Extern α) : α := roundF32 (roundF32 (ext.sqrt 2) / (-2))

/-- The three dot products `dotX`, `dotY`, `dotZ` that `gfx_rt64_rapi_end_frame`
computes for an instance. -/
def axisDots (ext : Extern α) (dynInstance : RecordedInstance α) : α × α × α :=
  let prevX := normalize_vector ext
    (transform_direction_affine dynInstance.prevTransform { x := 1, y := 0, z := 0 })
  let prevY := normalize_vector ext
    (transform_direction_affine dynInstance.prevTransform { x := 0, y := 1, z := 0 })
  let prevZ := normalize_vector ext
    (transform_direction_affine dynInstance.prevTransform { x := 0, y := 0, z := 1 })
  let newX := normalize_vector ext
    (transform_direction_affine dynInstance.newTransform { x := 1, y := 0, z := 0 })
  let newY := normalize_vector ext
    (transform_direction_affine dynInstance.newTransform { x := 0, y := 1, z := 0 })
  let newZ := normalize_vector ext
    (transform_direction_affine dynInstance.newTransform { x := 0, y := 0, z := 1 })
  (vector_dot_product prevX newX, vector_dot_product prevY newY, vector_dot_product prevZ newZ)

/-- The body of the loop "Detect sudden transformation changes" of
`gfx_rt64_rapi_end_frame`. -/
def rotationGuard (ext : Extern α) (dynInstance : RecordedInstance α) : RecordedInstance α :=
  let (dotX, dotY, dotZ) := axisDots ext dynInstance
  if dotX < MinDot ext ∨ dotY < MinDot ext ∨ dotZ < MinDot ext then
    { dynInstance with prevTransform := dynInstance.newTransform }
  else dynInstance

/-- The variables of the loop "Compute the delta vertex buffer" that change:
the buffers behind `prevPtr` and `deltaPtr`, and the offset `i` in the vertex. -/
structure DeltaCursor (α : Type) where
  prev : List α
  delta : List α
  i : Nat

/-- One iteration of the loop `while (f < floatCount)` of
`gfx_rt64_rapi_end_frame`, for the float at index `f`, in `float` arithmetic. -/
def deltaStep (useTexture : Bool) (imax : Nat) (newPtr : List α) (c : DeltaCursor α)
    (f : Nat) : DeltaCursor α :=
  let MagnitudeThreshold : α := 10
  let newValue := newPtr.getD f 0
  let oldDelta := c.delta.getD f 0
  let deltaValue := subF32 newValue (c.prev.getD f 0)
  let (deltaValue, prev) :=
    if c.i = 0 ∨ c.i = 1 ∨ c.i = 2 then
      if divF32 |deltaValue| (max |oldDelta| 1) ≥ MagnitudeThreshold then
        (deltaValue, c.prev.set f newValue)
      else (deltaValue, c.prev)
    else if c.i = 7 ∨ c.i = 8 then
      if useTexture then
        if mulF32 deltaValue oldDelta < 0 then
          let deltaValue := oldDelta
          (deltaValue, c.prev.set f (subF32 newValue deltaValue))
        else (deltaValue, c.prev)
      else (deltaValue, c.prev)
    else (deltaValue, c.prev)
  { prev := prev, delta := c.delta.set f deltaValue, i := (c.i + 1) % imax }

/-- The body of the loop "Compute the delta vertex buffer" of
`gfx_rt64_rapi_end_frame`, for one mesh. -/
def computeDelta (dynMesh : RecordedMesh α) : RecordedMesh α :=
  if !dynMesh.newVertexBufferValid then dynMesh
  else
    let imax := dynMesh.vertexStride / 4
    let floatCount := dynMesh.vertexCount * imax
    let c := (List.range floatCount).foldl
      (deltaStep dynMesh.useTexture imax (dynMesh.newVertexBuffer.getD []))
      { prev := dynMesh.prevVertexBuffer.getD [], delta := dynMesh.deltaVertexBuffer.getD [],
        i := 0 }
    { dynMesh with
      prevVertexBuffer := dynMesh.prevVertexBuffer.map (fun _ => c.prev)
      deltaVertexBuffer := dynMesh.deltaVertexBuffer.map (fun _ => c.delta) }

/-- The body of the loop "Process display lists" of `gfx_rt64_rapi_end_frame`. -/
def end_frame_process_display_list (ext : Extern α)
    (acc : List (Nat × RecordedDisplayList α) × Backend α)
    (entry : Nat × RecordedDisplayList α) :
    List (Nat × RecordedDisplayList α) × Backend α :=
  let dl := entry.2
  let (instances, lib) := destroyUnusedInstances dl.newCount dl.instances.length dl.instances acc.2
  let (meshes, lib) := destroyUnusedMeshes dl.newCount dl.meshes.length dl.meshes lib
  let instances := instances.map (rotationGuard ext)
  let meshes := meshes.map computeDelta
  (acc.1 ++ [(entry.1, { dl with instances := instances, meshes := meshes })], lib)

/-- The loop "Process display lists" of `gfx_rt64_rapi_end_frame`. -/
def end_frame_process (ext : Extern α) (s : RT64State α) : RT64State α :=
  let (displayLists, lib) :=
    s.displayLists.foldl (end_frame_process_display_list ext) ([], s.lib)
  { s with displayLists := displayLists, lib := lib }

/-- The loop "Draw as many frames as indicated by the target framerate" of
`gfx_rt64_rapi_end_frame`; `f` runs from `1` to `framesPerUpdate`.  The integers
`framesPerUpdate` and `f` are converted to `float`, and the quotient
`1.0f / framesPerUpdate` and the product `f * weightPerFrame` are `float`s. -/
def end_frame_draw_frames (g : Game α) (s : RT64State α) : RT64State α :=
  let framesPerUpdate := s.targetFPS / 30
  let weightPerFrame : α := divF32 1 (roundF32 (framesPerUpdate : α))
  (List.range framesPerUpdate).foldl
    (fun s k =>
      gfx_rt64_rapi_draw_frame g s (mulF32 (roundF32 ((k + 1 : Nat) : α)) weightPerFrame)) s

/-- What `sprintf` writes for `%d` at an `unsigned int`: the value read as an `int`. -/
def printfInt (v : Nat) : String :=
  if v % UINT_MOD < UINT_MOD / 2 then toString (v % UINT_MOD)
  else "-" ++ toString (UINT_MOD - v % UINT_MOD)

/-- The texture picking block of `gfx_rt64_rapi_end_frame`, from "Left click allows
to pick a texture" to the message "Lights %d" for the inspector.  The cursor
position is not part of the model: the call `GetViewRaytracedInstanceAt` is logged
with the instance it returns.  The name of the material is logged as the bytes of
`textureName.c_str()`. -/
def end_frame_pick (g : Game α) (s : RT64State α) : RT64State α :=
  let inspector := s.inspector
  let s :=
    if s.pickTextureNextFrame then
      let lib := s.lib.call (BackendCall.GetViewRaytracedInstanceAt g.pickedInstance)
      let pickedTextureHash :=
        match g.pickedInstance with
        | some inst =>
          match mapFind s.lastInstanceTextureHashes (some inst) with
          | some hash => hash
          | none => s.pickedTextureHash
        | none => 0
      { s with lib := lib, pickedTextureHash := pickedTextureHash, pickTextureNextFrame := false }
    else s
  let s := { s with lastInstanceTextureHashes := [] }
  let s :=
    if s.pickedTextureHash ≠ 0 then
      let textureName := (mapFind s.texNameMap s.pickedTextureHash).getD ""
      let texMod : RecordedMod α :=
        match mapFind s.texMods s.pickedTextureHash with
        | some texMod => texMod
        | none => {}
      let texMod :=
        match texMod.materialMod with
        | some _ => texMod
        | none =>
          { texMod with
            materialMod := some { (RT64_MATERIAL.zero : RT64_MATERIAL α) with
                                  enabledAttributes := RT64_ATTRIBUTE_NONE } }
      let lib :=
        if inspector.isSome then
          s.lib.call (BackendCall.SetMaterialInspector inspector texMod.materialMod
            (cStringBytes textureName))
        else s.lib
      { s with
        lib := lib
        texNameMap := mapTouch s.texNameMap s.pickedTextureHash ""
        texMods := mapInsert s.texMods s.pickedTextureHash texMod }
    else s
  if inspector.isSome then
    let statsMessage := "Lights " ++ printfInt s.lightCount
    { s with lib := s.lib.call (BackendCall.PrintMessageInspector inspector statsMessage) }
  else s

/-- The loop "Move attributes from new to prev for instances". -/
def commitInstance (dynInst : RecordedInstance α) : RecordedInstance α :=
  { dynInst with
    prevTransform := dynInst.newTransform
    prevScissorRect := dynInst.newScissorRect
    prevViewportRect := dynInst.newViewportRect
    prevValid := true
    newValid := false }

/-- The loop "Move attributes from new to prev for meshes". -/
def commitMesh (dynMesh : RecordedMesh α) : RecordedMesh α :=
  if !dynMesh.newVertexBufferValid then dynMesh
  else
    let swapBuffer := dynMesh.prevVertexBuffer
    let swapHash := dynMesh.prevVertexBufferHash
    { dynMesh with
      prevVertexBuffer := dynMesh.newVertexBuffer
      prevVertexBufferHash := dynMesh.newVertexBufferHash
      newVertexBuffer := swapBuffer
      newVertexBufferHash := swapHash
      newVertexBufferValid := false }

/-- The body of the loop "Display list cleanup" of `gfx_rt64_rapi_end_frame`: the
entry that stays in the map, or `none` when the entry is erased. -/
def end_frame_cleanup_display_list (entry : Nat × RecordedDisplayList α) :
    Option (Nat × RecordedDisplayList α) :=
  let dl := entry.2
  let dl :=
    { dl with instances := dl.instances.map commitInstance, meshes := dl.meshes.map commitMesh }
  if dl.newValid then
    some (entry.1,
      { dl with prevTransform := dl.newTransform, prevValid := true, newValid := false,
                newCount := 0 })
  else none

/-- The loop "Display list cleanup" and the camera reset that end
`gfx_rt64_rapi_end_frame`. -/
def end_frame_cleanup (s : RT64State α) : RT64State α :=
  { s with
    displayLists := s.displayLists.filterMap end_frame_cleanup_display_list
    prevCamera := s.camera
    prevCameraValid := true }

/-- The function `gfx_rt64_rapi_end_frame`; `none` when the assertion on the
light count fails. -/
def gfx_rt64_rapi_end_frame (ext : Extern α) (g : Game α) (s : RT64State α) :
    Option (RT64State α) :=
  match end_frame_lights ext g s with
  | none => none
  | some s =>
    let s := end_frame_process ext s
    let s := end_frame_draw_frames g s
    let s := end_frame_pick g s
    some (end_frame_cleanup s)

end Commit

/-! ## Sequences of operations used in the statements -/

section Traces
variable {α : Type} [LinearOrderedField α] [FloorRing α]

/-- Consecutive calls of `gfx_rt64_add_light`, one for each element of the list
(light, previous transform, new transform); `none` as soon as one call fails. -/
def addLights (ext : Extern α) (s : RT64State α) :
    List (RT64_LIGHT α × RT64_MATRIX4 α × RT64_MATRIX4 α) → Option (RT64State α)
  | [] => some s
  | (l, p, n) :: rest =>
    match gfx_rt64_add_light ext s l p n with
    | some s => addLights ext s rest
    | none => none

end Traces

/-! ## Predicates used in the statements -/

section Predicates
variable {α : Type} [LinearOrderedField α] [FloorRing α]

/-- The material `dst` has the value of `src` in every field whose attribute bit
is set in the bitmask of `src`. -/
def HasEnabledFieldsOf (ext : Extern α) (dst src : RT64_MATERIAL α) : Prop :=
  (src.enabledAttributes &&& ext.RT64_ATTRIBUTE_IGNORE_NORMAL_FACTOR ≠ 0 →
    dst.ignoreNormalFactor = src.ignoreNormalFactor) ∧
  (src.enabledAttributes &&& ext.RT64_ATTRIBUTE_UV_DETAIL_SCALE ≠ 0 →
    dst.uvDetailScale = src.uvDetailScale) ∧
  (src.enabledAttributes &&& ext.RT64_ATTRIBUTE_REFLECTION_FACTOR ≠ 0 →
    dst.reflectionFactor = src.reflectionFactor) ∧
  (src.enabledAttributes &&& ext.RT64_ATTRIBUTE_REFLECTION_FRESNEL_FACTOR ≠ 0 →
    dst.reflectionFresnelFactor = src.reflectionFresnelFactor) ∧
  (src.enabledAttributes &&& ext.RT64_ATTRIBUTE_REFLECTION_SHINE_FACTOR ≠ 0 →
    dst.reflectionShineFactor = src.reflectionShineFactor) ∧
  (src.enabledAttributes &&& ext.RT64_ATTRIBUTE_REFRACTION_FACTOR ≠ 0 →
    dst.refractionFactor = src.refractionFactor) ∧
  (src.enabledAttributes &&& ext.RT64_ATTRIBUTE_SPECULAR_COLOR ≠ 0 →
    dst.specularColor = src.specularColor) ∧
  (src.enabledAttributes &&& ext.RT64_ATTRIBUTE_SPECULAR_EXPONENT ≠ 0 →
    dst.specularExponent = src.specularExponent) ∧
  (src.enabledAttributes &&& ext.RT64_ATTRIBUTE_SOLID_ALPHA_MULTIPLIER ≠ 0 →
    dst.solidAlphaMultiplier = src.solidAlphaMultiplier) ∧
  (src.enabledAttributes &&& ext.RT64_ATTRIBUTE_SHADOW_ALPHA_MULTIPLIER ≠ 0 →
    dst.shadowAlphaMultiplier = src.shadowAlphaMultiplier) ∧
  (src.enabledAttributes &&& ext.RT64_ATTRIBUTE_DEPTH_BIAS ≠ 0 →
    dst.depthBias = src.depthBias) ∧
  (src.enabledAttributes &&& ext.RT64_ATTRIBUTE_SHADOW_RAY_BIAS ≠ 0 →
    dst.shadowRayBias = src.shadowRayBias) ∧
  (src.enabledAttributes &&& ext.RT64_ATTRIBUTE_SELF_LIGHT ≠ 0 →
    dst.selfLight = src.selfLight) ∧
  (src.enabledAttributes &&& ext.RT64_ATTRIBUTE_LIGHT_GROUP_MASK_BITS ≠ 0 →
    dst.lightGroupMaskBits = src.lightGroupMaskBits) ∧
  (src.enabledAttributes &&& ext.RT64_ATTRIBUTE_DIFFUSE_COLOR_MIX ≠ 0 →
    dst.diffuseColorMix = src.diffuseColorMix)

/-- The enabled-attribute bitmask of the material of a mod, when it has one. -/
def RecordedMod.attributeMask (mod : RecordedMod α) : Option Nat :=
  mod.materialMod.map (fun m => m.enabledAttributes)

/-- The hash that the commit at the end of the tick leaves as the stored hash of a
mesh slot: the staged hash when a buffer is staged, the stored hash otherwise. -/
def committedHash (m : RecordedMesh α) : Nat :=
  if m.newVertexBufferValid then m.newVertexBufferHash else m.prevVertexBufferHash

/-- The state `s` with the map `graphNodeMods` replaced. -/
def RT64State.withGraphNodeMods (s : RT64State α) (mods : List (Nat × RecordedMod α)) :
    RT64State α :=
  { s with graphNodeMods := mods }

/-- The map `graphNodeMods` that the registration of a non-null graph node leaves:
the old entry of the node is gone, and the node has the merged mod of the geo
layout when that one is non-null and has a mod. -/
def registeredMods (ext : Extern α) (s : RT64State α) (geoLayout graphNode : Nat) :
    List (Nat × RecordedMod α) :=
  let erased := mapErase s.graphNodeMods graphNode
  if geoLayout ≠ 0 then
    match mapFind s.geoLayoutMods geoLayout with
    | some geoMod => mapInsert erased graphNode (mergeGeoLayoutMod ext {} geoMod)
    | none => erased
  else erased

end Predicates

section Keeps
variable {α : Type}

/-- What the blocks of a draw submission before the mesh processing keep. -/
structure DrawKeeps (l l' : DrawLocals α) : Prop where
  displayList : l'.displayList = l.displayList
  displayLists : l'.state.displayLists = l.state.displayLists
  scissorRect : l'.state.scissorRect = l.state.scissorRect
  viewportRect : l'.state.viewportRect = l.state.viewportRect
  prevValid : l'.displayListInstance.prevValid = l.displayListInstance.prevValid
  newTransform : l'.displayListInstance.newTransform = l.displayListInstance.newTransform
  instance_ : l'.displayListInstance.instance_ = l.displayListInstance.instance_
  interpolate : l'.interpolate = true → l.interpolate = true

end Keeps

/-! ## Closed forms used in the statements -/

section ClosedForms
variable {α : Type} [LinearOrderedField α] [FloorRing α]

/-- What the loop "Process display lists" of `gfx_rt64_rapi_end_frame` leaves of one
display list: the instances and meshes up to this tick's count, the instances
after the rotation guard and the meshes after the delta computation. -/
def processDisplayList (ext : Extern α) (dl : RecordedDisplayList α) : RecordedDisplayList α :=
  { dl with
    instances := (dl.instances.take dl.newCount).map (rotationGuard ext)
    meshes := (dl.meshes.take dl.newCount).map computeDelta }

/-- The description that `gfx_rt64_rapi_draw_frame` computes for an instance. -/
def frameInstance (frameWeight : α) (dynInstance : RecordedInstance α) : RecordedInstance α :=
  { dynInstance with
    desc :=
      { dynInstance.desc with
        transform := gfx_rt64_lerp_matrix dynInstance.prevTransform dynInstance.newTransform
          frameWeight
        scissorRect := gfx_rt64_lerp_rect dynInstance.prevScissorRect
          dynInstance.newScissorRect frameWeight
        viewportRect := gfx_rt64_lerp_rect dynInstance.prevViewportRect
          dynInstance.newViewportRect frameWeight } }

/-- What `gfx_rt64_rapi_draw_frame` leaves of one display list. -/
def frameDisplayList (frameWeight : α) (dl : RecordedDisplayList α) : RecordedDisplayList α :=
  { dl with instances := dl.instances.map (frameInstance frameWeight) }

/-- The display list that the loop "Display list cleanup" keeps for a display list
that was touched in the tick. -/
def commitDisplayList (dl : RecordedDisplayList α) : RecordedDisplayList α :=
  { dl with
    instances := dl.instances.map commitInstance
    meshes := dl.meshes.map commitMesh
    prevTransform := dl.newTransform
    prevValid := true
    newValid := false
    newCount := 0 }

/-- The library calls of the two loops "Destroy all unused instances" and "Destroy
all unused meshes" for one display list: the elements beyond this tick's count,
from the back. -/
def destroyCalls (dl : RecordedDisplayList α) : List (BackendCall α) :=
  ((dl.instances.drop dl.newCount).reverse.map
      fun i => BackendCall.DestroyInstance i.instance_) ++
    ((dl.meshes.drop dl.newCount).reverse.map fun m => BackendCall.DestroyMesh m.mesh)

/-- The weights of the sub-frames of a tick: the `float` `f * weightPerFrame`,
with `weightPerFrame` the `float` `1.0f / framesPerUpdate`, for `f` from 1 to
`framesPerUpdate = targetFPS / 30`. -/
def frameWeights (targetFPS : Nat) : List α :=
  (List.range (targetFPS / 30)).map
    fun k => mulF32 (roundF32 ((k + 1 : Nat) : α))
      (divF32 1 (roundF32 ((targetFPS / 30 : Nat) : α)))

/-- What the sub-frames with the given weights leave of one display list. -/
def framesDisplayList (weights : List α) (dl : RecordedDisplayList α) : RecordedDisplayList α :=
  weights.foldl (fun d t => frameDisplayList t d) dl

/-- The element of `RT64.lights` that `gfx_rt64_rapi_draw_frame` leaves for a dynamic
light: position, attenuation radius, point radius and shadow offset are interpolated
between the two versions of the dynamic light, the other fields stay those of the
element. -/
def frameLight (frameWeight : α) (dyn : RecordedLight α) (light : RT64_LIGHT α) :
    RT64_LIGHT α :=
  { light with
    position := gfx_rt64_lerp_vector3 dyn.prevLight.position dyn.newLight.position frameWeight
    attenuationRadius :=
      gfx_rt64_lerp_float dyn.prevLight.attenuationRadius dyn.newLight.attenuationRadius
        frameWeight
    pointRadius :=
      gfx_rt64_lerp_float dyn.prevLight.pointRadius dyn.newLight.pointRadius frameWeight
    shadowOffset :=
      gfx_rt64_lerp_float dyn.prevLight.shadowOffset dyn.newLight.shadowOffset frameWeight }

/-- The array `RT64.lights` after the loop "Interpolate the dynamic lights" of
`gfx_rt64_rapi_draw_frame`. -/
def frameLights (s : RT64State α) (levelLightCount : Nat) (frameWeight : α) :
    List (RT64_LIGHT α) :=
  (List.range s.dynamicLightCount).foldl (draw_frame_light s levelLightCount frameWeight)
    s.lights

/-- The shape of the merged light list between the first block of
`gfx_rt64_rapi_end_frame` and the end of the sub-frames: the dynamic lights are `dyn`,
`count` of them in use; the first `L` elements of `RT64.lights` are the level lights
`level`; and element `L + i` has, in the fields that are not interpolated, the values of
the new version of dynamic light `i`. -/
def LightsMerged (s : RT64State α) (levelIndex areaIndex L count lightCount : Nat)
    (level : List (RT64_LIGHT α)) (dyn : List (RecordedLight α)) : Prop :=
  s.levelLightCounts levelIndex areaIndex = L ∧
  s.dynamicLights = dyn ∧ s.dynamicLightCount = count ∧ s.lightCount = lightCount ∧
  (∀ j, j < L → s.lights[j]? = level[j]?) ∧
  ∀ i d, i < count → dyn[i]? = some d →
    ∃ l, s.lights[L + i]? = some l ∧ l.diffuseColor = d.newLight.diffuseColor ∧
      l.specularColor = d.newLight.specularColor ∧
      l.attenuationExponent = d.newLight.attenuationExponent ∧
      l.flickerIntensity = d.newLight.flickerIntensity ∧ l.groupBits = d.newLight.groupBits

end ClosedForms

/-! ## The mods of a draw submission -/

section DrawMods
variable {α : Type} [LinearOrderedField α] [FloorRing α]

/-- The attributes of a material that `RT64_ApplyMaterialAttributes` distinguishes. -/
inductive MaterialAttribute where
  | ignoreNormalFactor
  | uvDetailScale
  | reflectionFactor
  | reflectionFresnelFactor
  | reflectionShineFactor
  | refractionFactor
  | specularColor
  | specularExponent
  | solidAlphaMultiplier
  | shadowAlphaMultiplier
  | depthBias
  | shadowRayBias
  | selfLight
  | lightGroupMaskBits
  | diffuseColorMix
deriving DecidableEq, Repr

/-- The bit of an attribute in `enabledAttributes`. -/
def MaterialAttribute.flag (ext : Extern α) : MaterialAttribute → Nat
  | .ignoreNormalFactor => ext.RT64_ATTRIBUTE_IGNORE_NORMAL_FACTOR
  | .uvDetailScale => ext.RT64_ATTRIBUTE_UV_DETAIL_SCALE
  | .reflectionFactor => ext.RT64_ATTRIBUTE_REFLECTION_FACTOR
  | .reflectionFresnelFactor => ext.RT64_ATTRIBUTE_REFLECTION_FRESNEL_FACTOR
  | .reflectionShineFactor => ext.RT64_ATTRIBUTE_REFLECTION_SHINE_FACTOR
  | .refractionFactor => ext.RT64_ATTRIBUTE_REFRACTION_FACTOR
  | .specularColor => ext.RT64_ATTRIBUTE_SPECULAR_COLOR
  | .specularExponent => ext.RT64_ATTRIBUTE_SPECULAR_EXPONENT
  | .solidAlphaMultiplier => ext.RT64_ATTRIBUTE_SOLID_ALPHA_MULTIPLIER
  | .shadowAlphaMultiplier => ext.RT64_ATTRIBUTE_SHADOW_ALPHA_MULTIPLIER
  | .depthBias => ext.RT64_ATTRIBUTE_DEPTH_BIAS
  | .shadowRayBias => ext.RT64_ATTRIBUTE_SHADOW_RAY_BIAS
  | .selfLight => ext.RT64_ATTRIBUTE_SELF_LIGHT
  | .lightGroupMaskBits => ext.RT64_ATTRIBUTE_LIGHT_GROUP_MASK_BITS
  | .diffuseColorMix => ext.RT64_ATTRIBUTE_DIFFUSE_COLOR_MIX

/-- The two materials have the same value in the field of the attribute. -/
def MaterialAttribute.Same (a : MaterialAttribute) (m1 m2 : RT64_MATERIAL α) : Prop :=
  match a with
  | .ignoreNormalFactor => m1.ignoreNormalFactor = m2.ignoreNormalFactor
  | .uvDetailScale => m1.uvDetailScale = m2.uvDetailScale
  | .reflectionFactor => m1.reflectionFactor = m2.reflectionFactor
  | .reflectionFresnelFactor => m1.reflectionFresnelFactor = m2.reflectionFresnelFactor
  | .reflectionShineFactor => m1.reflectionShineFactor = m2.reflectionShineFactor
  | .refractionFactor => m1.refractionFactor = m2.refractionFactor
  | .specularColor => m1.specularColor = m2.specularColor
  | .specularExponent => m1.specularExponent = m2.specularExponent
  | .solidAlphaMultiplier => m1.solidAlphaMultiplier = m2.solidAlphaMultiplier
  | .shadowAlphaMultiplier => m1.shadowAlphaMultiplier = m2.shadowAlphaMultiplier
  | .depthBias => m1.depthBias = m2.depthBias
  | .shadowRayBias => m1.shadowRayBias = m2.shadowRayBias
  | .selfLight => m1.selfLight = m2.selfLight
  | .lightGroupMaskBits => m1.lightGroupMaskBits = m2.lightGroupMaskBits
  | .diffuseColorMix => m1.diffuseColorMix = m2.diffuseColorMix

/-- The mod has a material that enables the attribute. -/
def ModEnables (ext : Extern α) (mod : Option (RecordedMod α)) (a : MaterialAttribute) : Prop :=
  ∃ m mat, mod = some m ∧ m.materialMod = some mat ∧
    mat.enabledAttributes &&& a.flag ext ≠ 0

/-- The material has, in the field of the attribute, the value of the material of the
mod. -/
def SameAsMod (a : MaterialAttribute) (material : RT64_MATERIAL α)
    (mod : Option (RecordedMod α)) : Prop :=
  ∀ m mat, mod = some m → m.materialMod = some mat → a.Same material mat

/-- The material after the application of the material of a mod, when there is a mod
and it has a material: the first statement of `gfx_rt64_rapi_apply_mod` after the
interpolation flag. -/
def applyModMaterial (ext : Extern α) (material : RT64_MATERIAL α)
    (mod : Option (RecordedMod α)) : RT64_MATERIAL α :=
  match mod with
  | some m =>
    match m.materialMod with
    | some materialMod => RT64_ApplyMaterialAttributes ext material materialMod
    | none => material
  | none => material

/-- The texture mod that `gfx_rt64_rapi_draw_triangles_common` finds in the block "Find
all parameters associated to the texture if it's used": none when the shader program
does not use texture 0. -/
def resolvedTextureMod (s : RT64State α) (shaderProgram : ShaderProgram) :
    Option (RecordedMod α) :=
  if shaderProgram.usedTextures0 then
    let recordedTexture :=
      mapGetOrCreate s.textures (readTextureId s.currentTextureIds s.currentTile)
        RecordedTexture.zero
    let textureHash :=
      match mapFind s.texHashAliasMap recordedTexture.hash with
      | some target => target
      | none => recordedTexture.hash
    mapFind s.texMods textureHash
  else none

/-- The value of `highlightMaterial` after the same block. -/
def highlightActive (s : RT64State α) (shaderProgram : ShaderProgram) : Bool :=
  shaderProgram.usedTextures0 && s.pickTextureHighlight &&
    decide ((mapGetOrCreate s.textures (readTextureId s.currentTextureIds s.currentTile)
      RecordedTexture.zero).hash = s.pickedTextureHash)

/-- The mod has a light. -/
def carriesLight (mod : Option (RecordedMod α)) : Bool :=
  match mod with
  | some m => m.lightMod.isSome
  | none => false

/-- The mod, when there is one, has interpolation enabled. -/
def allowsInterpolation (mod : Option (RecordedMod α)) : Bool :=
  match mod with
  | some m => m.interpolationEnabled
  | none => true

end DrawMods

/-! ## Texture names -/

section NameForms
variable {α : Type}

/-- The digest of the claim: `h = 31 * h + byte` over the bytes, without reduction. -/
def polyDigest (bytes : List Nat) : Nat :=
  bytes.foldl (fun h b => 31 * h + b) 0

/-- The hash that `gfx_rt64_get_texture_name_hash` returns for a name (it does not
depend on the state). -/
def nameHash (name : String) : Nat :=
  string_hash (cStringBytes name)

/-- Consecutive calls of `gfx_rt64_get_texture_name_hash`, one for each name. -/
def registerNames (s : RT64State α) (names : List String) : RT64State α :=
  names.foldl (fun s name => (gfx_rt64_get_texture_name_hash s name).2) s

end NameForms

/-! ## Emitted lights -/

section LightForms
variable {α : Type} [LinearOrderedField α] [FloorRing α]

/-- The factor `scale` of the lambda `configureLight`: the length of the image of
(1, 1, 1) under the direction transform, divided by `sqrt(3)` in `double` and
narrowed to `float`. -/
def lightScale (ext : Extern α) (transform : RT64_MATRIX4 α) : α :=
  roundF32 (roundF64
    (vector_length ext (transform_direction_affine transform { x := 1, y := 1, z := 1 }) /
      ext.sqrt 3))

/-- The light `lightMod` placed by a transform, as the claim describes a version of
the emitted light: the position is transformed as a point, the attenuation radius, the
point radius and the shadow offset are multiplied by `lightScale` (products of
`float`s), and the other fields are copied. -/
def placedLight (ext : Extern α) (lightMod : RT64_LIGHT α) (transform : RT64_MATRIX4 α) :
    RT64_LIGHT α :=
  { position := transform_position_affine transform lightMod.position
    diffuseColor := lightMod.diffuseColor
    attenuationRadius := mulF32 lightMod.attenuationRadius (lightScale ext transform)
    pointRadius := mulF32 lightMod.pointRadius (lightScale ext transform)
    specularColor := lightMod.specularColor
    shadowOffset := mulF32 lightMod.shadowOffset (lightScale ext transform)
    attenuationExponent := lightMod.attenuationExponent
    flickerIntensity := lightMod.flickerIntensity
    groupBits := lightMod.groupBits }

/-- The uniform scale `k * I` as an affine transform. -/
def scaleMatrix (k : α) : RT64_MATRIX4 α :=
  fun i j => if i = j then (if i = 3 then 1 else k) else 0

end LightForms

/-! ## Submissions and slots -/

section Slots
variable {α : Type} [LinearOrderedField α] [FloorRing α]

/-- The arguments of one call of `gfx_rt64_rapi_draw_triangles_common`. -/
structure Submission (α : Type) where
  transform : RT64_MATRIX4 α
  buf_vbo : List α
  buf_vbo_num_tris : Nat
  double_sided : Bool
  raytrace : Bool
  uid : Nat

/-- One draw submission. -/
def submit (ext : Extern α) (s : RT64State α) (d : Submission α) : Option (RT64State α) :=
  gfx_rt64_rapi_draw_triangles_common ext s d.transform d.buf_vbo d.buf_vbo_num_tris
    d.double_sided d.raytrace d.uid

/-- Consecutive draw submissions; `none` as soon as one of them fails. -/
def submitAll (ext : Extern α) (s : RT64State α) : List (Submission α) → Option (RT64State α)
  | [] => some s
  | d :: rest =>
    match submit ext s d with
    | some s => submitAll ext s rest
    | none => none

/-- The sequence position that the next submission under `uid` gets: the counter
`newCount` of the display list of `uid` (0 when the identifier has no entry). -/
def positionOf (s : RT64State α) (uid : Nat) : Nat :=
  (mapGetOrCreate s.displayLists uid RecordedDisplayList.zero).newCount

/-- The mesh pointer that `gfx_rt64_rapi_process_mesh` returned for the submission
at position `k` under `uid`, as stored in the description of the instance. -/
def returnedMesh (s : RT64State α) (uid k : Nat) : Option (Option Handle) :=
  (mapFind s.displayLists uid).bind fun dl => (dl.instances[k]?).map fun i => i.desc.mesh

/-- The mesh slot at position `k` of the display list of `uid`. -/
def meshSlot (s : RT64State α) (uid k : Nat) : Option (RecordedMesh α) :=
  (mapFind s.displayLists uid).bind fun dl => dl.meshes[k]?

/-- The slot that the next submission under `uid` would use is not staged.  (The
commit clears the staged flag of every slot, and a submission stages only the slot
at its own position, so this holds whenever a submission is made.) -/
def NextSlotUnstaged (s : RT64State α) (uid : Nat) : Prop :=
  ∀ m, meshSlot s uid (positionOf s uid) = some m → m.newVertexBufferValid = false

/-- In the running tick a submission was made at position `k` under `uid`: it got
the mesh `h`, and the commit will leave `H` as the stored hash of the slot. -/
def SlotDrawn (s : RT64State α) (uid k : Nat) (h : Option Handle) (H : Nat) : Prop :=
  ∃ (dl : RecordedDisplayList α) (i : RecordedInstance α) (m : RecordedMesh α),
    mapFind s.displayLists uid = some dl ∧ k < dl.newCount ∧ dl.newValid = true ∧
    dl.instances[k]? = some i ∧ i.desc.mesh = h ∧
    dl.meshes[k]? = some m ∧ m.mesh = h ∧ committedHash m = H

/-- The slot at position `k` under `uid` has survived a commit with the mesh `h` and
the stored hash `H`, and `c` submissions were made under `uid` in the running tick. -/
def SlotCommitted (s : RT64State α) (uid k c : Nat) (h : Option Handle) (H : Nat) : Prop :=
  ∃ (dl : RecordedDisplayList α) (i : RecordedInstance α) (m : RecordedMesh α),
    mapFind s.displayLists uid = some dl ∧ dl.newCount = c ∧
    dl.instances[k]? = some i ∧ i.prevValid = true ∧
    dl.meshes[k]? = some m ∧ m.mesh = h ∧ m.prevVertexBufferHash = H

end Slots

/-! ## The operations of a tick -/

section Ticks
variable {α : Type} [LinearOrderedField α] [FloorRing α]

/-- The calls that the game makes between two commits, as far as the display list
cache and the mods are concerned. -/
inductive TickOp (α : Type) where
  | draw (d : Submission α)
  | buildGraphNodeMod (graphNode : Nat) (modelview_matrix : RT64_MATRIX4 α) (uid : Nat)
  | setGraphNodeMod (graph_node_mod : Option (RecordedMod α))
  | registerLayoutGraphNode (geoLayout graphNode : Nat)

/-- One operation of a tick. -/
def runOp (ext : Extern α) (s : RT64State α) : TickOp α → Option (RT64State α)
  | TickOp.draw d => submit ext s d
  | TickOp.buildGraphNodeMod graphNode modelview_matrix uid =>
    (gfx_rt64_rapi_build_graph_node_mod ext s graphNode modelview_matrix uid).map fun r => r.2
  | TickOp.setGraphNodeMod graph_node_mod =>
    some (gfx_rt64_rapi_set_graph_node_mod s graph_node_mod)
  | TickOp.registerLayoutGraphNode geoLayout graphNode =>
    some (gfx_rt64_rapi_register_layout_graph_node ext s geoLayout graphNode)

/-- The operations of a tick in sequence; `none` as soon as one of them fails. -/
def runOps (ext : Extern α) (s : RT64State α) : List (TickOp α) → Option (RT64State α)
  | [] => some s
  | op :: rest =>
    match runOp ext s op with
    | some s => runOps ext s rest
    | none => none

/-- The operation is a draw submission or a graph node light build under `uid`. -/
def TickOp.isUnder (uid : Nat) : TickOp α → Bool
  | TickOp.draw d => decide (d.uid = uid)
  | TickOp.buildGraphNodeMod _ _ u => decide (u = uid)
  | TickOp.setGraphNodeMod _ => false
  | TickOp.registerLayoutGraphNode _ _ => false

/-- The log of the second library continues the log of the first. -/
def Backend.Extends (b b' : Backend α) : Prop :=
  ∃ extra, b'.calls = b.calls ++ extra

/-- The instance has the same previous and new state: the given transform and
rectangles. -/
def RecordedInstance.Pinned (i : RecordedInstance α) (transform : RT64_MATRIX4 α)
    (scissorRect viewportRect : RT64_RECT) : Prop :=
  i.prevTransform = transform ∧ i.newTransform = transform ∧
  i.prevScissorRect = scissorRect ∧ i.newScissorRect = scissorRect ∧
  i.prevViewportRect = viewportRect ∧ i.newViewportRect = viewportRect

/-- The display list of `uid` has at position `k` an instance with the same previous and
new state, the given transform and rectangles. -/
def InstancePinned (s : RT64State α) (uid k : Nat) (transform : RT64_MATRIX4 α)
    (scissorRect viewportRect : RT64_RECT) : Prop :=
  ∃ dl i, mapFind s.displayLists uid = some dl ∧ dl.instances[k]? = some i ∧
    i.Pinned transform scissorRect viewportRect

/-- The description of the instance at position `k` of the display list of `uid` has the
given transform and rectangles. -/
def InstanceRendered (s : RT64State α) (uid k : Nat) (transform : RT64_MATRIX4 α)
    (scissorRect viewportRect : RT64_RECT) : Prop :=
  ∃ dl i, mapFind s.displayLists uid = some dl ∧ dl.instances[k]? = some i ∧
    i.desc.transform = transform ∧ i.desc.scissorRect = scissorRect ∧
    i.desc.viewportRect = viewportRect

/-- The operation is a draw submission under `uid`. -/
def TickOp.isDrawUnder (uid : Nat) : TickOp α → Bool
  | TickOp.draw d => decide (d.uid = uid)
  | _ => false

/-- The number of draw submissions under `uid` among the operations. -/
def drawCount (uid : Nat) (ops : List (TickOp α)) : Nat :=
  (ops.filter (TickOp.isDrawUnder uid)).length

/-- The slot vectors of every display list reach its counter, and the map has one entry
per identifier. -/
def SlotsFit (s : RT64State α) : Prop :=
  (s.displayLists.map Prod.fst).Nodup ∧
  ∀ e ∈ s.displayLists, e.2.newCount ≤ e.2.instances.length ∧
    e.2.newCount ≤ e.2.meshes.length

end Ticks

/-! ## Concrete data for evaluating the model -/

section Samples
variable {α : Type} [LinearOrderedField α] [FloorRing α]

/-- External declarations with the given `sqrt` and digest, and one value for
each constant of the headers. -/
def externOf (sqrt : α → α) (xxhash64 : List α → Nat) : Extern α :=
  { sqrt := sqrt
    xxhash64 := xxhash64
    SHADER_OPT_ALPHA := 2 ^ 24
    SHADER_OPT_FOG := 2 ^ 25
    SHADER_INPUT_1 := 1
    SHADER_INPUT_4 := 4
    SHADER_TEXEL0 := 5
    SHADER_TEXEL0A := 6
    SHADER_TEXEL1 := 7
    G_TX_CLAMP := 2
    G_TX_MIRROR := 1
    RT64_MESH_RAYTRACE_ENABLED := 1
    RT64_MESH_RAYTRACE_UPDATABLE := 2
    RT64_INSTANCE_RASTER_BACKGROUND := 1
    RT64_INSTANCE_DISABLE_BACKFACE_CULLING := 2
    RT64_SHADER_FILTER_POINT := 0
    RT64_SHADER_FILTER_LINEAR := 1
    RT64_SHADER_ADDRESSING_WRAP := 0
    RT64_SHADER_ADDRESSING_MIRROR := 1
    RT64_SHADER_ADDRESSING_CLAMP := 2
    RT64_SHADER_RAYTRACE_ENABLED := 2
    RT64_SHADER_RASTER_ENABLED := 1
    RT64_SHADER_NORMAL_MAP_ENABLED := 4
    RT64_SHADER_SPECULAR_MAP_ENABLED := 8
    RT64_LIGHT_GROUP_DEFAULT := 1
    RT64_ATTRIBUTE_IGNORE_NORMAL_FACTOR := 1
    RT64_ATTRIBUTE_UV_DETAIL_SCALE := 2
    RT64_ATTRIBUTE_REFLECTION_FACTOR := 4
    RT64_ATTRIBUTE_REFLECTION_FRESNEL_FACTOR := 8
    RT64_ATTRIBUTE_REFLECTION_SHINE_FACTOR := 16
    RT64_ATTRIBUTE_REFRACTION_FACTOR := 32
    RT64_ATTRIBUTE_SPECULAR_COLOR := 64
    RT64_ATTRIBUTE_SPECULAR_EXPONENT := 128
    RT64_ATTRIBUTE_SOLID_ALPHA_MULTIPLIER := 256
    RT64_ATTRIBUTE_SHADOW_ALPHA_MULTIPLIER := 512
    RT64_ATTRIBUTE_DEPTH_BIAS := 1024
    RT64_ATTRIBUTE_SHADOW_RAY_BIAS := 2048
    RT64_ATTRIBUTE_SELF_LIGHT := 4096
    RT64_ATTRIBUTE_LIGHT_GROUP_MASK_BITS := 8192
    RT64_ATTRIBUTE_DIFFUSE_COLOR_MIX := 16384 }

/-- A digest of rational buffers: a polynomial hash of numerators and denominators. -/
def ratDigest (buf : List ℚ) : Nat :=
  buf.foldl (fun h x => (31 * h + 7 * x.num.natAbs + x.den) % SIZE_MOD) 0

/-- External declarations over `ℚ`, with the correctly rounded square root of
`double`. -/
def ratExtern : Extern ℚ := externOf sqrtF64 ratDigest

/-- The identity matrix, as `gfx_rt64_wapi_init` builds it. -/
def identityMatrix : RT64_MATRIX4 α :=
  fun i j => if i = j then 1 else 0

/-- A camera at the origin. -/
def originCamera : RecordedCamera α :=
  { viewMatrix := identityMatrix, invViewMatrix := identityMatrix,
    fovRadians := 1, nearDist := 1, farDist := 1000 }

/-- A state with empty caches, no shader program loaded, two level lights in each
area and 30 frames per second. -/
def emptyState : RT64State α :=
  { lib := { nextHandle := 1, calls := [] }
    defaultMaterial := RT64_MATERIAL.zero
    blankTexture := some 0
    textureHashIdMap := []
    textures := []
    shaderHeap := []
    shaderPrograms := []
    displayLists := []
    lights := List.replicate MAX_LIGHTS RT64_LIGHT.zero
    lightCount := 0
    levelLights := fun _ _ => List.replicate MAX_LEVEL_LIGHTS RT64_LIGHT.zero
    levelLightCounts := fun _ _ => 2
    dynamicLights := List.replicate MAX_DYNAMIC_LIGHTS ⟨RT64_LIGHT.zero, RT64_LIGHT.zero⟩
    dynamicLightCount := 0
    pickTextureNextFrame := false
    pickTextureHighlight := false
    pickedTextureHash := 0
    lastInstanceTextureHashes := []
    geoLayoutMods := []
    graphNodeMods := []
    texNameMap := []
    nameTexMap := []
    texMods := []
    texHashAliasMap := []
    camera := originCamera
    prevCamera := originCamera
    prevCameraValid := false
    identityTransform := identityMatrix
    currentTile := 0
    currentTextureIds := (0, 0)
    shaderProgram := none
    background := false
    fogColor := RT64_VECTOR3.zero
    scissorRect := RT64_RECT.zero
    viewportRect := RT64_RECT.zero
    fogMul := 0
    fogOffset := 0
    graphNodeMod := none
    targetFPS := 30
    turboMode := false
    tempVertexBuffer := []
    tempVertexBufferSize := 0 }

/-- The game variables of the Shifting Sand Land pyramid (level 8, area 2). -/
def pyramidGame : Game α :=
  { levelIndex := 8, areaIndex := 2, marioPos := RT64_VECTOR3.zero, pickedInstance := none }

/-- The game variables of level 1, area 0. -/
def plainGame : Game α :=
  { levelIndex := 1, areaIndex := 0, marioPos := RT64_VECTOR3.zero, pickedInstance := none }

/-- An instance whose previous transform is the identity and whose new transform
mirrors the X axis: the axis (1,0,0) goes to (1,0,0) before and to (-1,0,0) now. -/
def flippedInstance : RecordedInstance α :=
  { (RecordedInstance.zero : RecordedInstance α) with
    instance_ := some 1
    prevTransform := identityMatrix
    newTransform := fun i j => if i = j then (if i = 0 then -1 else 1) else 0
    prevValid := true
    newValid := true }

/-- A material that enables its first two attributes. -/
def shinyMaterial : RT64_MATERIAL α :=
  { (RT64_MATERIAL.zero : RT64_MATERIAL α) with
    ignoreNormalFactor := 1, uvDetailScale := 2, reflectionFactor := 3, enabledAttributes := 3 }

/-- A mod with a material, a light and a normal map, interpolation disabled. -/
def shinyMod : RecordedMod α :=
  { materialMod := some shinyMaterial, lightMod := some RT64_LIGHT.zero, normalMapHash := 77,
    specularMapHash := 0, interpolationEnabled := false }

/-- A mod with a light only. -/
def lampMod : RecordedMod α :=
  { lightMod := some RT64_LIGHT.zero }

/-- The empty state with `shinyMod` for geo layout 100, `lampMod` for geo layout 200,
and an older mod recorded for graph node 7. -/
def modState : RT64State α :=
  { (emptyState : RT64State α) with
    geoLayoutMods := [(100, shinyMod), (200, lampMod)]
    graphNodeMods := [(7, { normalMapHash := 5, specularMapHash := 6 })] }

/-- The empty state after `gfx_rt64_rapi_create_and_load_new_shader(0x200)`: a
shader program with one input and no texture is bound. -/
def loadedState : RT64State ℚ :=
  (gfx_rt64_rapi_create_and_load_new_shader ratExtern emptyState 0x200).2

/-- A vertex buffer of one triangle for the shader `0x200` (ten floats per vertex). -/
def triangleBuffer : List ℚ := List.replicate 30 0

/-- The mesh pointers stored in the slots of the display list of `uid`. -/
def slotMeshes (s : RT64State α) (uid : Nat) : Option (List (Option Handle)) :=
  (mapFind s.displayLists uid).map fun dl => dl.meshes.map fun m => m.mesh

/-- The mesh pointers that `gfx_rt64_rapi_process_mesh` returned for the instances
of the display list of `uid`, as stored in their descriptions. -/
def instanceMeshes (s : RT64State α) (uid : Nat) : Option (List (Option Handle)) :=
  (mapFind s.displayLists uid).map fun dl => dl.instances.map fun i => i.desc.mesh

/-- The calls of `CreateMesh`, `DestroyMesh` and `SetMesh` in the log. -/
def meshCalls (lib : Backend α) : List (BackendCall α) :=
  lib.calls.filter fun c =>
    match c with
    | BackendCall.CreateMesh _ _ => true
    | BackendCall.DestroyMesh _ => true
    | BackendCall.SetMesh _ _ _ _ _ => true
    | _ => false

/-- The triangle of `triangleBuffer`, submitted with ray tracing under identifier 5. -/
def triangleSubmission : Submission ℚ :=
  { transform := identityMatrix, buf_vbo := triangleBuffer, buf_vbo_num_tris := 1,
    double_sided := false, raytrace := true, uid := 5 }

/-- A display list whose only mesh slot holds the mesh 9 with the stored hash of
`triangleBuffer`. -/
def storedDisplayList : RecordedDisplayList ℚ :=
  { (RecordedDisplayList.zero : RecordedDisplayList ℚ) with
    meshes := [{ mesh := some 9, prevVertexBufferHash := ratDigest triangleBuffer,
                 prevVertexBuffer := some triangleBuffer, vertexCount := 3, vertexStride := 40,
                 indexCount := 3, raytrace := true }] }

/-- The shader program that `gfx_rt64_rapi_create_and_load_new_shader(0x200)` makes. -/
def plainProgram : ShaderProgram :=
  { shaderId := 0x200, numInputs := 1, usedTextures0 := false, usedTextures1 := false,
    shaderVariantMap := [] }

/-- A mesh slot with staged buffers for the averaging example: 3 vertices of 8
bytes, that is 6 floats. -/
def stagedMesh : RecordedMesh ℚ :=
  { mesh := some 9, prevVertexBuffer := some [0, 1, 2, 3, 4, 5],
    newVertexBuffer := some [2, 1, 7, -3, 4, 6], newVertexBufferValid := true,
    deltaVertexBuffer := some [0, 0, 0, 0, 0, 0], vertexCount := 3, vertexStride := 8,
    indexCount := 3 }

/-- A display list holding `stagedMesh` only. -/
def stagedDisplayList : RecordedDisplayList ℚ :=
  { (RecordedDisplayList.zero : RecordedDisplayList ℚ) with
    meshes := [stagedMesh], newValid := true, newCount := 1 }

/-- A state whose only display list is `stagedDisplayList`, under identifier 5. -/
def stagedState : RT64State ℚ :=
  { emptyState with displayLists := [(5, stagedDisplayList)] }

/-- The triangle of `triangleBuffer`, submitted with ray tracing under identifier 42. -/
def evictedSubmission : Submission ℚ :=
  { transform := identityMatrix, buf_vbo := triangleBuffer, buf_vbo_num_tris := 1,
    double_sided := false, raytrace := true, uid := 42 }

/-- A staged mesh slot with one vertex of 36 bytes (9 floats): the position moves from
(0, 0, 0) to (100, 5, 0) and no delta has been recorded before. -/
def teleportMesh : RecordedMesh ℚ :=
  { mesh := some 9, prevVertexBuffer := some [0, 0, 0, 1, 2, 3, 4, 0, 0],
    newVertexBuffer := some [100, 5, 0, 2, 2, 3, 4, 0, 0], newVertexBufferValid := true,
    deltaVertexBuffer := some [0, 0, 0, 0, 0, 0, 0, 0, 0], vertexCount := 1,
    vertexStride := 36, indexCount := 3, useTexture := false }

/-- The buffer of `triangleBuffer` with the first position component moved to 100. -/
def movedBuffer : List ℚ := 100 :: List.replicate 29 0

/-- The triangle of `movedBuffer`, submitted with ray tracing under identifier 5. -/
def movedSubmission : Submission ℚ :=
  { transform := identityMatrix, buf_vbo := movedBuffer, buf_vbo_num_tris := 1,
    double_sided := false, raytrace := true, uid := 5 }

/-- A texture mod: it sets the diffuse color mix and the reflection factor, and has a
light. -/
def tintMod : RecordedMod ℚ :=
  { materialMod := some
      { (RT64_MATERIAL.zero : RT64_MATERIAL ℚ) with
        diffuseColorMix := { x := 1 / 4, y := 1 / 4, z := 1 / 4, w := 1 }
        reflectionFactor := 9
        enabledAttributes := 16384 ||| 4 }
    lightMod := some RT64_LIGHT.zero }

/-- A graph node mod: it sets the reflection factor and the specular exponent, and has
a light. -/
def glossMod : RecordedMod ℚ :=
  { materialMod := some
      { (RT64_MATERIAL.zero : RT64_MATERIAL ℚ) with
        reflectionFactor := 5
        specularExponent := 7
        enabledAttributes := 4 ||| 128 }
    lightMod := some RT64_LIGHT.zero }

/-- The empty state after `gfx_rt64_rapi_create_and_load_new_shader(0x205)` (a shader
program with one input that uses texture 0), `gfx_rt64_rapi_new_texture("lava")`,
`gfx_rt64_rapi_select_texture(0, 0)` and `gfx_rt64_rapi_upload_texture`, with `tintMod`
as the mod of the texture and `glossMod` as the current graph node mod. -/
def texturedState : RT64State ℚ :=
  let s := (gfx_rt64_rapi_create_and_load_new_shader ratExtern emptyState 0x205).2
  let s := (gfx_rt64_rapi_new_texture s "lava").2
  let s :=
    match gfx_rt64_rapi_select_texture s 0 0 with
    | Except.ok s => s
    | Except.error _ => s
  let s := gfx_rt64_rapi_upload_texture s 8 8
  { s with
    texMods := [(string_hash (cStringBytes "lava"), tintMod)]
    graphNodeMod := some glossMod }

/-- The state `texturedState` with the highlight of the picked texture "lava" on. -/
def highlightState : RT64State ℚ :=
  { texturedState with
    pickTextureHighlight := true
    pickedTextureHash := string_hash (cStringBytes "lava") }

/-- A vertex buffer of one triangle for the shader `0x205` (twelve floats per vertex). -/
def texturedBuffer : List ℚ := List.replicate 36 0

/-- The shader program that `gfx_rt64_rapi_create_and_load_new_shader(0x205)` makes. -/
def texturedProgram : ShaderProgram :=
  { shaderId := 0x205, numInputs := 1, usedTextures0 := true, usedTextures1 := false,
    shaderVariantMap := [] }

/-- The state `texturedState` with an alias from the hash of "lava" to 11 and an alias
from 11 to 22, a mod for 22 and a mod for the hash of "lava", and none for 11. -/
def aliasState : RT64State ℚ :=
  { texturedState with
    texHashAliasMap := [(string_hash (cStringBytes "lava"), 11), (11, 22)]
    texMods := [(22, tintMod), (string_hash (cStringBytes "lava"), glossMod)] }

/-- A light at (1, 2, 3) with attenuation radius 10, point radius 2 and shadow offset
4. -/
def lanternLight : RT64_LIGHT α :=
  { (RT64_LIGHT.zero : RT64_LIGHT α) with
    position := { x := 1, y := 2, z := 3 }
    attenuationRadius := 10
    pointRadius := 2
    shadowOffset := 4
    groupBits := 1 }

/-- The light `lanternLight` one tick later: moved to (3, 2, 3), with attenuation radius
20. -/
def movedLantern : RT64_LIGHT α :=
  { (lanternLight : RT64_LIGHT α) with
    position := { x := 3, y := 2, z := 3 }
    attenuationRadius := 20 }

/-- The empty state with one dynamic light: `lanternLight` before, `movedLantern` now. -/
def litState : RT64State ℚ :=
  { emptyState with
    dynamicLights :=
      (emptyState : RT64State ℚ).dynamicLights.set 0 ⟨lanternLight, movedLantern⟩
    dynamicLightCount := 1 }

/-- The state `loadedState` at 60 frames per second: two sub-frames per tick, at the
weights 1/2 and 1. -/
def fastState : RT64State ℚ :=
  { loadedState with targetFPS := 60 }

/-- The first float of the vertex buffer of every `SetMesh` call in a list of calls. -/
def setMeshHeads (calls : List (BackendCall α)) : List (Option α) :=
  calls.filterMap fun c =>
    match c with
    | BackendCall.SetMesh _ vertexBuffer _ _ _ => some vertexBuffer[0]?
    | _ => none

/-- A display list with the instance `flippedInstance` and the slot `teleportMesh`, both
drawn in the running tick. -/
def teleportDisplayList : RecordedDisplayList ℚ :=
  { (RecordedDisplayList.zero : RecordedDisplayList ℚ) with
    instances := [flippedInstance], meshes := [teleportMesh], newValid := true, newCount := 1 }

/-- A state whose only display list is `teleportDisplayList`, under identifier 5. -/
def teleportState : RT64State ℚ :=
  { emptyState with displayLists := [(5, teleportDisplayList)] }

/-- A texture mod file with one entry: the texture "lava" has the specular map
"lava_spec" and no normal map. -/
def specularDocument : json ℚ :=
  json.object
    [("textures",
      json.array
        [json.object
          [("name", json.string "lava"),
            ("specularMapMod", json.object [("name", json.string "lava_spec")])]])]

/-- A texture mod file with one entry: the texture "lava" has the normal map
"lava_norm" and no specular map. -/
def normalDocument : json ℚ :=
  json.object
    [("textures",
      json.array
        [json.object
          [("name", json.string "lava"),
            ("normalMapMod", json.object [("name", json.string "lava_norm")])]])]

/-- The empty state with the geo layout "bob" at address 100, whose mod has the specular
map "lava_spec" (a registered name) and no normal map. -/
def geoState : RT64State ℚ :=
  { emptyState with
    nameGeoLayoutMap := [("bob", 100)]
    geoLayoutMods := [(100, { specularMapHash := nameHash "lava_spec" })]
    texNameMap := [(nameHash "lava_spec", "lava_spec")]
    nameTexMap := [("lava_spec", nameHash "lava_spec")] }

/-- Whether element 0 of the array `key` of a saved document has the entry
"specularMapMod", and whether it has the entry "normalMapMod". -/
def savedMapEntries (jroot : json α) (key : String) : List Bool :=
  match (jroot.find? key).bind fun a => a.at? 0 with
  | some e => [(e.find? "specularMapMod").isSome, (e.find? "normalMapMod").isSome]
  | none => []

/-- The normal map hash and the specular map hash of the texture mod of a name. -/
def modMapHashes (s : RT64State α) (name : String) : List Nat :=
  match mapFind s.texMods (nameHash name) with
  | some m => [m.normalMapHash, m.specularMapHash]
  | none => []

end Samples

/-! # Statements and proofs -/

/-! ## Rounding to a binary format -/

section PowerProofs
variable {α : Type} [LinearOrderedField α]

theorem pow2_eq_zpow (e : ℤ) : (pow2 e : α) = (2 : α) ^ e := by
  unfold pow2
  split_ifs with h
  · rw [Nat.cast_pow, Nat.cast_ofNat]
    conv_rhs => rw [← Int.toNat_of_nonneg h]
    rw [zpow_natCast]
  · have h' : 0 ≤ -e := by omega
    rw [Nat.cast_pow, Nat.cast_ofNat, one_div, ← zpow_natCast, Int.toNat_of_nonneg h',
      zpow_neg, inv_inv]

theorem pow2_pos (e : ℤ) : (0 : α) < pow2 e := by
  rw [pow2_eq_zpow]; positivity

theorem pow2_add (a b : ℤ) : (pow2 (a + b) : α) = pow2 a * pow2 b := by
  simp only [pow2_eq_zpow]
  exact zpow_add₀ (by norm_num) a b

theorem pow2_le_pow2 {a b : ℤ} (h : a ≤ b) : (pow2 a : α) ≤ pow2 b := by
  simp only [pow2_eq_zpow]
  exact zpow_le_zpow_right₀ (by norm_num) h

theorem pow2_lt_pow2_iff {a b : ℤ} : (pow2 a : α) < pow2 b ↔ a < b := by
  simp only [pow2_eq_zpow]
  exact zpow_lt_zpow_iff_right₀ (by norm_num)

theorem pow2_natCast (n : ℕ) : (pow2 (n : ℤ) : α) = ((2 ^ n : ℕ) : α) := by
  rw [pow2_eq_zpow, zpow_natCast, Nat.cast_pow, Nat.cast_ofNat]

theorem pow2_natCast_int (n : ℕ) : (pow2 (n : ℤ) : α) = (((2 : ℤ) ^ n : ℤ) : α) := by
  rw [pow2_eq_zpow, zpow_natCast]; push_cast; rfl

theorem log2Aux_spec : ∀ (fuel n : ℕ), n ≤ fuel → n ≠ 0 →
    2 ^ log2Aux fuel n ≤ n ∧ n < 2 ^ (log2Aux fuel n + 1) := by
  intro fuel
  induction fuel with
  | zero => intro n h1 h2; omega
  | succ fuel ih =>
    intro n h1 h2
    unfold log2Aux
    split_ifs with h
    · obtain ⟨a, b⟩ := ih (n / 2) (by omega) (by omega)
      rw [pow_succ, pow_succ]
      rw [pow_succ] at b
      constructor <;> omega
    · have : n = 1 := by omega
      subst this
      simp

theorem log2_spec (n : ℕ) (h : n ≠ 0) : 2 ^ log2 n ≤ n ∧ n < 2 ^ (log2 n + 1) :=
  log2Aux_spec n n le_rfl h

end PowerProofs

section FloatProofs
variable {α : Type} [LinearOrderedField α] [FloorRing α]

theorem roundNearestEven_cases (q : α) :
    roundNearestEven q = ⌊q⌋ ∨ roundNearestEven q = ⌊q⌋ + 1 := by
  unfold roundNearestEven
  simp only
  split_ifs <;> simp

theorem roundNearestEven_sub_le (q : α) : ((roundNearestEven q : ℤ) : α) - q ≤ 1 / 2 := by
  have h1 := Int.floor_le q
  have h2 := Int.lt_floor_add_one q
  unfold roundNearestEven
  simp only
  split_ifs with a b c
  · linarith
  · push_cast; linarith
  · linarith
  · push_cast; linarith

theorem sub_roundNearestEven_le (q : α) : q - ((roundNearestEven q : ℤ) : α) ≤ 1 / 2 := by
  have h1 := Int.floor_le q
  have h2 := Int.lt_floor_add_one q
  unfold roundNearestEven
  simp only
  split_ifs with a b c
  · linarith
  · push_cast; linarith
  · linarith
  · push_cast; linarith

theorem roundNearestEven_intCast (k : ℤ) : roundNearestEven (k : α) = k := by
  unfold roundNearestEven
  simp

theorem roundNearestEven_mono {q q' : α} (h : q ≤ q') :
    roundNearestEven q ≤ roundNearestEven q' := by
  have hf : ⌊q⌋ ≤ ⌊q'⌋ := Int.floor_le_floor h
  rcases lt_or_eq_of_le hf with hlt | heq
  · rcases roundNearestEven_cases q with h1 | h1 <;>
      rcases roundNearestEven_cases q' with h2 | h2 <;> omega
  · unfold roundNearestEven
    simp only
    rw [← heq]
    split_ifs <;> first | omega | (exfalso; linarith)

theorem roundNearestEven_neg (q : α) : roundNearestEven (-q) = -roundNearestEven q := by
  by_cases hq : (⌊q⌋ : α) = q
  · rw [← hq, ← Int.cast_neg, roundNearestEven_intCast, roundNearestEven_intCast]
  · have h1 := Int.floor_le q
    have h2 := Int.lt_floor_add_one q
    have hlt : (⌊q⌋ : α) < q := lt_of_le_of_ne h1 hq
    have hfl : ⌊-q⌋ = -⌊q⌋ - 1 := by
      rw [Int.floor_eq_iff]
      push_cast
      constructor <;> linarith
    unfold roundNearestEven
    simp only
    rw [hfl]
    push_cast
    split_ifs <;> first | omega | (exfalso; linarith)

theorem ilog2_spec (x : α) (hx : 0 < x) :
    (pow2 (ilog2 x) : α) ≤ x ∧ x < pow2 (ilog2 x + 1) := by
  unfold ilog2
  split_ifs with h
  · have hn : ⌊x⌋₊ ≠ 0 := by
      have : 0 < ⌊x⌋₊ := Nat.floor_pos.mpr h
      omega
    obtain ⟨a, b⟩ := log2_spec _ hn
    have e1 : ((log2 ⌊x⌋₊ : ℕ) : ℤ) + 1 = ((log2 ⌊x⌋₊ + 1 : ℕ) : ℤ) := by push_cast; rfl
    rw [e1, pow2_natCast, pow2_natCast]
    constructor
    · exact le_trans (Nat.cast_le.mpr a) (Nat.floor_le hx.le)
    · have := Nat.lt_floor_add_one x
      have b' : ((⌊x⌋₊ + 1 : ℕ) : α) ≤ ((2 ^ (log2 ⌊x⌋₊ + 1) : ℕ) : α) := Nat.cast_le.mpr b
      push_cast at b' ⊢
      linarith
  · push_neg at h
    have hinv : 1 < x⁻¹ := (one_lt_inv₀ hx).mpr h
    set m := ⌈x⁻¹⌉₊ with hm
    have hm2 : 2 ≤ m := by
      have : 1 < m := Nat.lt_ceil.mpr (by exact_mod_cast hinv)
      omega
    obtain ⟨a, b⟩ := log2_spec (m - 1) (by omega)
    set k := log2 (m - 1) with hk
    have hle : x⁻¹ ≤ ((2 ^ (k + 1) : ℕ) : α) := by
      have h1 : x⁻¹ ≤ (m : α) := Nat.le_ceil _
      have h2 : (m : α) ≤ ((2 ^ (k + 1) : ℕ) : α) := Nat.cast_le.mpr (by omega)
      exact le_trans h1 h2
    have hgt : ((2 ^ k : ℕ) : α) < x⁻¹ := by
      have h1 : ((m - 1 : ℕ) : α) < x⁻¹ := Nat.lt_ceil.mp (by omega)
      exact lt_of_le_of_lt (Nat.cast_le.mpr a) h1
    have hp1 : (0 : α) < ((2 ^ (k + 1) : ℕ) : α) := by positivity
    have hp0 : (0 : α) < ((2 ^ k : ℕ) : α) := by positivity
    have e0 : (pow2 (-(((k + 1 : ℕ)) : ℤ)) : α) = (((2 ^ (k + 1) : ℕ) : α))⁻¹ := by
      rw [pow2_eq_zpow, zpow_neg, zpow_natCast, Nat.cast_pow, Nat.cast_ofNat]
    have e1 : (pow2 (-(((k + 1 : ℕ)) : ℤ) + 1) : α) = (((2 ^ k : ℕ) : α))⁻¹ := by
      have : -(((k + 1 : ℕ)) : ℤ) + 1 = -((k : ℕ) : ℤ) := by push_cast; ring
      rw [this, pow2_eq_zpow, zpow_neg, zpow_natCast, Nat.cast_pow, Nat.cast_ofNat]
    rw [e0, e1]
    constructor
    · rw [inv_le_comm₀ hp1 hx]
      exact hle
    · rw [lt_inv_comm₀ hx hp0]
      exact hgt

theorem ilog2_unique (x : α) (E : ℤ) (h1 : pow2 E ≤ x) (h2 : x < pow2 (E + 1)) :
    ilog2 x = E := by
  have hx : 0 < x := lt_of_lt_of_le (pow2_pos E) h1
  obtain ⟨a, b⟩ := ilog2_spec x hx
  have c1 : (pow2 (ilog2 x) : α) < pow2 (E + 1) := lt_of_le_of_lt a h2
  have c2 : (pow2 E : α) < pow2 (ilog2 x + 1) := lt_of_le_of_lt h1 b
  rw [pow2_lt_pow2_iff] at c1 c2
  omega

theorem ilog2_mono {x y : α} (hx : 0 < x) (h : x ≤ y) : ilog2 x ≤ ilog2 y := by
  obtain ⟨a, _⟩ := ilog2_spec x hx
  obtain ⟨_, b⟩ := ilog2_spec y (lt_of_lt_of_le hx h)
  have c : (pow2 (ilog2 x) : α) < pow2 (ilog2 y + 1) := lt_of_le_of_lt (le_trans a h) b
  rw [pow2_lt_pow2_iff] at c
  omega

theorem ilog2_lt_of_lt {x : α} (hx : 0 < x) {E : ℤ} (h : x < pow2 E) : ilog2 x < E := by
  obtain ⟨a, _⟩ := ilog2_spec x hx
  have c : (pow2 (ilog2 x) : α) < pow2 E := lt_of_le_of_lt a h
  rwa [pow2_lt_pow2_iff] at c

theorem le_ilog2_of_le {x : α} {E : ℤ} (h : pow2 E ≤ x) : E ≤ ilog2 x := by
  have hx : 0 < x := lt_of_lt_of_le (pow2_pos E) h
  obtain ⟨_, b⟩ := ilog2_spec x hx
  have c : (pow2 E : α) < pow2 (ilog2 x + 1) := lt_of_le_of_lt h b
  rw [pow2_lt_pow2_iff] at c
  omega

theorem roundNearestEven_le_of_le {q : α} {N : ℤ} (h : q ≤ (N : α)) :
    roundNearestEven q ≤ N := by
  have := roundNearestEven_mono h
  rwa [roundNearestEven_intCast] at this

theorem le_roundNearestEven_of_le {q : α} {N : ℤ} (h : (N : α) ≤ q) :
    N ≤ roundNearestEven q := by
  have := roundNearestEven_mono h
  rwa [roundNearestEven_intCast] at this

theorem roundFloat_eq (prec : ℕ) (emin : ℤ) (x : α) :
    roundFloat prec emin x =
      (roundNearestEven (x / pow2 (ulpExponent prec emin x)) : α) *
        pow2 (ulpExponent prec emin x) := by
  unfold roundFloat
  split_ifs with h
  · subst h
    have : roundNearestEven ((0 : α) / pow2 (ulpExponent prec emin (0 : α))) = 0 := by
      rw [zero_div]
      have := roundNearestEven_intCast (0 : ℤ) (α := α)
      simpa using this
    rw [this]; simp
  · rfl

theorem ulpExponent_neg (prec : ℕ) (emin : ℤ) (x : α) :
    ulpExponent prec emin (-x) = ulpExponent prec emin x := by
  unfold ulpExponent; rw [abs_neg]

theorem roundFloat_zero (prec : ℕ) (emin : ℤ) : roundFloat prec emin (0 : α) = 0 := by
  unfold roundFloat; simp

theorem roundFloat_neg (prec : ℕ) (emin : ℤ) (x : α) :
    roundFloat prec emin (-x) = -roundFloat prec emin x := by
  rw [roundFloat_eq, roundFloat_eq, ulpExponent_neg, neg_div, roundNearestEven_neg]
  push_cast; ring

theorem roundFloat_nonneg (prec : ℕ) (emin : ℤ) {x : α} (hx : 0 ≤ x) :
    0 ≤ roundFloat prec emin x := by
  rw [roundFloat_eq]
  apply mul_nonneg _ (pow2_pos _).le
  have h0 : ((0 : ℤ) : α) ≤ x / pow2 (ulpExponent prec emin x) := by
    simpa using div_nonneg hx (pow2_pos _).le
  exact_mod_cast le_roundNearestEven_of_le h0

theorem ulpExponent_ge (prec : ℕ) (emin : ℤ) (x : α) : emin ≤ ulpExponent prec emin x :=
  le_max_right _ _

theorem div_ulp_lt (prec : ℕ) (emin : ℤ) {x : α} (hx : 0 < x) :
    x / pow2 (ulpExponent prec emin x) < pow2 (prec : ℤ) := by
  rw [div_lt_iff₀ (pow2_pos _), ← pow2_add]
  obtain ⟨_, b⟩ := ilog2_spec x hx
  refine lt_of_lt_of_le b (pow2_le_pow2 ?_)
  have : ilog2 |x| - ((prec : ℤ) - 1) ≤ ulpExponent prec emin x := le_max_left _ _
  rw [abs_of_pos hx] at this
  omega

theorem roundFloat_le_pow2 (prec : ℕ) (emin : ℤ) {x : α} (hx : 0 < x) :
    roundFloat prec emin x ≤ pow2 ((prec : ℤ) + ulpExponent prec emin x) := by
  rw [roundFloat_eq, pow2_add]
  apply mul_le_mul_of_nonneg_right _ (pow2_pos _).le
  rw [pow2_natCast_int]
  have h := (div_ulp_lt prec emin hx).le
  rw [pow2_natCast_int] at h
  exact_mod_cast roundNearestEven_le_of_le h

theorem pow2_le_roundFloat (prec : ℕ) (emin : ℤ) {x : α} (hx : 0 < x)
    (he : ulpExponent prec emin x ≤ ilog2 x) : pow2 (ilog2 x) ≤ roundFloat prec emin x := by
  rw [roundFloat_eq]
  obtain ⟨n, hn⟩ := Int.eq_ofNat_of_zero_le (sub_nonneg.mpr he)
  have e1 : ilog2 x = (n : ℤ) + ulpExponent prec emin x := by omega
  conv_lhs => rw [e1, pow2_add]
  apply mul_le_mul_of_nonneg_right _ (pow2_pos _).le
  rw [pow2_natCast_int]
  have h : (((2 : ℤ) ^ n : ℤ) : α) ≤ x / pow2 (ulpExponent prec emin x) := by
    rw [← pow2_natCast_int, le_div_iff₀ (pow2_pos _), ← pow2_add, ← e1]
    exact (ilog2_spec x hx).1
  exact_mod_cast le_roundNearestEven_of_le h

theorem roundFloat_mono_pos (prec : ℕ) (hprec : 1 ≤ prec) (emin : ℤ) {x y : α} (hx : 0 < x)
    (h : x ≤ y) :
    roundFloat prec emin x ≤ roundFloat prec emin y := by
  have hy := lt_of_lt_of_le hx h
  have hlog := ilog2_mono hx h
  have hexy : ulpExponent prec emin x ≤ ulpExponent prec emin y := by
    unfold ulpExponent
    rw [abs_of_pos hx, abs_of_pos hy]
    exact max_le_max (by omega) le_rfl
  rcases lt_or_eq_of_le hexy with hlt | heq
  · have hey : ulpExponent prec emin y = ilog2 y - ((prec : ℤ) - 1) := by
      have h1 := ulpExponent_ge prec emin x
      unfold ulpExponent at hlt ⊢
      rw [abs_of_pos hy] at hlt ⊢
      rcases max_cases (ilog2 y - ((prec : ℤ) - 1)) emin with ⟨a, _⟩ | ⟨a, _⟩
      · exact a
      · rw [a] at hlt; unfold ulpExponent at h1; omega
    refine le_trans (roundFloat_le_pow2 prec emin hx) ?_
    refine le_trans (pow2_le_pow2 ?_) (pow2_le_roundFloat prec emin hy ?_)
    · omega
    · omega
  · rw [roundFloat_eq, roundFloat_eq, heq]
    apply mul_le_mul_of_nonneg_right _ (pow2_pos _).le
    exact_mod_cast roundNearestEven_mono (div_le_div_of_nonneg_right h (pow2_pos _).le)

theorem roundFloat_mono (prec : ℕ) (hprec : 1 ≤ prec) (emin : ℤ) {x y : α} (h : x ≤ y) :
    roundFloat prec emin x ≤ roundFloat prec emin y := by
  rcases lt_trichotomy 0 x with hx | hx | hx
  · exact roundFloat_mono_pos prec hprec emin hx h
  · subst hx
    rw [roundFloat_zero]
    exact roundFloat_nonneg prec emin h
  · rcases lt_or_le y 0 with hy | hy
    · have := roundFloat_mono_pos prec hprec emin (neg_pos.mpr hy) (neg_le_neg h)
      rw [roundFloat_neg, roundFloat_neg] at this
      linarith
    · have h1 := roundFloat_nonneg prec emin hy
      have h2 := roundFloat_nonneg prec emin (neg_nonneg.mpr hx.le)
      rw [roundFloat_neg] at h2
      linarith

theorem ulpExponent_of_binade (prec : ℕ) (emin : ℤ) (x : α) (E : ℤ) (h1 : pow2 E ≤ |x|)
    (h2 : |x| < pow2 (E + 1)) (hE : emin ≤ E - ((prec : ℤ) - 1)) :
    ulpExponent prec emin x = E - ((prec : ℤ) - 1) := by
  unfold ulpExponent
  rw [ilog2_unique |x| E h1 h2]
  exact max_eq_left hE

theorem roundFloat_of_binade (prec : ℕ) (emin : ℤ) (x : α) (E : ℤ) (h1 : pow2 E ≤ |x|)
    (h2 : |x| < pow2 (E + 1)) (hE : emin ≤ E - ((prec : ℤ) - 1)) :
    roundFloat prec emin x =
      (roundNearestEven (x / pow2 (E - ((prec : ℤ) - 1))) : α) *
        pow2 (E - ((prec : ℤ) - 1)) := by
  rw [roundFloat_eq, ulpExponent_of_binade prec emin x E h1 h2 hE]

theorem roundFloat_of_int_mul_pow2 (prec : ℕ) (emin : ℤ) (k j : ℤ) (hk : |k| < 2 ^ prec)
    (hj : emin ≤ j) :
    roundFloat prec emin ((k : α) * pow2 j) = (k : α) * pow2 j := by
  by_cases hk0 : k = 0
  · subst hk0; simp [roundFloat_zero]
  have hx : (0 : α) < |(k : α) * pow2 j| :=
    abs_pos.mpr (mul_ne_zero (Int.cast_ne_zero.mpr hk0) (pow2_pos j).ne')
  have hlt : |(k : α) * pow2 j| < pow2 ((prec : ℤ) + j) := by
    rw [abs_mul, abs_of_pos (pow2_pos j : (0 : α) < pow2 j), pow2_add, pow2_natCast_int]
    apply mul_lt_mul_of_pos_right _ (pow2_pos j)
    rw [← Int.cast_abs]
    exact_mod_cast hk
  have hlog := ilog2_lt_of_lt hx hlt
  have he : ulpExponent prec emin ((k : α) * pow2 j) ≤ j := by
    unfold ulpExponent
    exact max_le (by omega) hj
  rw [roundFloat_eq]
  generalize ulpExponent prec emin ((k : α) * pow2 j) = e at he
  obtain ⟨n, hn⟩ := Int.eq_ofNat_of_zero_le (sub_nonneg.mpr he)
  have hpow : (pow2 j : α) = (((2 : ℤ) ^ n : ℤ) : α) * pow2 e := by
    rw [← pow2_natCast_int, ← pow2_add]
    congr 1; omega
  have hq : (k : α) * pow2 j / pow2 e = ((k * 2 ^ n : ℤ) : α) := by
    rw [div_eq_iff (pow2_pos _).ne', hpow]
    push_cast; ring
  rw [hq, roundNearestEven_intCast, ← hq, div_mul_cancel₀ _ (pow2_pos _).ne']

theorem roundFloat_representable (prec : ℕ) (hprec : 1 ≤ prec) (emin : ℤ) (x : α) :
    ∃ k j : ℤ, |k| < 2 ^ prec ∧ emin ≤ j ∧ roundFloat prec emin x = (k : α) * pow2 j := by
  have hpos : ∀ y : α, 0 < y →
      ∃ k j : ℤ, 0 ≤ k ∧ k < 2 ^ prec ∧ emin ≤ j ∧ roundFloat prec emin y = (k : α) * pow2 j := by
    intro y hy
    have hn0 : (0 : ℤ) ≤ roundNearestEven (y / pow2 (ulpExponent prec emin y)) := by
      apply le_roundNearestEven_of_le
      simpa using div_nonneg hy.le (pow2_pos _).le
    have hn1 : roundNearestEven (y / pow2 (ulpExponent prec emin y)) ≤ 2 ^ prec := by
      apply roundNearestEven_le_of_le
      have h := (div_ulp_lt prec emin hy).le
      rwa [pow2_natCast_int] at h
    have hge := ulpExponent_ge prec emin y
    rcases lt_or_eq_of_le hn1 with hlt | heq
    · exact ⟨_, _, hn0, hlt, hge, roundFloat_eq prec emin y⟩
    · refine ⟨2 ^ (prec - 1), ulpExponent prec emin y + 1, by positivity, ?_, by omega, ?_⟩
      · exact pow_lt_pow_right₀ (by norm_num) (by omega)
      · rw [roundFloat_eq, heq, pow2_add]
        have e2 : (pow2 1 : α) = 2 := by rw [pow2_eq_zpow]; norm_num
        rw [e2]
        have e3 : (2 : ℤ) ^ prec = 2 ^ (prec - 1) * 2 := by
          rw [← pow_succ]; congr 1; omega
        rw [e3]; push_cast; ring
  rcases lt_trichotomy 0 x with hx | hx | hx
  · obtain ⟨k, j, h0, h1, h2, h3⟩ := hpos x hx
    exact ⟨k, j, by rw [abs_of_nonneg h0]; exact h1, h2, h3⟩
  · subst hx
    exact ⟨0, emin, by simp, le_rfl, by simp [roundFloat_zero]⟩
  · obtain ⟨k, j, h0, h1, h2, h3⟩ := hpos (-x) (neg_pos.mpr hx)
    refine ⟨-k, j, by rw [abs_neg, abs_of_nonneg h0]; exact h1, h2, ?_⟩
    rw [roundFloat_neg] at h3
    push_cast
    linarith

theorem roundFloat_idem (prec : ℕ) (hprec : 1 ≤ prec) (emin : ℤ) (x : α) :
    roundFloat prec emin (roundFloat prec emin x) = roundFloat prec emin x := by
  obtain ⟨k, j, h1, h2, h3⟩ := roundFloat_representable prec hprec emin x
  rw [h3]
  exact roundFloat_of_int_mul_pow2 prec emin k j h1 h2

theorem abs_roundFloat_sub_le (prec : ℕ) (emin : ℤ) (x : α) :
    |roundFloat prec emin x - x| ≤ pow2 (ulpExponent prec emin x) / 2 := by
  rw [roundFloat_eq]
  have hp : (0 : α) < pow2 (ulpExponent prec emin x) := pow2_pos _
  generalize (pow2 (ulpExponent prec emin x) : α) = u at hp ⊢
  have h1 := roundNearestEven_sub_le (x / u)
  have h2 := sub_roundNearestEven_le (x / u)
  have e : ((roundNearestEven (x / u) : ℤ) : α) * u - x =
      (((roundNearestEven (x / u) : ℤ) : α) - x / u) * u := by
    field_simp
  rw [e, abs_mul, abs_of_pos hp]
  have : |((roundNearestEven (x / u) : ℤ) : α) - x / u| ≤ 1 / 2 := by
    rw [abs_le]; constructor <;> linarith
  calc |((roundNearestEven (x / u) : ℤ) : α) - x / u| * u ≤ 1 / 2 * u :=
        mul_le_mul_of_nonneg_right this hp.le
    _ = u / 2 := by ring

theorem abs_roundFloat_sub_le_mul (prec : ℕ) (emin : ℤ) (x : α)
    (hx : pow2 (emin + ((prec : ℤ) - 1)) ≤ |x|) :
    |roundFloat prec emin x - x| ≤ |x| * pow2 (-(prec : ℤ)) := by
  refine le_trans (abs_roundFloat_sub_le prec emin x) ?_
  have hlog := le_ilog2_of_le hx
  have he : ulpExponent prec emin x = ilog2 |x| - ((prec : ℤ) - 1) := by
    unfold ulpExponent
    exact max_eq_left (by omega)
  have hpos : (0 : α) < |x| := lt_of_lt_of_le (pow2_pos _) hx
  have e1 : (pow2 (ulpExponent prec emin x) : α) / 2 = pow2 (ilog2 |x|) * pow2 (-(prec : ℤ)) := by
    rw [he, ← pow2_add]
    have e2 : ilog2 |x| - ((prec : ℤ) - 1) = (ilog2 |x| + -(prec : ℤ)) + 1 := by ring
    rw [e2, pow2_add (ilog2 |x| + -(prec : ℤ)) 1]
    have e3 : (pow2 1 : α) = 2 := by rw [pow2_eq_zpow]; norm_num
    rw [e3]; ring
  rw [e1]
  exact mul_le_mul_of_nonneg_right (ilog2_spec |x| hpos).1 (pow2_pos _).le

theorem roundF32_mono {x y : α} (h : x ≤ y) : roundF32 x ≤ roundF32 y :=
  roundFloat_mono 24 (by norm_num) (-149) h

theorem roundF32_idem (x : α) : roundF32 (roundF32 x) = roundF32 x :=
  roundFloat_idem 24 (by norm_num) (-149) x

theorem roundF32_zero : roundF32 (0 : α) = 0 :=
  roundFloat_zero 24 (-149)

theorem roundF32_nonneg {x : α} (hx : 0 ≤ x) : 0 ≤ roundF32 x :=
  roundFloat_nonneg 24 (-149) hx

theorem isF32_roundF32 (x : α) : IsF32 (roundF32 x) :=
  roundF32_idem x

theorem isF32_mulF32 (a b : α) : IsF32 (mulF32 a b) :=
  roundF32_idem _

theorem isF32_divF32 (a b : α) : IsF32 (divF32 a b) :=
  roundF32_idem _

/-- Numbers `k * 2 ^ j` with `|k| < 2 ^ 24` and `j ≥ -149` are `float`s. -/
theorem isF32_int_mul_pow2 (k j : ℤ) (hk : |k| < 2 ^ 24) (hj : -149 ≤ j) :
    IsF32 ((k : α) * pow2 j) :=
  roundFloat_of_int_mul_pow2 24 (-149) k j hk hj

/-- Integers below `2 ^ 24` in absolute value are `float`s. -/
theorem isF32_intCast (k : ℤ) (hk : |k| < 2 ^ 24) : IsF32 (k : α) := by
  have h := isF32_int_mul_pow2 (α := α) k 0 hk (by norm_num)
  have e : (pow2 0 : α) = 1 := by rw [pow2_eq_zpow]; simp
  rwa [e, mul_one] at h

/-- A `float` of the binade `[2 ^ E, 2 ^ (E + 1))` is a multiple of `2 ^ (E - 23)`. -/
theorem isF32_grid {x : α} (h : IsF32 x) (E : ℤ) (h1 : pow2 E ≤ |x|) (h2 : |x| < pow2 (E + 1))
    (hE : -126 ≤ E) : ∃ n : ℤ, x = (n : α) * pow2 (E - 23) := by
  have := roundFloat_of_binade 24 (-149) x E h1 h2 (by push_cast; omega)
  unfold IsF32 roundF32 at h
  rw [this] at h
  have e : E - (((24 : ℕ) : ℤ) - 1) = E - 23 := by push_cast; ring
  rw [e] at h
  exact ⟨_, h.symm⟩

/-- An even integer is the rounding of every number at most 1/2 away from it. -/
theorem roundNearestEven_eq_of_even (q : α) (N : ℤ) (hN : N % 2 = 0)
    (h1 : (N : α) - 1 / 2 ≤ q) (h2 : q ≤ (N : α) + 1 / 2) : roundNearestEven q = N := by
  rcases lt_or_le q (N : α) with hlt | hge
  · have hf : ⌊q⌋ = N - 1 := by
      rw [Int.floor_eq_iff]
      push_cast
      constructor <;> linarith
    unfold roundNearestEven
    simp only
    rw [hf]
    push_cast
    split_ifs <;> first | omega | (exfalso; linarith)
  · rcases lt_or_eq_of_le h2 with h3 | h3
    · have hf : ⌊q⌋ = N := by
        rw [Int.floor_eq_iff]
        constructor <;> linarith
      unfold roundNearestEven
      simp only
      rw [hf]
      split_ifs <;> first | omega | (exfalso; linarith)
    · have hf : ⌊q⌋ = N := by
        rw [Int.floor_eq_iff]
        constructor <;> linarith
      unfold roundNearestEven
      simp only
      rw [hf]
      split_ifs <;> first | omega | (exfalso; linarith)

/-- The error of rounding a number below 2 in absolute value is at most `2 ^ (-24)`. -/
theorem abs_roundF32_sub_le_of_lt_two (x : α) (hx : |x| < 2) :
    |roundF32 x - x| ≤ 1 / 16777216 := by
  by_cases h0 : x = 0
  · subst h0; rw [roundF32_zero]; norm_num
  have hpos : 0 < |x| := abs_pos.mpr h0
  have e2 : (pow2 1 : α) = 2 := by rw [pow2_eq_zpow]; norm_num
  have hlog : ilog2 |x| < 1 := ilog2_lt_of_lt hpos (by rw [e2]; exact hx)
  have he : ulpExponent 24 (-149) x ≤ -23 := by
    unfold ulpExponent
    apply max_le
    · push_cast; omega
    · norm_num
  have h1 := abs_roundFloat_sub_le 24 (-149) x
  have h2 : (pow2 (ulpExponent 24 (-149) x) : α) ≤ pow2 (-23) := pow2_le_pow2 he
  have e3 : (pow2 (-23) : α) = 1 / 8388608 := by rw [pow2_eq_zpow]; norm_num
  rw [e3] at h2
  unfold roundF32
  linarith

/-- The relative error of rounding a number of the normal range is at most
`2 ^ (-24)`. -/
theorem abs_roundF32_sub_le_mul (x : α) (hx : 1 / 2 ^ 126 ≤ |x|) :
    |roundF32 x - x| ≤ |x| * (1 / 16777216) := by
  have e1 : (pow2 (-149 + (((24 : ℕ) : ℤ) - 1)) : α) = 1 / 2 ^ 126 := by
    rw [pow2_eq_zpow]; norm_num
  have e2 : (pow2 (-((24 : ℕ) : ℤ)) : α) = 1 / 16777216 := by
    rw [pow2_eq_zpow]; norm_num
  have := abs_roundFloat_sub_le_mul 24 (-149) x (by rw [e1]; exact hx)
  rw [e2] at this
  exact this

theorem roundF32_one : roundF32 (1 : α) = 1 := by
  have := isF32_intCast (α := α) 1 (by norm_num)
  simpa [IsF32] using this

/-- The number `1 + 2 ^ (-24)`, halfway between 1 and the next `float`, rounds to 1. -/
theorem roundF32_one_add_half_ulp : roundF32 ((1 : α) + 1 / 16777216) = 1 := by
  have e0 : (pow2 0 : α) = 1 := by rw [pow2_eq_zpow]; norm_num
  have e1 : (pow2 (0 + 1) : α) = 2 := by rw [pow2_eq_zpow]; norm_num
  have eu : (pow2 (0 - (((24 : ℕ) : ℤ) - 1)) : α) = 1 / 8388608 := by
    rw [pow2_eq_zpow]; norm_num
  have hx : (0 : α) < 1 + 1 / 16777216 := by norm_num
  have := roundFloat_of_binade 24 (-149) ((1 : α) + 1 / 16777216) 0
    (by rw [e0, abs_of_pos hx]; norm_num) (by rw [e1, abs_of_pos hx]; norm_num) (by norm_num)
  unfold roundF32
  rw [this, eu]
  have hq : roundNearestEven (((1 : α) + 1 / 16777216) / (1 / 8388608)) = 8388608 := by
    apply roundNearestEven_eq_of_even _ _ (by norm_num)
    · rw [le_div_iff₀ (by norm_num)]; push_cast; norm_num
    · rw [div_le_iff₀ (by norm_num)]; push_cast; norm_num
  rw [hq]
  push_cast
  norm_num

/-- Natural numbers up to `2 ^ 24` are `float`s. -/
theorem roundF32_natCast (k : ℕ) (hk : k < 2 ^ 24) : roundF32 (k : α) = k := by
  have := isF32_intCast (α := α) (k : ℤ) (by rw [abs_of_nonneg (by positivity)]; exact_mod_cast hk)
  simpa [IsF32] using this

theorem one_le_roundF32_natCast (k : ℕ) (hk : 1 ≤ k) : 1 ≤ roundF32 (k : α) := by
  have h : (1 : α) ≤ (k : α) := by exact_mod_cast hk
  have := roundF32_mono h
  rwa [roundF32_one] at this

/-- A count `c` between 1 and `2 ^ 32`: its `float`, and the `float` quotient
`1.0f / c`. -/
theorem weightPerFrame_bounds (c : ℕ) (h1 : 1 ≤ c) (h2 : c < 2 ^ 32) :
    1 ≤ roundF32 (c : α) ∧
    0 < divF32 1 (roundF32 (c : α)) ∧
    1 - 1 / 16777216 ≤ roundF32 (c : α) * divF32 1 (roundF32 (c : α)) ∧
    roundF32 (c : α) * divF32 1 (roundF32 (c : α)) ≤ 1 + 1 / 16777216 := by
  have hC1 := one_le_roundF32_natCast (α := α) c h1
  have hC2 : roundF32 (c : α) ≤ 2 ^ 32 := by
    have h : (c : α) ≤ ((2 ^ 32 : ℕ) : α) := by exact_mod_cast h2.le
    have := roundF32_mono h
    have e : roundF32 (((2 ^ 32 : ℕ) : α)) = ((2 ^ 32 : ℕ) : α) := by
      have := isF32_int_mul_pow2 (α := α) 1 32 (by norm_num) (by norm_num)
      have e1 : (pow2 32 : α) = ((2 ^ 32 : ℕ) : α) := by rw [pow2_eq_zpow]; norm_num
      unfold IsF32 at this
      rw [Int.cast_one, one_mul, e1] at this
      exact this
    rw [e] at this
    exact_mod_cast this
  set C := roundF32 (c : α) with hC
  have hCpos : (0 : α) < C := by linarith
  have hinv_pos : (0 : α) < 1 / C := by positivity
  have hinv_ge : (1 : α) / 2 ^ 126 ≤ |1 / C| := by
    rw [abs_of_pos hinv_pos]
    apply one_div_le_one_div_of_le hCpos
    calc C ≤ 2 ^ 32 := hC2
      _ ≤ 2 ^ 126 := by norm_num
  have herr := abs_roundF32_sub_le_mul (1 / C) hinv_ge
  rw [abs_of_pos hinv_pos, abs_le] at herr
  obtain ⟨e1, e2⟩ := herr
  have hw : divF32 1 C = roundF32 (1 / C) := rfl
  rw [hw]
  have hmul : C * (1 / C) = 1 := by field_simp
  refine ⟨hC1, ?_, ?_, ?_⟩
  · have : (0 : α) < 1 / C * (1 - 1 / 16777216) := by
      apply mul_pos hinv_pos; norm_num
    linarith
  · have : C * roundF32 (1 / C) ≥ C * (1 / C - 1 / C * (1 / 16777216)) := by
      apply mul_le_mul_of_nonneg_left _ hCpos.le
      linarith
    have e3 : C * (1 / C - 1 / C * (1 / 16777216)) = C * (1 / C) * (1 - 1 / 16777216) := by ring
    rw [e3, hmul] at this
    linarith
  · have : C * roundF32 (1 / C) ≤ C * (1 / C + 1 / C * (1 / 16777216)) := by
      apply mul_le_mul_of_nonneg_left _ hCpos.le
      linarith
    have e3 : C * (1 / C + 1 / C * (1 / 16777216)) = C * (1 / C) * (1 + 1 / 16777216) := by ring
    rw [e3, hmul] at this
    linarith

end FloatProofs

/-! ## Dynamic light capacity -/

section LightProofs
variable {α : Type} [LinearOrderedField α] [FloorRing α]

theorem MAX_DYNAMIC_LIGHTS_eq : MAX_DYNAMIC_LIGHTS = 384 := by decide

theorem add_light_some (ext : Extern α) (s : RT64State α) (l : RT64_LIGHT α)
    (p n : RT64_MATRIX4 α) (h : s.dynamicLightCount < MAX_DYNAMIC_LIGHTS) :
    ∃ s', gfx_rt64_add_light ext s l p n = some s' ∧
      s'.dynamicLightCount = s.dynamicLightCount + 1 ∧
      s'.dynamicLights = s.dynamicLights.set s.dynamicLightCount
        ⟨configureLight ext l p, configureLight ext l n⟩ := by
  simp only [gfx_rt64_add_light, if_pos h]
  refine ⟨_, rfl, ?_, rfl⟩
  show (s.dynamicLightCount + 1) % UINT_MOD = s.dynamicLightCount + 1
  apply Nat.mod_eq_of_lt
  have : MAX_DYNAMIC_LIGHTS = 384 := MAX_DYNAMIC_LIGHTS_eq
  have : UINT_MOD = 4294967296 := by decide
  omega

theorem add_light_none (ext : Extern α) (s : RT64State α) (l : RT64_LIGHT α)
    (p n : RT64_MATRIX4 α) (h : MAX_DYNAMIC_LIGHTS ≤ s.dynamicLightCount) :
    gfx_rt64_add_light ext s l p n = none := by
  simp only [gfx_rt64_add_light, if_neg (Nat.not_lt.mpr h)]

theorem addLights_some (ext : Extern α)
    (ls : List (RT64_LIGHT α × RT64_MATRIX4 α × RT64_MATRIX4 α)) :
    ∀ s : RT64State α, s.dynamicLightCount + ls.length ≤ MAX_DYNAMIC_LIGHTS →
      ∃ s', addLights ext s ls = some s' ∧
        s'.dynamicLightCount = s.dynamicLightCount + ls.length := by
  induction ls with
  | nil => intro s _; exact ⟨s, rfl, rfl⟩
  | cons x rest ih =>
    intro s h
    obtain ⟨l, p, n⟩ := x
    simp only [List.length_cons] at h
    obtain ⟨s1, h1, hc, _⟩ := add_light_some ext s l p n (by omega)
    obtain ⟨s2, h2, hc2⟩ := ih s1 (by omega)
    refine ⟨s2, ?_, ?_⟩
    · simp only [addLights, h1, h2]
    · simp only [List.length_cons]; omega

theorem addLights_none (ext : Extern α)
    (ls : List (RT64_LIGHT α × RT64_MATRIX4 α × RT64_MATRIX4 α)) :
    ∀ s : RT64State α, s.dynamicLightCount ≤ MAX_DYNAMIC_LIGHTS →
      MAX_DYNAMIC_LIGHTS < s.dynamicLightCount + ls.length →
      addLights ext s ls = none := by
  induction ls with
  | nil => intro s h1 h2; simp only [List.length_nil] at h2; omega
  | cons x rest ih =>
    intro s h1 h2
    obtain ⟨l, p, n⟩ := x
    simp only [List.length_cons] at h2
    by_cases hlt : s.dynamicLightCount < MAX_DYNAMIC_LIGHTS
    · obtain ⟨s1, hs1, hc, _⟩ := add_light_some ext s l p n hlt
      simp only [addLights, hs1]
      exact ih s1 (by omega) (by omega)
    · simp only [addLights, add_light_none ext s l p n (by omega)]

/-- C7: `gfx_rt64_add_light` succeeds and raises the dynamic light count by exactly one
whenever the count is below `MAX_DYNAMIC_LIGHTS = MAX_LIGHTS - MAX_LEVEL_LIGHTS = 384`,
and fails its assertion when the count is 384; so after the frame reset any number
of consecutive additions up to 384 succeeds and leaves that many lights, and any
longer sequence (the 385th addition) fails. -/
theorem add_light_capacity (ext : Extern α) (s : RT64State α) (l : RT64_LIGHT α)
    (p n : RT64_MATRIX4 α) (h : s.dynamicLightCount < MAX_DYNAMIC_LIGHTS) :
    MAX_DYNAMIC_LIGHTS = MAX_LIGHTS - MAX_LEVEL_LIGHTS ∧ MAX_DYNAMIC_LIGHTS = 384 ∧
    (∃ s', gfx_rt64_add_light ext s l p n = some s' ∧
      s'.dynamicLightCount = s.dynamicLightCount + 1) ∧
    (∀ s384 : RT64State α, s384.dynamicLightCount = 384 →
      gfx_rt64_add_light ext s384 l p n = none) ∧
    (∀ ls : List (RT64_LIGHT α × RT64_MATRIX4 α × RT64_MATRIX4 α), ls.length ≤ 384 →
      ∃ s', addLights ext (gfx_rt64_reset_logic_frame s) ls = some s' ∧
        s'.dynamicLightCount = ls.length) ∧
    (∀ ls : List (RT64_LIGHT α × RT64_MATRIX4 α × RT64_MATRIX4 α), 384 < ls.length →
      addLights ext (gfx_rt64_reset_logic_frame s) ls = none) := by
  have hmax : MAX_DYNAMIC_LIGHTS = 384 := MAX_DYNAMIC_LIGHTS_eq
  refine ⟨rfl, hmax, ?_, ?_, ?_, ?_⟩
  · obtain ⟨s', h1, h2, _⟩ := add_light_some ext s l p n h
    exact ⟨s', h1, h2⟩
  · intro s384 h384
    exact add_light_none ext s384 l p n (by omega)
  · intro ls hls
    have h0 : (gfx_rt64_reset_logic_frame s).dynamicLightCount = 0 := rfl
    obtain ⟨s', h1, h2⟩ := addLights_some ext ls (gfx_rt64_reset_logic_frame s) (by omega)
    exact ⟨s', h1, by omega⟩
  · intro ls hls
    have h0 : (gfx_rt64_reset_logic_frame s).dynamicLightCount = 0 := rfl
    exact addLights_none ext ls (gfx_rt64_reset_logic_frame s) (by omega) (by omega)

/-- Witness of `add_light_capacity`: a first light after the frame reset. -/
theorem add_light_capacity_witness :
    (gfx_rt64_reset_logic_frame (emptyState : RT64State ℚ)).dynamicLightCount
        < MAX_DYNAMIC_LIGHTS ∧
    (∃ s', gfx_rt64_add_light ratExtern (gfx_rt64_reset_logic_frame emptyState)
        RT64_LIGHT.zero identityMatrix identityMatrix = some s' ∧
      s'.dynamicLightCount = 0 + 1) :=
  ⟨by decide,
    (add_light_capacity ratExtern (gfx_rt64_reset_logic_frame emptyState) RT64_LIGHT.zero
      identityMatrix identityMatrix (by decide)).2.2.1⟩

end LightProofs

/-! ## The special stage light -/

section SpecialLightProofs
variable {α : Type} [LinearOrderedField α] [FloorRing α]

theorem add_light_levelLightCounts (ext : Extern α) (s s' : RT64State α) (l : RT64_LIGHT α)
    (p n : RT64_MATRIX4 α) (h : gfx_rt64_add_light ext s l p n = some s') :
    s'.levelLightCounts = s.levelLightCounts := by
  unfold gfx_rt64_add_light at h
  split at h
  · cases h; rfl
  · cases h

theorem addLights_levelLightCounts (ext : Extern α)
    (ls : List (RT64_LIGHT α × RT64_MATRIX4 α × RT64_MATRIX4 α)) :
    ∀ s s' : RT64State α, addLights ext s ls = some s' →
      s'.levelLightCounts = s.levelLightCounts := by
  induction ls with
  | nil => intro s s' h; cases h; rfl
  | cons x rest ih =>
    intro s s' h
    obtain ⟨l, p, n⟩ := x
    simp only [addLights] at h
    cases h1 : gfx_rt64_add_light ext s l p n with
    | none => rw [h1] at h; cases h
    | some s1 =>
      rw [h1] at h
      rw [ih s1 s' h, add_light_levelLightCounts ext s s1 l p n h1]

end SpecialLightProofs

section SpecialLightProofs
variable {α : Type} [LinearOrderedField α]

theorem end_frame_pick_dynamicLightCount (g : Game α) (s : RT64State α) :
    (end_frame_pick g s).dynamicLightCount = s.dynamicLightCount := by
  unfold end_frame_pick
  simp only
  split_ifs <;> rfl

end SpecialLightProofs

section SpecialLightProofs
variable {α : Type} [LinearOrderedField α] [FloorRing α]

theorem draw_frame_dynamicLightCount (g : Game α) (s : RT64State α) (t : α) :
    (gfx_rt64_rapi_draw_frame g s t).dynamicLightCount = s.dynamicLightCount := by
  simp only [gfx_rt64_rapi_draw_frame]

theorem draw_frames_dynamicLightCount (g : Game α) (w : Nat → α) (ks : List Nat) :
    ∀ s : RT64State α,
      (ks.foldl (fun s k => gfx_rt64_rapi_draw_frame g s (w k))
        s).dynamicLightCount = s.dynamicLightCount := by
  induction ks with
  | nil => intro s; rfl
  | cons k rest ih =>
    intro s
    simp only [List.foldl_cons]
    rw [ih, draw_frame_dynamicLightCount]

/-- After the first block of `gfx_rt64_rapi_end_frame` the rest of the function
leaves the dynamic light count alone. -/
theorem end_frame_dynamicLightCount (ext : Extern α) (g : Game α) (s s1 : RT64State α)
    (h : end_frame_lights ext g s = some s1) :
    ∃ s2, gfx_rt64_rapi_end_frame ext g s = some s2 ∧
      s2.dynamicLightCount = s1.dynamicLightCount := by
  simp only [gfx_rt64_rapi_end_frame, h]
  refine ⟨_, rfl, ?_⟩
  show (end_frame_pick g (end_frame_draw_frames g (end_frame_process ext s1))).dynamicLightCount
    = s1.dynamicLightCount
  rw [end_frame_pick_dynamicLightCount]
  unfold end_frame_draw_frames
  simp only
  rw [draw_frames_dynamicLightCount g
    (fun k => mulF32 (roundF32 ((k + 1 : Nat) : α))
      (divF32 1 (roundF32 (((end_frame_process ext s1).targetFPS / 30 : Nat) : α))))]
  simp only [end_frame_process]

/-- In level 8, area 2, a tick that ends with 384 dynamic lights and at most 127
level lights passes every assertion and leaves 385 dynamic lights. -/
theorem special_stage_light_overflow (ext : Extern α) (g : Game α) (s : RT64State α)
    (hl : g.levelIndex = 8) (ha : g.areaIndex = 2) (hc : s.dynamicLightCount = 384)
    (hlevel : s.levelLightCounts 8 2 ≤ 127) :
    ∃ s2, gfx_rt64_rapi_end_frame ext g s = some s2 ∧ s2.dynamicLightCount = 385 := by
  have hmod : UINT_MOD = 4294967296 := by decide
  have hmax : MAX_LIGHTS = 512 := by decide
  have h1 : ∃ s1, end_frame_lights ext g s = some s1 ∧ s1.dynamicLightCount = 385 := by
    unfold end_frame_lights gfx_rt64_rapi_set_special_stage_lights
    simp only [hl, ha, and_self, if_true, hc]
    have e1 : (384 + 1) % UINT_MOD = 385 := by rw [hmod]
    simp only [e1]
    have e2 : (s.levelLightCounts 8 2 + 385) % UINT_MOD ≤ MAX_LIGHTS := by
      rw [Nat.mod_eq_of_lt (by omega), hmax]; omega
    rw [if_pos e2]
    exact ⟨_, rfl, rfl⟩
  obtain ⟨s1, hs1, hc1⟩ := h1
  obtain ⟨s2, hs2, hc2⟩ := end_frame_dynamicLightCount ext g s s1 hs1
  exact ⟨s2, hs2, by rw [hc2, hc1]⟩

end SpecialLightProofs

/-- C8 (the code departs from the claim): after the frame reset, 384 calls of
`gfx_rt64_add_light` succeed; then `gfx_rt64_rapi_end_frame` in level 8, area 2
returns without a failed assertion and leaves `dynamicLightCount = 385`, above
`MAX_DYNAMIC_LIGHTS = 384`: `gfx_rt64_rapi_set_special_stage_lights` takes the
element `dynamicLights[384]` without the check that `gfx_rt64_add_light` makes. -/
theorem special_stage_light_exceeds_capacity :
    ∃ s1 s2 : RT64State ℚ,
      addLights ratExtern (gfx_rt64_reset_logic_frame emptyState)
        (List.replicate 384 (RT64_LIGHT.zero, identityMatrix, identityMatrix)) = some s1 ∧
      s1.dynamicLightCount = 384 ∧
      gfx_rt64_rapi_end_frame ratExtern pyramidGame s1 = some s2 ∧
      s2.dynamicLightCount = 385 ∧
      MAX_DYNAMIC_LIGHTS < s2.dynamicLightCount := by
  have h0 : (gfx_rt64_reset_logic_frame (emptyState : RT64State ℚ)).dynamicLightCount = 0 := rfl
  obtain ⟨s1, hs1, hc1⟩ := addLights_some ratExtern
    (List.replicate 384 (RT64_LIGHT.zero, identityMatrix, identityMatrix))
    (gfx_rt64_reset_logic_frame emptyState)
    (by rw [h0, List.length_replicate, MAX_DYNAMIC_LIGHTS_eq])
  rw [h0, List.length_replicate] at hc1
  have hlev : s1.levelLightCounts 8 2 ≤ 127 := by
    rw [addLights_levelLightCounts ratExtern _ _ s1 hs1]
    show (2 : Nat) ≤ 127
    omega
  obtain ⟨s2, hs2, hc2⟩ := special_stage_light_overflow ratExtern pyramidGame s1 rfl rfl
    (by omega) hlev
  exact ⟨s1, s2, hs1, by omega, hs2, hc2, by rw [hc2, MAX_DYNAMIC_LIGHTS_eq]; omega⟩

/-! ## Association lists -/

section MapLemmas
variable {κ ν : Type} [DecidableEq κ]

theorem mapErase_nil (k : κ) : mapErase ([] : List (κ × ν)) k = [] := rfl

theorem mapErase_cons (k' : κ) (v : ν) (t : List (κ × ν)) (k : κ) :
    mapErase ((k', v) :: t) k = if k' = k then mapErase t k else (k', v) :: mapErase t k := by
  unfold mapErase
  by_cases h : k' = k
  · rw [if_pos h, List.filter_cons_of_neg]; simpa using h
  · rw [if_neg h, List.filter_cons_of_pos]; simpa using h

theorem mapFind_nil (k : κ) : mapFind ([] : List (κ × ν)) k = none := rfl

theorem mapFind_cons (k' : κ) (v : ν) (t : List (κ × ν)) (k : κ) :
    mapFind ((k', v) :: t) k = if k' = k then some v else mapFind t k := rfl

theorem mapInsert_nil (k : κ) (v : ν) : mapInsert ([] : List (κ × ν)) k v = [(k, v)] := rfl

theorem mapInsert_cons (k' : κ) (v' : ν) (t : List (κ × ν)) (k : κ) (v : ν) :
    mapInsert ((k', v') :: t) k v =
      if k' = k then (k, v) :: t else (k', v') :: mapInsert t k v := rfl

theorem mapFind_mapErase_self (m : List (κ × ν)) (k : κ) : mapFind (mapErase m k) k = none := by
  induction m with
  | nil => rfl
  | cons p t ih =>
    obtain ⟨k', v⟩ := p
    rw [mapErase_cons]
    by_cases h : k' = k
    · rw [if_pos h]; exact ih
    · rw [if_neg h, mapFind_cons, if_neg h]; exact ih

theorem mapErase_of_find_none (m : List (κ × ν)) (k : κ) (h : mapFind m k = none) :
    mapErase m k = m := by
  induction m with
  | nil => rfl
  | cons p t ih =>
    obtain ⟨k', v⟩ := p
    rw [mapFind_cons] at h
    by_cases hk : k' = k
    · rw [if_pos hk] at h; cases h
    · rw [if_neg hk] at h
      rw [mapErase_cons, if_neg hk, ih h]

theorem mapErase_mapInsert (m : List (κ × ν)) (k : κ) (v : ν) :
    mapErase (mapInsert m k v) k = mapErase m k := by
  induction m with
  | nil => rw [mapInsert_nil, mapErase_cons, if_pos rfl]
  | cons p t ih =>
    obtain ⟨k', v'⟩ := p
    rw [mapInsert_cons]
    by_cases hk : k' = k
    · rw [if_pos hk, mapErase_cons, if_pos rfl, mapErase_cons, if_pos hk]
    · rw [if_neg hk, mapErase_cons, if_neg hk, mapErase_cons, if_neg hk, ih]

theorem mapErase_idem (m : List (κ × ν)) (k : κ) : mapErase (mapErase m k) k = mapErase m k :=
  mapErase_of_find_none _ _ (mapFind_mapErase_self m k)

theorem mapFind_mapInsert_self (m : List (κ × ν)) (k : κ) (v : ν) :
    mapFind (mapInsert m k v) k = some v := by
  induction m with
  | nil => rw [mapInsert_nil, mapFind_cons, if_pos rfl]
  | cons p t ih =>
    obtain ⟨k', v'⟩ := p
    rw [mapInsert_cons]
    by_cases hk : k' = k
    · rw [if_pos hk, mapFind_cons, if_pos rfl]
    · rw [if_neg hk, mapFind_cons, if_neg hk, ih]

theorem mapFind_mapInsert_ne (m : List (κ × ν)) (k k' : κ) (v : ν) (h : k ≠ k') :
    mapFind (mapInsert m k v) k' = mapFind m k' := by
  induction m with
  | nil => rw [mapInsert_nil, mapFind_cons, if_neg h]
  | cons p t ih =>
    obtain ⟨k0, v0⟩ := p
    rw [mapInsert_cons]
    by_cases hk : k0 = k
    · rw [if_pos hk, mapFind_cons, if_neg h, mapFind_cons, if_neg (hk ▸ h)]
    · rw [if_neg hk, mapFind_cons, mapFind_cons, ih]

theorem mapFind_mapErase_ne (m : List (κ × ν)) (k k' : κ) (h : k ≠ k') :
    mapFind (mapErase m k) k' = mapFind m k' := by
  induction m with
  | nil => rfl
  | cons p t ih =>
    obtain ⟨k0, v0⟩ := p
    rw [mapErase_cons]
    by_cases hk : k0 = k
    · rw [if_pos hk, mapFind_cons, if_neg (hk ▸ h), ih]
    · rw [if_neg hk, mapFind_cons, mapFind_cons, ih]

end MapLemmas

/-! ## Registration of graph nodes -/

section RegisterProofs
variable {α : Type} [LinearOrderedField α]

/-- The registration of a non-null graph node only replaces the map of graph node
mods, by `registeredMods`. -/
theorem register_eq (ext : Extern α) (s : RT64State α) (geoLayout graphNode : Nat)
    (hn : graphNode ≠ 0) :
    gfx_rt64_rapi_register_layout_graph_node ext s geoLayout graphNode =
      s.withGraphNodeMods (registeredMods ext s geoLayout graphNode) := by
  unfold gfx_rt64_rapi_register_layout_graph_node registeredMods RT64State.withGraphNodeMods
  by_cases hg : geoLayout = 0
  · cases hf : mapFind s.graphNodeMods graphNode with
    | none => simp [hn, hg, hf, mapErase_of_find_none _ _ hf]
    | some old => simp [hn, hg, hf]
  · cases hgm : mapFind s.geoLayoutMods geoLayout with
    | none =>
      cases hf : mapFind s.graphNodeMods graphNode with
      | none => simp [hn, hg, hf, hgm, mapErase_of_find_none _ _ hf]
      | some old => simp [hn, hg, hf, hgm]
    | some geoMod =>
      cases hf : mapFind s.graphNodeMods graphNode with
      | none => simp [hn, hg, hf, hgm, mapErase_of_find_none _ _ hf]
      | some old => simp [hn, hg, hf, hgm, mapFind_mapErase_self]

theorem register_null (ext : Extern α) (s : RT64State α) (geoLayout : Nat) :
    gfx_rt64_rapi_register_layout_graph_node ext s geoLayout 0 = s := by
  simp [gfx_rt64_rapi_register_layout_graph_node]

theorem mapErase_registeredMods (ext : Extern α) (s : RT64State α) (a graphNode : Nat) :
    mapErase (registeredMods ext s a graphNode) graphNode = mapErase s.graphNodeMods graphNode := by
  unfold registeredMods
  simp only
  split
  · split
    · exact (mapErase_mapInsert _ _ _).trans (mapErase_idem _ _)
    · exact mapErase_idem _ _
  · exact mapErase_idem _ _

end RegisterProofs

section RegisterProofs
variable {α : Type} [LinearOrderedField α]

theorem register_twice (ext : Extern α) (s : RT64State α) (a b graphNode : Nat) :
    gfx_rt64_rapi_register_layout_graph_node ext
        (gfx_rt64_rapi_register_layout_graph_node ext s a graphNode) b graphNode =
      gfx_rt64_rapi_register_layout_graph_node ext s b graphNode := by
  by_cases hn : graphNode = 0
  · subst hn; simp only [register_null]
  · rw [register_eq ext s a graphNode hn, register_eq ext _ b graphNode hn,
      register_eq ext s b graphNode hn]
    have h : registeredMods ext (s.withGraphNodeMods (registeredMods ext s a graphNode)) b
        graphNode = registeredMods ext s b graphNode := by
      unfold registeredMods
      simp only [RT64State.withGraphNodeMods]
      have := mapErase_registeredMods ext s a graphNode
      unfold registeredMods at this
      simp only at this
      rw [this]
    rw [h]
    rfl

end RegisterProofs

section RegisterProofs
variable {α : Type} [LinearOrderedField α]

theorem mapFind_registeredMods (ext : Extern α) (s : RT64State α) (geoLayout graphNode : Nat) :
    mapFind (registeredMods ext s geoLayout graphNode) graphNode =
      if geoLayout ≠ 0 then
        (mapFind s.geoLayoutMods geoLayout).map (mergeGeoLayoutMod ext {})
      else none := by
  unfold registeredMods
  simp only
  split
  · cases mapFind s.geoLayoutMods geoLayout with
    | none => exact mapFind_mapErase_self _ _
    | some geoMod => exact mapFind_mapInsert_self _ _ _
  · exact mapFind_mapErase_self _ _

theorem merge_fresh_material (ext : Extern α) (geoMod : RecordedMod α) :
    (mergeGeoLayoutMod ext {} geoMod).attributeMask = geoMod.attributeMask ∧
    (∀ m, geoMod.materialMod = some m →
      ∃ g, (mergeGeoLayoutMod ext {} geoMod).materialMod = some g ∧
        g.enabledAttributes = m.enabledAttributes ∧ HasEnabledFieldsOf ext g m) ∧
    (geoMod.materialMod = none → (mergeGeoLayoutMod ext {} geoMod).materialMod = none) := by
  have hmat : (mergeGeoLayoutMod ext {} geoMod).materialMod =
      geoMod.materialMod.map (fun m =>
        { RT64_ApplyMaterialAttributes ext
            { (RT64_MATERIAL.zero : RT64_MATERIAL α) with
              enabledAttributes := RT64_ATTRIBUTE_NONE } m with
          enabledAttributes := RT64_ATTRIBUTE_NONE ||| m.enabledAttributes }) := by
    unfold mergeGeoLayoutMod
    cases geoMod.materialMod <;> cases geoMod.lightMod <;> simp only [] <;>
      split <;> split <;> split <;> rfl
  refine ⟨?_, ?_, ?_⟩
  · unfold RecordedMod.attributeMask
    rw [hmat]
    cases geoMod.materialMod with
    | none => rfl
    | some m => simp [RT64_ATTRIBUTE_NONE]
  · intro m hm
    rw [hmat, hm]
    refine ⟨_, rfl, by simp [RT64_ATTRIBUTE_NONE], ?_⟩
    simp only [HasEnabledFieldsOf, RT64_ApplyMaterialAttributes, bne_iff_ne, ne_eq]
    refine ⟨?_, ?_, ?_, ?_, ?_, ?_, ?_, ?_, ?_, ?_, ?_, ?_, ?_, ?_, ?_⟩ <;>
      intro h <;> simp only [h, not_false_eq_true, if_true]
  · intro hm
    rw [hmat, hm]; rfl

theorem merge_fresh_rest (ext : Extern α) (geoMod : RecordedMod α) :
    (mergeGeoLayoutMod ext {} geoMod).lightMod = geoMod.lightMod ∧
    (mergeGeoLayoutMod ext {} geoMod).normalMapHash = geoMod.normalMapHash ∧
    (mergeGeoLayoutMod ext {} geoMod).specularMapHash = geoMod.specularMapHash ∧
    (mergeGeoLayoutMod ext {} geoMod).interpolationEnabled = geoMod.interpolationEnabled := by
  unfold mergeGeoLayoutMod
  refine ⟨?_, ?_, ?_, ?_⟩
  · cases geoMod.materialMod <;> cases geoMod.lightMod <;> simp only [] <;>
      split <;> split <;> split <;> rfl
  · cases geoMod.materialMod <;> cases geoMod.lightMod <;> simp only [] <;>
      by_cases h1 : geoMod.normalMapHash = 0 <;> by_cases h2 : geoMod.specularMapHash = 0 <;>
      cases h3 : geoMod.interpolationEnabled <;> simp [h1, h2]
  · cases geoMod.materialMod <;> cases geoMod.lightMod <;> simp only [] <;>
      by_cases h1 : geoMod.normalMapHash = 0 <;> by_cases h2 : geoMod.specularMapHash = 0 <;>
      cases h3 : geoMod.interpolationEnabled <;> simp [h1, h2]
  · cases geoMod.materialMod <;> cases geoMod.lightMod <;> simp only [] <;>
      by_cases h1 : geoMod.normalMapHash = 0 <;> by_cases h2 : geoMod.specularMapHash = 0 <;>
      cases h3 : geoMod.interpolationEnabled <;> simp [h1, h2]

end RegisterProofs

section RegisterProofs
variable {α : Type} [LinearOrderedField α]

/-- C9: for a geo layout that has a mod and a non-null graph node, registering the
pair twice in a row leaves a graph node mod with the same material attribute bitmask
as registering it once, which is the bitmask of the geo layout mod (no bitmask when
that mod has no material). -/
theorem register_twice_same_bitmask (ext : Extern α) (s : RT64State α)
    (geoLayout graphNode : Nat) (geoMod : RecordedMod α)
    (hg : geoLayout ≠ 0) (hn : graphNode ≠ 0)
    (hmod : mapFind s.geoLayoutMods geoLayout = some geoMod) :
    ∃ once twice : RecordedMod α,
      mapFind (gfx_rt64_rapi_register_layout_graph_node ext s geoLayout graphNode).graphNodeMods
        graphNode = some once ∧
      mapFind (gfx_rt64_rapi_register_layout_graph_node ext
        (gfx_rt64_rapi_register_layout_graph_node ext s geoLayout graphNode)
        geoLayout graphNode).graphNodeMods graphNode = some twice ∧
      twice.attributeMask = once.attributeMask ∧
      once.attributeMask = geoMod.attributeMask := by
  have h1 : mapFind (gfx_rt64_rapi_register_layout_graph_node ext s geoLayout
      graphNode).graphNodeMods graphNode = some (mergeGeoLayoutMod ext {} geoMod) := by
    rw [register_eq ext s geoLayout graphNode hn]
    show mapFind (registeredMods ext s geoLayout graphNode) graphNode = _
    rw [mapFind_registeredMods, if_pos hg, hmod]
    rfl
  refine ⟨_, _, h1, ?_, rfl, (merge_fresh_material ext geoMod).1⟩
  rw [register_twice]
  exact h1

end RegisterProofs

section RegisterProofs
variable {α : Type} [LinearOrderedField α] [FloorRing α]

/-- Witness of `register_twice_same_bitmask`: geo layout 100 and graph node 7. -/
theorem register_twice_same_bitmask_witness :
    ∃ once twice : RecordedMod ℚ,
      mapFind (gfx_rt64_rapi_register_layout_graph_node ratExtern modState 100 7).graphNodeMods
        7 = some once ∧
      mapFind (gfx_rt64_rapi_register_layout_graph_node ratExtern
        (gfx_rt64_rapi_register_layout_graph_node ratExtern modState 100 7)
        100 7).graphNodeMods 7 = some twice ∧
      twice.attributeMask = once.attributeMask ∧
      once.attributeMask = (shinyMod : RecordedMod ℚ).attributeMask :=
  register_twice_same_bitmask ratExtern modState 100 7 shinyMod (by decide) (by decide) rfl

end RegisterProofs

section RegisterProofs
variable {α : Type} [LinearOrderedField α]

/-- C10: registering a graph node `n` for geo layout `a` and then for geo layout `b`
leaves the same state as registering it for `b` alone.  When `b` is non-null and
has the mod `M`, the graph node mod of `n` has the attribute bitmask of `M`, the
value of `M` in every material field that `M` enables (and no material when `M` has
none), the light of `M` (none when `M` has none), the normal and specular map hashes
of `M` and the interpolation flag of `M`; when `b` is null or has no mod, `n` has no
graph node mod. -/
theorem reregistration_discards_stale (ext : Extern α) (s : RT64State α) (a b n : Nat)
    (hn : n ≠ 0) :
    gfx_rt64_rapi_register_layout_graph_node ext
        (gfx_rt64_rapi_register_layout_graph_node ext s a n) b n =
      gfx_rt64_rapi_register_layout_graph_node ext s b n ∧
    (∀ M : RecordedMod α, b ≠ 0 → mapFind s.geoLayoutMods b = some M →
      ∃ g : RecordedMod α,
        mapFind (gfx_rt64_rapi_register_layout_graph_node ext
          (gfx_rt64_rapi_register_layout_graph_node ext s a n) b n).graphNodeMods n = some g ∧
        g.attributeMask = M.attributeMask ∧
        (∀ m, M.materialMod = some m →
          ∃ gm, g.materialMod = some gm ∧ gm.enabledAttributes = m.enabledAttributes ∧
            HasEnabledFieldsOf ext gm m) ∧
        (M.materialMod = none → g.materialMod = none) ∧
        g.lightMod = M.lightMod ∧
        g.normalMapHash = M.normalMapHash ∧
        g.specularMapHash = M.specularMapHash ∧
        g.interpolationEnabled = M.interpolationEnabled) ∧
    (b = 0 ∨ mapFind s.geoLayoutMods b = none →
      mapFind (gfx_rt64_rapi_register_layout_graph_node ext
        (gfx_rt64_rapi_register_layout_graph_node ext s a n) b n).graphNodeMods n = none) := by
  have hfind : mapFind (gfx_rt64_rapi_register_layout_graph_node ext s b n).graphNodeMods n =
      if b ≠ 0 then (mapFind s.geoLayoutMods b).map (mergeGeoLayoutMod ext {}) else none := by
    rw [register_eq ext s b n hn]
    exact mapFind_registeredMods ext s b n
  refine ⟨register_twice ext s a b n, ?_, ?_⟩
  · intro M hb hM
    rw [register_twice, hfind, if_pos hb, hM]
    obtain ⟨h1, h2, h3⟩ := merge_fresh_material ext M
    obtain ⟨h4, h5, h6, h7⟩ := merge_fresh_rest ext M
    exact ⟨_, rfl, h1, h2, h3, h4, h5, h6, h7⟩
  · intro h
    rw [register_twice, hfind]
    rcases h with h | h
    · rw [if_neg (by simpa using h)]
    · rw [h]; split <;> rfl

end RegisterProofs

section RegisterProofs
variable {α : Type} [LinearOrderedField α] [FloorRing α]

/-- Witness of `reregistration_discards_stale`: graph node 7 registered for geo
layout 100 and then for geo layout 200. -/
theorem reregistration_discards_stale_witness :
    gfx_rt64_rapi_register_layout_graph_node ratExtern
        (gfx_rt64_rapi_register_layout_graph_node ratExtern modState 100 7) 200 7 =
      gfx_rt64_rapi_register_layout_graph_node ratExtern modState 200 7 ∧
    mapFind (gfx_rt64_rapi_register_layout_graph_node ratExtern
      (gfx_rt64_rapi_register_layout_graph_node ratExtern modState 100 7) 200 7).graphNodeMods 7
      = some lampMod :=
  ⟨(reregistration_discards_stale ratExtern modState 100 200 7 (by decide)).1, by
    obtain ⟨g, hg, -, -, hmat, hlight, hnorm, hspec, hint⟩ :=
      (reregistration_discards_stale ratExtern modState 100 200 7 (by decide)).2.1
        lampMod (by decide) rfl
    rw [hg]
    have hm := hmat rfl
    cases g
    simp only [lampMod] at *
    simp [hm, hlight, hnorm, hspec, hint]⟩

end RegisterProofs

/-! ## The blocks of a draw submission -/

section KeepsProofs
variable {α : Type}

theorem DrawKeeps.refl (l : DrawLocals α) : DrawKeeps l l :=
  ⟨rfl, rfl, rfl, rfl, rfl, rfl, rfl, id⟩

theorem DrawKeeps.trans {l1 l2 l3 : DrawLocals α} (h12 : DrawKeeps l1 l2)
    (h23 : DrawKeeps l2 l3) : DrawKeeps l1 l3 :=
  ⟨h23.displayList.trans h12.displayList, h23.displayLists.trans h12.displayLists,
    h23.scissorRect.trans h12.scissorRect, h23.viewportRect.trans h12.viewportRect,
    h23.prevValid.trans h12.prevValid, h23.newTransform.trans h12.newTransform,
    h23.instance_.trans h12.instance_, fun h => h12.interpolate (h23.interpolate h)⟩

theorem drawTexture_keeps (l : DrawLocals α) (sp : ShaderProgram) :
    DrawKeeps l (drawTexture l sp) := by
  unfold drawTexture
  split
  · exact ⟨rfl, rfl, rfl, rfl, rfl, rfl, rfl, id⟩
  · exact DrawKeeps.refl l

theorem readShaderVariant_frame (s s' : RT64State α) (key : Nat) (shader : Option Handle)
    (h : readShaderVariant s key = some (shader, s')) :
    s'.displayLists = s.displayLists ∧ s'.scissorRect = s.scissorRect ∧
    s'.viewportRect = s.viewportRect ∧ s'.lib = s.lib := by
  unfold readShaderVariant at h
  split at h
  · cases h
  · split at h
    · cases h
    · cases h; exact ⟨rfl, rfl, rfl, rfl⟩

theorem create_shader_frame (ext : Extern α) (s : RT64State α) (shader_id : Nat) :
    (gfx_rt64_rapi_create_and_load_new_shader ext s shader_id).2.displayLists = s.displayLists ∧
    (gfx_rt64_rapi_create_and_load_new_shader ext s shader_id).2.scissorRect = s.scissorRect ∧
    (gfx_rt64_rapi_create_and_load_new_shader ext s shader_id).2.viewportRect = s.viewportRect ∧
    (gfx_rt64_rapi_create_and_load_new_shader ext s shader_id).2.lib = s.lib :=
  ⟨rfl, rfl, rfl, rfl⟩

theorem preload_shader_frame (ext : Extern α) (s : RT64State α) (shader_id : Nat)
    (raytrace : Bool) (filter hAddr vAddr : Nat) (normalMap specularMap : Bool) :
    (gfx_rt64_rapi_preload_shader ext s shader_id raytrace filter hAddr vAddr normalMap
      specularMap).displayLists = s.displayLists ∧
    (gfx_rt64_rapi_preload_shader ext s shader_id raytrace filter hAddr vAddr normalMap
      specularMap).scissorRect = s.scissorRect ∧
    (gfx_rt64_rapi_preload_shader ext s shader_id raytrace filter hAddr vAddr normalMap
      specularMap).viewportRect = s.viewportRect := by
  unfold gfx_rt64_rapi_preload_shader
  cases hl : gfx_rt64_rapi_lookup_shader s shader_id with
  | some address =>
    simp only
    split
    · exact ⟨rfl, rfl, rfl⟩
    · split <;> exact ⟨rfl, rfl, rfl⟩
  | none =>
    simp only
    split
    · exact ⟨rfl, rfl, rfl⟩
    · split <;> exact ⟨rfl, rfl, rfl⟩

theorem drawSelectShader_keeps (ext : Extern α) (l l' : DrawLocals α) (raytrace : Bool)
    (shaderId : Nat) (h : drawSelectShader ext l raytrace shaderId = some l') :
    DrawKeeps l l' ∧ l'.displayListInstance = l.displayListInstance ∧
    l'.interpolate = l.interpolate := by
  unfold drawSelectShader at h
  simp only at h
  split at h
  · cases h
  · rename_i shader s1 h1
    split at h
    · cases h
    · rename_i shader2 s2 h2
      cases h
      obtain ⟨a1, a2, a3, _⟩ := readShaderVariant_frame _ _ _ _ h1
      have hs2 : s2.displayLists = s1.displayLists ∧ s2.scissorRect = s1.scissorRect ∧
          s2.viewportRect = s1.viewportRect := by
        split at h2
        · cases h2; exact ⟨rfl, rfl, rfl⟩
        · obtain ⟨b1, b2, b3, _⟩ := readShaderVariant_frame _ _ _ _ h2
          obtain ⟨c1, c2, c3⟩ := preload_shader_frame ext s1 shaderId raytrace
            (if l.linearFilter then ext.RT64_SHADER_FILTER_LINEAR
              else ext.RT64_SHADER_FILTER_POINT)
            (shaderAddressing ext l.cms) (shaderAddressing ext l.cmt)
            l.instDesc.normalTexture.isSome l.instDesc.specularTexture.isSome
          exact ⟨b1.trans c1, b2.trans c2, b3.trans c3⟩
      exact ⟨⟨rfl, hs2.1.trans a1, hs2.2.1.trans a2, hs2.2.2.trans a3, rfl, rfl, rfl, id⟩,
        rfl, rfl⟩

end KeepsProofs

section DrawProofs
variable {α : Type} [LinearOrderedField α] [FloorRing α]

theorem add_light_frame (ext : Extern α) (s s' : RT64State α) (l : RT64_LIGHT α)
    (p n : RT64_MATRIX4 α) (h : gfx_rt64_add_light ext s l p n = some s') :
    s'.displayLists = s.displayLists ∧ s'.scissorRect = s.scissorRect ∧
    s'.viewportRect = s.viewportRect ∧ s'.lib = s.lib ∧ s'.shaderProgram = s.shaderProgram ∧
    s'.shaderHeap = s.shaderHeap := by
  unfold gfx_rt64_add_light at h
  split at h
  · cases h; exact ⟨rfl, rfl, rfl, rfl, rfl, rfl⟩
  · cases h

theorem apply_mod_frame (ext : Extern α) (s : RT64State α) (material : RT64_MATERIAL α)
    (normal specular : Option Handle) (interpolate : Bool) (mod : RecordedMod α)
    (p n : RT64_MATRIX4 α) (applyLight : Bool) (r : ApplyModResult α)
    (h : gfx_rt64_rapi_apply_mod ext s material normal specular interpolate mod p n applyLight
      = some r) :
    r.state.displayLists = s.displayLists ∧ r.state.scissorRect = s.scissorRect ∧
    r.state.viewportRect = s.viewportRect ∧ r.state.lib = s.lib ∧
    r.state.shaderProgram = s.shaderProgram ∧ r.state.shaderHeap = s.shaderHeap ∧
    (r.interpolate = true → interpolate = true) ∧
    (mod.interpolationEnabled = false → r.interpolate = false) := by
  unfold gfx_rt64_rapi_apply_mod at h
  simp only at h
  split at h
  · cases h
  · rename_i s1 hs1
    cases h
    have hfr : s1.displayLists = s.displayLists ∧ s1.scissorRect = s.scissorRect ∧
        s1.viewportRect = s.viewportRect ∧ s1.lib = s.lib ∧
        s1.shaderProgram = s.shaderProgram ∧ s1.shaderHeap = s.shaderHeap := by
      split at hs1
      · exact add_light_frame ext _ _ _ _ _ hs1
      · cases hs1; exact ⟨rfl, rfl, rfl, rfl, rfl, rfl⟩
    obtain ⟨h1, h2, h3, h4, h5, h6⟩ := hfr
    refine ⟨h1, h2, h3, h4, h5, h6, ?_, ?_⟩
    · cases mod.interpolationEnabled <;> simp
    · intro hm; simp [hm]

theorem drawApplyMod_keeps (ext : Extern α) (l l' : DrawLocals α) (mod : RecordedMod α)
    (p n : RT64_MATRIX4 α) (applyLight : Bool)
    (h : drawApplyMod ext l mod p n applyLight = some l') :
    DrawKeeps l l' ∧ l'.displayListInstance = l.displayListInstance ∧
    l'.textureMod = l.textureMod ∧
    (mod.interpolationEnabled = false → l'.interpolate = false) := by
  unfold drawApplyMod at h
  split at h
  · cases h
  · rename_i r hr
    cases h
    obtain ⟨h1, h2, h3, _, _, _, h7, h8⟩ := apply_mod_frame ext _ _ _ _ _ _ _ _ _ r hr
    exact ⟨⟨rfl, h1, h2, h3, rfl, rfl, rfl, h7⟩, rfl, rfl, h8⟩

theorem drawApplyMods_keeps (ext : Extern α) (l l' : DrawLocals α) (transform : RT64_MATRIX4 α)
    (h : drawApplyMods ext l transform = some l') :
    DrawKeeps l l' ∧
    (l'.displayListInstance.prevValid = false ∨ l'.interpolate = false →
      l'.displayListInstance.prevTransform = transform ∧
      l'.displayListInstance.prevScissorRect = l.state.scissorRect ∧
      l'.displayListInstance.prevViewportRect = l.state.viewportRect) ∧
    (l'.displayListInstance.prevValid = true → l'.interpolate = true →
      l'.displayListInstance.prevTransform = l.displayListInstance.prevTransform ∧
      l'.displayListInstance.prevScissorRect = l.displayListInstance.prevScissorRect ∧
      l'.displayListInstance.prevViewportRect = l.displayListInstance.prevViewportRect) := by
  unfold drawApplyMods at h
  simp only at h
  split at h
  · cases h
  · rename_i l1 h1
    split at h
    · cases h
    · rename_i l2 h2
      have k0 : DrawKeeps l
          { l with instDesc := { l.instDesc with material := l.state.defaultMaterial } } :=
        ⟨rfl, rfl, rfl, rfl, rfl, rfl, rfl, id⟩
      have k1 : DrawKeeps l l1 ∧ l1.displayListInstance = l.displayListInstance := by
        split at h1
        · obtain ⟨k, e, _, _⟩ := drawApplyMod_keeps ext _ _ _ _ _ _ h1
          exact ⟨k0.trans k, e⟩
        · cases h1; exact ⟨k0, rfl⟩
      have k2 : DrawKeeps l1 l2 ∧ l2.displayListInstance = l1.displayListInstance := by
        split at h2
        · obtain ⟨k, e, _, _⟩ := drawApplyMod_keeps ext _ _ _ _ _ _ h2
          exact ⟨k, e⟩
        · cases h2; exact ⟨DrawKeeps.refl _, rfl⟩
      have k12 := k1.1.trans k2.1
      have e12 : l2.displayListInstance = l.displayListInstance := k2.2.trans k1.2
      split at h
      · rename_i hc
        cases h
        refine ⟨⟨k12.displayList, k12.displayLists, k12.scissorRect, k12.viewportRect,
          k12.prevValid, k12.newTransform, k12.instance_, k12.interpolate⟩, ?_, ?_⟩
        · intro _
          exact ⟨rfl, k12.scissorRect, k12.viewportRect⟩
        · intro hp hi
          have hp' : l2.displayListInstance.prevValid = true := hp
          have hi' : l2.interpolate = true := hi
          simp [hp', hi'] at hc
      · rename_i hc
        cases h
        refine ⟨k12, ?_, ?_⟩
        · intro hor
          exfalso
          apply hc
          rcases hor with hp | hi
          · simp [hp]
          · simp [hi]
        · intro _ _
          rw [e12]
          exact ⟨rfl, rfl, rfl⟩

end DrawProofs

section DrawProofs
variable {α : Type} [LinearOrderedField α]

theorem drawMaterialFog_keeps (ext : Extern α) (l : DrawLocals α) (shaderId : Nat) :
    DrawKeeps l (drawMaterialFog ext l shaderId) ∧
    (drawMaterialFog ext l shaderId).displayListInstance = l.displayListInstance ∧
    (drawMaterialFog ext l shaderId).interpolate = l.interpolate :=
  ⟨⟨rfl, rfl, rfl, rfl, rfl, rfl, rfl, id⟩, rfl, rfl⟩

theorem drawBegin_facts (s : RT64State α) (transform : RT64_MATRIX4 α) (uid : Nat) :
    (drawBegin s transform uid).displayList = { drawDisplayList s uid with newValid := true } ∧
    (drawBegin s transform uid).state.displayLists = s.displayLists ∧
    (drawBegin s transform uid).state.scissorRect = s.scissorRect ∧
    (drawBegin s transform uid).state.viewportRect = s.viewportRect ∧
    (drawBegin s transform uid).interpolate = (uid != 0) ∧
    (drawBegin s transform uid).displayListInstance.prevValid =
      ((drawDisplayList s uid).instances.getD (drawDisplayList s uid).newCount
        RecordedInstance.zero).prevValid ∧
    (drawBegin s transform uid).displayListInstance.prevTransform =
      ((drawDisplayList s uid).instances.getD (drawDisplayList s uid).newCount
        RecordedInstance.zero).prevTransform ∧
    (drawBegin s transform uid).displayListInstance.prevScissorRect =
      ((drawDisplayList s uid).instances.getD (drawDisplayList s uid).newCount
        RecordedInstance.zero).prevScissorRect ∧
    (drawBegin s transform uid).displayListInstance.prevViewportRect =
      ((drawDisplayList s uid).instances.getD (drawDisplayList s uid).newCount
        RecordedInstance.zero).prevViewportRect ∧
    (drawBegin s transform uid).displayListInstance.newTransform = transform :=
  ⟨rfl, rfl, rfl, rfl, rfl, rfl, rfl, rfl, rfl, rfl⟩

end DrawProofs

section DrawProofs
variable {α : Type} [LinearOrderedField α] [FloorRing α]

/-- What a successful draw submission does to the display list of its identifier:
the mesh processing runs on the display list with the instance vector made large
enough, for the instance at the current index, with interpolation permitted only for
a non-zero identifier; the instance at the current index is then replaced and the
counter raised. -/
theorem draw_inv (ext : Extern α) (s s' : RT64State α) (transform : RT64_MATRIX4 α)
    (buf : List α) (tris : Nat) (ds rt : Bool) (uid : Nat)
    (h : gfx_rt64_rapi_draw_triangles_common ext s transform buf tris ds rt uid = some s') :
    ∃ (l : DrawLocals α) (mesh : Option Handle) (dl2 : RecordedDisplayList α)
      (lib2 : Backend α) (desc : RT64_INSTANCE_DESC α),
      l.displayList = { drawDisplayList s uid with newValid := true } ∧
      l.state.displayLists = s.displayLists ∧
      (l.interpolate = true → uid ≠ 0) ∧
      l.displayListInstance.prevValid =
        ((drawDisplayList s uid).instances.getD (drawDisplayList s uid).newCount
          RecordedInstance.zero).prevValid ∧
      l.displayListInstance.newTransform = transform ∧
      (l.displayListInstance.prevValid = false ∨ l.interpolate = false →
        l.displayListInstance.prevTransform = transform ∧
        l.displayListInstance.prevScissorRect = s.scissorRect ∧
        l.displayListInstance.prevViewportRect = s.viewportRect) ∧
      gfx_rt64_rapi_process_mesh ext (currentShaderProgram l.state) l.state.lib buf tris rt
        l.displayList l.displayListInstance.prevValid l.interpolate = some (mesh, dl2, lib2) ∧
      desc.mesh = mesh ∧
      s'.lib = lib2 ∧
      s'.displayLists = mapInsert s.displayLists uid
        { dl2 with
          instances := dl2.instances.set dl2.newCount { l.displayListInstance with desc := desc }
          newCount := dl2.newCount + 1 } := by
  unfold gfx_rt64_rapi_draw_triangles_common at h
  simp only at h
  split at h
  · cases h
  · rename_i sp hsp
    split at h
    · cases h
    · rename_i l2 h2
      split at h
      · cases h
      · rename_i l4 h4
        obtain ⟨b1, b2, b3, b4, b5, b6, _, _, _, b10⟩ := drawBegin_facts s transform uid
        have k1 := drawTexture_keeps (drawBegin s transform uid) sp
        obtain ⟨k2, hskip, _⟩ := drawApplyMods_keeps ext _ _ _ h2
        obtain ⟨k3, e3, i3⟩ := drawMaterialFog_keeps ext l2 sp.shaderId
        obtain ⟨k4, e4, i4⟩ := drawSelectShader_keeps ext _ _ _ _ h4
        have k := ((k1.trans k2).trans k3).trans k4
        have einst : l4.displayListInstance = l2.displayListInstance := e4.trans e3
        have eint : l4.interpolate = l2.interpolate := i4.trans i3
        unfold drawFinish at h
        simp only at h
        split at h
        · cases h
        · rename_i mesh dl2 lib2 hpm
          cases h
          refine ⟨l4, mesh, dl2, lib2,
            { l4.instDesc with
              mesh := mesh
              flags :=
                if ds then
                  (if l4.state.background then 0 ||| ext.RT64_INSTANCE_RASTER_BACKGROUND else 0)
                    ||| ext.RT64_INSTANCE_DISABLE_BACKFACE_CULLING
                else (if l4.state.background then 0 ||| ext.RT64_INSTANCE_RASTER_BACKGROUND
                  else 0) },
            k.displayList.trans b1, k.displayLists.trans b2, ?_,
            k.prevValid.trans b6, k.newTransform.trans b10, ?_, hpm, rfl, rfl, ?_⟩
          · intro hi
            have := k.interpolate hi
            rw [b5] at this
            simpa using this
          · intro hor
            rw [einst, eint] at hor
            obtain ⟨q1, q2, q3⟩ := hskip hor
            rw [einst]
            exact ⟨q1, q2.trans (k1.scissorRect.trans b3), q3.trans (k1.viewportRect.trans b4)⟩
          · show mapInsert l4.state.displayLists uid _ = _
            rw [k.displayLists, b2]

end DrawProofs

/-! ## Mesh processing -/

section ListLemmas
variable {β : Type}

theorem set_of_getElem? (l : List β) (i : Nat) (a : β) (h : l[i]? = some a) :
    l.set i a = l := by
  apply List.ext_getElem?
  intro j
  rw [List.getElem?_set]
  split
  · rename_i hij
    subst hij
    rcases List.getElem?_eq_some.mp h with ⟨hlt, _⟩
    rw [if_pos hlt, h]
  · rfl

theorem memcpyFloats_full (dst src : List β) (h : dst.length ≤ src.length) :
    memcpyFloats dst src src.length = src := by
  unfold memcpyFloats
  rw [List.take_length, List.drop_eq_nil_of_le h, List.append_nil]

end ListLemmas

section MeshProofs
variable {α : Type} [LinearOrderedField α]

/-- The reuse block returns the stored mesh and changes nothing when the hash of
the submitted buffer is the stored hash of the slot. -/
theorem processMeshReuse_hit (buf : List α) (hash vc vs ic : Nat) (rt : Bool)
    (dl : RecordedDisplayList α) (interp : Bool) (mesh : RecordedMesh α)
    (hslot : dl.meshes[dl.newCount]? = some mesh) (hhash : hash = mesh.prevVertexBufferHash) :
    processMeshReuse buf hash vc vs ic rt dl true interp = some (mesh.mesh, dl) := by
  have hlt : dl.newCount < dl.meshes.length := by
    rcases List.getElem?_eq_some.mp hslot with ⟨h, _⟩
    exact h
  unfold processMeshReuse
  simp only [Bool.true_and, decide_eq_true_eq, hlt, if_true, hslot, hhash, ne_eq,
    not_true_eq_false, if_false]

/-- What the reuse block does when it returns: the slot at the current index keeps
its mesh and its stored hash, and is either untouched (equal hashes) or staged with
the submitted hash (interpolation permitted). -/
theorem processMeshReuse_some (buf : List α) (hash vc vs ic : Nat) (rt : Bool)
    (dl dl' : RecordedDisplayList α) (pv interp : Bool) (m : Option Handle)
    (h : processMeshReuse buf hash vc vs ic rt dl pv interp = some (m, dl')) :
    ∃ old new : RecordedMesh α,
      pv = true ∧ dl.meshes[dl.newCount]? = some old ∧
      dl' = { dl with meshes := dl.meshes.set dl.newCount new } ∧
      m = old.mesh ∧ new.mesh = old.mesh ∧
      new.prevVertexBufferHash = old.prevVertexBufferHash ∧
      ((hash = old.prevVertexBufferHash ∧ new = old) ∨
        (hash ≠ old.prevVertexBufferHash ∧ interp = true ∧ new = stageMesh buf hash old ∧
          new.newVertexBufferValid = true ∧ new.newVertexBufferHash = hash ∧
          old.vertexCount = vc ∧ old.vertexStride = vs ∧ old.indexCount = ic ∧
          old.raytrace = rt)) := by
  unfold processMeshReuse at h
  simp only at h
  split at h
  · rename_i hc
    have hpv : pv = true := by
      cases pv
      · simp at hc
      · rfl
    split at h
    · cases h
    · rename_i old hold
      split at h
      · rename_i hne
        split at h
        · rename_i hfmt
          have hi : interp = true := by
            cases interp
            · simp at hfmt
            · rfl
          cases h
          have hf : old.vertexCount = vc ∧ old.vertexStride = vs ∧ old.indexCount = ic ∧
              old.raytrace = rt := by
            simp only [Bool.and_eq_true, decide_eq_true_eq] at hfmt
            exact ⟨hfmt.1.1.1.2, hfmt.1.1.2, hfmt.1.2, hfmt.2⟩
          refine ⟨old, _, hpv, hold, rfl, rfl, rfl, rfl,
            Or.inr ⟨hne, hi, rfl, rfl, ?_, hf.1, hf.2.1, hf.2.2.1, hf.2.2.2⟩⟩
          show (if hash ≠ old.newVertexBufferHash then _ else _ : Option (List α) × Nat).2 = hash
          split
          · rfl
          · rename_i hh; exact (not_not.mp hh).symm
        · cases h
      · rename_i heq
        cases h
        refine ⟨old, old, hpv, hold, ?_, rfl, rfl, rfl, Or.inl ⟨by simpa using heq, rfl⟩⟩
        rw [set_of_getElem? _ _ _ hold]
  · cases h

/-- What the creating block leaves in the slot at the current index. -/
theorem processMeshCreate_slot (ext : Extern α) (lib : Backend α) (buf : List α)
    (hash vc vs ic : Nat) (ut rt : Bool) (dl : RecordedDisplayList α) :
    ∃ new : RecordedMesh α,
      (processMeshCreate ext lib buf hash vc vs ic ut rt dl).2.1 =
        { dl with
          meshes := (if dl.meshes.length < dl.newCount + 1 then
              resizeTo dl.meshes (dl.newCount + 1) RecordedMesh.zero
            else dl.meshes).set dl.newCount new } ∧
      new.mesh = (processMeshCreate ext lib buf hash vc vs ic ut rt dl).1 ∧
      new.newVertexBufferValid = false ∧ new.prevVertexBufferHash = hash ∧
      new.prevVertexBuffer = some buf ∧ new.vertexCount = vc ∧ new.vertexStride = vs ∧
      new.indexCount = ic ∧ new.useTexture = ut ∧ new.raytrace = rt := by
  unfold processMeshCreate
  by_cases hc : dl.meshes.length < dl.newCount + 1
  · simp only [if_pos hc]
    refine ⟨_, rfl, rfl, rfl, rfl, ?_, rfl, rfl, rfl, rfl, rfl⟩
    simp only
    rw [memcpyFloats_full _ _ (by simp)]
  · simp only [if_neg hc]
    refine ⟨_, rfl, rfl, rfl, rfl, ?_, rfl, rfl, rfl, rfl, rfl⟩
    simp only
    rw [memcpyFloats_full _ _ (by simp)]

end MeshProofs

section MeshProofs
variable {α : Type} [LinearOrderedField α]

/-- The three ways in which `gfx_rt64_rapi_process_mesh` returns. -/
theorem process_mesh_cases (ext : Extern α) (sp : ShaderProgram) (lib lib' : Backend α)
    (buf : List α) (tris : Nat) (rt : Bool) (dl dl' : RecordedDisplayList α)
    (pv interp : Bool) (m : Option Handle)
    (h : gfx_rt64_rapi_process_mesh ext (some sp) lib buf tris rt dl pv interp
      = some (m, dl', lib')) :
    tris = meshVertexCount ext sp buf.length / 3 ∧
    ((∃ old : RecordedMesh α, pv = true ∧ dl.meshes[dl.newCount]? = some old ∧
        ext.xxhash64 buf = old.prevVertexBufferHash ∧ dl' = dl ∧ lib' = lib ∧ m = old.mesh) ∨
     (∃ old : RecordedMesh α, pv = true ∧ interp = true ∧ dl.meshes[dl.newCount]? = some old ∧
        ext.xxhash64 buf ≠ old.prevVertexBufferHash ∧
        old.vertexCount = meshVertexCount ext sp buf.length ∧
        old.vertexStride = meshVertexStride ext sp ∧
        old.indexCount = (tris * 3) % UINT_MOD ∧ old.raytrace = rt ∧
        dl' = { dl with
          meshes := dl.meshes.set dl.newCount (stageMesh buf (ext.xxhash64 buf) old) } ∧
        lib' = lib ∧ m = old.mesh) ∨
     ((m, dl', lib') = processMeshCreate ext lib buf (ext.xxhash64 buf)
        (meshVertexCount ext sp buf.length) (meshVertexStride ext sp) ((tris * 3) % UINT_MOD)
        (sp.usedTextures0 || sp.usedTextures1) rt dl ∧
      (pv = true → ∀ old, dl.meshes[dl.newCount]? = some old →
        ext.xxhash64 buf ≠ old.prevVertexBufferHash))) := by
  unfold gfx_rt64_rapi_process_mesh at h
  simp only at h
  split at h
  · cases h
  · rename_i hassert
    refine ⟨not_not.mp hassert, ?_⟩
    split at h
    · rename_i m1 dl1 hre
      cases h
      obtain ⟨old, new, hpv, hold, hdl, hm, _, _, hcase⟩ :=
        processMeshReuse_some _ _ _ _ _ _ _ _ _ _ _ hre
      rcases hcase with ⟨hh, hnew⟩ | ⟨hne, hi, hst, _, _, f1, f2, f3, f4⟩
      · left
        refine ⟨old, hpv, hold, hh, ?_, rfl, hm⟩
        rw [hdl, hnew, set_of_getElem? _ _ _ hold]
      · right; left
        refine ⟨old, hpv, hi, hold, hne, f1, f2, f3, f4, ?_, rfl, hm⟩
        rw [hdl, hst]
    · rename_i hre
      cases h
      right; right
      refine ⟨rfl, ?_⟩
      intro hpv old hold heq
      have := processMeshReuse_hit buf (ext.xxhash64 buf) (meshVertexCount ext sp buf.length)
        (meshVertexStride ext sp) ((tris * 3) % UINT_MOD) rt dl interp old hold
        (by simpa using heq)
      rw [hpv] at hre
      rw [this] at hre
      cases hre

/-- With equal hashes `gfx_rt64_rapi_process_mesh` returns from the reuse block. -/
theorem process_mesh_hit (ext : Extern α) (sp : ShaderProgram) (lib : Backend α)
    (buf : List α) (tris : Nat) (rt : Bool) (dl : RecordedDisplayList α) (interp : Bool)
    (mesh : RecordedMesh α)
    (hassert : tris = meshVertexCount ext sp buf.length / 3)
    (hslot : dl.meshes[dl.newCount]? = some mesh)
    (hhash : ext.xxhash64 buf = mesh.prevVertexBufferHash) :
    gfx_rt64_rapi_process_mesh ext (some sp) lib buf tris rt dl true interp
      = some (mesh.mesh, dl, lib) := by
  unfold gfx_rt64_rapi_process_mesh
  simp only [ne_eq, hassert, not_true_eq_false, if_false]
  rw [← hassert, processMeshReuse_hit buf _ _ _ _ rt dl interp mesh hslot hhash]

end MeshProofs

/-! ## The effect of a draw submission on its display list -/

section SlotProofs
variable {α : Type} [LinearOrderedField α] [FloorRing α]

theorem getElem?_resizeTo_of_lt {β : Type} (v : List β) (n k : Nat) (d : β) (h : k < v.length) :
    (resizeTo v n d)[k]? = v[k]? := by
  unfold resizeTo
  exact List.getElem?_append_left h

theorem length_resizeTo {β : Type} (v : List β) (n : Nat) (d : β) (h : v.length < n) :
    (resizeTo v n d).length = n := by
  unfold resizeTo
  rw [List.length_append, List.length_replicate]
  omega

end SlotProofs

section SlotProofs
variable {α : Type} [LinearOrderedField α]

theorem drawDisplayList_facts (s : RT64State α) (uid : Nat) :
    (drawDisplayList s uid).newCount
      = (mapGetOrCreate s.displayLists uid RecordedDisplayList.zero).newCount ∧
    (drawDisplayList s uid).meshes
      = (mapGetOrCreate s.displayLists uid RecordedDisplayList.zero).meshes ∧
    (drawDisplayList s uid).newCount < (drawDisplayList s uid).instances.length ∧
    (∀ k, k < (mapGetOrCreate s.displayLists uid RecordedDisplayList.zero).instances.length →
      (drawDisplayList s uid).instances[k]?
        = (mapGetOrCreate s.displayLists uid RecordedDisplayList.zero).instances[k]?) := by
  unfold drawDisplayList
  simp only
  split
  · rename_i hlt
    refine ⟨rfl, rfl, ?_, ?_⟩
    · show (mapGetOrCreate s.displayLists uid RecordedDisplayList.zero).newCount
        < (resizeTo _ _ _).length
      rw [length_resizeTo _ _ _ hlt]
      omega
    · intro k hk
      exact getElem?_resizeTo_of_lt _ _ _ _ hk
  · rename_i hge
    exact ⟨rfl, rfl, by omega, fun _ _ => rfl⟩

end SlotProofs

section SlotProofs
variable {α : Type} [LinearOrderedField α]

/-- The mesh processing touches only the vector of meshes, and in it only the slot
at the current index (and new empty slots, should the vector be too short); the
slot at the current index holds the returned mesh afterwards. -/
theorem process_mesh_frame (ext : Extern α) (sp : ShaderProgram) (lib lib' : Backend α)
    (buf : List α) (tris : Nat) (rt : Bool) (dl dl' : RecordedDisplayList α)
    (pv interp : Bool) (m : Option Handle)
    (h : gfx_rt64_rapi_process_mesh ext (some sp) lib buf tris rt dl pv interp
      = some (m, dl', lib')) :
    dl'.instances = dl.instances ∧ dl'.newCount = dl.newCount ∧ dl'.newValid = dl.newValid ∧
    dl'.prevValid = dl.prevValid ∧ dl'.prevTransform = dl.prevTransform ∧
    dl'.newTransform = dl.newTransform ∧
    (∀ k, k ≠ dl.newCount → k < dl.meshes.length → dl'.meshes[k]? = dl.meshes[k]?) ∧
    (∃ new, dl'.meshes[dl.newCount]? = some new ∧ new.mesh = m) := by
  obtain ⟨_, hcase⟩ := process_mesh_cases ext sp lib lib' buf tris rt dl dl' pv interp m h
  rcases hcase with ⟨old, _, hold, _, hdl, _, hm⟩ |
    ⟨old, _, _, hold, _, _, _, _, _, hdl, _, hm⟩ | ⟨hc, _⟩
  · subst hdl
    exact ⟨rfl, rfl, rfl, rfl, rfl, rfl, fun _ _ _ => rfl, old, hold, hm.symm⟩
  · subst hdl
    have hlt : dl.newCount < dl.meshes.length := by
      rcases List.getElem?_eq_some.mp hold with ⟨h, _⟩
      exact h
    refine ⟨rfl, rfl, rfl, rfl, rfl, rfl, ?_, _, List.getElem?_set_self hlt, ?_⟩
    · intro k hk _
      exact List.getElem?_set_ne (Ne.symm hk)
    · rw [hm]; rfl
  · obtain ⟨new, hdl, hm, _⟩ := processMeshCreate_slot ext lib buf (ext.xxhash64 buf)
      (meshVertexCount ext sp buf.length) (meshVertexStride ext sp) ((tris * 3) % UINT_MOD)
      (sp.usedTextures0 || sp.usedTextures1) rt dl
    rw [← hc] at hdl hm
    simp only at hdl hm
    subst hdl
    refine ⟨rfl, rfl, rfl, rfl, rfl, rfl, ?_, new, ?_, hm⟩
    · intro k hk hlt
      show (List.set _ _ _)[k]? = _
      rw [List.getElem?_set_ne (Ne.symm hk)]
      split
      · exact getElem?_resizeTo_of_lt _ _ _ _ hlt
      · rfl
    · show (List.set _ _ _)[dl.newCount]? = _
      apply List.getElem?_set_self
      split
      · rename_i hlt
        rw [length_resizeTo _ _ _ hlt]; omega
      · omega

end SlotProofs

/-! ## Identifier 0 -/

section ZeroProofs
variable {α : Type} [LinearOrderedField α] [FloorRing α]

/-- C2 (as amended): a draw submission tagged with identifier 0 is recorded in the
display list map like any other (the entry of identifier 0 exists afterwards, with
the counter raised by one), and what identifier 0 switches off is interpolation:
the instance at the current index has its prev transform and rects set to the
submitted ones, and the mesh slot at that index is never staged: it is either the
slot as it was, with a stored hash equal to the hash of the submitted buffer, or a
mesh created from the submitted buffer. -/
theorem identifier_zero_no_interpolation (ext : Extern α) (s s' : RT64State α)
    (transform : RT64_MATRIX4 α) (buf : List α) (tris : Nat) (ds rt : Bool)
    (h : gfx_rt64_rapi_draw_triangles_common ext s transform buf tris ds rt 0 = some s') :
    ∃ (dl' : RecordedDisplayList α) (inst : RecordedInstance α) (new : RecordedMesh α),
      mapFind s'.displayLists 0 = some dl' ∧
      dl'.newCount = (mapGetOrCreate s.displayLists 0 RecordedDisplayList.zero).newCount + 1 ∧
      dl'.instances[(mapGetOrCreate s.displayLists 0 RecordedDisplayList.zero).newCount]?
        = some inst ∧
      dl'.meshes[(mapGetOrCreate s.displayLists 0 RecordedDisplayList.zero).newCount]?
        = some new ∧
      inst.desc.mesh = new.mesh ∧
      inst.prevTransform = transform ∧ inst.newTransform = transform ∧
      inst.prevScissorRect = s.scissorRect ∧ inst.prevViewportRect = s.viewportRect ∧
      (((mapGetOrCreate s.displayLists 0 RecordedDisplayList.zero).meshes[
            (mapGetOrCreate s.displayLists 0 RecordedDisplayList.zero).newCount]? = some new ∧
          ext.xxhash64 buf = new.prevVertexBufferHash) ∨
        (new.newVertexBufferValid = false ∧ new.prevVertexBufferHash = ext.xxhash64 buf ∧
          new.prevVertexBuffer = some buf)) := by
  obtain ⟨l, mesh, dl2, lib2, desc, hdl, _, hint, _, hnt, hskip, hpm, hdesc, _, hdls⟩ :=
    draw_inv ext s s' transform buf tris ds rt 0 h
  obtain ⟨f1, f2, f3, _⟩ := drawDisplayList_facts s 0
  have hi : l.interpolate = false := by
    cases hli : l.interpolate
    · rfl
    · exact absurd rfl (hint hli)
  obtain ⟨q1, q2, q3⟩ := hskip (Or.inr hi)
  cases hsp : currentShaderProgram l.state with
  | none => rw [hsp] at hpm; simp [gfx_rt64_rapi_process_mesh] at hpm
  | some sp =>
    rw [hsp] at hpm
    obtain ⟨g1, g2, _, _, _, _, _, new, hnew, hm⟩ := process_mesh_frame ext sp _ _ _ _ _ _ _ _ _ _ hpm
    have hnc : dl2.newCount = (mapGetOrCreate s.displayLists 0 RecordedDisplayList.zero).newCount := by
      rw [g2, hdl]; exact f1
    have hnc1 : l.displayList.newCount
        = (mapGetOrCreate s.displayLists 0 RecordedDisplayList.zero).newCount := by
      rw [hdl]; exact f1
    have hlen : dl2.newCount < dl2.instances.length := by
      rw [g1, g2, hdl]; exact f3
    refine ⟨{ dl2 with
        instances := dl2.instances.set dl2.newCount { l.displayListInstance with desc := desc }
        newCount := dl2.newCount + 1 },
      { l.displayListInstance with desc := desc }, new, ?_, ?_, ?_, ?_, ?_, q1, hnt,
      q2, q3, ?_⟩
    · rw [hdls]; exact mapFind_mapInsert_self _ _ _
    · show dl2.newCount + 1 = _
      rw [hnc]
    · show (dl2.instances.set dl2.newCount _)[_]? = _
      rw [← hnc]
      exact List.getElem?_set_self hlen
    · show dl2.meshes[_]? = _
      rw [← hnc1]; exact hnew
    · show desc.mesh = new.mesh
      rw [hdesc, hm]
    · obtain ⟨_, hcase⟩ := process_mesh_cases ext sp _ _ _ _ _ _ _ _ _ _ hpm
      rcases hcase with ⟨old, _, hold, hh, hdl2, _, _⟩ |
        ⟨old, _, hi', _⟩ | ⟨hc, _⟩
      · left
        subst hdl2
        rw [hold] at hnew
        cases hnew
        refine ⟨?_, hh⟩
        rw [← f2, ← hnc1, hdl] at *
        exact hold
      · rw [hi] at hi'; cases hi'
      · right
        obtain ⟨new', hdl', _, v1, v2, v3, _⟩ := processMeshCreate_slot ext l.state.lib buf
          (ext.xxhash64 buf) (meshVertexCount ext sp buf.length) (meshVertexStride ext sp)
          ((tris * 3) % UINT_MOD) (sp.usedTextures0 || sp.usedTextures1) rt l.displayList
        rw [← hc] at hdl'
        simp only at hdl'
        have hlt : l.displayList.newCount <
            (if l.displayList.meshes.length < l.displayList.newCount + 1 then
              resizeTo l.displayList.meshes (l.displayList.newCount + 1) RecordedMesh.zero
            else l.displayList.meshes).length := by
          split
          · rename_i hlt
            rw [length_resizeTo _ _ _ hlt]; omega
          · omega
        have : dl2.meshes[l.displayList.newCount]? = some new' := by
          rw [hdl']
          exact List.getElem?_set_self hlt
        rw [this] at hnew
        cases hnew
        exact ⟨v1, v2, v3⟩

end ZeroProofs

/-- Witness of `identifier_zero_no_interpolation`: a triangle submitted under
identifier 0 with the shader `0x200` bound. -/
theorem identifier_zero_no_interpolation_witness :
    ∃ s1 : RT64State ℚ,
      gfx_rt64_rapi_draw_triangles_common ratExtern loadedState identityMatrix triangleBuffer 1
        false true 0 = some s1 ∧
      ∃ (dl' : RecordedDisplayList ℚ) (inst : RecordedInstance ℚ),
        mapFind s1.displayLists 0 = some dl' ∧ dl'.newCount = 0 + 1 ∧
        dl'.instances[0]? = some inst ∧ inst.prevTransform = identityMatrix := by
  have hsome : (gfx_rt64_rapi_draw_triangles_common ratExtern loadedState identityMatrix
      triangleBuffer 1 false true 0).isSome = true := by decide
  obtain ⟨s1, hs1⟩ := Option.isSome_iff_exists.mp hsome
  obtain ⟨dl', inst, new, h1, h2, h3, -, -, h6, -⟩ :=
    identifier_zero_no_interpolation ratExtern loadedState s1 identityMatrix triangleBuffer 1
      false true hs1
  exact ⟨s1, hs1, dl', inst, h1, h2, h3, h6⟩

/-- C2 (counterexample): with the shader `0x200` bound, a triangle is submitted under
identifier 0, the tick is committed, and the same triangle is submitted under
identifier 0 again.  The display list map has an entry for identifier 0 after the
first submission and after the commit; the mesh created for the first submission
(pointer 3) is the mesh returned for the second one, and the second submission makes
no mesh call of the library. -/
theorem identifier_zero_is_cached :
    ((gfx_rt64_rapi_draw_triangles_common ratExtern loadedState identityMatrix triangleBuffer 1
        false true 0).bind fun s1 =>
      (gfx_rt64_rapi_end_frame ratExtern plainGame s1).bind fun s2 =>
        (gfx_rt64_rapi_draw_triangles_common ratExtern s2 identityMatrix triangleBuffer 1
          false true 0).map fun s3 =>
          ([slotMeshes s1 0, slotMeshes s2 0, instanceMeshes s3 0],
            (meshCalls s3.lib).length - (meshCalls s2.lib).length))
      = some ([some [some 3], some [some 3], some [some 3]], 0) := by
  decide!

/-! ## The loops of the tick commit in closed form -/

section LoopProofs
variable {α : Type}

theorem dropLast_take_getLast {β : Type} (l : List β) (x : β) (h : l.getLast? = some x) :
    l = l.dropLast ++ [x] := by
  rcases List.getLast?_eq_some_iff.mp h with ⟨ys, rfl⟩
  rw [List.dropLast_concat]

theorem destroyUnusedInstances_eq (newCount : Nat) :
    ∀ (fuel : Nat) (l : List (RecordedInstance α)) (lib : Backend α), l.length ≤ fuel →
      destroyUnusedInstances newCount fuel l lib =
        (l.take newCount,
          { lib with calls := lib.calls ++
            ((l.drop newCount).reverse.map fun i => BackendCall.DestroyInstance i.instance_) })
  | 0, l, lib, h => by
    have : l = [] := List.length_eq_zero.mp (Nat.le_zero.mp h)
    subst this
    simp [destroyUnusedInstances]
  | fuel + 1, l, lib, h => by
    unfold destroyUnusedInstances
    by_cases hlen : l.length > newCount
    · rw [if_pos hlen]
      cases hlast : l.getLast? with
      | none =>
        have : l = [] := List.getLast?_eq_none_iff.mp hlast
        subst this
        simp at hlen
      | some x =>
        simp only
        have hl := dropLast_take_getLast l x hlast
        have hlen' : l.dropLast.length = l.length - 1 := List.length_dropLast l
        rw [destroyUnusedInstances_eq newCount fuel l.dropLast _ (by omega)]
        have h1 : l.take newCount = l.dropLast.take newCount := by
          conv_lhs => rw [hl]
          rw [List.take_append_of_le_length (by omega)]
        have h2 : l.drop newCount = l.dropLast.drop newCount ++ [x] := by
          conv_lhs => rw [hl]
          rw [List.drop_append_of_le_length (by omega)]
        rw [h1, h2]
        simp [Backend.call, List.reverse_append]
    · rw [if_neg hlen]
      have : l.length ≤ newCount := by omega
      rw [List.take_of_length_le this, List.drop_of_length_le this]
      simp

theorem destroyUnusedMeshes_eq (newCount : Nat) :
    ∀ (fuel : Nat) (l : List (RecordedMesh α)) (lib : Backend α), l.length ≤ fuel →
      destroyUnusedMeshes newCount fuel l lib =
        (l.take newCount,
          { lib with calls := lib.calls ++
            ((l.drop newCount).reverse.map fun m => BackendCall.DestroyMesh m.mesh) })
  | 0, l, lib, h => by
    have : l = [] := List.length_eq_zero.mp (Nat.le_zero.mp h)
    subst this
    simp [destroyUnusedMeshes]
  | fuel + 1, l, lib, h => by
    unfold destroyUnusedMeshes
    by_cases hlen : l.length > newCount
    · rw [if_pos hlen]
      cases hlast : l.getLast? with
      | none =>
        have : l = [] := List.getLast?_eq_none_iff.mp hlast
        subst this
        simp at hlen
      | some x =>
        simp only
        have hl := dropLast_take_getLast l x hlast
        have hlen' : l.dropLast.length = l.length - 1 := List.length_dropLast l
        rw [destroyUnusedMeshes_eq newCount fuel l.dropLast _ (by omega)]
        have h1 : l.take newCount = l.dropLast.take newCount := by
          conv_lhs => rw [hl]
          rw [List.take_append_of_le_length (by omega)]
        have h2 : l.drop newCount = l.dropLast.drop newCount ++ [x] := by
          conv_lhs => rw [hl]
          rw [List.drop_append_of_le_length (by omega)]
        rw [h1, h2]
        simp [Backend.call, List.reverse_append]
    · rw [if_neg hlen]
      have : l.length ≤ newCount := by omega
      rw [List.take_of_length_le this, List.drop_of_length_le this]
      simp

theorem end_frame_cleanup_display_list_eq (e : Nat × RecordedDisplayList α) :
    end_frame_cleanup_display_list e =
      if e.2.newValid then some (e.1, commitDisplayList e.2) else none := by
  unfold end_frame_cleanup_display_list commitDisplayList
  rfl

theorem mapFind_cleanup_kept (l : List (Nat × RecordedDisplayList α)) (k : Nat)
    (dl : RecordedDisplayList α) (h : mapFind l k = some dl) (hv : dl.newValid = true) :
    mapFind (l.filterMap end_frame_cleanup_display_list) k = some (commitDisplayList dl) := by
  induction l with
  | nil => cases h
  | cons e t ih =>
    obtain ⟨k', d⟩ := e
    rw [mapFind_cons] at h
    rw [List.filterMap_cons, end_frame_cleanup_display_list_eq]
    by_cases hk : k' = k
    · rw [if_pos hk] at h
      cases h
      simp only [hv, if_true]
      rw [mapFind_cons, if_pos hk]
    · rw [if_neg hk] at h
      by_cases hd : d.newValid = true
      · simp only [hd, if_true]
        rw [mapFind_cons, if_neg hk]
        exact ih h
      · simp only [hd]
        exact ih h

theorem mapFind_cleanup_erased (l : List (Nat × RecordedDisplayList α)) (k : Nat)
    (h : ∀ e ∈ l, e.1 = k → e.2.newValid = false) :
    mapFind (l.filterMap end_frame_cleanup_display_list) k = none := by
  induction l with
  | nil => rfl
  | cons e t ih =>
    obtain ⟨k', d⟩ := e
    have ht : ∀ e ∈ t, e.1 = k → e.2.newValid = false :=
      fun e he => h e (List.mem_cons_of_mem _ he)
    rw [List.filterMap_cons, end_frame_cleanup_display_list_eq]
    by_cases hd : d.newValid = true
    · simp only [hd, if_true]
      have hk : k' ≠ k := by
        intro hk
        have := h (k', d) (List.mem_cons_self _ _) hk
        simp only at this
        rw [hd] at this
        cases this
      rw [mapFind_cons, if_neg hk]
      exact ih ht
    · simp only [hd]
      exact ih ht

theorem commitMesh_fields (m : RecordedMesh α) :
    (commitMesh m).mesh = m.mesh ∧ (commitMesh m).prevVertexBufferHash = committedHash m ∧
    (commitMesh m).newVertexBufferValid = false := by
  unfold commitMesh committedHash
  cases h : m.newVertexBufferValid <;> simp [h]

end LoopProofs

section PhaseProofs
variable {α : Type} [LinearOrderedField α] [FloorRing α]

theorem end_frame_process_display_list_eq (ext : Extern α)
    (acc : List (Nat × RecordedDisplayList α) × Backend α) (e : Nat × RecordedDisplayList α) :
    end_frame_process_display_list ext acc e =
      (acc.1 ++ [(e.1, processDisplayList ext e.2)],
        { acc.2 with calls := acc.2.calls ++ destroyCalls e.2 }) := by
  unfold end_frame_process_display_list
  simp only
  rw [destroyUnusedInstances_eq _ _ _ _ (Nat.le_refl _)]
  simp only
  rw [destroyUnusedMeshes_eq _ _ _ _ (Nat.le_refl _)]
  simp only [processDisplayList, destroyCalls, List.append_assoc]

theorem end_frame_process_foldl (ext : Extern α) (l : List (Nat × RecordedDisplayList α)) :
    ∀ (acc : List (Nat × RecordedDisplayList α)) (lib : Backend α),
      l.foldl (end_frame_process_display_list ext) (acc, lib) =
        (acc ++ l.map (fun e => (e.1, processDisplayList ext e.2)),
          { lib with calls := lib.calls ++ (l.map fun e => destroyCalls e.2).flatten }) := by
  induction l with
  | nil => intro acc lib; simp
  | cons e t ih =>
    intro acc lib
    rw [List.foldl_cons, end_frame_process_display_list_eq, ih]
    simp [List.append_assoc]

/-- The loop "Process display lists" in closed form. -/
theorem end_frame_process_eq (ext : Extern α) (s : RT64State α) :
    (end_frame_process ext s).displayLists =
      s.displayLists.map (fun e => (e.1, processDisplayList ext e.2)) ∧
    (end_frame_process ext s).lib =
      { s.lib with
        calls := s.lib.calls ++ (s.displayLists.map fun e => destroyCalls e.2).flatten } := by
  unfold end_frame_process
  rw [end_frame_process_foldl]
  exact ⟨by simp, rfl⟩

end PhaseProofs

section PhaseProofs
variable {α : Type} [LinearOrderedField α]

theorem special_stage_lights_frame (ext : Extern α) (g : Game α) (s : RT64State α)
    (levelIndex areaIndex : Nat) :
    (gfx_rt64_rapi_set_special_stage_lights ext g s levelIndex areaIndex).displayLists
      = s.displayLists ∧
    (gfx_rt64_rapi_set_special_stage_lights ext g s levelIndex areaIndex).targetFPS
      = s.targetFPS ∧
    (gfx_rt64_rapi_set_special_stage_lights ext g s levelIndex areaIndex).lib = s.lib := by
  unfold gfx_rt64_rapi_set_special_stage_lights
  split <;> exact ⟨rfl, rfl, rfl⟩

theorem end_frame_pick_displayLists (g : Game α) (s : RT64State α) :
    (end_frame_pick g s).displayLists = s.displayLists := by
  unfold end_frame_pick
  simp only
  split_ifs <;> rfl

end PhaseProofs

section PhaseProofs
variable {α : Type} [LinearOrderedField α]

theorem end_frame_lights_frame (ext : Extern α) (g : Game α) (s s1 : RT64State α)
    (h : end_frame_lights ext g s = some s1) :
    s1.displayLists = s.displayLists ∧ s1.targetFPS = s.targetFPS ∧
    s1.lib = s.lib.call BackendCall.SetSceneDescription := by
  obtain ⟨a1, a2, a3⟩ := special_stage_lights_frame ext g s g.levelIndex g.areaIndex
  unfold end_frame_lights at h
  simp only at h
  split at h
  · cases h
    exact ⟨a1, a2, by rw [← a3]⟩
  · cases h

end PhaseProofs

section PhaseProofs
variable {α : Type} [LinearOrderedField α] [FloorRing α]

theorem draw_frame_instance_foldl (t : α) (l : List (RecordedInstance α)) :
    ∀ (acc : List (RecordedInstance α)) (lib : Backend α),
      (l.foldl (draw_frame_instance t) (acc, lib)).1 = acc ++ l.map (frameInstance t) := by
  induction l with
  | nil => intro acc lib; simp
  | cons e r ih =>
    intro acc lib
    have hstep : draw_frame_instance t (acc, lib) e =
        (acc ++ [frameInstance t e],
          lib.call (BackendCall.SetInstanceDescription e.instance_ (frameInstance t e).desc)) :=
      rfl
    rw [List.foldl_cons, hstep, ih]
    simp

theorem draw_frame_display_list_fst (t : α)
    (acc : List (Nat × RecordedDisplayList α) × TempBuffers α)
    (e : Nat × RecordedDisplayList α) :
    (draw_frame_display_list t acc e).1 = acc.1 ++ [(e.1, frameDisplayList t e.2)] := by
  unfold draw_frame_display_list
  simp only
  have := draw_frame_instance_foldl t e.2.instances [] acc.2.lib
  rw [List.nil_append] at this
  simp only [frameDisplayList, this]

theorem draw_frame_display_lists_foldl (t : α) (l : List (Nat × RecordedDisplayList α)) :
    ∀ (acc : List (Nat × RecordedDisplayList α) × TempBuffers α),
      (l.foldl (draw_frame_display_list t) acc).1 =
        acc.1 ++ l.map (fun e => (e.1, frameDisplayList t e.2)) := by
  induction l with
  | nil => intro acc; simp
  | cons e r ih =>
    intro acc
    rw [List.foldl_cons, ih, draw_frame_display_list_fst]
    simp [List.append_assoc]

/-- The display lists after `gfx_rt64_rapi_draw_frame`, in closed form. -/
theorem draw_frame_displayLists (g : Game α) (s : RT64State α) (t : α) :
    (gfx_rt64_rapi_draw_frame g s t).displayLists =
      s.displayLists.map (fun e => (e.1, frameDisplayList t e.2)) := by
  unfold gfx_rt64_rapi_draw_frame
  simp only
  rw [draw_frame_display_lists_foldl]
  simp

end PhaseProofs

section CommitProofs
variable {α : Type} [LinearOrderedField α] [FloorRing α]

theorem mapFind_map_values {κ ν : Type} [DecidableEq κ] (f : ν → ν) (l : List (κ × ν))
    (k : κ) : mapFind (l.map fun e => (e.1, f e.2)) k = (mapFind l k).map f := by
  induction l with
  | nil => rfl
  | cons e t ih =>
    obtain ⟨k', v⟩ := e
    rw [List.map_cons, mapFind_cons, mapFind_cons]
    by_cases h : k' = k
    · rw [if_pos h, if_pos h]; rfl
    · rw [if_neg h, if_neg h]; exact ih

theorem draw_frame_targetFPS (g : Game α) (s : RT64State α) (t : α) :
    (gfx_rt64_rapi_draw_frame g s t).targetFPS = s.targetFPS := by
  simp only [gfx_rt64_rapi_draw_frame]

theorem draw_frames_displayLists (g : Game α) (ws : List α) :
    ∀ s : RT64State α,
      (ws.foldl (fun s t => gfx_rt64_rapi_draw_frame g s t) s).displayLists =
        s.displayLists.map (fun e => (e.1, framesDisplayList ws e.2)) := by
  induction ws with
  | nil =>
    intro s
    simp [framesDisplayList]
  | cons t r ih =>
    intro s
    rw [List.foldl_cons, ih, draw_frame_displayLists]
    simp [framesDisplayList]

theorem end_frame_draw_frames_eq (g : Game α) (s : RT64State α) :
    end_frame_draw_frames g s =
      (frameWeights s.targetFPS).foldl (fun s t => gfx_rt64_rapi_draw_frame g s t) s := by
  unfold end_frame_draw_frames frameWeights
  simp only
  rw [List.foldl_map]

/-- The display lists after `gfx_rt64_rapi_end_frame`, in closed form: every
display list goes through the processing loop and the sub-frames, and the cleanup
loop keeps the committed display lists that were touched in the tick. -/
theorem end_frame_displayLists (ext : Extern α) (g : Game α) (s s' : RT64State α)
    (h : gfx_rt64_rapi_end_frame ext g s = some s') :
    s'.displayLists =
      (s.displayLists.map fun e =>
        (e.1, framesDisplayList (frameWeights s.targetFPS) (processDisplayList ext e.2))).filterMap
        end_frame_cleanup_display_list := by
  unfold gfx_rt64_rapi_end_frame at h
  split at h
  · cases h
  · rename_i s1 h1
    cases h
    obtain ⟨e1, e2, _⟩ := end_frame_lights_frame ext g s s1 h1
    show List.filterMap _ (end_frame_pick g _).displayLists = _
    rw [end_frame_pick_displayLists, end_frame_draw_frames_eq, draw_frames_displayLists,
      (end_frame_process_eq ext s1).1]
    have : (end_frame_process ext s1).targetFPS = s.targetFPS := e2
    rw [this, e1, List.map_map]
    rfl

end CommitProofs

/-! ## A slot through two ticks -/

section TickProofs
variable {α : Type} [LinearOrderedField α] [FloorRing α]

theorem mapGetOrCreate_of_find {κ ν : Type} [DecidableEq κ] (m : List (κ × ν)) (k : κ)
    (d v : ν) (h : mapFind m k = some v) : mapGetOrCreate m k d = v := by
  unfold mapGetOrCreate
  rw [h]; rfl

end TickProofs

section TickProofs
variable {α : Type} [LinearOrderedField α]

theorem process_mesh_some_program (ext : Extern α) (osp : Option ShaderProgram)
    (lib : Backend α) (buf : List α) (tris : Nat) (rt : Bool) (dl : RecordedDisplayList α)
    (pv interp : Bool) (r : Option Handle × RecordedDisplayList α × Backend α)
    (h : gfx_rt64_rapi_process_mesh ext osp lib buf tris rt dl pv interp = some r) :
    ∃ sp, osp = some sp := by
  cases osp with
  | none => simp [gfx_rt64_rapi_process_mesh] at h
  | some sp => exact ⟨sp, rfl⟩

end TickProofs

section TickProofs
variable {α : Type} [LinearOrderedField α]

/-- After the mesh processing the slot at the current index holds the returned mesh,
and the commit will leave the hash of the submitted buffer as its stored hash,
provided the slot was not staged before. -/
theorem process_mesh_committed (ext : Extern α) (sp : ShaderProgram) (lib lib' : Backend α)
    (buf : List α) (tris : Nat) (rt : Bool) (dl dl' : RecordedDisplayList α)
    (pv interp : Bool) (m : Option Handle)
    (h : gfx_rt64_rapi_process_mesh ext (some sp) lib buf tris rt dl pv interp
      = some (m, dl', lib'))
    (hun : ∀ old, dl.meshes[dl.newCount]? = some old → old.newVertexBufferValid = false) :
    ∃ new, dl'.meshes[dl.newCount]? = some new ∧ new.mesh = m ∧
      committedHash new = ext.xxhash64 buf := by
  obtain ⟨_, hcase⟩ := process_mesh_cases ext sp lib lib' buf tris rt dl dl' pv interp m h
  rcases hcase with ⟨old, _, hold, hh, hdl, _, hm⟩ |
    ⟨old, _, _, hold, _, _, _, _, _, hdl, _, hm⟩ | ⟨hc, _⟩
  · subst hdl
    refine ⟨old, hold, hm.symm, ?_⟩
    unfold committedHash
    rw [hun old hold]
    exact hh.symm
  · subst hdl
    have hlt : dl.newCount < dl.meshes.length := by
      rcases List.getElem?_eq_some.mp hold with ⟨h, _⟩
      exact h
    refine ⟨_, List.getElem?_set_self hlt, by rw [hm]; rfl, ?_⟩
    unfold committedHash stageMesh
    simp only [if_true]
    split
    · rfl
    · rename_i hh; exact (not_not.mp hh).symm
  · obtain ⟨new, hdl, hm, v1, v2, _⟩ := processMeshCreate_slot ext lib buf (ext.xxhash64 buf)
      (meshVertexCount ext sp buf.length) (meshVertexStride ext sp) ((tris * 3) % UINT_MOD)
      (sp.usedTextures0 || sp.usedTextures1) rt dl
    rw [← hc] at hdl hm
    simp only at hdl hm
    subst hdl
    refine ⟨new, ?_, hm, ?_⟩
    · show (List.set _ _ _)[dl.newCount]? = _
      apply List.getElem?_set_self
      split
      · rename_i hlt
        rw [length_resizeTo _ _ _ hlt]; omega
      · omega
    · unfold committedHash
      rw [v1]
      exact v2

end TickProofs

section TickProofs
variable {α : Type} [LinearOrderedField α] [FloorRing α]

/-- A submission leaves the display lists of the other identifiers alone. -/
theorem submit_other (ext : Extern α) (s s' : RT64State α) (d : Submission α) (uid : Nat)
    (h : submit ext s d = some s') (hne : d.uid ≠ uid) :
    mapFind s'.displayLists uid = mapFind s.displayLists uid := by
  obtain ⟨l, mesh, dl2, lib2, desc, _, _, _, _, _, _, _, _, _, hdls⟩ :=
    draw_inv ext s s' _ _ _ _ _ _ h
  rw [hdls]
  exact mapFind_mapInsert_ne _ _ _ _ hne

/-- What a submission does to the display list of its own identifier, in terms of
the display list `dl0` before: the counter goes up by one, the display list is
marked as touched, the instance and the mesh slot at the old counter are replaced by
the results of the mesh processing, and the other slots stay. -/
theorem submit_own (ext : Extern α) (s s' : RT64State α) (d : Submission α)
    (h : submit ext s d = some s') :
    ∃ (dl' dlIn dl2 : RecordedDisplayList α) (inst : RecordedInstance α) (sp : ShaderProgram)
      (lib lib2 : Backend α) (pv interp : Bool),
      mapFind s'.displayLists d.uid = some dl' ∧
      dl'.newCount = positionOf s d.uid + 1 ∧ dl'.newValid = true ∧
      dl'.instances[positionOf s d.uid]? = some inst ∧
      (∀ k, k ≠ positionOf s d.uid →
        k < (mapGetOrCreate s.displayLists d.uid RecordedDisplayList.zero).instances.length →
        dl'.instances[k]?
          = (mapGetOrCreate s.displayLists d.uid RecordedDisplayList.zero).instances[k]?) ∧
      (∀ i, (mapGetOrCreate s.displayLists d.uid RecordedDisplayList.zero).instances[
          positionOf s d.uid]? = some i → pv = i.prevValid) ∧
      dlIn.meshes = (mapGetOrCreate s.displayLists d.uid RecordedDisplayList.zero).meshes ∧
      dlIn.newCount = positionOf s d.uid ∧
      gfx_rt64_rapi_process_mesh ext (some sp) lib d.buf_vbo d.buf_vbo_num_tris d.raytrace dlIn
        pv interp = some (inst.desc.mesh, dl2, lib2) ∧
      dl'.meshes = dl2.meshes := by
  obtain ⟨l, mesh, dl2, lib2, desc, hdl, _, _, hpv, _, _, hpm, hdesc, _, hdls⟩ :=
    draw_inv ext s s' _ _ _ _ _ _ h
  obtain ⟨f1, f2, f3, f4⟩ := drawDisplayList_facts s d.uid
  obtain ⟨sp, hsp⟩ := process_mesh_some_program ext _ _ _ _ _ _ _ _ _ hpm
  rw [hsp] at hpm
  obtain ⟨g1, g2, g3, _⟩ := process_mesh_frame ext sp _ _ _ _ _ _ _ _ _ _ hpm
  have hnc : dl2.newCount = positionOf s d.uid := by
    rw [g2, hdl]; exact f1
  have hinst : dl2.instances = (drawDisplayList s d.uid).instances := by
    rw [g1, hdl]
  refine ⟨{ dl2 with
      instances := dl2.instances.set dl2.newCount { l.displayListInstance with desc := desc }
      newCount := dl2.newCount + 1 },
    l.displayList, dl2, { l.displayListInstance with desc := desc }, sp, l.state.lib,
    lib2, l.displayListInstance.prevValid, l.interpolate, ?_, ?_, ?_, ?_, ?_, ?_, ?_, ?_, ?_, rfl⟩
  · rw [hdls]; exact mapFind_mapInsert_self _ _ _
  · show dl2.newCount + 1 = _
    rw [hnc]
  · show dl2.newValid = true
    rw [g3, hdl]
  · show (dl2.instances.set dl2.newCount _)[_]? = _
    rw [← hnc]
    apply List.getElem?_set_self
    rw [hinst, hnc]
    have := f3
    rw [f1] at this
    exact this
  · intro k hk hlt
    show (dl2.instances.set dl2.newCount _)[k]? = _
    rw [hnc, List.getElem?_set_ne (Ne.symm hk), hinst]
    exact f4 k hlt
  · intro i hi
    rw [hpv, f1]
    have hlt : positionOf s d.uid
        < (mapGetOrCreate s.displayLists d.uid RecordedDisplayList.zero).instances.length := by
      rcases List.getElem?_eq_some.mp hi with ⟨h, _⟩
      exact h
    have := f4 _ hlt
    rw [hi] at this
    rw [List.getD_eq_getElem?_getD]
    show ((drawDisplayList s d.uid).instances[positionOf s d.uid]?.getD _).prevValid = _
    rw [this]; rfl
  · rw [hdl]; exact f2
  · rw [hdl]; exact f1
  · show gfx_rt64_rapi_process_mesh ext (some sp) l.state.lib d.buf_vbo d.buf_vbo_num_tris
      d.raytrace l.displayList l.displayListInstance.prevValid l.interpolate
      = some (desc.mesh, dl2, lib2)
    rw [hdesc]; exact hpm

end TickProofs

section TickProofs
variable {α : Type} [LinearOrderedField α]

theorem meshSlot_of_getOrCreate (s : RT64State α) (uid k : Nat) (old : RecordedMesh α)
    (h : (mapGetOrCreate s.displayLists uid RecordedDisplayList.zero).meshes[k]? = some old) :
    meshSlot s uid k = some old := by
  unfold meshSlot
  unfold mapGetOrCreate at h
  cases hf : mapFind s.displayLists uid with
  | none =>
    rw [hf] at h
    simp [RecordedDisplayList.zero] at h
  | some dl =>
    rw [hf] at h
    exact h

end TickProofs

section TickProofs
variable {α : Type} [LinearOrderedField α] [FloorRing α]

/-- A submission under `uid` makes the slot at its position a drawn slot. -/
theorem submit_draws_slot (ext : Extern α) (s s' : RT64State α) (d : Submission α)
    (h : submit ext s d = some s') (hun : NextSlotUnstaged s d.uid) :
    ∃ hd, SlotDrawn s' d.uid (positionOf s d.uid) hd (ext.xxhash64 d.buf_vbo) := by
  obtain ⟨dl', dlIn, dl2, inst, sp, lib, lib2, pv, interp, h1, h2, h3, h4, _, _, h7, h8, h9,
    h10⟩ := submit_own ext s s' d h
  have hun' : ∀ old, dlIn.meshes[dlIn.newCount]? = some old →
      old.newVertexBufferValid = false := by
    intro old hold
    rw [h7, h8] at hold
    exact hun old (meshSlot_of_getOrCreate s d.uid _ old hold)
  obtain ⟨new, n1, n2, n3⟩ := process_mesh_committed ext sp lib lib2 _ _ _ dlIn dl2 pv interp _
    h9 hun'
  refine ⟨inst.desc.mesh, dl', inst, new, h1, by omega, h3, h4, rfl, ?_, n2, n3⟩
  rw [h10, ← h8]; exact n1

/-- A later submission leaves a drawn slot as it is. -/
theorem submit_keeps_drawn (ext : Extern α) (s s' : RT64State α) (d : Submission α)
    (uid k : Nat) (hd : Option Handle) (H : Nat) (hs : SlotDrawn s uid k hd H)
    (h : submit ext s d = some s') : SlotDrawn s' uid k hd H := by
  obtain ⟨dl, i, m, a1, a2, a3, a4, a5, a6, a7, a8⟩ := hs
  by_cases hu : d.uid = uid
  · obtain ⟨dl', dlIn, dl2, inst, sp, lib, lib2, pv, interp, h1, h2, h3, _, h5, _, h7, h8, h9,
      h10⟩ := submit_own ext s s' d h
    rw [hu] at h1 h2 h5 h7 h8
    have hdl0 : mapGetOrCreate s.displayLists uid RecordedDisplayList.zero = dl :=
      mapGetOrCreate_of_find _ _ _ _ a1
    have hpos : positionOf s uid = dl.newCount := by unfold positionOf; rw [hdl0]
    rw [hdl0] at h5 h7
    rw [hpos] at h2 h5 h8
    have hki : k < dl.instances.length := by
      rcases List.getElem?_eq_some.mp a4 with ⟨h, _⟩
      exact h
    have hkm : k < dl.meshes.length := by
      rcases List.getElem?_eq_some.mp a6 with ⟨h, _⟩
      exact h
    obtain ⟨_, _, _, _, _, _, g7, _⟩ := process_mesh_frame ext sp _ _ _ _ _ _ _ _ _ _ h9
    refine ⟨dl', i, m, h1, by omega, h3, ?_, a5, ?_, a7, a8⟩
    · rw [h5 k (by omega) hki]; exact a4
    · rw [h10, g7 k (by omega) (by rw [h7]; exact hkm), h7]; exact a6
  · exact ⟨dl, i, m, by rw [submit_other ext s s' d uid h hu]; exact a1, a2, a3, a4, a5, a6,
      a7, a8⟩

theorem submitAll_keeps_drawn (ext : Extern α) (ds : List (Submission α)) (uid k : Nat)
    (hd : Option Handle) (H : Nat) :
    ∀ s s' : RT64State α, SlotDrawn s uid k hd H → submitAll ext s ds = some s' →
      SlotDrawn s' uid k hd H := by
  induction ds with
  | nil => intro s s' hs h; cases h; exact hs
  | cons d rest ih =>
    intro s s' hs h
    simp only [submitAll] at h
    cases h1 : submit ext s d with
    | none => rw [h1] at h; cases h
    | some s1 =>
      rw [h1] at h
      exact ih s1 s' (submit_keeps_drawn ext s s1 d uid k hd H hs h1) h

/-- A submission under another identifier, or at an earlier position under the same
identifier, leaves a committed slot as it is. -/
theorem submit_keeps_committed (ext : Extern α) (s s' : RT64State α) (d : Submission α)
    (uid k c : Nat) (hd : Option Handle) (H : Nat) (hs : SlotCommitted s uid k c hd H)
    (h : submit ext s d = some s') :
    (d.uid ≠ uid → SlotCommitted s' uid k c hd H) ∧
    (d.uid = uid → c < k → SlotCommitted s' uid k (c + 1) hd H) := by
  obtain ⟨dl, i, m, a1, a2, a3, a4, a5, a6, a7⟩ := hs
  refine ⟨?_, ?_⟩
  · intro hu
    exact ⟨dl, i, m, by rw [submit_other ext s s' d uid h hu]; exact a1, a2, a3, a4, a5, a6, a7⟩
  · intro hu hck
    obtain ⟨dl', dlIn, dl2, inst, sp, lib, lib2, pv, interp, h1, h2, h3, _, h5, _, h7, h8, h9,
      h10⟩ := submit_own ext s s' d h
    rw [hu] at h1 h2 h5 h7 h8
    have hdl0 : mapGetOrCreate s.displayLists uid RecordedDisplayList.zero = dl :=
      mapGetOrCreate_of_find _ _ _ _ a1
    have hpos : positionOf s uid = c := by unfold positionOf; rw [hdl0]; exact a2
    rw [hdl0] at h5 h7
    rw [hpos] at h2 h5 h8
    have hki : k < dl.instances.length := by
      rcases List.getElem?_eq_some.mp a3 with ⟨h, _⟩
      exact h
    have hkm : k < dl.meshes.length := by
      rcases List.getElem?_eq_some.mp a5 with ⟨h, _⟩
      exact h
    obtain ⟨_, _, _, _, _, _, g7, _⟩ := process_mesh_frame ext sp _ _ _ _ _ _ _ _ _ _ h9
    refine ⟨dl', i, m, h1, h2, ?_, a4, ?_, a6, a7⟩
    · rw [h5 k (by omega) hki]; exact a3
    · rw [h10, g7 k (by omega) (by rw [h7]; exact hkm), h7]; exact a5

theorem submitAll_keeps_committed (ext : Extern α) (ds : List (Submission α)) (uid k : Nat)
    (hd : Option Handle) (H : Nat) :
    ∀ (c : Nat) (s s' : RT64State α), SlotCommitted s uid k c hd H →
      submitAll ext s ds = some s' →
      c + (ds.filter fun d => decide (d.uid = uid)).length = k →
      SlotCommitted s' uid k k hd H := by
  induction ds with
  | nil =>
    intro c s s' hs h hc
    cases h
    simp only [List.filter_nil, List.length_nil, Nat.add_zero] at hc
    rw [← hc]; rw [← hc] at hs; exact hs
  | cons d rest ih =>
    intro c s s' hs h hc
    simp only [submitAll] at h
    cases h1 : submit ext s d with
    | none => rw [h1] at h; cases h
    | some s1 =>
      rw [h1] at h
      obtain ⟨k1, k2⟩ := submit_keeps_committed ext s s1 d uid k c hd H hs h1
      by_cases hu : d.uid = uid
      · rw [List.filter_cons_of_pos (by simpa using hu), List.length_cons] at hc
        exact ih (c + 1) s1 s' (k2 hu (by omega)) h (by omega)
      · rw [List.filter_cons_of_neg (by simpa using hu)] at hc
        exact ih c s1 s' (k1 hu) h hc

/-- A submission at the position of a committed slot whose buffer has the stored
hash gets the mesh of the slot, and leaves the slot as it is. -/
theorem submit_reuses_committed (ext : Extern α) (s s' : RT64State α) (d : Submission α)
    (k : Nat) (hd : Option Handle) (H : Nat) (hs : SlotCommitted s d.uid k k hd H)
    (hH : ext.xxhash64 d.buf_vbo = H) (h : submit ext s d = some s') :
    returnedMesh s' d.uid k = some hd ∧ meshSlot s' d.uid k = meshSlot s d.uid k := by
  obtain ⟨dl, i, m, a1, a2, a3, a4, a5, a6, a7⟩ := hs
  obtain ⟨dl', dlIn, dl2, inst, sp, lib, lib2, pv, interp, h1, _, _, h4, _, h6, h7, h8, h9,
    h10⟩ := submit_own ext s s' d h
  have hdl0 : mapGetOrCreate s.displayLists d.uid RecordedDisplayList.zero = dl :=
    mapGetOrCreate_of_find _ _ _ _ a1
  have hpos : positionOf s d.uid = k := by unfold positionOf; rw [hdl0]; exact a2
  rw [hdl0] at h6 h7
  rw [hpos] at h4 h6 h8
  have hpv : pv = true := by rw [h6 i a3]; exact a4
  have hslot : dlIn.meshes[dlIn.newCount]? = some m := by rw [h7, h8]; exact a5
  obtain ⟨hassert, _⟩ := process_mesh_cases ext sp _ _ _ _ _ _ _ _ _ _ h9
  rw [hpv, process_mesh_hit ext sp lib _ _ _ dlIn interp m hassert hslot (by rw [hH, a7])] at h9
  have h9' := Option.some.inj h9
  have e1 : m.mesh = inst.desc.mesh := congrArg Prod.fst h9'
  have e2 : dlIn = dl2 := congrArg (fun r => r.2.1) h9'
  refine ⟨?_, ?_⟩
  · unfold returnedMesh
    rw [h1]
    show (dl'.instances[k]?).map _ = _
    rw [h4]
    show some inst.desc.mesh = some hd
    rw [← a6, e1]
  · unfold meshSlot
    rw [h1, a1]
    show dl'.meshes[k]? = dl.meshes[k]?
    rw [h10, ← e2, h7]

end TickProofs

section CommitSlotProofs
variable {α : Type} [LinearOrderedField α] [FloorRing α]

theorem rotationGuard_fields (ext : Extern α) (i : RecordedInstance α) :
    (rotationGuard ext i).instance_ = i.instance_ ∧ (rotationGuard ext i).desc = i.desc ∧
    (rotationGuard ext i).newTransform = i.newTransform ∧
    (rotationGuard ext i).prevValid = i.prevValid ∧
    (rotationGuard ext i).newValid = i.newValid ∧
    (rotationGuard ext i).prevScissorRect = i.prevScissorRect ∧
    (rotationGuard ext i).newScissorRect = i.newScissorRect ∧
    (rotationGuard ext i).prevViewportRect = i.prevViewportRect ∧
    (rotationGuard ext i).newViewportRect = i.newViewportRect := by
  unfold rotationGuard
  simp only
  split <;> exact ⟨rfl, rfl, rfl, rfl, rfl, rfl, rfl, rfl, rfl⟩

theorem computeDelta_fields (m : RecordedMesh α) :
    (computeDelta m).mesh = m.mesh ∧
    (computeDelta m).prevVertexBufferHash = m.prevVertexBufferHash ∧
    (computeDelta m).newVertexBufferHash = m.newVertexBufferHash ∧
    (computeDelta m).newVertexBufferValid = m.newVertexBufferValid ∧
    (computeDelta m).newVertexBuffer = m.newVertexBuffer ∧
    (computeDelta m).vertexCount = m.vertexCount ∧
    (computeDelta m).vertexStride = m.vertexStride ∧
    (computeDelta m).indexCount = m.indexCount ∧
    (computeDelta m).useTexture = m.useTexture ∧ (computeDelta m).raytrace = m.raytrace := by
  unfold computeDelta
  split <;> exact ⟨rfl, rfl, rfl, rfl, rfl, rfl, rfl, rfl, rfl, rfl⟩

theorem processDisplayList_slot (ext : Extern α) (dl : RecordedDisplayList α) (k : Nat)
    (hk : k < dl.newCount) :
    (processDisplayList ext dl).instances[k]? = (dl.instances[k]?).map (rotationGuard ext) ∧
    (processDisplayList ext dl).meshes[k]? = (dl.meshes[k]?).map computeDelta ∧
    (processDisplayList ext dl).newValid = dl.newValid ∧
    (processDisplayList ext dl).newCount = dl.newCount := by
  unfold processDisplayList
  refine ⟨?_, ?_, rfl, rfl⟩
  · show (List.map _ _)[k]? = _
    rw [List.getElem?_map, List.getElem?_take_of_lt hk]
  · show (List.map _ _)[k]? = _
    rw [List.getElem?_map, List.getElem?_take_of_lt hk]

theorem framesDisplayList_fields (ws : List α) :
    ∀ dl : RecordedDisplayList α,
      (framesDisplayList ws dl).meshes = dl.meshes ∧
      (framesDisplayList ws dl).newValid = dl.newValid ∧
      (framesDisplayList ws dl).newCount = dl.newCount ∧
      (framesDisplayList ws dl).newTransform = dl.newTransform ∧
      (framesDisplayList ws dl).instances.length = dl.instances.length ∧
      ∀ (k : Nat) (i : RecordedInstance α), dl.instances[k]? = some i →
        ∃ i' : RecordedInstance α, (framesDisplayList ws dl).instances[k]? = some i' ∧
          i'.instance_ = i.instance_ ∧ i'.prevValid = i.prevValid ∧
          i'.prevTransform = i.prevTransform ∧ i'.newTransform = i.newTransform ∧
          i'.desc.mesh = i.desc.mesh := by
  induction ws with
  | nil =>
    intro dl
    exact ⟨rfl, rfl, rfl, rfl, rfl, fun k i h => ⟨i, h, rfl, rfl, rfl, rfl, rfl⟩⟩
  | cons t r ih =>
    intro dl
    have hstep : framesDisplayList (t :: r) dl = framesDisplayList r (frameDisplayList t dl) :=
      rfl
    rw [hstep]
    obtain ⟨b1, b2, b3, b4, b5, b6⟩ := ih (frameDisplayList t dl)
    refine ⟨b1, b2, b3, b4, ?_, ?_⟩
    · rw [b5]; simp [frameDisplayList]
    · intro k i hi
      have : (frameDisplayList t dl).instances[k]? = some (frameInstance t i) := by
        show (List.map _ _)[k]? = _
        rw [List.getElem?_map, hi]; rfl
      obtain ⟨i', c1, c2, c3, c4, c5, c6⟩ := b6 k _ this
      exact ⟨i', c1, c2, c3, c4, c5, c6⟩

/-- The commit turns a drawn slot into a committed slot: the mesh stays, the hash
of the last submission becomes the stored hash, the instance gets valid prev state,
and the counter starts again at 0. -/
theorem end_frame_commits_slot (ext : Extern α) (g : Game α) (s s' : RT64State α)
    (uid k : Nat) (hd : Option Handle) (H : Nat) (hs : SlotDrawn s uid k hd H)
    (h : gfx_rt64_rapi_end_frame ext g s = some s') : SlotCommitted s' uid k 0 hd H := by
  obtain ⟨dl, i, m, a1, a2, a3, a4, a5, a6, a7, a8⟩ := hs
  obtain ⟨p1, p2, p3, p4⟩ := processDisplayList_slot ext dl k a2
  obtain ⟨f1, f2, f3, _, _, f6⟩ :=
    framesDisplayList_fields (frameWeights s.targetFPS) (processDisplayList ext dl)
  have hfind : mapFind s'.displayLists uid = some (commitDisplayList
      (framesDisplayList (frameWeights s.targetFPS) (processDisplayList ext dl))) := by
    rw [end_frame_displayLists ext g s s' h]
    apply mapFind_cleanup_kept
    · rw [mapFind_map_values
        (fun d => framesDisplayList (frameWeights s.targetFPS) (processDisplayList ext d)),
        a1]
      rfl
    · rw [f2, p3]; exact a3
  rw [a4] at p1
  rw [a6] at p2
  obtain ⟨i', c1, _, c3, _⟩ := f6 k _ p1
  obtain ⟨d1, d2, d3, d4, _⟩ := computeDelta_fields m
  obtain ⟨e1, e2, _⟩ := commitMesh_fields (computeDelta m)
  refine ⟨_, commitInstance i', commitMesh (computeDelta m), hfind, rfl, ?_, rfl, ?_, ?_, ?_⟩
  · show (List.map _ _)[k]? = _
    rw [List.getElem?_map, c1]; rfl
  · show (List.map _ _)[k]? = _
    rw [List.getElem?_map, f1, p2]; rfl
  · rw [e1, d1]; exact a7
  · rw [e2]
    unfold committedHash
    rw [d4, d3, d2]
    exact a8

end CommitSlotProofs

/-! ## Reuse of an unchanged mesh -/

section ReuseProofs
variable {α : Type} [LinearOrderedField α] [FloorRing α]

/-- C1: when the instance at the current position has valid prev state, a mesh slot
exists at that position, and the hash of the submitted vertex buffer equals the stored
prev hash of the slot, `gfx_rt64_rapi_process_mesh` returns the mesh of the slot and
leaves the library (so no `CreateMesh`, `DestroyMesh` or `SetMesh` call is made) and
the whole display list (so every field of the mesh slot) unchanged.  In particular:
if a buffer is submitted under an identifier at some position of a tick, the tick
goes on with any submissions and is committed, and in the next tick the same buffer
is submitted under the same identifier at the same position, then the second
submission gets the mesh that the first one got, and leaves the mesh slot as it
is. -/
theorem process_mesh_reuses_unchanged (ext : Extern α) :
    (∀ (sp : ShaderProgram) (lib : Backend α) (buf : List α) (tris : Nat) (rt : Bool)
        (dl : RecordedDisplayList α) (interp : Bool) (mesh : RecordedMesh α),
      tris = meshVertexCount ext sp buf.length / 3 →
      dl.meshes[dl.newCount]? = some mesh →
      ext.xxhash64 buf = mesh.prevVertexBufferHash →
      gfx_rt64_rapi_process_mesh ext (some sp) lib buf tris rt dl true interp
        = some (mesh.mesh, dl, lib)) ∧
    (∀ (g : Game α) (s0 s1 s2 s3 s4 s5 : RT64State α) (d d' : Submission α)
        (rest pre : List (Submission α)),
      NextSlotUnstaged s0 d.uid →
      submit ext s0 d = some s1 →
      submitAll ext s1 rest = some s2 →
      gfx_rt64_rapi_end_frame ext g s2 = some s3 →
      submitAll ext s3 pre = some s4 →
      (pre.filter fun p => decide (p.uid = d.uid)).length = positionOf s0 d.uid →
      d'.uid = d.uid → d'.buf_vbo = d.buf_vbo →
      submit ext s4 d' = some s5 →
      (∃ hd, returnedMesh s1 d.uid (positionOf s0 d.uid) = some hd) ∧
      returnedMesh s5 d.uid (positionOf s0 d.uid) = returnedMesh s1 d.uid (positionOf s0 d.uid) ∧
      meshSlot s5 d.uid (positionOf s0 d.uid) = meshSlot s4 d.uid (positionOf s0 d.uid)) := by
  refine ⟨?_, ?_⟩
  · intro sp lib buf tris rt dl interp mesh hassert hslot hhash
    exact process_mesh_hit ext sp lib buf tris rt dl interp mesh hassert hslot hhash
  · intro g s0 s1 s2 s3 s4 s5 d d' rest pre hun h1 h2 h3 h4 hpos hu hb h5
    obtain ⟨hd, hdrawn⟩ := submit_draws_slot ext s0 s1 d h1 hun
    have hret1 : returnedMesh s1 d.uid (positionOf s0 d.uid) = some hd := by
      obtain ⟨dl, i, m, a1, _, _, a4, a5, _⟩ := hdrawn
      unfold returnedMesh
      rw [a1]
      show (dl.instances[_]?).map _ = _
      rw [a4]
      show some i.desc.mesh = some hd
      rw [a5]
    have hdrawn2 := submitAll_keeps_drawn ext rest _ _ _ _ s1 s2 hdrawn h2
    have hcomm := end_frame_commits_slot ext g s2 s3 _ _ _ _ hdrawn2 h3
    have hcomm4 := submitAll_keeps_committed ext pre _ _ _ _ 0 s3 s4 hcomm h4
      (by rw [Nat.zero_add]; exact hpos)
    rw [← hu] at hcomm4
    obtain ⟨r1, r2⟩ := submit_reuses_committed ext s4 s5 d' _ hd _ hcomm4
      (by rw [hb]) h5
    rw [hu] at r1 r2
    exact ⟨⟨hd, hret1⟩, by rw [r1, hret1], r2⟩

end ReuseProofs

/-- Witness of `process_mesh_reuses_unchanged`: the stored mesh 9 is returned for a
buffer with the stored hash; and a triangle submitted under identifier 5 in two
consecutive ticks gets the same mesh both times. -/
theorem process_mesh_reuses_unchanged_witness :
    gfx_rt64_rapi_process_mesh ratExtern (some plainProgram) { nextHandle := 10, calls := [] }
        triangleBuffer 1 true storedDisplayList true true
      = some (some 9, storedDisplayList, { nextHandle := 10, calls := [] }) ∧
    ∃ s1 s3 s5 : RT64State ℚ,
      submit ratExtern loadedState triangleSubmission = some s1 ∧
      gfx_rt64_rapi_end_frame ratExtern plainGame s1 = some s3 ∧
      submit ratExtern s3 triangleSubmission = some s5 ∧
      returnedMesh s5 5 0 = returnedMesh s1 5 0 := by
  refine ⟨(process_mesh_reuses_unchanged ratExtern).1 plainProgram { nextHandle := 10, calls := [] }
    triangleBuffer 1 true storedDisplayList true _ (by decide) rfl (by decide), ?_⟩
  have hsome : (((submit ratExtern loadedState triangleSubmission).bind
      (gfx_rt64_rapi_end_frame ratExtern plainGame)).bind
      fun s => submit ratExtern s triangleSubmission).isSome = true := by decide!
  obtain ⟨s5, h5⟩ := Option.isSome_iff_exists.mp hsome
  obtain ⟨s3, h3, h5⟩ := Option.bind_eq_some.mp h5
  obtain ⟨s1, h1, h3⟩ := Option.bind_eq_some.mp h3
  have hun : NextSlotUnstaged loadedState triangleSubmission.uid := by
    intro m hm
    cases hm
  exact ⟨s1, s3, s5, h1, h3, h5,
    ((process_mesh_reuses_unchanged ratExtern).2 plainGame loadedState s1 s1 s3 s3 s5
      triangleSubmission triangleSubmission [] [] hun h1 rfl h3 rfl rfl rfl rfl h5).2.1⟩

/-! ## The call log -/

section ExtendsProofs
variable {α : Type}

theorem log_extends_refl (b : Backend α) : b.Extends b := ⟨[], by simp⟩

theorem log_extends_trans {a b c : Backend α} (h1 : a.Extends b) (h2 : b.Extends c) :
    a.Extends c := by
  obtain ⟨x, hx⟩ := h1
  obtain ⟨y, hy⟩ := h2
  exact ⟨x ++ y, by rw [hy, hx, List.append_assoc]⟩

theorem log_extends_call (b : Backend α) (c : BackendCall α) : b.Extends (b.call c) :=
  ⟨[c], rfl⟩

theorem foldl_extends {β σ : Type} (lib : σ → Backend α) (f : σ → β → σ)
    (hf : ∀ acc x, (lib acc).Extends (lib (f acc x))) (l : List β) :
    ∀ acc, (lib acc).Extends (lib (l.foldl f acc)) := by
  induction l with
  | nil => intro acc; exact log_extends_refl _
  | cons x t ih =>
    intro acc
    exact log_extends_trans (hf acc x) (ih (f acc x))

theorem mem_mapInsert_ne {κ ν : Type} [DecidableEq κ] (l : List (κ × ν)) (k : κ) (v : ν)
    (e : κ × ν) (he : e ∈ mapInsert l k v) (hk : e.1 ≠ k) : e ∈ l := by
  induction l with
  | nil =>
    rw [mapInsert_nil, List.mem_singleton] at he
    subst he
    exact absurd rfl hk
  | cons p t ih =>
    obtain ⟨k', v'⟩ := p
    rw [mapInsert_cons] at he
    by_cases h : k' = k
    · rw [if_pos h] at he
      rcases List.mem_cons.mp he with rfl | he
      · exact absurd rfl hk
      · exact List.mem_cons_of_mem _ he
    · rw [if_neg h] at he
      rcases List.mem_cons.mp he with rfl | he
      · exact List.mem_cons_self _ _
      · exact List.mem_cons_of_mem _ (ih he)

theorem mapFind_mem {κ ν : Type} [DecidableEq κ] (l : List (κ × ν)) (k : κ) (v : ν)
    (h : mapFind l k = some v) : (k, v) ∈ l := by
  induction l with
  | nil => cases h
  | cons p t ih =>
    obtain ⟨k', v'⟩ := p
    rw [mapFind_cons] at h
    by_cases hk : k' = k
    · rw [if_pos hk] at h
      cases h
      subst hk
      exact List.mem_cons_self _ _
    · rw [if_neg hk] at h
      exact List.mem_cons_of_mem _ (ih h)

end ExtendsProofs

section EmitProofs
variable {α : Type}

theorem foldl_emits {β σ : Type} (lib : σ → Backend α) (f : σ → β → σ) (Inv : σ → Prop)
    (P : BackendCall α → Prop)
    (hext : ∀ acc x, (lib acc).Extends (lib (f acc x)))
    (hinv : ∀ acc x, Inv acc → Inv (f acc x))
    (l : List β) (x : β) (hx : x ∈ l)
    (hstep : ∀ acc, Inv acc →
      ∃ extra c, (lib (f acc x)).calls = (lib acc).calls ++ extra ∧ c ∈ extra ∧ P c)
    (acc : σ) (hacc : Inv acc) :
    ∃ extra c, (lib (l.foldl f acc)).calls = (lib acc).calls ++ extra ∧ c ∈ extra ∧ P c := by
  obtain ⟨l1, l2, rfl⟩ := List.append_of_mem hx
  rw [List.foldl_append, List.foldl_cons]
  have hinv1 : ∀ (l : List β) (acc : σ), Inv acc → Inv (l.foldl f acc) := by
    intro l
    induction l with
    | nil => intro acc h; exact h
    | cons y t ih => intro acc h; exact ih _ (hinv acc y h)
  obtain ⟨e1, he1⟩ := foldl_extends lib f hext l1 acc
  obtain ⟨e2, c, he2, hc, hP⟩ := hstep (l1.foldl f acc) (hinv1 l1 acc hacc)
  obtain ⟨e3, he3⟩ := foldl_extends lib f hext l2 (f (l1.foldl f acc) x)
  refine ⟨e1 ++ e2 ++ e3, c, ?_, ?_, hP⟩
  · rw [he3, he2, he1, List.append_assoc, List.append_assoc, List.append_assoc]
  · exact List.mem_append_left _ (List.mem_append_right _ hc)

theorem foldl_set_range_length (g : Nat → α) (n : Nat) (l : List α) :
    ((List.range n).foldl (fun temp f => temp.set f (g f)) l).length = l.length := by
  induction n with
  | zero => rfl
  | succ n ih =>
    rw [List.range_succ, List.foldl_append, List.foldl_cons, List.foldl_nil, List.length_set, ih]

theorem foldl_set_range_get (g : Nat → α) (n : Nat) (l : List α) (i : Nat) (hi : i < n)
    (hl : n ≤ l.length) :
    ((List.range n).foldl (fun temp f => temp.set f (g f)) l)[i]? = some (g i) := by
  induction n with
  | zero => omega
  | succ n ih =>
    rw [List.range_succ, List.foldl_append, List.foldl_cons, List.foldl_nil]
    by_cases h : i = n
    · subst h
      apply List.getElem?_set_self
      rw [foldl_set_range_length]
      omega
    · rw [List.getElem?_set_ne (Ne.symm h)]
      exact ih (by omega) (by omega)

theorem destroyCalls_all (dl : RecordedDisplayList α) (h : dl.newCount = 0) :
    (∀ i ∈ dl.instances, BackendCall.DestroyInstance i.instance_ ∈ destroyCalls dl) ∧
      ∀ m ∈ dl.meshes, BackendCall.DestroyMesh m.mesh ∈ destroyCalls dl := by
  unfold destroyCalls
  rw [h, List.drop_zero, List.drop_zero]
  constructor
  · intro i hi
    exact List.mem_append_left _ (List.mem_map.mpr ⟨i, List.mem_reverse.mpr hi, rfl⟩)
  · intro m hm
    exact List.mem_append_right _ (List.mem_map.mpr ⟨m, List.mem_reverse.mpr hm, rfl⟩)

end EmitProofs

/-! ## Interpolated vertex buffers -/

section FrameMeshProofs
variable {α : Type} [LinearOrderedField α]

theorem lerp_float_half (a b : α) : gfx_rt64_lerp_float a b (1 / 2) = (a + b) / 2 := by
  unfold gfx_rt64_lerp_float
  ring

theorem interpolateFloats_length (prevPtr newPtr : List α) (t : α) (n : Nat) (temp : List α) :
    (interpolateFloats prevPtr newPtr t n temp).length = temp.length :=
  foldl_set_range_length _ n temp

theorem interpolateFloats_get (prevPtr newPtr : List α) (t : α) (n : Nat) (temp : List α)
    (i : Nat) (hi : i < n) (hl : n ≤ temp.length) :
    (interpolateFloats prevPtr newPtr t n temp)[i]? =
      some (gfx_rt64_lerp_float (prevPtr.getD i 0) (newPtr.getD i 0) t) :=
  foldl_set_range_get
    (fun f => gfx_rt64_lerp_float (prevPtr.getD f 0) (newPtr.getD f 0) t) n temp i hi hl

end FrameMeshProofs

section FrameMeshProofs
variable {α : Type} [LinearOrderedField α]

theorem draw_frame_mesh_allocated (t : α) (acc : TempBuffers α) (m : RecordedMesh α)
    (h : acc.tempVertexBufferSize / 4 ≤ acc.tempVertexBuffer.length) :
    (draw_frame_mesh t acc m).tempVertexBufferSize / 4 ≤
      (draw_frame_mesh t acc m).tempVertexBuffer.length := by
  unfold draw_frame_mesh
  by_cases hv : m.newVertexBufferValid = true
  · simp only [hv, Bool.not_true, Bool.false_eq_true, if_false]
    by_cases hr : (m.vertexCount * m.vertexStride) % UINT_MOD > acc.tempVertexBufferSize
    · simp only [if_pos hr, interpolateFloats_length, List.length_replicate]
      exact le_refl _
    · simp only [if_neg hr, interpolateFloats_length]
      exact h
  · simp only [hv, Bool.not_false, if_true]
    exact h

end FrameMeshProofs

section FrameMeshProofs
variable {α : Type} [LinearOrderedField α]

theorem draw_frame_mesh_extends (t : α) (acc : TempBuffers α) (m : RecordedMesh α) :
    acc.lib.Extends (draw_frame_mesh t acc m).lib := by
  unfold draw_frame_mesh
  by_cases hv : m.newVertexBufferValid = true
  · simp only [hv, Bool.not_true, Bool.false_eq_true, if_false]
    by_cases hr : (m.vertexCount * m.vertexStride) % UINT_MOD > acc.tempVertexBufferSize
    · simp only [if_pos hr]
      exact log_extends_call _ _
    · simp only [if_neg hr]
      exact log_extends_call _ _
  · simp only [hv, Bool.not_false, if_true]
    exact log_extends_refl _

end FrameMeshProofs

section FrameMeshProofs
variable {α : Type} [LinearOrderedField α]

/-- The body of the mesh loop for a staged slot: exactly one call, `SetMesh` with
the temporal buffer, which holds the interpolation at every float of the mesh. -/
theorem draw_frame_mesh_staged (t : α) (acc : TempBuffers α) (m : RecordedMesh α)
    (h : acc.tempVertexBufferSize / 4 ≤ acc.tempVertexBuffer.length)
    (hv : m.newVertexBufferValid = true)
    (hrange : m.vertexCount * m.vertexStride < UINT_MOD) :
    (draw_frame_mesh t acc m).lib.calls =
        acc.lib.calls ++
          [BackendCall.SetMesh m.mesh (draw_frame_mesh t acc m).tempVertexBuffer m.vertexCount
            m.vertexStride m.indexCount] ∧
      ∀ i, i < m.vertexCount * m.vertexStride / 4 →
        (draw_frame_mesh t acc m).tempVertexBuffer[i]? =
          some (gfx_rt64_lerp_float ((m.prevVertexBuffer.getD []).getD i 0)
            ((m.newVertexBuffer.getD []).getD i 0) t) := by
  unfold draw_frame_mesh
  simp only [hv, Bool.not_true, Bool.false_eq_true, if_false, Nat.mod_eq_of_lt hrange]
  by_cases hr : m.vertexCount * m.vertexStride > acc.tempVertexBufferSize
  · simp only [if_pos hr]
    refine ⟨rfl, ?_⟩
    intro i hi
    exact interpolateFloats_get _ _ t _ _ i hi (by rw [List.length_replicate])
  · simp only [if_neg hr]
    refine ⟨rfl, ?_⟩
    intro i hi
    refine interpolateFloats_get _ _ t _ _ i hi ?_
    have : m.vertexCount * m.vertexStride / 4 ≤ acc.tempVertexBufferSize / 4 :=
      Nat.div_le_div_right (by omega)
    omega

end FrameMeshProofs

section FrameMeshProofs
variable {α : Type} [LinearOrderedField α]

theorem draw_frame_meshes_allocated (t : α) (l : List (RecordedMesh α)) :
    ∀ acc : TempBuffers α, acc.tempVertexBufferSize / 4 ≤ acc.tempVertexBuffer.length →
      (l.foldl (draw_frame_mesh t) acc).tempVertexBufferSize / 4 ≤
        (l.foldl (draw_frame_mesh t) acc).tempVertexBuffer.length := by
  induction l with
  | nil => intro acc h; exact h
  | cons m r ih => intro acc h; exact ih _ (draw_frame_mesh_allocated t acc m h)

end FrameMeshProofs

section FrameProofs
variable {α : Type} [LinearOrderedField α] [FloorRing α]

theorem draw_frame_instances_extends (t : α) (l : List (RecordedInstance α))
    (acc : List (RecordedInstance α) × Backend α) :
    acc.2.Extends (l.foldl (draw_frame_instance t) acc).2 :=
  foldl_extends (fun a => a.2) (draw_frame_instance t)
    (fun a _ => log_extends_call a.2 _) l acc

theorem draw_frame_display_list_snd (t : α)
    (acc : List (Nat × RecordedDisplayList α) × TempBuffers α)
    (e : Nat × RecordedDisplayList α) :
    (draw_frame_display_list t acc e).2 =
      e.2.meshes.foldl (draw_frame_mesh t)
        { acc.2 with lib := (e.2.instances.foldl (draw_frame_instance t) ([], acc.2.lib)).2 } :=
  rfl

theorem draw_frame_display_list_allocated (t : α)
    (acc : List (Nat × RecordedDisplayList α) × TempBuffers α)
    (e : Nat × RecordedDisplayList α)
    (h : acc.2.tempVertexBufferSize / 4 ≤ acc.2.tempVertexBuffer.length) :
    (draw_frame_display_list t acc e).2.tempVertexBufferSize / 4 ≤
      (draw_frame_display_list t acc e).2.tempVertexBuffer.length := by
  rw [draw_frame_display_list_snd]
  exact draw_frame_meshes_allocated t _ _ h

theorem draw_frame_display_list_extends (t : α)
    (acc : List (Nat × RecordedDisplayList α) × TempBuffers α)
    (e : Nat × RecordedDisplayList α) :
    acc.2.lib.Extends (draw_frame_display_list t acc e).2.lib := by
  rw [draw_frame_display_list_snd]
  exact log_extends_trans (draw_frame_instances_extends t e.2.instances ([], acc.2.lib))
    (foldl_extends (fun a => a.lib) (draw_frame_mesh t)
      (fun a m => draw_frame_mesh_extends t a m) e.2.meshes _)

/-- The temporal buffer stays as large as its recorded size through a sub-frame. -/
theorem draw_frame_allocated (g : Game α) (s : RT64State α) (t : α)
    (h : s.tempVertexBufferSize / 4 ≤ s.tempVertexBuffer.length) :
    (gfx_rt64_rapi_draw_frame g s t).tempVertexBufferSize / 4 ≤
      (gfx_rt64_rapi_draw_frame g s t).tempVertexBuffer.length := by
  have hfold : ∀ (l : List (Nat × RecordedDisplayList α))
      (acc : List (Nat × RecordedDisplayList α) × TempBuffers α),
      acc.2.tempVertexBufferSize / 4 ≤ acc.2.tempVertexBuffer.length →
      (l.foldl (draw_frame_display_list t) acc).2.tempVertexBufferSize / 4 ≤
        (l.foldl (draw_frame_display_list t) acc).2.tempVertexBuffer.length := by
    intro l
    induction l with
    | nil => intro acc h; exact h
    | cons e r ih => intro acc h; exact ih _ (draw_frame_display_list_allocated t acc e h)
  exact hfold s.displayLists _ h

/-- The library after a sub-frame: one call before the loop over the display
lists and two calls after it. -/
theorem draw_frame_lib (g : Game α) (s : RT64State α) (t : α) :
    ∃ c1 c2 c3, (gfx_rt64_rapi_draw_frame g s t).lib =
      ((s.displayLists.foldl (draw_frame_display_list t)
        ([], { tempVertexBuffer := s.tempVertexBuffer
               tempVertexBufferSize := s.tempVertexBufferSize
               lib := s.lib.call c1 })).2.lib.call c2).call c3 :=
  ⟨_, _, _, rfl⟩

/-- Every staged slot of a display list gets its `SetMesh` call in a sub-frame,
with a buffer that holds the interpolation at every float of the mesh. -/
theorem draw_frame_sets_mesh (g : Game α) (s : RT64State α) (t : α) (uid : Nat)
    (dl : RecordedDisplayList α) (m : RecordedMesh α)
    (hdl : (uid, dl) ∈ s.displayLists) (hm : m ∈ dl.meshes)
    (hv : m.newVertexBufferValid = true)
    (hrange : m.vertexCount * m.vertexStride < UINT_MOD)
    (halloc : s.tempVertexBufferSize / 4 ≤ s.tempVertexBuffer.length) :
    ∃ extra temp,
      (gfx_rt64_rapi_draw_frame g s t).lib.calls = s.lib.calls ++ extra ∧
      BackendCall.SetMesh m.mesh temp m.vertexCount m.vertexStride m.indexCount ∈ extra ∧
      ∀ i, i < m.vertexCount * m.vertexStride / 4 →
        temp[i]? = some (gfx_rt64_lerp_float ((m.prevVertexBuffer.getD []).getD i 0)
          ((m.newVertexBuffer.getD []).getD i 0) t) := by
  let P : BackendCall α → Prop := fun c =>
    ∃ temp, c = BackendCall.SetMesh m.mesh temp m.vertexCount m.vertexStride m.indexCount ∧
      ∀ i, i < m.vertexCount * m.vertexStride / 4 →
        temp[i]? = some (gfx_rt64_lerp_float ((m.prevVertexBuffer.getD []).getD i 0)
          ((m.newVertexBuffer.getD []).getD i 0) t)
  have hmesh : ∀ acc : TempBuffers α,
      acc.tempVertexBufferSize / 4 ≤ acc.tempVertexBuffer.length →
      ∃ extra c, (draw_frame_mesh t acc m).lib.calls = acc.lib.calls ++ extra ∧
        c ∈ extra ∧ P c := by
    intro acc hacc
    obtain ⟨h1, h2⟩ := draw_frame_mesh_staged t acc m hacc hv hrange
    exact ⟨_, _, h1, List.mem_singleton.mpr rfl, _, rfl, h2⟩
  have hlist : ∀ acc : List (Nat × RecordedDisplayList α) × TempBuffers α,
      acc.2.tempVertexBufferSize / 4 ≤ acc.2.tempVertexBuffer.length →
      ∃ extra c, (draw_frame_display_list t acc (uid, dl)).2.lib.calls =
        acc.2.lib.calls ++ extra ∧ c ∈ extra ∧ P c := by
    intro acc hacc
    rw [draw_frame_display_list_snd]
    obtain ⟨e1, he1⟩ := draw_frame_instances_extends t dl.instances ([], acc.2.lib)
    obtain ⟨e2, c, he2, hc, hP⟩ :=
      foldl_emits (fun a : TempBuffers α => a.lib) (draw_frame_mesh t)
        (fun a => a.tempVertexBufferSize / 4 ≤ a.tempVertexBuffer.length) P
        (fun a x => draw_frame_mesh_extends t a x)
        (fun a x h => draw_frame_mesh_allocated t a x h) dl.meshes m hm hmesh
        { acc.2 with lib := (dl.instances.foldl (draw_frame_instance t) ([], acc.2.lib)).2 }
        hacc
    refine ⟨e1 ++ e2, c, ?_, List.mem_append_right _ hc, hP⟩
    rw [he2]
    show (dl.instances.foldl (draw_frame_instance t) ([], acc.2.lib)).2.calls ++ e2 = _
    rw [he1, List.append_assoc]
  obtain ⟨c1, c2, c3, hlib⟩ := draw_frame_lib g s t
  obtain ⟨e, c, he, hc, temp, rfl, htemp⟩ :=
    foldl_emits (fun a : List (Nat × RecordedDisplayList α) × TempBuffers α => a.2.lib)
      (draw_frame_display_list t)
      (fun a => a.2.tempVertexBufferSize / 4 ≤ a.2.tempVertexBuffer.length) P
      (fun a x => draw_frame_display_list_extends t a x)
      (fun a x h => draw_frame_display_list_allocated t a x h) s.displayLists (uid, dl) hdl
      hlist
      ([], { tempVertexBuffer := s.tempVertexBuffer
             tempVertexBufferSize := s.tempVertexBufferSize
             lib := s.lib.call c1 })
      halloc
  refine ⟨c1 :: (e ++ [c2, c3]), temp, ?_, ?_, htemp⟩
  · rw [hlib]
    show ((_ ++ [c2]) ++ [c3]) = _
    rw [he]
    show (((s.lib.calls ++ [c1]) ++ e) ++ [c2]) ++ [c3] = _
    simp
  · exact List.mem_cons_of_mem _ (List.mem_append_left _ hc)

end FrameProofs

section AverageProofs
variable {α : Type} [LinearOrderedField α] [FloorRing α]

/-- Claim C3.  A mesh slot `m` of a display list of the state is staged
(`newVertexBufferValid`), with buffers `prev` and `new`, a byte size
`vertexCount * vertexStride` in the 32-bit range, and the temporal buffer of the state is
as large as its recorded size.  Then the body of the mesh loop of
`gfx_rt64_rapi_draw_frame` makes exactly one call for the slot, `SetMesh` with the temporal
buffer, and `gfx_rt64_rapi_draw_frame` at weight 1/2 makes a call `SetMesh` for the mesh
of the slot whose buffer holds `(prev[i] + new[i]) / 2` at every float index `i` below
`vertexCount * vertexStride / 4`. -/
theorem draw_frame_half_is_average (g : Game α) (s : RT64State α) (uid : Nat)
    (dl : RecordedDisplayList α) (m : RecordedMesh α) (prev new : List α)
    (hdl : (uid, dl) ∈ s.displayLists) (hm : m ∈ dl.meshes)
    (hv : m.newVertexBufferValid = true)
    (hprev : m.prevVertexBuffer = some prev) (hnew : m.newVertexBuffer = some new)
    (hrange : m.vertexCount * m.vertexStride < UINT_MOD)
    (halloc : s.tempVertexBufferSize / 4 ≤ s.tempVertexBuffer.length) :
    (∀ acc : TempBuffers α, acc.tempVertexBufferSize / 4 ≤ acc.tempVertexBuffer.length →
      (draw_frame_mesh (1 / 2) acc m).lib.calls =
        acc.lib.calls ++
          [BackendCall.SetMesh m.mesh (draw_frame_mesh (1 / 2) acc m).tempVertexBuffer
            m.vertexCount m.vertexStride m.indexCount] ∧
      ∀ i p n, i < m.vertexCount * m.vertexStride / 4 → prev[i]? = some p →
        new[i]? = some n →
        (draw_frame_mesh (1 / 2) acc m).tempVertexBuffer[i]? = some ((p + n) / 2)) ∧
    ∃ extra temp,
      (gfx_rt64_rapi_draw_frame g s (1 / 2)).lib.calls = s.lib.calls ++ extra ∧
      BackendCall.SetMesh m.mesh temp m.vertexCount m.vertexStride m.indexCount ∈ extra ∧
      ∀ i p n, i < m.vertexCount * m.vertexStride / 4 → prev[i]? = some p →
        new[i]? = some n → temp[i]? = some ((p + n) / 2) := by
  have hval : ∀ i p n, prev[i]? = some p → new[i]? = some n →
      gfx_rt64_lerp_float ((m.prevVertexBuffer.getD []).getD i 0)
        ((m.newVertexBuffer.getD []).getD i 0) (1 / 2) = (p + n) / 2 := by
    intro i p n hp hn
    rw [hprev, hnew, Option.getD_some, Option.getD_some, List.getD_eq_getElem?_getD,
      List.getD_eq_getElem?_getD, hp, hn, Option.getD_some, Option.getD_some, lerp_float_half]
  refine ⟨?_, ?_⟩
  · intro acc hacc
    obtain ⟨h1, h2⟩ := draw_frame_mesh_staged (1 / 2) acc m hacc hv hrange
    refine ⟨h1, ?_⟩
    intro i p n hi hp hn
    rw [h2 i hi, hval i p n hp hn]
  · obtain ⟨extra, temp, h1, h2, h3⟩ :=
      draw_frame_sets_mesh g s (1 / 2) uid dl m hdl hm hv hrange halloc
    refine ⟨extra, temp, h1, h2, ?_⟩
    intro i p n hi hp hn
    rw [h3 i hi, hval i p n hp hn]

end AverageProofs

/-- The slot of `stagedState` at weight 1/2: float 2 is the average of 2 and 7, float 3
the average of 3 and -3. -/
theorem draw_frame_half_is_average_witness :
    ∃ extra temp,
      (gfx_rt64_rapi_draw_frame plainGame stagedState (1 / 2)).lib.calls =
        stagedState.lib.calls ++ extra ∧
      BackendCall.SetMesh (some 9) temp 3 8 3 ∈ extra ∧
      temp[2]? = some (9 / 2) ∧ temp[3]? = some 0 := by
  obtain ⟨_, extra, temp, h1, h2, h3⟩ :=
    draw_frame_half_is_average plainGame stagedState 5 stagedDisplayList stagedMesh
      [0, 1, 2, 3, 4, 5] [2, 1, 7, -3, 4, 6] (List.Mem.head _) (List.Mem.head _) rfl rfl rfl
      (by decide) (by decide)
  refine ⟨extra, temp, h1, h2, ?_, ?_⟩
  · have := h3 2 2 7 (by decide) rfl rfl
    rw [this]
    norm_num
  · have := h3 3 3 (-3) (by decide) rfl rfl
    rw [this]
    norm_num

/-! ## The rotation guard -/

section GuardProofs
variable {α : Type} [LinearOrderedField α] [FloorRing α]

end GuardProofs

section DeltaProofs
variable {α : Type} [LinearOrderedField α] [FloorRing α]

theorem deltaStep_delta (u : Bool) (imax : Nat) (newPtr : List α) (c : DeltaCursor α)
    (f : Nat) : ∃ v, (deltaStep u imax newPtr c f).delta = c.delta.set f v :=
  ⟨_, rfl⟩

theorem deltaStep_prev (u : Bool) (imax : Nat) (newPtr : List α) (c : DeltaCursor α)
    (f : Nat) :
    (deltaStep u imax newPtr c f).prev = c.prev ∨
      ∃ v, (deltaStep u imax newPtr c f).prev = c.prev.set f v := by
  unfold deltaStep
  simp only
  split_ifs
  · exact Or.inr ⟨_, rfl⟩
  · exact Or.inl rfl
  · exact Or.inr ⟨_, rfl⟩
  · exact Or.inl rfl
  · exact Or.inl rfl
  · exact Or.inl rfl

theorem deltaStep_other (u : Bool) (imax : Nat) (newPtr : List α) (c : DeltaCursor α)
    (f g : Nat) (h : f ≠ g) :
    (deltaStep u imax newPtr c f).prev[g]? = c.prev[g]? ∧
      (deltaStep u imax newPtr c f).delta[g]? = c.delta[g]? := by
  constructor
  · rcases deltaStep_prev u imax newPtr c f with h1 | ⟨v, h1⟩
    · rw [h1]
    · rw [h1, List.getElem?_set_ne h]
  · obtain ⟨v, h1⟩ := deltaStep_delta u imax newPtr c f
    rw [h1, List.getElem?_set_ne h]

theorem deltaFold_succ (u : Bool) (imax : Nat) (newPtr : List α) (c : DeltaCursor α)
    (n : Nat) :
    (List.range (n + 1)).foldl (deltaStep u imax newPtr) c =
      deltaStep u imax newPtr ((List.range n).foldl (deltaStep u imax newPtr) c) n := by
  rw [List.range_succ, List.foldl_append, List.foldl_cons, List.foldl_nil]

theorem deltaFold_ahead (u : Bool) (imax : Nat) (newPtr : List α) (c : DeltaCursor α)
    (n g : Nat) (h : n ≤ g) :
    ((List.range n).foldl (deltaStep u imax newPtr) c).prev[g]? = c.prev[g]? ∧
      ((List.range n).foldl (deltaStep u imax newPtr) c).delta[g]? = c.delta[g]? := by
  induction n with
  | zero => exact ⟨rfl, rfl⟩
  | succ n ih =>
    rw [deltaFold_succ]
    obtain ⟨h1, h2⟩ := deltaStep_other u imax newPtr
      ((List.range n).foldl (deltaStep u imax newPtr) c) n g (by omega)
    obtain ⟨h3, h4⟩ := ih (by omega)
    exact ⟨h1.trans h3, h2.trans h4⟩

end DeltaProofs

section WrapProofs
variable {α : Type} [LinearOrderedField α] [FloorRing α]

end WrapProofs

section OpProofs
variable {α : Type} [LinearOrderedField α]

theorem register_displayLists (ext : Extern α) (s : RT64State α) (geoLayout graphNode : Nat) :
    (gfx_rt64_rapi_register_layout_graph_node ext s geoLayout graphNode).displayLists =
      s.displayLists := by
  unfold gfx_rt64_rapi_register_layout_graph_node
  simp only
  split <;> split <;> (try split) <;> (try split) <;> rfl

end OpProofs

section OpProofs
variable {α : Type} [LinearOrderedField α] [FloorRing α]

theorem build_graph_node_mod_displayLists (ext : Extern α) (s : RT64State α) (graphNode : Nat)
    (modelview_matrix : RT64_MATRIX4 α) (uid : Nat) (r : Option (RecordedMod α) × RT64State α)
    (h : gfx_rt64_rapi_build_graph_node_mod ext s graphNode modelview_matrix uid = some r) :
    r.2.displayLists = s.displayLists ∨
      ∃ dl, r.2.displayLists = mapInsert s.displayLists uid dl := by
  unfold gfx_rt64_rapi_build_graph_node_mod at h
  split at h
  · split at h
    · simp only at h
      split at h
      · rename_i s' hs'
        cases h
        obtain ⟨hd, _⟩ := add_light_frame ext _ s' _ _ _ hs'
        rw [hd]
        split
        · exact Or.inr ⟨_, rfl⟩
        · exact Or.inl rfl
      · cases h
    · cases h
      exact Or.inl rfl
  · cases h
    exact Or.inl rfl

/-- An operation that is not under `u` leaves the entries of `u` in the display list
map as they are. -/
theorem runOp_other (ext : Extern α) (s s' : RT64State α) (op : TickOp α) (u : Nat)
    (h : runOp ext s op = some s') (hu : op.isUnder u = false) :
    mapFind s'.displayLists u = mapFind s.displayLists u ∧
      ∀ e ∈ s'.displayLists, e.1 = u → e ∈ s.displayLists := by
  have hins : ∀ (k : Nat) (dl : RecordedDisplayList α), k ≠ u →
      mapFind (mapInsert s.displayLists k dl) u = mapFind s.displayLists u ∧
        ∀ e ∈ mapInsert s.displayLists k dl, e.1 = u → e ∈ s.displayLists := by
    intro k dl hk
    refine ⟨mapFind_mapInsert_ne _ _ _ _ hk, ?_⟩
    intro e he heu
    exact mem_mapInsert_ne _ _ _ e he (by rw [heu]; exact Ne.symm hk)
  cases op with
  | draw d =>
    have hk : d.uid ≠ u := by
      intro hk
      simp [TickOp.isUnder, hk] at hu
    obtain ⟨l, mesh, dl2, lib2, desc, _, _, _, _, _, _, _, _, _, hdls⟩ :=
      draw_inv ext s s' _ _ _ _ _ _ h
    rw [hdls]
    exact hins _ _ hk
  | buildGraphNodeMod graphNode mv uid =>
    have hk : uid ≠ u := by
      intro hk
      simp [TickOp.isUnder, hk] at hu
    simp only [runOp, Option.map_eq_some'] at h
    obtain ⟨r, hr, rfl⟩ := h
    rcases build_graph_node_mod_displayLists ext s graphNode mv uid r hr with h1 | ⟨dl, h1⟩
    · rw [h1]
      exact ⟨rfl, fun e he _ => he⟩
    · rw [h1]
      exact hins _ _ hk
  | setGraphNodeMod m =>
    simp only [runOp, Option.some.injEq] at h
    subst h
    exact ⟨rfl, fun e he _ => he⟩
  | registerLayoutGraphNode geoLayout graphNode =>
    simp only [runOp, Option.some.injEq] at h
    subst h
    rw [register_displayLists]
    exact ⟨rfl, fun e he _ => he⟩

theorem runOps_other (ext : Extern α) (u : Nat) (ops : List (TickOp α)) :
    ∀ (s s' : RT64State α), runOps ext s ops = some s' →
      (∀ op ∈ ops, op.isUnder u = false) →
      mapFind s'.displayLists u = mapFind s.displayLists u ∧
        ∀ e ∈ s'.displayLists, e.1 = u → e ∈ s.displayLists := by
  induction ops with
  | nil =>
    intro s s' h _
    cases h
    exact ⟨rfl, fun e he _ => he⟩
  | cons op rest ih =>
    intro s s' h hu
    unfold runOps at h
    split at h
    · rename_i s1 h1
      obtain ⟨a1, a2⟩ := runOp_other ext s s1 op u h1 (hu op (List.mem_cons_self _ _))
      obtain ⟨b1, b2⟩ := ih s1 s' h (fun o ho => hu o (List.mem_cons_of_mem _ ho))
      exact ⟨b1.trans a1, fun e he heu => a2 e (b2 e he heu) heu⟩
    · cases h

end OpProofs

section OpProofs
variable {α : Type} [LinearOrderedField α]

/-- Without a pending pick and without an inspector window the picking block makes no
library call. -/
theorem end_frame_pick_lib (g : Game α) (s : RT64State α)
    (hpick : s.pickTextureNextFrame = false) (hins : s.inspector = none) :
    (end_frame_pick g s).lib = s.lib := by
  unfold end_frame_pick
  simp only [hpick, hins, Bool.false_eq_true, if_false, Option.isSome_none]
  split_ifs <;> rfl

/-- The picking block only appends calls to the log. -/
theorem end_frame_pick_extends (g : Game α) (s : RT64State α) :
    s.lib.Extends (end_frame_pick g s).lib := by
  unfold end_frame_pick
  simp only
  split_ifs <;>
    first
    | exact log_extends_refl _
    | exact log_extends_call _ _
    | exact log_extends_trans (log_extends_call _ _) (log_extends_call _ _)
    | exact log_extends_trans (log_extends_call _ _)
        (log_extends_trans (log_extends_call _ _) (log_extends_call _ _))

end OpProofs

section EvictionProofs
variable {α : Type} [LinearOrderedField α] [FloorRing α]

theorem draw_frame_extends (g : Game α) (s : RT64State α) (t : α) :
    s.lib.Extends (gfx_rt64_rapi_draw_frame g s t).lib := by
  obtain ⟨c1, c2, c3, hlib⟩ := draw_frame_lib g s t
  rw [hlib]
  exact log_extends_trans (log_extends_call s.lib c1)
    (log_extends_trans
      (foldl_extends (fun a : List (Nat × RecordedDisplayList α) × TempBuffers α => a.2.lib)
        (draw_frame_display_list t) (fun a x => draw_frame_display_list_extends t a x)
        s.displayLists _)
      (log_extends_trans (log_extends_call _ c2) (log_extends_call _ c3)))

theorem end_frame_draw_frames_extends (g : Game α) (s : RT64State α) :
    s.lib.Extends (end_frame_draw_frames g s).lib := by
  rw [end_frame_draw_frames_eq]
  exact foldl_extends (fun a : RT64State α => a.lib)
    (fun s t => gfx_rt64_rapi_draw_frame g s t) (fun a t => draw_frame_extends g a t) _ s

/-- The library calls of `gfx_rt64_rapi_end_frame`: after the scene description come
the destruction calls of the processing loop, display list by display list. -/
theorem end_frame_calls (ext : Extern α) (g : Game α) (s s' : RT64State α)
    (h : gfx_rt64_rapi_end_frame ext g s = some s') :
    ∃ rest, s'.lib.calls =
      s.lib.calls ++ [BackendCall.SetSceneDescription] ++
        (s.displayLists.map fun e => destroyCalls e.2).flatten ++ rest := by
  unfold gfx_rt64_rapi_end_frame at h
  split at h
  · cases h
  · rename_i s1 h1
    cases h
    obtain ⟨e1, _, e3⟩ := end_frame_lights_frame ext g s s1 h1
    obtain ⟨rest, hrest⟩ := end_frame_draw_frames_extends g (end_frame_process ext s1)
    obtain ⟨extra, hextra⟩ :=
      end_frame_pick_extends g (end_frame_draw_frames g (end_frame_process ext s1))
    refine ⟨rest ++ extra, ?_⟩
    show (end_frame_pick g _).lib.calls = _
    rw [hextra, hrest, (end_frame_process_eq ext s1).2, e1, e3]
    simp [List.append_assoc, Backend.call]

/-- Every display list that a commit keeps is marked as untouched and has the count 0. -/
theorem end_frame_entries (ext : Extern α) (g : Game α) (s s' : RT64State α)
    (h : gfx_rt64_rapi_end_frame ext g s = some s') :
    ∀ e ∈ s'.displayLists, e.2.newValid = false ∧ e.2.newCount = 0 := by
  rw [end_frame_displayLists ext g s s' h]
  intro e he
  obtain ⟨a, _, ha⟩ := List.mem_filterMap.mp he
  rw [end_frame_cleanup_display_list_eq] at ha
  split at ha
  · cases ha
    exact ⟨rfl, rfl⟩
  · cases ha

end EvictionProofs

section EvictionClaim
variable {α : Type} [LinearOrderedField α] [FloorRing α]

/-- Claim C6.  The display list map has the entry `dl` for the identifier `u` after the
commit of a tick, and the operations of the next tick (draw submissions, graph node light
builds, selections and registrations of graph node mods) contain no draw submission and
no graph node light build under `u`.  Then after `gfx_rt64_rapi_end_frame` of the next
tick the map has no entry for `u`; the calls of that `gfx_rt64_rapi_end_frame` contain
`DestroyInstance` for every instance and `DestroyMesh` for every mesh of the entry; and
after the loop "Process display lists", which makes these calls and comes before the
cleanup loop that erases, the entry is still in the map, with no instance and no mesh. -/
theorem untouched_identifier_is_evicted (ext : Extern α) (g g' : Game α)
    (sA s0 s1 s2 : RT64State α) (ops : List (TickOp α)) (u : Nat)
    (dl : RecordedDisplayList α)
    (hcommit : gfx_rt64_rapi_end_frame ext g sA = some s0)
    (hentry : mapFind s0.displayLists u = some dl)
    (hops : runOps ext s0 ops = some s1)
    (hnot : ∀ op ∈ ops, op.isUnder u = false)
    (hend : gfx_rt64_rapi_end_frame ext g' s1 = some s2) :
    mapFind s2.displayLists u = none ∧
    (∃ extra, s2.lib.calls = s1.lib.calls ++ extra ∧
      (∀ i ∈ dl.instances, BackendCall.DestroyInstance i.instance_ ∈ extra) ∧
      ∀ m ∈ dl.meshes, BackendCall.DestroyMesh m.mesh ∈ extra) ∧
    ∃ sL dlP, end_frame_lights ext g' s1 = some sL ∧
      mapFind (end_frame_process ext sL).displayLists u = some dlP ∧
      dlP.instances = [] ∧ dlP.meshes = [] := by
  have hent := end_frame_entries ext g sA s0 hcommit
  obtain ⟨hf, hmem⟩ := runOps_other ext u ops s0 s1 hops hnot
  have hfind1 : mapFind s1.displayLists u = some dl := hf.trans hentry
  have hdl1 : (u, dl) ∈ s1.displayLists := mapFind_mem _ _ _ hfind1
  obtain ⟨hnv, hnc⟩ := hent (u, dl) (mapFind_mem _ _ _ hentry)
  refine ⟨?_, ?_, ?_⟩
  · rw [end_frame_displayLists ext g' s1 s2 hend]
    apply mapFind_cleanup_erased
    intro e he hk
    obtain ⟨a, ha, rfl⟩ := List.mem_map.mp he
    rw [(framesDisplayList_fields _ _).2.1]
    exact (hent a (hmem a ha hk)).1
  · obtain ⟨rest, hrest⟩ := end_frame_calls ext g' s1 s2 hend
    obtain ⟨hi, hm⟩ := destroyCalls_all dl hnc
    have hsub : ∀ c ∈ destroyCalls dl,
        c ∈ [BackendCall.SetSceneDescription] ++
          (s1.displayLists.map fun e => destroyCalls e.2).flatten ++ rest := by
      intro c hc
      refine List.mem_append_left _ (List.mem_append_right _ ?_)
      exact List.mem_flatten.mpr ⟨destroyCalls dl, List.mem_map.mpr ⟨(u, dl), hdl1, rfl⟩, hc⟩
    refine ⟨_, ?_, fun i h => hsub _ (hi i h), fun m h => hsub _ (hm m h)⟩
    rw [hrest, List.append_assoc, List.append_assoc, List.append_assoc]
  · have hL : ∃ sL, end_frame_lights ext g' s1 = some sL := by
      cases hL : end_frame_lights ext g' s1 with
      | none =>
        unfold gfx_rt64_rapi_end_frame at hend
        rw [hL] at hend
        cases hend
      | some sL => exact ⟨sL, rfl⟩
    obtain ⟨sL, hL⟩ := hL
    obtain ⟨e1, _, _⟩ := end_frame_lights_frame ext g' s1 sL hL
    refine ⟨sL, processDisplayList ext dl, hL, ?_, ?_, ?_⟩
    · rw [(end_frame_process_eq ext sL).1, mapFind_map_values, e1, hfind1]
      rfl
    · show (dl.instances.take dl.newCount).map (rotationGuard ext) = []
      rw [hnc, List.take_zero, List.map_nil]
    · show (dl.meshes.take dl.newCount).map computeDelta = []
      rw [hnc, List.take_zero, List.map_nil]

end EvictionClaim

/-- Identifier 42: a triangle is submitted under 42 and the tick is committed; the next
tick has one submission, under identifier 5.  The entry of 42 after the first commit has
one instance and one mesh; after the second commit the map has no entry for 42 and both
were destroyed. -/
theorem untouched_identifier_is_evicted_witness :
    ∃ (sA s0 s1 s2 : RT64State ℚ) (dl : RecordedDisplayList ℚ),
      submit ratExtern loadedState evictedSubmission = some sA ∧
      gfx_rt64_rapi_end_frame ratExtern plainGame sA = some s0 ∧
      mapFind s0.displayLists 42 = some dl ∧
      dl.instances.length = 1 ∧ dl.meshes.length = 1 ∧
      runOps ratExtern s0 [TickOp.draw triangleSubmission] = some s1 ∧
      gfx_rt64_rapi_end_frame ratExtern plainGame s1 = some s2 ∧
      mapFind s2.displayLists 42 = none ∧
      ∃ extra, s2.lib.calls = s1.lib.calls ++ extra ∧
        (∀ i ∈ dl.instances, BackendCall.DestroyInstance i.instance_ ∈ extra) ∧
        ∀ m ∈ dl.meshes, BackendCall.DestroyMesh m.mesh ∈ extra := by
  have hsome : ((submit ratExtern loadedState evictedSubmission).bind fun sA =>
      (gfx_rt64_rapi_end_frame ratExtern plainGame sA).bind fun s0 =>
        (mapFind s0.displayLists 42).bind fun dl =>
          (runOps ratExtern s0 [TickOp.draw triangleSubmission]).bind fun s1 =>
            (gfx_rt64_rapi_end_frame ratExtern plainGame s1).bind fun _ =>
              if dl.instances.length = 1 ∧ dl.meshes.length = 1 then some () else none).isSome
      = true := by decide!
  obtain ⟨_, h⟩ := Option.isSome_iff_exists.mp hsome
  obtain ⟨sA, hA, h⟩ := Option.bind_eq_some.mp h
  obtain ⟨s0, h0, h⟩ := Option.bind_eq_some.mp h
  obtain ⟨dl, hdl, h⟩ := Option.bind_eq_some.mp h
  obtain ⟨s1, h1, h⟩ := Option.bind_eq_some.mp h
  obtain ⟨s2, h2, h⟩ := Option.bind_eq_some.mp h
  have hlen : dl.instances.length = 1 ∧ dl.meshes.length = 1 := by
    by_contra hc
    rw [if_neg hc] at h
    cases h
  obtain ⟨r1, r2, _⟩ :=
    untouched_identifier_is_evicted ratExtern plainGame plainGame sA s0 s1 s2
      [TickOp.draw triangleSubmission] 42 dl h0 hdl h1
      (fun op hop => by rw [List.mem_singleton.mp hop]; rfl) h2
  exact ⟨sA, s0, s1, s2, dl, hA, h0, hdl, hlen.1, hlen.2, h1, h2, r1, r2⟩

/-! ## Suppression of large position deltas -/

section SnapProofs
variable {α : Type} [LinearOrderedField α] [FloorRing α]

end SnapProofs

section SnapClaim
variable {α : Type} [LinearOrderedField α] [FloorRing α]

end SnapClaim

section StageProofs
variable {α : Type} [LinearOrderedField α]

/-- The staging branch of `gfx_rt64_rapi_process_mesh`: with a slot at the current
index, a hash that is not the stored one, interpolation permitted and the format of the
slot, the function returns the mesh of the slot, makes no library call, and puts
`stageMesh` of the slot in its place. -/
theorem process_mesh_stages (ext : Extern α) (sp : ShaderProgram) (lib : Backend α)
    (buf : List α) (tris : Nat) (rt : Bool) (dl : RecordedDisplayList α) (old : RecordedMesh α)
    (hassert : tris = meshVertexCount ext sp buf.length / 3)
    (hslot : dl.meshes[dl.newCount]? = some old)
    (hhash : ext.xxhash64 buf ≠ old.prevVertexBufferHash)
    (hvc : old.vertexCount = meshVertexCount ext sp buf.length)
    (hvs : old.vertexStride = meshVertexStride ext sp)
    (hic : old.indexCount = (tris * 3) % UINT_MOD) (hrt : old.raytrace = rt) :
    gfx_rt64_rapi_process_mesh ext (some sp) lib buf tris rt dl true true =
      some (old.mesh,
        { dl with meshes := dl.meshes.set dl.newCount (stageMesh buf (ext.xxhash64 buf) old) },
        lib) := by
  have hlt : dl.newCount < dl.meshes.length := (List.getElem?_eq_some.mp hslot).1
  unfold gfx_rt64_rapi_process_mesh
  simp only [ne_eq, hassert, not_true_eq_false, if_false]
  rw [← hassert]
  unfold processMeshReuse
  simp only [Bool.true_and, decide_eq_true_eq, hlt, if_true, hslot, ne_eq, hhash,
    not_false_eq_true, hvc, hvs, hic, hrt, decide_True, Bool.and_self]
  rfl

/-- What `stageMesh` keeps and sets; the buffer is the submitted one when the hash
is not the staged hash of the slot. -/
theorem stageMesh_fields (buf : List α) (hash : Nat) (old : RecordedMesh α) :
    (stageMesh buf hash old).mesh = old.mesh ∧
    (stageMesh buf hash old).prevVertexBuffer = old.prevVertexBuffer ∧
    (stageMesh buf hash old).prevVertexBufferHash = old.prevVertexBufferHash ∧
    (stageMesh buf hash old).newVertexBufferValid = true ∧
    (stageMesh buf hash old).newVertexBufferHash = hash ∧
    (hash ≠ old.newVertexBufferHash → (old.newVertexBuffer.getD []).length ≤ buf.length →
      (stageMesh buf hash old).newVertexBuffer = some buf) ∧
    (hash = old.newVertexBufferHash → ∀ b, old.newVertexBuffer = some b →
      (stageMesh buf hash old).newVertexBuffer = some b) := by
  unfold stageMesh
  refine ⟨rfl, rfl, rfl, rfl, ?_, ?_, ?_⟩
  · by_cases h : hash = old.newVertexBufferHash
    · simp [h]
    · simp [h]
  · intro h hlen
    simp only [ne_eq, h, not_false_eq_true, if_true]
    cases hb : old.newVertexBuffer with
    | none =>
      simp only [Option.getD_some]
      rw [memcpyFloats_full _ _ (by simp)]
    | some b =>
      rw [hb, Option.getD_some] at hlen
      simp only [Option.getD_some]
      rw [memcpyFloats_full _ _ hlen]
  · intro h b hb
    simp only [ne_eq, h, not_true_eq_false, if_false, hb]

end StageProofs

/-- C12 (code bug): a triangle is submitted under identifier 5 with the buffer
`triangleBuffer`, the tick is committed, the triangle is submitted with `movedBuffer`,
and the tick is committed.  The commit of the second tick overwrites float 0 of the
previous buffer (a position delta of 100) and then swaps the buffers, so the slot keeps
the hash of `triangleBuffer` as its staged hash over a buffer that holds 100 at float 0.
`gfx_rt64_rapi_process_mesh` is then called with `triangleBuffer` for this slot:
the instance has valid previous state, the hash differs from the stored hash,
interpolation is permitted and the format is the one of the slot; the call returns the
mesh of the slot without a library call, sets the staged flag and the staged hash of
`triangleBuffer`, but the staged buffer is `movedBuffer`, not the submitted
`triangleBuffer`. -/
theorem staged_buffer_keeps_stale_data :
    ((submit ratExtern loadedState triangleSubmission).bind fun s1 =>
      (gfx_rt64_rapi_end_frame ratExtern plainGame s1).bind fun s2 =>
        (submit ratExtern s2 movedSubmission).bind fun s3 =>
          (gfx_rt64_rapi_end_frame ratExtern plainGame s3).bind fun s4 =>
            (mapFind s4.displayLists 5).bind fun dl =>
              (dl.meshes[dl.newCount]?).bind fun slot =>
                (gfx_rt64_rapi_process_mesh ratExtern (currentShaderProgram s4) s4.lib
                  triangleBuffer 1 true dl true true).bind fun r =>
                  (r.2.1.meshes[dl.newCount]?).map fun m =>
                    ([(dl.instances[dl.newCount]?).map (fun i => i.prevValid) == some true,
                      ratDigest triangleBuffer != slot.prevVertexBufferHash,
                      slot.vertexCount == 3, slot.vertexStride == 40, slot.indexCount == 3,
                      slot.raytrace == true,
                      r.1 == slot.mesh, r.2.2.calls.length == s4.lib.calls.length,
                      m.newVertexBufferValid,
                      m.newVertexBufferHash == ratDigest triangleBuffer,
                      m.prevVertexBufferHash == slot.prevVertexBufferHash,
                      m.prevVertexBuffer == slot.prevVertexBuffer],
                     m.newVertexBuffer))
      = some ([true, true, true, true, true, true, true, true, true, true, true, true],
          some movedBuffer) ∧
    movedBuffer ≠ triangleBuffer := by
  constructor
  · decide!
  · decide

/-! ## The rebuild branch -/

section RebuildProofs
variable {α : Type} [LinearOrderedField α]

/-- The conditions under which the reuse block of `gfx_rt64_rapi_process_mesh` does
not return. -/
theorem processMeshReuse_miss (buf : List α) (hash vc vs ic : Nat) (rt : Bool)
    (dl : RecordedDisplayList α) (pv interp : Bool)
    (h : pv = false ∨ dl.meshes.length ≤ dl.newCount ∨
      ∃ old, dl.meshes[dl.newCount]? = some old ∧ hash ≠ old.prevVertexBufferHash ∧
        (interp = false ∨ old.vertexCount ≠ vc ∨ old.vertexStride ≠ vs ∨
          old.indexCount ≠ ic ∨ old.raytrace ≠ rt)) :
    processMeshReuse buf hash vc vs ic rt dl pv interp = none := by
  unfold processMeshReuse
  rcases h with h | h | ⟨old, hold, hne, hfmt⟩
  · simp [h]
  · have : ¬ dl.newCount < dl.meshes.length := by omega
    simp [this]
  · have hlt : dl.newCount < dl.meshes.length := (List.getElem?_eq_some.mp hold).1
    by_cases hpv : pv = true
    · simp only [hpv, Bool.true_and, decide_eq_true_eq, hlt, if_true, hold, ne_eq, hne,
        not_false_eq_true]
      rw [if_neg]
      intro hall
      simp only [Bool.and_eq_true, decide_eq_true_eq] at hall
      obtain ⟨⟨⟨⟨h1, h2⟩, h3⟩, h4⟩, h5⟩ := hall
      rcases hfmt with h | h | h | h | h
      · rw [h] at h1; cases h1
      · exact h h2
      · exact h h3
      · exact h h4
      · exact h h5
    · simp [hpv]

/-- The creation block of `gfx_rt64_rapi_process_mesh`: the returned mesh, the library
calls and the slot at the current index afterwards. -/
theorem processMeshCreate_calls (ext : Extern α) (lib : Backend α) (buf : List α)
    (hash vc vs ic : Nat) (ut rt : Bool) (dl : RecordedDisplayList α) :
    (processMeshCreate ext lib buf hash vc vs ic ut rt dl).1 = some lib.nextHandle ∧
    (processMeshCreate ext lib buf hash vc vs ic ut rt dl).2.2.calls =
      lib.calls ++
        (match (dl.meshes[dl.newCount]?).bind (fun m => m.mesh) with
          | some o => [BackendCall.DestroyMesh (some o)]
          | none => []) ++
        [BackendCall.CreateMesh
            (if rt then ext.RT64_MESH_RAYTRACE_ENABLED ||| ext.RT64_MESH_RAYTRACE_UPDATABLE
             else 0) lib.nextHandle,
          BackendCall.SetMesh (some lib.nextHandle) buf vc vs ic] ∧
    ∃ new : RecordedMesh α,
      (processMeshCreate ext lib buf hash vc vs ic ut rt dl).2.1.meshes[dl.newCount]? =
        some new ∧
      new.newVertexBuffer = none ∧ new.deltaVertexBuffer = none ∧
      new.newVertexBufferValid = false ∧ new.mesh = some lib.nextHandle ∧
      new.prevVertexBufferHash = hash ∧ new.prevVertexBuffer = some buf ∧
      new.vertexCount = vc ∧ new.vertexStride = vs ∧ new.indexCount = ic ∧
      new.useTexture = ut ∧ new.raytrace = rt := by
  have hcopy : memcpyFloats (List.replicate buf.length 0) buf buf.length = buf :=
    memcpyFloats_full _ _ (by simp)
  unfold processMeshCreate
  by_cases hc : dl.meshes.length < dl.newCount + 1
  · have hnone : dl.meshes[dl.newCount]? = none := List.getElem?_eq_none (by omega)
    have hget : (resizeTo dl.meshes (dl.newCount + 1) RecordedMesh.zero).getD dl.newCount
        RecordedMesh.zero = RecordedMesh.zero := by
      rw [List.getD_eq_getElem?_getD]
      unfold resizeTo
      rw [List.getElem?_append_right (by omega)]
      cases hr : (List.replicate (dl.newCount + 1 - dl.meshes.length)
          (RecordedMesh.zero : RecordedMesh α))[dl.newCount - dl.meshes.length]? with
      | none => rfl
      | some v =>
        have := List.getElem?_mem hr
        rw [List.mem_replicate] at this
        rw [this.2]
        rfl
    have hlen : dl.newCount < (resizeTo dl.meshes (dl.newCount + 1) RecordedMesh.zero).length := by
      rw [length_resizeTo _ _ _ hc]
      omega
    simp only [if_pos hc, hget, hnone, Option.none_bind, hcopy]
    refine ⟨rfl, ?_, _, List.getElem?_set_self hlen, rfl, rfl, rfl, rfl, rfl, rfl, rfl, rfl, rfl,
      rfl, rfl⟩
    simp [Backend.CreateMesh, Backend.call, RecordedMesh.zero]
  · have hlt : dl.newCount < dl.meshes.length := by omega
    have hsome : dl.meshes[dl.newCount]? = some (dl.meshes.getD dl.newCount RecordedMesh.zero) := by
      rw [List.getD_eq_getElem?_getD, List.getElem?_eq_getElem hlt]
      rfl
    simp only [if_neg hc, hsome, Option.some_bind, hcopy]
    cases hm : (dl.meshes.getD dl.newCount RecordedMesh.zero).mesh with
    | none =>
      simp only
      refine ⟨rfl, ?_, _, List.getElem?_set_self hlt, rfl, rfl, rfl, rfl, rfl, rfl, rfl, rfl,
        rfl, rfl, rfl⟩
      simp [Backend.CreateMesh, Backend.call]
    | some o =>
      simp only
      refine ⟨rfl, ?_, _, List.getElem?_set_self hlt, rfl, rfl, rfl, rfl, rfl, rfl, rfl, rfl,
        rfl, rfl, rfl⟩
      simp [Backend.CreateMesh, Backend.call]

end RebuildProofs

section RebuildClaim
variable {α : Type} [LinearOrderedField α]

/-- Claim C13.  A shader program is bound and the triangle count matches the buffer.  If
the instance has no valid previous state, or there is no mesh slot at the current index,
or the slot's stored hash is not the hash of the submitted buffer and interpolation is not
permitted or one of vertex count, stride, index count, raytrace flag of the slot differs
from the submitted format, then `gfx_rt64_rapi_process_mesh` returns; its library calls
are `DestroyMesh` of the old mesh of the slot if there is one, then one `CreateMesh`, whose
result is returned, then `SetMesh`; and the slot then holds the new mesh, the submitted
format (vertex count, stride, index count, texture-used flag of the bound shader
program, raytrace flag), the submitted buffer as previous buffer with its hash, no
staged flag, no new buffer and no delta buffer. -/
theorem process_mesh_rebuilds (ext : Extern α) (sp : ShaderProgram) (lib : Backend α)
    (buf : List α) (tris : Nat) (rt : Bool) (dl : RecordedDisplayList α) (pv interp : Bool)
    (hassert : tris = meshVertexCount ext sp buf.length / 3)
    (hcond : pv = false ∨ dl.meshes.length ≤ dl.newCount ∨
      ∃ old, dl.meshes[dl.newCount]? = some old ∧
        ext.xxhash64 buf ≠ old.prevVertexBufferHash ∧
        (interp = false ∨ old.vertexCount ≠ meshVertexCount ext sp buf.length ∨
          old.vertexStride ≠ meshVertexStride ext sp ∨
          old.indexCount ≠ (tris * 3) % UINT_MOD ∨ old.raytrace ≠ rt)) :
    ∃ (dl' : RecordedDisplayList α) (lib' : Backend α) (new : RecordedMesh α),
      gfx_rt64_rapi_process_mesh ext (some sp) lib buf tris rt dl pv interp =
        some (some lib.nextHandle, dl', lib') ∧
      lib'.calls =
        lib.calls ++
          (match (dl.meshes[dl.newCount]?).bind (fun m => m.mesh) with
            | some o => [BackendCall.DestroyMesh (some o)]
            | none => []) ++
          [BackendCall.CreateMesh
              (if rt then ext.RT64_MESH_RAYTRACE_ENABLED ||| ext.RT64_MESH_RAYTRACE_UPDATABLE
               else 0) lib.nextHandle,
            BackendCall.SetMesh (some lib.nextHandle) buf (meshVertexCount ext sp buf.length)
              (meshVertexStride ext sp) ((tris * 3) % UINT_MOD)] ∧
      dl'.meshes[dl.newCount]? = some new ∧
      new.mesh = some lib.nextHandle ∧
      new.vertexCount = meshVertexCount ext sp buf.length ∧
      new.vertexStride = meshVertexStride ext sp ∧
      new.indexCount = (tris * 3) % UINT_MOD ∧
      new.useTexture = (sp.usedTextures0 || sp.usedTextures1) ∧ new.raytrace = rt ∧
      new.prevVertexBuffer = some buf ∧ new.prevVertexBufferHash = ext.xxhash64 buf ∧
      new.newVertexBufferValid = false ∧ new.newVertexBuffer = none ∧
      new.deltaVertexBuffer = none := by
  obtain ⟨h1, h2, new, h3, n1, n2, n3, n4, n5, n6, n7, n8, n9, n10, n11⟩ :=
    processMeshCreate_calls ext lib buf (ext.xxhash64 buf) (meshVertexCount ext sp buf.length)
      (meshVertexStride ext sp) ((tris * 3) % UINT_MOD) (sp.usedTextures0 || sp.usedTextures1)
      rt dl
  refine ⟨_, _, new, ?_, h2, h3, n4, n7, n8, n9, n10, n11, n6, n5, n3, n1, n2⟩
  unfold gfx_rt64_rapi_process_mesh
  simp only [ne_eq, hassert, not_true_eq_false, if_false]
  rw [← hassert, processMeshReuse_miss _ _ _ _ _ _ _ _ _ hcond]
  simp only
  rw [← h1]

end RebuildClaim

/-- The slot of `storedDisplayList` holds mesh 9; `movedBuffer` is submitted without
permission to interpolate: mesh 9 is destroyed, mesh 10 is created and returned, and the
slot holds `movedBuffer` as its previous buffer. -/
theorem process_mesh_rebuilds_witness :
    ∃ (dl' : RecordedDisplayList ℚ) (lib' : Backend ℚ) (new : RecordedMesh ℚ),
      gfx_rt64_rapi_process_mesh ratExtern (some plainProgram) { nextHandle := 10, calls := [] }
        movedBuffer 1 true storedDisplayList true false = some (some 10, dl', lib') ∧
      lib'.calls =
        [BackendCall.DestroyMesh (some 9), BackendCall.CreateMesh 3 10,
          BackendCall.SetMesh (some 10) movedBuffer 3 40 3] ∧
      dl'.meshes[0]? = some new ∧ new.mesh = some 10 ∧
      new.vertexCount = 3 ∧ new.vertexStride = 40 ∧ new.indexCount = 3 ∧
      new.useTexture = false ∧ new.raytrace = true ∧
      new.prevVertexBuffer = some movedBuffer ∧ new.newVertexBufferValid = false ∧
      new.newVertexBuffer = none ∧ new.deltaVertexBuffer = none := by
  obtain ⟨dl', lib', new, h1, h2, h3, h4, f1, f2, f3, f4, f5, h9, _, h11, h12, h13⟩ :=
    process_mesh_rebuilds ratExtern plainProgram { nextHandle := 10, calls := [] } movedBuffer 1
      true storedDisplayList true false (by decide)
      (Or.inr (Or.inr ⟨_, rfl, by decide!, Or.inl rfl⟩))
  exact ⟨dl', lib', new, h1, h2, h3, h4, f1, f2, f3, f4, f5, h9, h11, h12, h13⟩

/-! ## The blocks of a draw submission, in sequence -/

section StageChain
variable {α : Type} [LinearOrderedField α] [FloorRing α]

/-- A successful draw submission as the sequence of its blocks. -/
theorem draw_result (ext : Extern α) (s s' : RT64State α) (transform : RT64_MATRIX4 α)
    (buf : List α) (tris : Nat) (ds rt : Bool) (uid : Nat)
    (h : gfx_rt64_rapi_draw_triangles_common ext s transform buf tris ds rt uid = some s') :
    ∃ (sp : ShaderProgram) (l1 l2 : DrawLocals α) (mesh : Option Handle)
      (dl2 : RecordedDisplayList α) (lib2 : Backend α) (flags : Nat),
      currentShaderProgram s = some sp ∧
      drawApplyMods ext (drawTexture (drawBegin s transform uid) sp) transform = some l1 ∧
      drawSelectShader ext (drawMaterialFog ext l1 sp.shaderId) rt sp.shaderId = some l2 ∧
      gfx_rt64_rapi_process_mesh ext (currentShaderProgram l2.state) l2.state.lib buf tris rt
        l2.displayList l2.displayListInstance.prevValid l2.interpolate
          = some (mesh, dl2, lib2) ∧
      s' =
        { l2.state with
          lib := lib2
          displayLists := mapInsert l2.state.displayLists uid
            { dl2 with
              instances := dl2.instances.set dl2.newCount
                { l2.displayListInstance with
                  desc := { l2.instDesc with mesh := mesh, flags := flags } }
              newCount := dl2.newCount + 1 } } := by
  unfold gfx_rt64_rapi_draw_triangles_common at h
  simp only at h
  split at h
  · cases h
  · rename_i sp hsp
    split at h
    · cases h
    · rename_i l1 h1
      split at h
      · cases h
      · rename_i l2 h2
        unfold drawFinish at h
        simp only at h
        split at h
        · cases h
        · rename_i mesh dl2 lib2 hpm
          cases h
          exact ⟨sp, l1, l2, mesh, dl2, lib2, _, hsp, h1, h2, hpm, rfl⟩

end StageChain

section StageDetails
variable {α : Type} [LinearOrderedField α] [FloorRing α]

theorem add_light_count (ext : Extern α) (s s' : RT64State α) (l : RT64_LIGHT α)
    (p n : RT64_MATRIX4 α) (h : gfx_rt64_add_light ext s l p n = some s') :
    s'.dynamicLightCount = s.dynamicLightCount + 1 ∧ s'.graphNodeMod = s.graphNodeMod ∧
    s'.defaultMaterial = s.defaultMaterial := by
  unfold gfx_rt64_add_light at h
  split at h
  · rename_i hlt
    cases h
    refine ⟨?_, rfl, rfl⟩
    show (s.dynamicLightCount + 1) % UINT_MOD = _
    have : MAX_DYNAMIC_LIGHTS = 384 := by decide
    have hu : UINT_MOD = 4294967296 := by decide
    rw [hu]
    omega
  · cases h

end StageDetails

section StageDetails
variable {α : Type} [LinearOrderedField α]

/-- The block "Find all parameters associated to the texture if it's used", run on the
result of the first block. -/
theorem drawTexture_detail (s : RT64State α) (transform : RT64_MATRIX4 α) (uid : Nat)
    (sp : ShaderProgram) :
    (drawTexture (drawBegin s transform uid) sp).textureMod = resolvedTextureMod s sp ∧
    (drawTexture (drawBegin s transform uid) sp).highlightMaterial = highlightActive s sp ∧
    (drawTexture (drawBegin s transform uid) sp).interpolate = (uid != 0) ∧
    (drawTexture (drawBegin s transform uid) sp).state.graphNodeMod = s.graphNodeMod ∧
    (drawTexture (drawBegin s transform uid) sp).state.defaultMaterial = s.defaultMaterial ∧
    (drawTexture (drawBegin s transform uid) sp).state.dynamicLightCount
      = s.dynamicLightCount := by
  unfold drawTexture resolvedTextureMod highlightActive
  by_cases hu : sp.usedTextures0 = true
  · simp only [hu, if_true, Bool.true_and]
    refine ⟨?_, ?_, rfl, rfl, rfl, rfl⟩
    · show (match mapFind s.texMods _ with
        | some texMod => some texMod
        | none => none) = _
      split <;> rename_i hm
      · exact hm.symm
      · exact hm.symm
    · show (if (s.pickTextureHighlight && _) = true then true else false) = _
      split <;> rename_i hc
      · exact hc.symm
      · simpa using hc
  · have hf : sp.usedTextures0 = false := by simpa using hu
    simp only [hf, Bool.false_eq_true, if_false, Bool.false_and]
    exact ⟨rfl, rfl, rfl, rfl, rfl, rfl⟩

end StageDetails

section StageDetails
variable {α : Type} [LinearOrderedField α] [FloorRing α]

/-- One application of a mod in a draw submission. -/
theorem drawApplyMod_detail (ext : Extern α) (l l' : DrawLocals α) (mod : RecordedMod α)
    (p n : RT64_MATRIX4 α) (applyLight : Bool)
    (h : drawApplyMod ext l mod p n applyLight = some l') :
    l'.instDesc.material = applyModMaterial ext l.instDesc.material (some mod) ∧
    l'.state.dynamicLightCount =
      l.state.dynamicLightCount + (if applyLight && mod.lightMod.isSome then 1 else 0) ∧
    l'.state.graphNodeMod = l.state.graphNodeMod ∧
    l'.state.defaultMaterial = l.state.defaultMaterial ∧
    l'.textureMod = l.textureMod ∧ l'.highlightMaterial = l.highlightMaterial ∧
    l'.interpolate = (mod.interpolationEnabled && l.interpolate) := by
  unfold drawApplyMod at h
  split at h
  · cases h
  · rename_i r hr
    cases h
    unfold gfx_rt64_rapi_apply_mod at hr
    have hint : (if (!mod.interpolationEnabled) = true then false else l.interpolate) =
        (mod.interpolationEnabled && l.interpolate) := by
      cases mod.interpolationEnabled <;> simp
    cases hl : mod.lightMod with
    | none =>
      have hadd : (match applyLight, (none : Option (RT64_LIGHT α)) with
          | true, some lightMod =>
            gfx_rt64_add_light ext l.state lightMod
              (if (if (!mod.interpolationEnabled) = true then false else l.interpolate) = true
                then p else n) n
          | _, _ => some l.state) = some l.state := by
        cases applyLight <;> rfl
      simp only [hl, hadd] at hr
      cases hr
      refine ⟨rfl, ?_, rfl, rfl, rfl, rfl, hint⟩
      simp
    | some lm =>
      cases ha : applyLight with
      | false =>
        simp only [hl, ha] at hr
        cases hr
        refine ⟨rfl, ?_, rfl, rfl, rfl, rfl, hint⟩
        simp
      | true =>
        simp only [hl] at hr
        rw [ha] at hr
        simp only at hr
        split at hr
        · cases hr
        · rename_i s1 hs1
          cases hr
          obtain ⟨c1, c2, c3⟩ := add_light_count ext _ _ _ _ _ hs1
          refine ⟨rfl, ?_, c2, c3, rfl, rfl, hint⟩
          simpa using c1

end StageDetails

section StageDetails2
variable {α : Type} [LinearOrderedField α] [FloorRing α]

/-- The blocks "Build material with applied mods" and "Skip interpolation if
specified": the material, the number of dynamic lights and the interpolation flag
afterwards. -/
theorem drawApplyMods_detail (ext : Extern α) (l l' : DrawLocals α)
    (transform : RT64_MATRIX4 α) (h : drawApplyMods ext l transform = some l') :
    l'.instDesc.material =
      applyModMaterial ext (applyModMaterial ext l.state.defaultMaterial l.state.graphNodeMod)
        l.textureMod ∧
    l'.state.dynamicLightCount =
      l.state.dynamicLightCount + (if carriesLight l.textureMod then 1 else 0) ∧
    l'.highlightMaterial = l.highlightMaterial ∧
    l'.interpolate =
      (allowsInterpolation l.textureMod &&
        (allowsInterpolation l.state.graphNodeMod && l.interpolate)) := by
  unfold drawApplyMods at h
  simp only at h
  split at h
  · cases h
  · rename_i l1 h1
    split at h
    · cases h
    · rename_i l2 h2
      have f1 : l1.instDesc.material =
            applyModMaterial ext l.state.defaultMaterial l.state.graphNodeMod ∧
          l1.state.dynamicLightCount = l.state.dynamicLightCount ∧
          l1.textureMod = l.textureMod ∧ l1.highlightMaterial = l.highlightMaterial ∧
          l1.interpolate = (allowsInterpolation l.state.graphNodeMod && l.interpolate) := by
        cases hg : l.state.graphNodeMod with
        | none =>
          rw [hg] at h1
          cases h1
          exact ⟨rfl, rfl, rfl, rfl, by simp [allowsInterpolation]⟩
        | some gm =>
          rw [hg] at h1
          obtain ⟨d1, d2, _, _, d5, d6, d7⟩ := drawApplyMod_detail ext _ _ _ _ _ _ h1
          exact ⟨d1, by simpa using d2, d5, d6, d7⟩
      obtain ⟨a1, a2, a3, a4, a5⟩ := f1
      have f2 : l2.instDesc.material = applyModMaterial ext l1.instDesc.material l.textureMod ∧
          l2.state.dynamicLightCount =
            l1.state.dynamicLightCount + (if carriesLight l.textureMod then 1 else 0) ∧
          l2.highlightMaterial = l1.highlightMaterial ∧
          l2.interpolate = (allowsInterpolation l.textureMod && l1.interpolate) := by
        cases ht : l.textureMod with
        | none =>
          rw [a3, ht] at h2
          cases h2
          exact ⟨rfl, by simp [carriesLight], rfl, by simp [allowsInterpolation]⟩
        | some tm =>
          rw [a3, ht] at h2
          obtain ⟨d1, d2, _, _, _, d6, d7⟩ := drawApplyMod_detail ext _ _ _ _ _ _ h2
          exact ⟨d1, by simpa [carriesLight] using d2, d6, d7⟩
      obtain ⟨b1, b2, b3, b4⟩ := f2
      have hres : l2.instDesc.material =
            applyModMaterial ext
              (applyModMaterial ext l.state.defaultMaterial l.state.graphNodeMod) l.textureMod ∧
          l2.state.dynamicLightCount =
            l.state.dynamicLightCount + (if carriesLight l.textureMod then 1 else 0) ∧
          l2.highlightMaterial = l.highlightMaterial ∧
          l2.interpolate =
            (allowsInterpolation l.textureMod &&
              (allowsInterpolation l.state.graphNodeMod && l.interpolate)) :=
        ⟨by rw [b1, a1], by rw [b2, a2], b3.trans a4, by rw [b4, a5]⟩
      split at h
      · cases h
        exact hres
      · cases h
        exact hres

end StageDetails2

section StageDetails2
variable {α : Type} [LinearOrderedField α]

/-- The blocks "Apply a higlight color if the material is selected" and "Copy the fog
to the material" leave every attribute of the material as it is, apart from the three
that the highlight sets. -/
theorem drawMaterialFog_detail (ext : Extern α) (l : DrawLocals α) (shaderId : Nat) :
    (∀ a : MaterialAttribute,
      (l.highlightMaterial = true →
        a ≠ MaterialAttribute.diffuseColorMix ∧ a ≠ MaterialAttribute.selfLight ∧
          a ≠ MaterialAttribute.lightGroupMaskBits) →
      a.Same (drawMaterialFog ext l shaderId).instDesc.material l.instDesc.material) ∧
    (l.highlightMaterial = true →
      (drawMaterialFog ext l shaderId).instDesc.material.diffuseColorMix =
        { x := 1, y := 0, z := 1, w := 1 / 2 } ∧
      (drawMaterialFog ext l shaderId).instDesc.material.selfLight =
        { x := 1, y := 1, z := 1 } ∧
      (drawMaterialFog ext l shaderId).instDesc.material.lightGroupMaskBits = 0) ∧
    (drawMaterialFog ext l shaderId).state = l.state ∧
    (drawMaterialFog ext l shaderId).displayListInstance = l.displayListInstance ∧
    (drawMaterialFog ext l shaderId).interpolate = l.interpolate := by
  refine ⟨?_, ?_, rfl, rfl, rfl⟩
  · intro a ha
    cases hh : l.highlightMaterial with
    | false => cases a <;> simp [drawMaterialFog, hh, MaterialAttribute.Same]
    | true =>
      obtain ⟨h1, h2, h3⟩ := ha hh
      cases a <;> first
        | exact absurd rfl h1
        | exact absurd rfl h2
        | exact absurd rfl h3
        | simp [drawMaterialFog, hh, MaterialAttribute.Same]
  · intro hh
    simp [drawMaterialFog, hh]

end StageDetails2

section StageDetails3
variable {α : Type}

theorem readShaderVariant_lights (s s' : RT64State α) (key : Nat) (shader : Option Handle)
    (h : readShaderVariant s key = some (shader, s')) :
    s'.dynamicLightCount = s.dynamicLightCount := by
  unfold readShaderVariant at h
  split at h
  · cases h
  · split at h
    · cases h
    · cases h; rfl

theorem preload_shader_lights (ext : Extern α) (s : RT64State α) (shader_id : Nat)
    (raytrace : Bool) (filter hAddr vAddr : Nat) (normalMap specularMap : Bool) :
    (gfx_rt64_rapi_preload_shader ext s shader_id raytrace filter hAddr vAddr normalMap
      specularMap).dynamicLightCount = s.dynamicLightCount := by
  unfold gfx_rt64_rapi_preload_shader
  cases hl : gfx_rt64_rapi_lookup_shader s shader_id with
  | some address =>
    simp only
    split
    · rfl
    · split <;> rfl
  | none =>
    simp only
    split
    · rfl
    · split <;> rfl

/-- The block "Determine the right shader to use and create if it hasn't been loaded
yet" changes the shader of the description only, and no dynamic light. -/
theorem drawSelectShader_detail (ext : Extern α) (l l' : DrawLocals α) (raytrace : Bool)
    (shaderId : Nat) (h : drawSelectShader ext l raytrace shaderId = some l') :
    l'.instDesc.material = l.instDesc.material ∧
    l'.instDesc.scissorRect = l.instDesc.scissorRect ∧
    l'.instDesc.viewportRect = l.instDesc.viewportRect ∧
    l'.state.dynamicLightCount = l.state.dynamicLightCount := by
  unfold drawSelectShader at h
  simp only at h
  split at h
  · cases h
  · rename_i shader s1 h1
    split at h
    · cases h
    · rename_i shader2 s2 h2
      cases h
      have a1 := readShaderVariant_lights _ _ _ _ h1
      have hs2 : s2.dynamicLightCount = s1.dynamicLightCount := by
        split at h2
        · cases h2; rfl
        · have b1 := readShaderVariant_lights _ _ _ _ h2
          exact b1.trans (preload_shader_lights ext s1 shaderId raytrace _ _ _ _ _)
      exact ⟨rfl, rfl, rfl, hs2.trans a1⟩

theorem drawTexture_instance (l : DrawLocals α) (sp : ShaderProgram) :
    (drawTexture l sp).displayListInstance = l.displayListInstance := by
  unfold drawTexture
  split <;> rfl

end StageDetails3

section StageInstance
variable {α : Type} [LinearOrderedField α] [FloorRing α]

/-- The instance that a successful draw submission leaves at its position: the instance
of the mod block with the description of the later blocks, whose material is the one
after the highlight and fog blocks; the mesh processing runs on the display list of the
identifier with the flags of the mod block. -/
theorem draw_instance (ext : Extern α) (s s' : RT64State α) (transform : RT64_MATRIX4 α)
    (buf : List α) (tris : Nat) (ds rt : Bool) (uid : Nat)
    (h : gfx_rt64_rapi_draw_triangles_common ext s transform buf tris ds rt uid = some s') :
    ∃ (sp sp2 : ShaderProgram) (l1 : DrawLocals α) (mesh : Option Handle)
      (dl' dl2 : RecordedDisplayList α) (lib1 lib2 : Backend α) (desc : RT64_INSTANCE_DESC α),
      currentShaderProgram s = some sp ∧
      drawApplyMods ext (drawTexture (drawBegin s transform uid) sp) transform = some l1 ∧
      gfx_rt64_rapi_process_mesh ext (some sp2) lib1 buf tris rt
        { drawDisplayList s uid with newValid := true } l1.displayListInstance.prevValid
        l1.interpolate = some (mesh, dl2, lib2) ∧
      desc.material = (drawMaterialFog ext l1 sp.shaderId).instDesc.material ∧
      desc.mesh = mesh ∧
      mapFind s'.displayLists uid = some dl' ∧
      dl'.newCount = positionOf s uid + 1 ∧
      dl'.instances[positionOf s uid]? = some { l1.displayListInstance with desc := desc } ∧
      dl'.meshes = dl2.meshes ∧
      s'.dynamicLightCount = l1.state.dynamicLightCount := by
  obtain ⟨sp, l1, l2, mesh, dl2, lib2, flags, hsp, h1, h2, hpm, rfl⟩ :=
    draw_result ext s s' transform buf tris ds rt uid h
  obtain ⟨b1, _⟩ := drawBegin_facts s transform uid
  have k1 := drawTexture_keeps (drawBegin s transform uid) sp
  obtain ⟨k2, _, _⟩ := drawApplyMods_keeps ext _ _ _ h1
  obtain ⟨k3, e3, i3⟩ := drawMaterialFog_keeps ext l1 sp.shaderId
  obtain ⟨k4, e4, i4⟩ := drawSelectShader_keeps ext _ _ _ _ h2
  obtain ⟨m4, _, _, c4⟩ := drawSelectShader_detail ext _ _ _ _ h2
  have hdl : l2.displayList = { drawDisplayList s uid with newValid := true } :=
    (((k1.trans k2).trans k3).trans k4).displayList.trans b1
  have einst : l2.displayListInstance = l1.displayListInstance := e4.trans e3
  have eint : l2.interpolate = l1.interpolate := i4.trans i3
  obtain ⟨sp2, hsp2⟩ := process_mesh_some_program ext _ _ _ _ _ _ _ _ _ hpm
  rw [hsp2, hdl, einst, eint] at hpm
  obtain ⟨f1, f2, f3, f4⟩ := drawDisplayList_facts s uid
  obtain ⟨g1, g2, _, _⟩ := process_mesh_frame ext sp2 _ _ _ _ _ _ _ _ _ _ hpm
  have hnc : dl2.newCount = positionOf s uid := by
    rw [g2]; exact f1
  have hinst : dl2.instances = (drawDisplayList s uid).instances := g1
  refine ⟨sp, sp2, l1, mesh, _, dl2, l2.state.lib, lib2,
    { l2.instDesc with mesh := mesh, flags := flags }, hsp, h1, hpm, m4, rfl,
    mapFind_mapInsert_self _ _ _, ?_, ?_, rfl, c4⟩
  · show dl2.newCount + 1 = _
    rw [hnc]
  · show (dl2.instances.set dl2.newCount _)[_]? = _
    rw [← hnc, einst]
    apply List.getElem?_set_self
    rw [hinst, hnc]
    have := f3
    rw [f1] at this
    exact this

end StageInstance

/-! ## The order of the mods -/

section LayerProofs
variable {α : Type}

theorem MaterialAttribute.same_refl (a : MaterialAttribute) (m : RT64_MATERIAL α) :
    a.Same m m := by
  cases a <;> exact rfl

theorem MaterialAttribute.same_trans (a : MaterialAttribute) (m1 m2 m3 : RT64_MATERIAL α)
    (h12 : a.Same m1 m2) (h23 : a.Same m2 m3) : a.Same m1 m3 := by
  cases a <;> exact Eq.trans h12 h23

theorem apply_attributes_on (ext : Extern α) (dst src : RT64_MATERIAL α)
    (a : MaterialAttribute) (h : src.enabledAttributes &&& a.flag ext ≠ 0) :
    a.Same (RT64_ApplyMaterialAttributes ext dst src) src := by
  cases a <;>
    simp only [MaterialAttribute.flag] at h <;>
    simp [RT64_ApplyMaterialAttributes, MaterialAttribute.Same, h]

theorem apply_attributes_off (ext : Extern α) (dst src : RT64_MATERIAL α)
    (a : MaterialAttribute) (h : ¬ src.enabledAttributes &&& a.flag ext ≠ 0) :
    a.Same (RT64_ApplyMaterialAttributes ext dst src) dst := by
  have h0 : src.enabledAttributes &&& a.flag ext = 0 := not_not.mp h
  cases a <;>
    simp only [MaterialAttribute.flag] at h0 <;>
    simp [RT64_ApplyMaterialAttributes, MaterialAttribute.Same, h0]

theorem applyModMaterial_on (ext : Extern α) (material : RT64_MATERIAL α)
    (mod : Option (RecordedMod α)) (a : MaterialAttribute) (h : ModEnables ext mod a) :
    SameAsMod a (applyModMaterial ext material mod) mod := by
  obtain ⟨m, mat, hm, hmat, hbit⟩ := h
  intro m' mat' hm' hmat'
  rw [hm] at hm'
  cases hm'
  rw [hmat] at hmat'
  cases hmat'
  unfold applyModMaterial
  rw [hm]
  simp only [hmat]
  exact apply_attributes_on ext material mat a hbit

theorem applyModMaterial_off (ext : Extern α) (material : RT64_MATERIAL α)
    (mod : Option (RecordedMod α)) (a : MaterialAttribute) (h : ¬ ModEnables ext mod a) :
    a.Same (applyModMaterial ext material mod) material := by
  unfold applyModMaterial
  cases hm : mod with
  | none => exact a.same_refl material
  | some m =>
    cases hmat : m.materialMod with
    | none =>
      simp only [hmat]
      exact a.same_refl material
    | some mat =>
      simp only [hmat]
      apply apply_attributes_off
      intro hbit
      exact h ⟨m, mat, hm, hmat, hbit⟩

/-- The material after the two applications, attribute by attribute: the value of the
second mod where it enables the attribute, else the value of the first mod where that
one enables it, else the value before. -/
theorem applyModMaterial_layers (ext : Extern α) (material : RT64_MATERIAL α)
    (first second : Option (RecordedMod α)) (a : MaterialAttribute) :
    (ModEnables ext second a →
      SameAsMod a (applyModMaterial ext (applyModMaterial ext material first) second)
        second) ∧
    (ModEnables ext first a → ¬ ModEnables ext second a →
      SameAsMod a (applyModMaterial ext (applyModMaterial ext material first) second)
        first) ∧
    (¬ ModEnables ext first a → ¬ ModEnables ext second a →
      a.Same (applyModMaterial ext (applyModMaterial ext material first) second)
        material) := by
  refine ⟨fun h => applyModMaterial_on ext _ _ a h, ?_, ?_⟩
  · intro h1 h2 m mat hm hmat
    exact a.same_trans _ _ _ (applyModMaterial_off ext _ second a h2)
      (applyModMaterial_on ext material first a h1 m mat hm hmat)
  · intro h1 h2
    exact a.same_trans _ _ _ (applyModMaterial_off ext _ second a h2)
      (applyModMaterial_off ext material first a h1)

end LayerProofs

section OrderClaim
variable {α : Type} [LinearOrderedField α] [FloorRing α]

/-- Claim C14, amended.  A draw submission returns, with `sp` the bound shader program.
The instance it leaves at its position has a material that, attribute by attribute, has
the value of the resolved texture mod where that mod enables the attribute, else the
value of the current graph node mod where that one enables it, else the value of the
default material; this holds for every attribute when the material highlight is off,
and for every attribute other than the diffuse color mix, the self light and the light
group mask bits when it is on, in which case these three have the values of the
highlight.  The number of dynamic lights goes up by one if the resolved texture mod has
a light and stays otherwise, whatever the graph node mod holds. -/
theorem draw_mod_order (ext : Extern α) (s s' : RT64State α) (transform : RT64_MATRIX4 α)
    (buf : List α) (tris : Nat) (ds rt : Bool) (uid : Nat) (sp : ShaderProgram)
    (hsp : currentShaderProgram s = some sp)
    (h : gfx_rt64_rapi_draw_triangles_common ext s transform buf tris ds rt uid = some s') :
    ∃ (dl' : RecordedDisplayList α) (inst : RecordedInstance α),
      mapFind s'.displayLists uid = some dl' ∧
      dl'.instances[positionOf s uid]? = some inst ∧
      (∀ a : MaterialAttribute,
        (highlightActive s sp = true →
          a ≠ MaterialAttribute.diffuseColorMix ∧ a ≠ MaterialAttribute.selfLight ∧
            a ≠ MaterialAttribute.lightGroupMaskBits) →
        (ModEnables ext (resolvedTextureMod s sp) a →
          SameAsMod a inst.desc.material (resolvedTextureMod s sp)) ∧
        (ModEnables ext s.graphNodeMod a → ¬ ModEnables ext (resolvedTextureMod s sp) a →
          SameAsMod a inst.desc.material s.graphNodeMod) ∧
        (¬ ModEnables ext s.graphNodeMod a → ¬ ModEnables ext (resolvedTextureMod s sp) a →
          a.Same inst.desc.material s.defaultMaterial)) ∧
      (highlightActive s sp = true →
        inst.desc.material.diffuseColorMix = { x := 1, y := 0, z := 1, w := 1 / 2 } ∧
        inst.desc.material.selfLight = { x := 1, y := 1, z := 1 } ∧
        inst.desc.material.lightGroupMaskBits = 0) ∧
      s'.dynamicLightCount =
        s.dynamicLightCount + (if carriesLight (resolvedTextureMod s sp) then 1 else 0) := by
  obtain ⟨sp0, sp2, l1, mesh, dl', dl2, lib1, lib2, desc, hsp0, h1, _, hmat, _, hfind, _,
    hinst, _, hcount⟩ := draw_instance ext s s' transform buf tris ds rt uid h
  rw [hsp] at hsp0
  cases hsp0
  obtain ⟨t1, t2, _, t4, t5, t6⟩ := drawTexture_detail s transform uid sp
  obtain ⟨m1, m2, m3, _⟩ := drawApplyMods_detail ext _ _ _ h1
  rw [t1, t4, t5] at m1
  rw [t1, t6] at m2
  rw [t2] at m3
  obtain ⟨f1, f2, _⟩ := drawMaterialFog_detail ext l1 sp.shaderId
  rw [m3] at f1 f2
  refine ⟨dl', _, hfind, hinst, ?_, ?_, ?_⟩
  · intro a ha
    have hsame : a.Same desc.material
        (applyModMaterial ext (applyModMaterial ext s.defaultMaterial s.graphNodeMod)
          (resolvedTextureMod s sp)) := by
      rw [hmat, ← m1]
      exact f1 a ha
    obtain ⟨y1, y2, y3⟩ :=
      applyModMaterial_layers ext s.defaultMaterial s.graphNodeMod (resolvedTextureMod s sp) a
    refine ⟨?_, ?_, ?_⟩
    · intro he m mat hm hmm
      exact a.same_trans _ _ _ hsame (y1 he m mat hm hmm)
    · intro he hne m mat hm hmm
      exact a.same_trans _ _ _ hsame (y2 he hne m mat hm hmm)
    · intro hne1 hne2
      exact a.same_trans _ _ _ hsame (y3 hne1 hne2)
  · intro hh
    show desc.material.diffuseColorMix = _ ∧ desc.material.selfLight = _ ∧
      desc.material.lightGroupMaskBits = 0
    rw [hmat]
    exact f2 hh
  · rw [hcount, m2]

end OrderClaim

/-- C14 (counterexample): in `highlightState` the texture "lava" is bound and picked
with the highlight on; its mod `tintMod` enables the diffuse color mix with the value
(1/4, 1/4, 1/4, 1).  After the draw the diffuse color mix of the material of
the instance is (1, 0, 1, 1/2), not the value of the texture mod. -/
theorem highlight_overrides_texture_mod :
    ((gfx_rt64_rapi_draw_triangles_common ratExtern highlightState identityMatrix
        texturedBuffer 1 false true 5).bind fun s' =>
      (mapFind s'.displayLists 5).bind fun dl =>
        (dl.instances[0]?).map fun i => i.desc.material.diffuseColorMix)
      = some { x := 1, y := 0, z := 1, w := 1 / 2 } ∧
    ((resolvedTextureMod highlightState texturedProgram).bind fun m =>
      m.materialMod.map fun mat =>
        (mat.enabledAttributes &&& ratExtern.RT64_ATTRIBUTE_DIFFUSE_COLOR_MIX != 0,
          mat.diffuseColorMix))
      = some (true, { x := 1 / 4, y := 1 / 4, z := 1 / 4, w := 1 }) ∧
    currentShaderProgram highlightState = some texturedProgram := by
  refine ⟨by decide!, by decide!, by decide⟩

/-- The draw in `texturedState`, with the highlight off: the reflection factor, enabled
in both mods, is the 9 of the texture mod; the specular exponent, enabled in the graph
node mod only, is its 7; the diffuse color mix, enabled in the texture mod only, is
its (1/4, 1/4, 1/4, 1); and one dynamic light is added although both mods have one. -/
theorem draw_mod_order_witness :
    ∃ (s' : RT64State ℚ) (dl' : RecordedDisplayList ℚ) (inst : RecordedInstance ℚ),
      gfx_rt64_rapi_draw_triangles_common ratExtern texturedState identityMatrix
        texturedBuffer 1 false true 5 = some s' ∧
      mapFind s'.displayLists 5 = some dl' ∧ dl'.instances[0]? = some inst ∧
      inst.desc.material.reflectionFactor = 9 ∧ inst.desc.material.specularExponent = 7 ∧
      inst.desc.material.diffuseColorMix = { x := 1 / 4, y := 1 / 4, z := 1 / 4, w := 1 } ∧
      s'.dynamicLightCount = texturedState.dynamicLightCount + 1 := by
  have hsome : (gfx_rt64_rapi_draw_triangles_common ratExtern texturedState identityMatrix
      texturedBuffer 1 false true 5).isSome = true := by decide!
  obtain ⟨s', hs'⟩ := Option.isSome_iff_exists.mp hsome
  have hT : resolvedTextureMod texturedState texturedProgram = some tintMod := by decide!
  have hG : texturedState.graphNodeMod = some glossMod := rfl
  have hoff : highlightActive texturedState texturedProgram = false := by decide!
  have hno : ∀ a : MaterialAttribute, highlightActive texturedState texturedProgram = true →
      a ≠ MaterialAttribute.diffuseColorMix ∧ a ≠ MaterialAttribute.selfLight ∧
        a ≠ MaterialAttribute.lightGroupMaskBits := by
    intro a hon
    rw [hoff] at hon
    cases hon
  obtain ⟨dl', inst, h1, h2, h3, _, h5⟩ :=
    draw_mod_order ratExtern texturedState s' identityMatrix texturedBuffer 1 false true 5
      texturedProgram (by decide) hs'
  refine ⟨s', dl', inst, hs', h1, h2, ?_, ?_, ?_, ?_⟩
  · exact ((h3 MaterialAttribute.reflectionFactor (hno _)).1
      ⟨tintMod, _, hT, rfl, by decide⟩) tintMod _ hT rfl
  · exact ((h3 MaterialAttribute.specularExponent (hno _)).2.1
      ⟨glossMod, _, hG, rfl, by decide⟩
      (by
        rintro ⟨m, mat, hm, hmat, hbit⟩
        rw [hT] at hm
        cases hm
        cases hmat
        exact hbit (by decide))) glossMod _ hG rfl
  · exact ((h3 MaterialAttribute.diffuseColorMix (hno _)).1
      ⟨tintMod, _, hT, rfl, by decide⟩) tintMod _ hT rfl
  · rw [h5, hT]
    rfl

/-! ## Texture aliases -/

section AliasClaim
variable {α : Type} [LinearOrderedField α] [FloorRing α]

/-- Claim C15.  The bound shader program uses texture 0 and `A` is the hash of the
bound texture.  The texture mod that `gfx_rt64_rapi_draw_triangles_common` finds is the
mod recorded under `B` (none if there is none) if the alias map sends `A` to `B`,
whatever the alias map holds for `B`, and the mod recorded under `A` if the alias map has
no entry for `A`.  The alias map is read at `A` only: with any other alias map that has
the same entry for `A` the same mod is found.  This mod is the one that a successful
draw applies after the graph node mod. -/
theorem alias_single_hop (ext : Extern α) (s : RT64State α) (transform : RT64_MATRIX4 α)
    (buf : List α) (tris : Nat) (ds rt : Bool) (uid : Nat) (sp : ShaderProgram) (A : Nat)
    (hsp : currentShaderProgram s = some sp)
    (husing : sp.usedTextures0 = true)
    (hA : (mapGetOrCreate s.textures (readTextureId s.currentTextureIds s.currentTile)
      RecordedTexture.zero).hash = A) :
    (∀ B, mapFind s.texHashAliasMap A = some B →
      (drawTexture (drawBegin s transform uid) sp).textureMod = mapFind s.texMods B) ∧
    (mapFind s.texHashAliasMap A = none →
      (drawTexture (drawBegin s transform uid) sp).textureMod = mapFind s.texMods A) ∧
    (∀ aliases : List (Nat × Nat), mapFind aliases A = mapFind s.texHashAliasMap A →
      (drawTexture (drawBegin { s with texHashAliasMap := aliases } transform uid) sp).textureMod
        = (drawTexture (drawBegin s transform uid) sp).textureMod) ∧
    (∀ s', gfx_rt64_rapi_draw_triangles_common ext s transform buf tris ds rt uid = some s' →
      ∃ l1, drawApplyMods ext (drawTexture (drawBegin s transform uid) sp) transform
        = some l1 ∧
        l1.instDesc.material =
          applyModMaterial ext (applyModMaterial ext s.defaultMaterial s.graphNodeMod)
            (drawTexture (drawBegin s transform uid) sp).textureMod) := by
  obtain ⟨t1, _, _, t4, t5, _⟩ := drawTexture_detail s transform uid sp
  have hres : ∀ s2 : RT64State α,
      s2.textures = s.textures → s2.currentTextureIds = s.currentTextureIds →
      s2.currentTile = s.currentTile → s2.texMods = s.texMods →
      resolvedTextureMod s2 sp =
        mapFind s.texMods
          (match mapFind s2.texHashAliasMap A with
            | some target => target
            | none => A) := by
    intro s2 e1 e2 e3 e4
    unfold resolvedTextureMod
    simp only [husing, if_true, e1, e2, e3, e4, hA]
  refine ⟨?_, ?_, ?_, ?_⟩
  · intro B hB
    rw [t1, hres s rfl rfl rfl rfl, hB]
  · intro hnone
    rw [t1, hres s rfl rfl rfl rfl, hnone]
  · intro aliases hal
    obtain ⟨u1, _⟩ := drawTexture_detail { s with texHashAliasMap := aliases } transform uid sp
    rw [u1, t1, hres s rfl rfl rfl rfl, hres { s with texHashAliasMap := aliases } rfl rfl rfl rfl]
    show mapFind s.texMods (match mapFind aliases A with
      | some target => target
      | none => A) = _
    rw [hal]
  · intro s' h
    obtain ⟨sp0, l1, _, _, _, _, _, hsp0, h1, _⟩ :=
      draw_result ext s s' transform buf tris ds rt uid h
    rw [hsp] at hsp0
    cases hsp0
    obtain ⟨m1, _⟩ := drawApplyMods_detail ext _ _ _ h1
    rw [t4, t5] at m1
    exact ⟨l1, h1, m1⟩

end AliasClaim

/-- In `aliasState` the hash of "lava" has the alias 11, and 11 has the alias 22; there
is a mod for 22 and one for the hash of "lava" but none for 11: no texture mod is
found. -/
theorem alias_single_hop_witness :
    (drawTexture (drawBegin aliasState identityMatrix 5) texturedProgram).textureMod = none ∧
    mapFind aliasState.texHashAliasMap 11 = some 22 ∧
    mapFind aliasState.texMods 22 = some tintMod := by
  refine ⟨?_, rfl, rfl⟩
  exact ((alias_single_hop ratExtern aliasState identityMatrix texturedBuffer 1 false true 5
    texturedProgram (string_hash (cStringBytes "lava")) (by decide) rfl (by decide)).1 11
      (by decide)).trans (by decide)

/-! ## The weights of the sub-frames -/

section WeightProofs
variable {α : Type} [LinearOrderedField α] [FloorRing α]

theorem frameWeights_length (n : Nat) : (frameWeights n : List α).length = n / 30 := by
  unfold frameWeights
  rw [List.length_map, List.length_range]

theorem frameWeights_get (n k : Nat) (hk : k < n / 30) :
    (frameWeights n : List α)[k]? =
      some (mulF32 (roundF32 ((k + 1 : Nat) : α)) (divF32 1 (roundF32 ((n / 30 : Nat) : α)))) := by
  unfold frameWeights
  rw [List.getElem?_map, List.getElem?_range hk, Option.map_some']

theorem frameWeights_mem (n : Nat) (w : α) (hw : w ∈ (frameWeights n : List α)) :
    ∃ k, k < n / 30 ∧
      w = mulF32 (roundF32 ((k + 1 : Nat) : α)) (divF32 1 (roundF32 ((n / 30 : Nat) : α))) := by
  unfold frameWeights at hw
  obtain ⟨k, hk, rfl⟩ := List.mem_map.mp hw
  exact ⟨k, List.mem_range.mp hk, rfl⟩

/-- Every weight is above 0 and at most 1. -/
theorem frameWeights_range (n : Nat) (hn : n < 2 ^ 32) (w : α)
    (hw : w ∈ (frameWeights n : List α)) : 0 < w ∧ w ≤ 1 := by
  obtain ⟨k, hk, rfl⟩ := frameWeights_mem n w hw
  have hc1 : 1 ≤ n / 30 := by omega
  have hc2 : n / 30 < 2 ^ 32 := by omega
  obtain ⟨b1, b2, _, b4⟩ := weightPerFrame_bounds (α := α) (n / 30) hc1 hc2
  have hF1 := one_le_roundF32_natCast (α := α) (k + 1) (by omega)
  have hF2 : roundF32 ((k + 1 : ℕ) : α) ≤ roundF32 ((n / 30 : ℕ) : α) := by
    apply roundF32_mono
    exact_mod_cast (show k + 1 ≤ n / 30 by omega)
  unfold mulF32
  constructor
  · have hle : divF32 1 (roundF32 ((n / 30 : ℕ) : α)) ≤
        roundF32 ((k + 1 : ℕ) : α) * divF32 1 (roundF32 ((n / 30 : ℕ) : α)) := by
      nlinarith
    have := roundF32_mono hle
    rw [show roundF32 (divF32 1 (roundF32 ((n / 30 : ℕ) : α))) =
      divF32 1 (roundF32 ((n / 30 : ℕ) : α)) from isF32_divF32 _ _] at this
    linarith
  · have hle : roundF32 ((k + 1 : ℕ) : α) * divF32 1 (roundF32 ((n / 30 : ℕ) : α)) ≤
        1 + 1 / 16777216 := by
      have := mul_le_mul_of_nonneg_right hF2 b2.le
      linarith
    have := roundF32_mono hle
    rwa [roundF32_one_add_half_ulp] at this

/-- The weights do not decrease. -/
theorem frameWeights_monotone (n : Nat) (hn : n < 2 ^ 32) :
    List.Pairwise (fun a b => a ≤ b) (frameWeights n : List α) := by
  unfold frameWeights
  rw [List.pairwise_map]
  refine List.Pairwise.imp_of_mem ?_ (List.pairwise_lt_range (n / 30))
  intro a b ha _ hab
  have hc1 : 1 ≤ n / 30 := by
    have := List.mem_range.mp ha
    omega
  obtain ⟨_, b2, _, _⟩ := weightPerFrame_bounds (α := α) (n / 30) hc1 (by omega)
  unfold mulF32
  apply roundF32_mono
  apply mul_le_mul_of_nonneg_right _ b2.le
  apply roundF32_mono
  exact_mod_cast (show a + 1 ≤ b + 1 by omega)

/-- Up to `2 ^ 22` sub-frames the weights increase strictly. -/
theorem frameWeights_increasing (n : Nat) (hn : n / 30 ≤ 2 ^ 22) :
    List.Pairwise (fun a b => a < b) (frameWeights n : List α) := by
  unfold frameWeights
  rw [List.pairwise_map]
  refine List.Pairwise.imp_of_mem ?_ (List.pairwise_lt_range (n / 30))
  intro a b ha hb hab
  have ha' := List.mem_range.mp ha
  have hb' := List.mem_range.mp hb
  have hc1 : 1 ≤ n / 30 := by omega
  obtain ⟨_, b2, b3, b4⟩ := weightPerFrame_bounds (α := α) (n / 30) hc1
    (lt_of_le_of_lt hn (by norm_num))
  have eC : roundF32 ((n / 30 : ℕ) : α) = ((n / 30 : ℕ) : α) :=
    roundF32_natCast _ (lt_of_le_of_lt hn (by norm_num))
  have eA : roundF32 ((a + 1 : ℕ) : α) = ((a + 1 : ℕ) : α) :=
    roundF32_natCast _ (by omega)
  have eB : roundF32 ((b + 1 : ℕ) : α) = ((b + 1 : ℕ) : α) :=
    roundF32_natCast _ (by omega)
  rw [eA, eB]
  rw [eC] at b2 b3 b4 ⊢
  set w := divF32 1 ((n / 30 : ℕ) : α) with hw
  have hcpos : (0 : α) < ((n / 30 : ℕ) : α) := by exact_mod_cast hc1
  have hcle : ((n / 30 : ℕ) : α) ≤ 4194304 := by exact_mod_cast hn
  have hwge : 1 / 4194304 * (1 - 1 / 16777216) ≤ w := by
    have h1 : (1 - 1 / 16777216) / ((n / 30 : ℕ) : α) ≤ w := by
      rw [div_le_iff₀ hcpos]
      linarith
    have h2 : (1 - 1 / 16777216) / (4194304 : α) ≤ (1 - 1 / 16777216) / ((n / 30 : ℕ) : α) := by
      apply div_le_div_of_nonneg_left (by norm_num) hcpos hcle
    have e : (1 : α) / 4194304 * (1 - 1 / 16777216) = (1 - 1 / 16777216) / 4194304 := by ring
    rw [e]
    linarith
  have hA1 : (1 : α) ≤ ((a + 1 : ℕ) : α) := by exact_mod_cast (show 1 ≤ a + 1 by omega)
  have hAB : ((a + 1 : ℕ) : α) + 1 ≤ ((b + 1 : ℕ) : α) := by
    exact_mod_cast (show a + 1 + 1 ≤ b + 1 by omega)
  have hBC : ((b + 1 : ℕ) : α) ≤ ((n / 30 : ℕ) : α) := by
    exact_mod_cast (show b + 1 ≤ n / 30 by omega)
  have hPb : ((b + 1 : ℕ) : α) * w ≤ 1 + 1 / 16777216 := by
    have := mul_le_mul_of_nonneg_right hBC b2.le
    linarith
  have hPa0 : 0 < ((a + 1 : ℕ) : α) * w := by positivity
  have hPab : ((a + 1 : ℕ) : α) * w + w ≤ ((b + 1 : ℕ) : α) * w := by
    have := mul_le_mul_of_nonneg_right hAB b2.le
    linarith
  have errA := abs_roundF32_sub_le_of_lt_two (((a + 1 : ℕ) : α) * w)
    (by rw [abs_of_pos hPa0]; linarith)
  have errB := abs_roundF32_sub_le_of_lt_two (((b + 1 : ℕ) : α) * w)
    (by rw [abs_of_pos (by linarith)]; linarith)
  rw [abs_le] at errA errB
  unfold mulF32
  norm_num at hwge
  linarith [errA.2, errB.1]

/-- The last weight is 1 or the `float` before 1. -/
theorem frameWeights_last (n : Nat) (h1 : 30 ≤ n) (h2 : n < 2 ^ 32) :
    ∃ w : α, (frameWeights n : List α).getLast? = some w ∧
      (w = 1 ∨ w = 1 - 1 / 16777216) := by
  obtain ⟨c, hc⟩ : ∃ c, n / 30 = c + 1 := ⟨n / 30 - 1, by omega⟩
  refine ⟨mulF32 (roundF32 ((n / 30 : ℕ) : α)) (divF32 1 (roundF32 ((n / 30 : ℕ) : α))), ?_, ?_⟩
  · unfold frameWeights
    rw [List.getLast?_map]
    conv_lhs => rw [hc, List.range_succ, List.getLast?_concat, Option.map_some']
    rw [hc]
  · obtain ⟨_, _, b3, b4⟩ := weightPerFrame_bounds (α := α) (n / 30) (by omega) (by omega)
    have hup := roundF32_mono b4
    rw [roundF32_one_add_half_ulp] at hup
    have hlo := roundF32_mono b3
    have elo : roundF32 ((1 : α) - 1 / 16777216) = 1 - 1 / 16777216 := by
      have := isF32_int_mul_pow2 (α := α) 16777215 (-24) (by norm_num) (by norm_num)
      have e : ((16777215 : ℤ) : α) * pow2 (-24) = 1 - 1 / 16777216 := by
        rw [pow2_eq_zpow]; norm_num
      rw [e] at this
      exact this
    rw [elo] at hlo
    unfold mulF32
    set r := roundF32 (roundF32 ((n / 30 : ℕ) : α) * divF32 1 (roundF32 ((n / 30 : ℕ) : α)))
      with hr
    rcases eq_or_lt_of_le hup with h | h
    · exact Or.inl h
    · right
      have hf : IsF32 r := isF32_roundF32 _
      have e1 : (pow2 (-1) : α) = 1 / 2 := by rw [pow2_eq_zpow]; norm_num
      have e2 : (pow2 (-1 + 1) : α) = 1 := by rw [pow2_eq_zpow]; norm_num
      have e3 : (pow2 (-1 - 23) : α) = 1 / 16777216 := by rw [pow2_eq_zpow]; norm_num
      have hrpos : 0 < r := by linarith
      obtain ⟨m, hm⟩ := isF32_grid hf (-1)
        (by rw [e1, abs_of_pos hrpos]; linarith) (by rw [e2, abs_of_pos hrpos]; exact h)
        (by norm_num)
      rw [e3] at hm
      have hm1 : (m : α) < 16777216 := by rw [hm] at h; linarith
      have hm2 : (16777215 : α) ≤ (m : α) := by rw [hm] at hlo; linarith
      have hm3 : m < 16777216 := by exact_mod_cast hm1
      have hm4 : 16777215 ≤ m := by exact_mod_cast hm2
      have hm5 : m = 16777215 := by omega
      rw [hm, hm5]
      push_cast
      norm_num

/-- With a number of sub-frames that is a power of two up to `2 ^ 22`, the weight of
sub-frame `f` is exactly `f / count`. -/
theorem frameWeights_pow2 (n j k : Nat) (hc : n / 30 = 2 ^ j) (hj : j ≤ 22) (hk : k < n / 30) :
    (frameWeights n : List α)[k]? = some (((k + 1 : Nat) : α) / ((n / 30 : Nat) : α)) := by
  rw [frameWeights_get n k hk]
  have hcb : n / 30 ≤ 2 ^ 22 := by rw [hc]; exact Nat.pow_le_pow_right (by norm_num) hj
  have eC : roundF32 ((n / 30 : ℕ) : α) = ((n / 30 : ℕ) : α) :=
    roundF32_natCast _ (lt_of_le_of_lt hcb (by norm_num))
  have eK : roundF32 ((k + 1 : ℕ) : α) = ((k + 1 : ℕ) : α) :=
    roundF32_natCast _ (by omega)
  have einv : (1 : α) / ((n / 30 : ℕ) : α) = pow2 (-(j : ℤ)) := by
    rw [hc, pow2_eq_zpow, zpow_neg, zpow_natCast]
    push_cast
    rw [one_div]
  have ew : divF32 1 ((n / 30 : ℕ) : α) = pow2 (-(j : ℤ)) := by
    unfold divF32
    rw [einv]
    have := isF32_int_mul_pow2 (α := α) 1 (-(j : ℤ)) (by norm_num) (by omega)
    rw [Int.cast_one, one_mul] at this
    exact this
  rw [eC, eK, ew]
  unfold mulF32
  have := isF32_int_mul_pow2 (α := α) ((k + 1 : ℕ) : ℤ) (-(j : ℤ))
    (by rw [abs_of_nonneg (by positivity)]; exact_mod_cast (show k + 1 < 2 ^ 24 by omega))
    (by omega)
  rw [Int.cast_natCast] at this
  rw [this, ← einv]
  congr 1
  ring

theorem frameWeights_none (n : Nat) (hn : n < 30) : (frameWeights n : List α) = [] := by
  have h0 : n / 30 = 0 := by omega
  unfold frameWeights
  rw [h0]
  rfl

end WeightProofs

section WeightClaim
variable {α : Type} [LinearOrderedField α] [FloorRing α]

/-- Claim C16, amended.  The target rate is an `unsigned int`.
`gfx_rt64_rapi_end_frame` calls `gfx_rt64_rapi_draw_frame` once for each weight of
`frameWeights targetFPS`, in the order of the list, between the processing loop and the
picking block.  The list has `count = targetFPS / 30` weights (none when
`targetFPS < 30`); the weight at position `k`, that is of sub-frame `f = k + 1`, is the
`float` product of `f` and the `float` quotient `1.0f / count`; every weight is above 0
and at most 1; the weights do not decrease, and they increase strictly when `count` is
at most `2 ^ 22`; when `targetFPS >= 30` the last weight is 1 or `1 - 2 ^ (-24)`, the
`float` before 1; and when `count` is a power of two up to `2 ^ 22` the weight of
sub-frame `f` is exactly `f / count`. -/
theorem sub_frame_schedule (ext : Extern α) (g : Game α) (s : RT64State α)
    (hfps : s.targetFPS < 2 ^ 32) :
    (∀ s', gfx_rt64_rapi_end_frame ext g s = some s' →
      ∃ s1, end_frame_lights ext g s = some s1 ∧
        s' = end_frame_cleanup (end_frame_pick g
          ((frameWeights s.targetFPS).foldl (fun s t => gfx_rt64_rapi_draw_frame g s t)
            (end_frame_process ext s1)))) ∧
    (frameWeights s.targetFPS : List α).length = s.targetFPS / 30 ∧
    (∀ k, k < s.targetFPS / 30 →
      (frameWeights s.targetFPS : List α)[k]? =
        some (mulF32 (roundF32 ((k + 1 : Nat) : α))
          (divF32 1 (roundF32 ((s.targetFPS / 30 : Nat) : α))))) ∧
    (∀ w ∈ (frameWeights s.targetFPS : List α), 0 < w ∧ w ≤ 1) ∧
    List.Pairwise (fun a b => a ≤ b) (frameWeights s.targetFPS : List α) ∧
    (s.targetFPS / 30 ≤ 2 ^ 22 →
      List.Pairwise (fun a b => a < b) (frameWeights s.targetFPS : List α)) ∧
    (30 ≤ s.targetFPS →
      ∃ w : α, (frameWeights s.targetFPS : List α).getLast? = some w ∧
        (w = 1 ∨ w = 1 - 1 / 16777216)) ∧
    (∀ j k, s.targetFPS / 30 = 2 ^ j → j ≤ 22 → k < s.targetFPS / 30 →
      (frameWeights s.targetFPS : List α)[k]? =
        some (((k + 1 : Nat) : α) / ((s.targetFPS / 30 : Nat) : α))) ∧
    (s.targetFPS < 30 → (frameWeights s.targetFPS : List α) = []) := by
  refine ⟨?_, frameWeights_length _, fun k hk => frameWeights_get _ k hk,
    fun w hw => frameWeights_range _ hfps w hw, frameWeights_monotone _ hfps,
    fun hc => frameWeights_increasing _ hc, fun hn => frameWeights_last _ hn hfps,
    fun j k hc hj hk => frameWeights_pow2 _ j k hc hj hk, fun hn => frameWeights_none _ hn⟩
  intro s' h
  unfold gfx_rt64_rapi_end_frame at h
  split at h
  · cases h
  · rename_i s1 h1
    cases h
    obtain ⟨_, e2, _⟩ := end_frame_lights_frame ext g s s1 h1
    refine ⟨s1, h1, ?_⟩
    rw [end_frame_draw_frames_eq]
    have : (end_frame_process ext s1).targetFPS = s.targetFPS := e2
    rw [this]

end WeightClaim

/-- With a target of 60 frames per second there are two sub-frames, with the weights
1/2 and 1. -/
theorem sub_frame_schedule_witness :
    (frameWeights ({ emptyState with targetFPS := 60 } : RT64State ℚ).targetFPS : List ℚ)
        = [1 / 2, 1] ∧
      List.Pairwise (fun a b => a < b)
        (frameWeights ({ emptyState with targetFPS := 60 } : RT64State ℚ).targetFPS :
          List ℚ) :=
  ⟨by decide!,
    (sub_frame_schedule ratExtern plainGame
      ({ emptyState with targetFPS := 60 } : RT64State ℚ) (by decide)).2.2.2.2.2.1
      (by decide)⟩

/-- Against claim C16 as it is worded.  With a target of 1230 frames per second there
are 41 sub-frames; the `float` quotient `1.0f / 41` is not 1/41, so the first weight is
not 1/41, and the last weight, the `float` product of 41 and that quotient, is
`1 - 2 ^ (-24)`, not 1.  With a target of `30 * 2 ^ 25` frames per second the weights
of the sub-frames `2 ^ 24` and `2 ^ 24 + 1` are equal, the number `2 ^ 24 + 1` not
being a `float`. -/
theorem last_weight_below_one :
    (frameWeights 1230 : List ℚ).length = 41 ∧
    (frameWeights 1230 : List ℚ).getLast? = some (1 - 1 / 16777216) ∧
    (frameWeights 1230 : List ℚ)[0]? = some (3273603 / 134217728) ∧
    (3273603 / 134217728 : ℚ) ≠ 1 / 41 ∧
    (frameWeights (30 * 2 ^ 25) : List ℚ)[2 ^ 24 - 1]? =
      (frameWeights (30 * 2 ^ 25) : List ℚ)[2 ^ 24]? := by
  refine ⟨by decide!, by decide!, by decide!, by norm_num, ?_⟩
  rw [frameWeights_get _ _ (by norm_num), frameWeights_get _ _ (by norm_num)]
  decide!

/-! ## The selection of a texture -/

section SelectProofs
variable {α : Type}

/-- The three ways in which `gfx_rt64_rapi_select_texture` ends: for a tile of 2 or
more the assertion fails; for tile 0 or 1 the tile and the identifier of its slot are
set and nothing else; for a negative tile the assertion passes and the array is
written outside its two elements. -/
theorem select_texture_cases (s : RT64State α) (tile : Int) (texture_id : Nat) :
    (2 ≤ tile → gfx_rt64_rapi_select_texture s tile texture_id =
      Except.error SelectFault.assertion) ∧
    (tile = 0 → gfx_rt64_rapi_select_texture s tile texture_id =
      Except.ok { s with currentTile := 0,
                         currentTextureIds := (texture_id, s.currentTextureIds.2) }) ∧
    (tile = 1 → gfx_rt64_rapi_select_texture s tile texture_id =
      Except.ok { s with currentTile := 1,
                         currentTextureIds := (s.currentTextureIds.1, texture_id) }) ∧
    (tile < 0 → gfx_rt64_rapi_select_texture s tile texture_id =
      Except.error SelectFault.outOfBounds) := by
  unfold gfx_rt64_rapi_select_texture
  refine ⟨?_, ?_, ?_, ?_⟩
  · intro h
    have : ¬ tile < 2 := by omega
    rw [if_pos this]
  · intro h
    subst h
    rfl
  · intro h
    subst h
    rfl
  · intro h
    have h2 : ¬ ¬ tile < 2 := by omega
    have h0 : tile ≠ 0 := by omega
    have h1 : tile ≠ 1 := by omega
    rw [if_neg h2]
    simp only [if_neg h0, if_neg h1]

/-- A draw submission with no shader program bound does not return. -/
theorem draw_without_shader [LinearOrderedField α] [FloorRing α] (ext : Extern α)
    (s : RT64State α)
    (transform : RT64_MATRIX4 α) (buf : List α) (tris : Nat) (ds rt : Bool) (uid : Nat)
    (h : s.shaderProgram = none) :
    gfx_rt64_rapi_draw_triangles_common ext s transform buf tris ds rt uid = none ∧
    ∀ (lib : Backend α) (dl : RecordedDisplayList α) (pv interp : Bool),
      gfx_rt64_rapi_process_mesh ext (currentShaderProgram s) lib buf tris rt dl pv interp
        = none := by
  have hc : currentShaderProgram s = none := by
    unfold currentShaderProgram
    rw [h]
  constructor
  · unfold gfx_rt64_rapi_draw_triangles_common
    have : currentShaderProgram (drawBegin s transform uid).state = none := hc
    simp only [this]
  · intro lib dl pv interp
    rw [hc]
    rfl

end SelectProofs

/-- C17 (code bug): the tile -1 is outside the range {0, 1}, but the assertion
`tile < 2` of `gfx_rt64_rapi_select_texture` passes for it, and the function goes on to
write `RT64.currentTextureIds[-1]`. -/
theorem select_texture_negative_tile :
    gfx_rt64_rapi_select_texture (emptyState : RT64State ℚ) (-1) 7 =
        Except.error SelectFault.outOfBounds ∧
      SelectFault.outOfBounds ≠ SelectFault.assertion :=
  ⟨rfl, by decide⟩

/-! ## The two maps of texture names -/

section NameProofs
variable {α : Type}

theorem string_hash_eq_poly (bytes : List Nat) :
    string_hash bytes = polyDigest bytes % SIZE_MOD := by
  unfold string_hash polyDigest
  have key : ∀ (l : List Nat) (a b : Nat), a % SIZE_MOD = b % SIZE_MOD →
      (l.foldl (fun h p => (31 * h + p) % SIZE_MOD) a) % SIZE_MOD =
        (l.foldl (fun h b => 31 * h + b) b) % SIZE_MOD := by
    intro l
    induction l with
    | nil => intro a b h; exact h
    | cons x t ih =>
      intro a b h
      rw [List.foldl_cons, List.foldl_cons]
      apply ih
      rw [Nat.mod_mod]
      rw [Nat.add_mod, Nat.mul_mod, h, ← Nat.mul_mod, ← Nat.add_mod]
  have hlt : ∀ (l : List Nat) (a : Nat), a < SIZE_MOD →
      l.foldl (fun h p => (31 * h + p) % SIZE_MOD) a < SIZE_MOD := by
    intro l
    induction l with
    | nil => intro a h; exact h
    | cons x t ih =>
      intro a _
      rw [List.foldl_cons]
      exact ih _ (Nat.mod_lt _ (by decide))
  rw [← key bytes 0 0 rfl, Nat.mod_eq_of_lt (hlt bytes 0 (by decide))]

theorem get_hash_fst (s : RT64State α) (name : String) :
    (gfx_rt64_get_texture_name_hash s name).1 = nameHash name :=
  rfl

theorem get_hash_maps (s : RT64State α) (name : String) :
    (gfx_rt64_get_texture_name_hash s name).2.nameTexMap =
        mapInsert s.nameTexMap name (nameHash name) ∧
      (gfx_rt64_get_texture_name_hash s name).2.texNameMap =
        mapInsert s.texNameMap (nameHash name) name :=
  ⟨rfl, rfl⟩

theorem registerNames_cons (s : RT64State α) (name : String) (rest : List String) :
    registerNames s (name :: rest) =
      registerNames (gfx_rt64_get_texture_name_hash s name).2 rest :=
  rfl

theorem registerNames_name_other (n : String) (names : List String) :
    ∀ s : RT64State α, n ∉ names →
      mapFind (registerNames s names).nameTexMap n = mapFind s.nameTexMap n := by
  induction names with
  | nil => intro s _; rfl
  | cons m rest ih =>
    intro s hn
    rw [registerNames_cons, ih _ (fun h => hn (List.mem_cons_of_mem _ h)),
      (get_hash_maps s m).1]
    exact mapFind_mapInsert_ne _ _ _ _ (fun h => hn (by rw [h]; exact List.mem_cons_self _ _))

theorem registerNames_hash_other (h : Nat) (names : List String) :
    ∀ s : RT64State α, (∀ m ∈ names, nameHash m ≠ h) →
      mapFind (registerNames s names).texNameMap h = mapFind s.texNameMap h := by
  induction names with
  | nil => intro s _; rfl
  | cons m rest ih =>
    intro s hn
    rw [registerNames_cons, ih _ (fun r hr => hn r (List.mem_cons_of_mem _ hr)),
      (get_hash_maps s m).2]
    exact mapFind_mapInsert_ne _ _ _ _ (hn m (List.mem_cons_self _ _))

theorem registerNames_name (n : String) (names : List String) :
    ∀ s : RT64State α, n ∈ names →
      mapFind (registerNames s names).nameTexMap n = some (nameHash n) := by
  induction names with
  | nil => intro s hn; cases hn
  | cons m rest ih =>
    intro s hn
    rw [registerNames_cons]
    by_cases hr : n ∈ rest
    · exact ih _ hr
    · have hm : n = m := by
        rcases List.mem_cons.mp hn with h | h
        · exact h
        · exact absurd h hr
      subst hm
      rw [registerNames_name_other n rest _ hr, (get_hash_maps s n).1]
      exact mapFind_mapInsert_self _ _ _

theorem registerNames_hash (n : String) (names : List String) :
    ∀ s : RT64State α, n ∈ names → (∀ m ∈ names, nameHash m = nameHash n → m = n) →
      mapFind (registerNames s names).texNameMap (nameHash n) = some n := by
  induction names with
  | nil => intro s hn; cases hn
  | cons m rest ih =>
    intro s hn hinj
    rw [registerNames_cons]
    by_cases hr : n ∈ rest
    · exact ih _ hr (fun r hrr => hinj r (List.mem_cons_of_mem _ hrr))
    · have hm : n = m := by
        rcases List.mem_cons.mp hn with h | h
        · exact h
        · exact absurd h hr
      subst hm
      rw [registerNames_hash_other (nameHash n) rest _
        (fun r hrr heq => hr (by rw [← hinj r (List.mem_cons_of_mem _ hrr) heq]; exact hrr)),
        (get_hash_maps s n).2]
      exact mapFind_mapInsert_self _ _ _

end NameProofs

section NameClaim
variable {α : Type}

/-- Claim C18, amended.  The hash that `gfx_rt64_get_texture_name_hash` returns for a
name is the digest `h = 31 * h + byte` over the bytes of the name before its first zero
byte, reduced modulo `2 ^ 64`; these are all bytes of the name if none is zero, and the
hash of the empty name is 0.  After the registration of the names of a list, in order,
`nameTexMap` holds for every name `n` of the list the hash returned for `n`, and
`texNameMap` holds `n` for this hash if no other name of the list has the same hash. -/
theorem name_hash_mapping (s : RT64State α) (names : List String) (n : String)
    (hn : n ∈ names) :
    (gfx_rt64_get_texture_name_hash s n).1 = polyDigest (cStringBytes n) % SIZE_MOD ∧
    ((∀ b ∈ n.toUTF8.data.toList, b.toNat ≠ 0) →
      cStringBytes n = n.toUTF8.data.toList.map fun b => b.toNat) ∧
    (gfx_rt64_get_texture_name_hash s "").1 = 0 ∧
    mapFind (registerNames s names).nameTexMap n =
      some (gfx_rt64_get_texture_name_hash s n).1 ∧
    ((∀ m ∈ names, (gfx_rt64_get_texture_name_hash s m).1 =
        (gfx_rt64_get_texture_name_hash s n).1 → m = n) →
      mapFind (registerNames s names).texNameMap (gfx_rt64_get_texture_name_hash s n).1 =
        some n) := by
  refine ⟨string_hash_eq_poly _, ?_, rfl, registerNames_name n names s hn,
    fun hinj => registerNames_hash n names s hn hinj⟩
  intro hb
  unfold cStringBytes
  rw [List.takeWhile_eq_self_iff]
  intro b hmem
  obtain ⟨c, hc, rfl⟩ := List.mem_map.mp hmem
  simpa using hb c hc

end NameClaim

/-- C18 (counterexample): the names "Aa" and "BB" have the same hash 2112.  After the
registration of "Aa" and then "BB", `nameTexMap["Aa"]` is 2112 and `texNameMap[2112]` is
"BB", not "Aa". -/
theorem colliding_names_break_inverse :
    mapFind (registerNames (emptyState : RT64State ℚ) ["Aa", "BB"]).nameTexMap "Aa" = some 2112 ∧
    mapFind (registerNames (emptyState : RT64State ℚ) ["Aa", "BB"]).texNameMap 2112 = some "BB" ∧
    (gfx_rt64_get_texture_name_hash (emptyState : RT64State ℚ) "Aa").1 = 2112 := by
  refine ⟨by decide, by decide, by decide⟩

/-- The names "lava" and "water" have different hashes: after their registration the
two maps are inverse to each other at "lava". -/
theorem name_hash_mapping_witness :
    mapFind (registerNames (emptyState : RT64State ℚ) ["lava", "water"]).nameTexMap "lava" =
        some 3314400 ∧
      mapFind (registerNames (emptyState : RT64State ℚ) ["lava", "water"]).texNameMap 3314400 =
        some "lava" := by
  obtain ⟨_, _, _, h4, h5⟩ :=
    name_hash_mapping (emptyState : RT64State ℚ) ["lava", "water"] "lava" (by decide)
  exact ⟨h4, h5 (by decide)⟩

/-! ## Normal and specular maps -/

section LookupProofs
variable {α : Type}

/-- The lookup of a normal or specular map sees a hash only through its low 32 bits. -/
theorem lookupMapTexture_truncates (s : RT64State α) (H H' : Nat) (current : Option Handle)
    (h : H ≠ 0) (h' : H' ≠ 0) (hmod : H % UINT_MOD = H' % UINT_MOD) :
    lookupMapTexture s H current = lookupMapTexture s H' current := by
  unfold lookupMapTexture
  rw [if_pos h, if_pos h', hmod]

end LookupProofs

/-- C19 (code bug): in `texturedState` the only texture was registered by
`gfx_rt64_rapi_new_texture("lava")`, under the name hash 3314400, and has the handle 1.
The name "uxmobeh" has the hash 107377496800, which is 3314400 + 25 * 2^32; no texture
is registered under it.  `gfx_rt64_rapi_apply_mod` with a mod whose normal map hash is
the hash of "uxmobeh" sets the normal reference, which was null, to the handle 1. -/
theorem truncated_hash_finds_other_texture :
    (gfx_rt64_rapi_apply_mod ratExtern texturedState (RT64_MATERIAL.zero : RT64_MATERIAL ℚ)
        none none true { normalMapHash := nameHash "uxmobeh" } identityMatrix identityMatrix
        false).map (fun r => r.normal) = some (some 1) ∧
    nameHash "uxmobeh" = 107377496800 ∧
    texturedState.textures.map (fun e => (e.2.hash, e.2.texture)) = [(3314400, some 1)] ∧
    (107377496800 : Nat) = 3314400 + 25 * 2 ^ 32 := by
  refine ⟨by decide, by decide, by decide, by decide⟩

/-! ## Draws without interpolation -/

section SameProofs
variable {α : Type} [LinearOrderedField α]

theorem lerp_float_same (a t : α) : gfx_rt64_lerp_float a a t = a := by
  unfold gfx_rt64_lerp_float
  ring

end SameProofs

section SameProofs
variable {α : Type} [LinearOrderedField α]

theorem lerp_matrix_same (a : RT64_MATRIX4 α) (t : α) : gfx_rt64_lerp_matrix a a t = a := by
  funext i j
  exact lerp_float_same (a i j) t

end SameProofs

section SameProofs
variable {α : Type} [LinearOrderedField α] [FloorRing α]

theorem lerp_int_same (a : Int) (t : α) : gfx_rt64_lerp_int a a t = a := by
  unfold gfx_rt64_lerp_int lround
  have h0 : t * (((a - a : Int)) : α) = 0 := by
    rw [sub_self, Int.cast_zero, mul_zero]
  rw [h0, if_pos (le_refl 0), zero_add]
  have : ⌊(1 / 2 : α)⌋ = 0 := by
    rw [Int.floor_eq_zero_iff]
    constructor <;> norm_num
  rw [this, add_zero]

theorem lerp_rect_same (a : RT64_RECT) (t : α) : gfx_rt64_lerp_rect a a t = a := by
  unfold gfx_rt64_lerp_rect
  rw [lerp_int_same, lerp_int_same, lerp_int_same, lerp_int_same]

/-- The mod block leaves the new rectangles of the instance as they are. -/
theorem drawApplyMods_new_rects (ext : Extern α) (l l' : DrawLocals α)
    (transform : RT64_MATRIX4 α) (h : drawApplyMods ext l transform = some l') :
    l'.displayListInstance.newScissorRect = l.displayListInstance.newScissorRect ∧
    l'.displayListInstance.newViewportRect = l.displayListInstance.newViewportRect := by
  unfold drawApplyMods at h
  simp only at h
  split at h
  · cases h
  · rename_i l1 h1
    split at h
    · cases h
    · rename_i l2 h2
      have e1 : l1.displayListInstance = l.displayListInstance := by
        split at h1
        · obtain ⟨_, e, _, _⟩ := drawApplyMod_keeps ext _ _ _ _ _ _ h1
          exact e
        · cases h1; rfl
      have e2 : l2.displayListInstance = l1.displayListInstance := by
        split at h2
        · obtain ⟨_, e, _, _⟩ := drawApplyMod_keeps ext _ _ _ _ _ _ h2
          exact e
        · cases h2; rfl
      have e12 : l2.displayListInstance = l.displayListInstance := e2.trans e1
      split at h
      · cases h
        exact ⟨congrArg (fun i => i.newScissorRect) e12,
          congrArg (fun i => i.newViewportRect) e12⟩
      · cases h
        exact ⟨congrArg (fun i => i.newScissorRect) e12,
          congrArg (fun i => i.newViewportRect) e12⟩

end SameProofs

section SameProofs
variable {α : Type} [LinearOrderedField α]

/-- The instance that the first block takes at the current index has no valid previous
state when the display list has no instance with valid previous state there. -/
theorem drawDisplayList_prevValid (s : RT64State α) (uid : Nat)
    (h : ∀ i, (mapGetOrCreate s.displayLists uid RecordedDisplayList.zero).instances[
      positionOf s uid]? = some i → i.prevValid = false) :
    ((drawDisplayList s uid).instances.getD (drawDisplayList s uid).newCount
      RecordedInstance.zero).prevValid = false := by
  obtain ⟨f1, _, f3, f4⟩ := drawDisplayList_facts s uid
  rw [f1]
  by_cases hlt : positionOf s uid <
      (mapGetOrCreate s.displayLists uid RecordedDisplayList.zero).instances.length
  · have h1 := f4 _ hlt
    rw [List.getD_eq_getElem?_getD]
    show ((drawDisplayList s uid).instances[positionOf s uid]?.getD _).prevValid = false
    rw [h1, List.getElem?_eq_getElem hlt]
    exact h _ (List.getElem?_eq_getElem hlt)
  · unfold drawDisplayList
    have hc : (mapGetOrCreate s.displayLists uid RecordedDisplayList.zero).instances.length <
        (mapGetOrCreate s.displayLists uid RecordedDisplayList.zero).newCount + 1 := by
      unfold positionOf at hlt
      omega
    simp only [if_pos hc]
    rw [List.getD_eq_getElem?_getD]
    unfold resizeTo
    unfold positionOf at hlt
    rw [List.getElem?_append_right (by omega)]
    cases hr : (List.replicate
        ((mapGetOrCreate s.displayLists uid RecordedDisplayList.zero).newCount + 1 -
          (mapGetOrCreate s.displayLists uid RecordedDisplayList.zero).instances.length)
        (RecordedInstance.zero : RecordedInstance α))[
        (mapGetOrCreate s.displayLists uid RecordedDisplayList.zero).newCount -
          (mapGetOrCreate s.displayLists uid RecordedDisplayList.zero).instances.length]? with
    | none => rfl
    | some v =>
      have := List.getElem?_mem hr
      rw [List.mem_replicate] at this
      rw [this.2]
      rfl

end SameProofs

section PinnedProofs
variable {α : Type} [LinearOrderedField α] [FloorRing α]

theorem build_graph_node_mod_entry (ext : Extern α) (s : RT64State α) (graphNode : Nat)
    (modelview_matrix : RT64_MATRIX4 α) (uid : Nat) (r : Option (RecordedMod α) × RT64State α)
    (dl : RecordedDisplayList α)
    (h : gfx_rt64_rapi_build_graph_node_mod ext s graphNode modelview_matrix uid = some r)
    (hdl : mapFind s.displayLists uid = some dl) :
    ∃ dl', mapFind r.2.displayLists uid = some dl' ∧ dl'.instances = dl.instances ∧
      dl'.newCount = dl.newCount := by
  unfold gfx_rt64_rapi_build_graph_node_mod at h
  split at h
  · split at h
    · simp only at h
      split at h
      · rename_i s' hs'
        cases h
        obtain ⟨hd, _⟩ := add_light_frame ext _ s' _ _ _ hs'
        rw [hd]
        split
        · refine ⟨_, mapFind_mapInsert_self _ _ _, ?_, ?_⟩
          · show (mapGetOrCreate s.displayLists uid RecordedDisplayList.zero).instances = _
            rw [mapGetOrCreate_of_find _ _ _ _ hdl]
          · show (mapGetOrCreate s.displayLists uid RecordedDisplayList.zero).newCount = _
            rw [mapGetOrCreate_of_find _ _ _ _ hdl]
        · exact ⟨dl, hdl, rfl, rfl⟩
      · cases h
    · cases h
      exact ⟨dl, hdl, rfl, rfl⟩
  · cases h
    exact ⟨dl, hdl, rfl, rfl⟩

/-- An operation of the tick keeps the instances below the counter of a display
list. -/
theorem runOp_keeps_instance (ext : Extern α) (s s' : RT64State α) (op : TickOp α)
    (uid k : Nat) (dl : RecordedDisplayList α) (i : RecordedInstance α)
    (h : runOp ext s op = some s') (hdl : mapFind s.displayLists uid = some dl)
    (hk : k < dl.newCount) (hi : dl.instances[k]? = some i) :
    ∃ dl', mapFind s'.displayLists uid = some dl' ∧ k < dl'.newCount ∧
      dl'.instances[k]? = some i := by
  by_cases hu : op.isUnder uid = false
  · obtain ⟨e, _⟩ := runOp_other ext s s' op uid h hu
    exact ⟨dl, e.trans hdl, hk, hi⟩
  · cases op with
    | draw d =>
      have hd : d.uid = uid := by
        simpa [TickOp.isUnder] using hu
      subst hd
      obtain ⟨dl', _, _, _, _, _, _, _, _, a1, a2, _, _, a5, _⟩ := submit_own ext s s' d h
      have hpos : positionOf s d.uid = dl.newCount := by
        unfold positionOf
        rw [mapGetOrCreate_of_find _ _ _ _ hdl]
      have hget : mapGetOrCreate s.displayLists d.uid RecordedDisplayList.zero = dl :=
        mapGetOrCreate_of_find _ _ _ _ hdl
      refine ⟨dl', a1, by omega, ?_⟩
      rw [a5 k (by omega) (by rw [hget]; exact (List.getElem?_eq_some.mp hi).1), hget]
      exact hi
    | buildGraphNodeMod graphNode mv u =>
      have hd : u = uid := by
        simpa [TickOp.isUnder] using hu
      subst hd
      simp only [runOp, Option.map_eq_some'] at h
      obtain ⟨r, hr, rfl⟩ := h
      obtain ⟨dl', b1, b2, b3⟩ := build_graph_node_mod_entry ext s graphNode mv u r dl hr hdl
      exact ⟨dl', b1, by omega, by rw [b2]; exact hi⟩
    | setGraphNodeMod m => exact absurd rfl hu
    | registerLayoutGraphNode geoLayout graphNode => exact absurd rfl hu

theorem runOps_keeps_instance (ext : Extern α) (uid k : Nat) (i : RecordedInstance α)
    (ops : List (TickOp α)) :
    ∀ (s s' : RT64State α) (dl : RecordedDisplayList α), runOps ext s ops = some s' →
      mapFind s.displayLists uid = some dl → k < dl.newCount → dl.instances[k]? = some i →
      ∃ dl', mapFind s'.displayLists uid = some dl' ∧ k < dl'.newCount ∧
        dl'.instances[k]? = some i := by
  induction ops with
  | nil =>
    intro s s' dl h hdl hk hi
    cases h
    exact ⟨dl, hdl, hk, hi⟩
  | cons op rest ih =>
    intro s s' dl h hdl hk hi
    unfold runOps at h
    split at h
    · rename_i s1 h1
      obtain ⟨dl1, a1, a2, a3⟩ := runOp_keeps_instance ext s s1 op uid k dl i h1 hdl hk hi
      exact ih s1 s' dl1 h a1 a2 a3
    · cases h

theorem rotationGuard_pinned (ext : Extern α) (i : RecordedInstance α)
    (transform : RT64_MATRIX4 α) (sr vr : RT64_RECT) (h : i.Pinned transform sr vr) :
    (rotationGuard ext i).Pinned transform sr vr := by
  obtain ⟨p1, p2, p3, p4, p5, p6⟩ := h
  obtain ⟨_, _, g3, _, _, g6, g7, g8, g9⟩ := rotationGuard_fields ext i
  refine ⟨?_, g3.trans p2, g6.trans p3, g7.trans p4, g8.trans p5, g9.trans p6⟩
  unfold rotationGuard
  simp only
  split
  · exact p2
  · exact p1

/-- The processing loop of the commit keeps a pinned instance below the counter. -/
theorem end_frame_process_pinned (ext : Extern α) (s : RT64State α) (uid k : Nat)
    (dl : RecordedDisplayList α) (i : RecordedInstance α) (transform : RT64_MATRIX4 α)
    (sr vr : RT64_RECT) (hdl : mapFind s.displayLists uid = some dl) (hk : k < dl.newCount)
    (hi : dl.instances[k]? = some i) (hp : i.Pinned transform sr vr) :
    InstancePinned (end_frame_process ext s) uid k transform sr vr := by
  refine ⟨processDisplayList ext dl, rotationGuard ext i, ?_, ?_,
    rotationGuard_pinned ext i transform sr vr hp⟩
  · rw [(end_frame_process_eq ext s).1, mapFind_map_values, hdl]
    rfl
  · show (List.map _ (List.take _ _))[k]? = _
    rw [List.getElem?_map, List.getElem?_take_of_lt hk, hi]
    rfl

end PinnedProofs

section PinnedFrames
variable {α : Type} [LinearOrderedField α] [FloorRing α]

theorem frameInstance_pinned (t : α) (i : RecordedInstance α)
    (transform : RT64_MATRIX4 α) (sr vr : RT64_RECT) (h : i.Pinned transform sr vr) :
    (frameInstance t i).Pinned transform sr vr ∧
    (frameInstance t i).desc.transform = transform ∧
    (frameInstance t i).desc.scissorRect = sr ∧
    (frameInstance t i).desc.viewportRect = vr := by
  obtain ⟨p1, p2, p3, p4, p5, p6⟩ := h
  refine ⟨⟨p1, p2, p3, p4, p5, p6⟩, ?_, ?_, ?_⟩
  · show gfx_rt64_lerp_matrix i.prevTransform i.newTransform t = transform
    rw [p1, p2, lerp_matrix_same]
  · show gfx_rt64_lerp_rect i.prevScissorRect i.newScissorRect t = sr
    rw [p3, p4, lerp_rect_same]
  · show gfx_rt64_lerp_rect i.prevViewportRect i.newViewportRect t = vr
    rw [p5, p6, lerp_rect_same]

/-- A sub-frame keeps a pinned instance pinned and gives its description the pinned
transform and rectangles. -/
theorem draw_frame_pinned (g : Game α) (s : RT64State α) (t : α) (uid k : Nat)
    (transform : RT64_MATRIX4 α) (sr vr : RT64_RECT)
    (h : InstancePinned s uid k transform sr vr) :
    InstancePinned (gfx_rt64_rapi_draw_frame g s t) uid k transform sr vr ∧
    InstanceRendered (gfx_rt64_rapi_draw_frame g s t) uid k transform sr vr := by
  obtain ⟨dl, i, hdl, hi, hp⟩ := h
  obtain ⟨q1, q2, q3, q4⟩ := frameInstance_pinned t i transform sr vr hp
  have hfind : mapFind (gfx_rt64_rapi_draw_frame g s t).displayLists uid =
      some (frameDisplayList t dl) := by
    rw [draw_frame_displayLists, mapFind_map_values, hdl]
    rfl
  have hinst : (frameDisplayList t dl).instances[k]? = some (frameInstance t i) := by
    show (List.map _ _)[k]? = _
    rw [List.getElem?_map, hi]
    rfl
  exact ⟨⟨_, _, hfind, hinst, q1⟩, ⟨_, _, hfind, hinst, q2, q3, q4⟩⟩

theorem draw_frames_pinned (g : Game α) (uid k : Nat) (transform : RT64_MATRIX4 α)
    (sr vr : RT64_RECT) (ws : List α) :
    ∀ s : RT64State α, InstancePinned s uid k transform sr vr →
      InstancePinned (ws.foldl (fun s w => gfx_rt64_rapi_draw_frame g s w) s) uid k transform
        sr vr := by
  induction ws with
  | nil => intro s h; exact h
  | cons w r ih =>
    intro s h
    exact ih _ (draw_frame_pinned g s w uid k transform sr vr h).1

end PinnedFrames

section BaselineClaim
variable {α : Type} [LinearOrderedField α] [FloorRing α]

/-- Claim C20.  A draw submission returns, with `sp` the bound shader program, and the
identifier is 0, or the display list has no instance with valid previous state at the
position of the draw, or the current graph node mod or the resolved texture mod has
interpolation disabled.  Then the instance that the draw leaves at its position has the
submitted transform as previous and as new transform and the current scissor and
viewport rectangles as previous and as new rectangles; the mesh slot at the position is
either the one that was there before the draw or a slot without a staged buffer; and for
every weight the description that a sub-frame computes for the instance, also after the
rotation guard of the commit, has the submitted transform and the current rectangles
(`gfx_rt64_rapi_draw_frame` hands this description to the library).  In the tick: after
any further operations of the tick, the light block and the processing loop of the
commit, every sub-frame, after any earlier sub-frames and at any weight, leaves the
instance at that position with the submitted transform and the current rectangles in
its description. -/
theorem no_interpolation_without_baseline (ext : Extern α) (s s' : RT64State α)
    (transform : RT64_MATRIX4 α) (buf : List α) (tris : Nat) (ds rt : Bool) (uid : Nat)
    (sp : ShaderProgram)
    (hsp : currentShaderProgram s = some sp)
    (h : gfx_rt64_rapi_draw_triangles_common ext s transform buf tris ds rt uid = some s')
    (hcond : uid = 0 ∨
      (∀ i, (mapGetOrCreate s.displayLists uid RecordedDisplayList.zero).instances[
        positionOf s uid]? = some i → i.prevValid = false) ∨
      allowsInterpolation s.graphNodeMod = false ∨
      allowsInterpolation (resolvedTextureMod s sp) = false) :
    ∃ (dl' : RecordedDisplayList α) (inst : RecordedInstance α),
      mapFind s'.displayLists uid = some dl' ∧
      dl'.instances[positionOf s uid]? = some inst ∧
      inst.prevTransform = transform ∧ inst.newTransform = transform ∧
      inst.prevScissorRect = s.scissorRect ∧ inst.newScissorRect = s.scissorRect ∧
      inst.prevViewportRect = s.viewportRect ∧ inst.newViewportRect = s.viewportRect ∧
      (dl'.meshes = (mapGetOrCreate s.displayLists uid RecordedDisplayList.zero).meshes ∨
        ∃ m, dl'.meshes[positionOf s uid]? = some m ∧ m.newVertexBufferValid = false) ∧
      (∀ t : α,
        (frameInstance t inst).desc.transform = transform ∧
        (frameInstance t inst).desc.scissorRect = s.scissorRect ∧
        (frameInstance t inst).desc.viewportRect = s.viewportRect ∧
        (frameInstance t (rotationGuard ext inst)).desc.transform = transform ∧
        (frameInstance t (rotationGuard ext inst)).desc.scissorRect = s.scissorRect ∧
        (frameInstance t (rotationGuard ext inst)).desc.viewportRect = s.viewportRect ∧
        ∀ acc : List (RecordedInstance α) × Backend α,
          (draw_frame_instance t acc inst).2 =
            acc.2.call (BackendCall.SetInstanceDescription inst.instance_
              (frameInstance t inst).desc)) ∧
      (∀ (ops : List (TickOp α)) (s2 sL : RT64State α) (g : Game α) (ws : List α) (t : α),
        runOps ext s' ops = some s2 → end_frame_lights ext g s2 = some sL →
        InstanceRendered
          (gfx_rt64_rapi_draw_frame g
            (ws.foldl (fun s w => gfx_rt64_rapi_draw_frame g s w) (end_frame_process ext sL)) t)
          uid (positionOf s uid) transform s.scissorRect s.viewportRect) := by
  obtain ⟨sp0, sp2, l1, mesh, dl', dl2, lib1, lib2, desc, hsp0, h1, hpm, _, _, hfind, _,
    hinst, hmeshes, _⟩ := draw_instance ext s s' transform buf tris ds rt uid h
  obtain ⟨dlo, _, _, _, _, _, _, _, _, ho1, ho2, _⟩ :=
    submit_own ext s s' ⟨transform, buf, tris, ds, rt, uid⟩ h
  have hcount : dl'.newCount = positionOf s uid + 1 := by
    have e : some dlo = some dl' := ho1.symm.trans hfind
    cases e
    exact ho2
  rw [hsp] at hsp0
  cases hsp0
  obtain ⟨_, b2, b3, b4, b5, b6, _, _, _, b10⟩ := drawBegin_facts s transform uid
  obtain ⟨t1, _, t3, t4, _, _⟩ := drawTexture_detail s transform uid sp
  have k1 := drawTexture_keeps (drawBegin s transform uid) sp
  obtain ⟨k2, hskip, _⟩ := drawApplyMods_keeps ext _ _ _ h1
  obtain ⟨_, _, _, m4⟩ := drawApplyMods_detail ext _ _ _ h1
  obtain ⟨r1, r2⟩ := drawApplyMods_new_rects ext _ _ _ h1
  rw [t1, t3, t4] at m4
  have hpv : l1.displayListInstance.prevValid =
      ((drawDisplayList s uid).instances.getD (drawDisplayList s uid).newCount
        RecordedInstance.zero).prevValid := (k2.prevValid.trans k1.prevValid).trans b6
  -- one of the two flags of the mod block is off
  have hoff : l1.displayListInstance.prevValid = false ∨ l1.interpolate = false := by
    rcases hcond with hu | hi | hg | ht
    · right
      rw [m4, hu]
      simp
    · left
      rw [hpv]
      exact drawDisplayList_prevValid s uid hi
    · right
      rw [m4, hg]
      simp
    · right
      rw [m4, ht]
      simp
  obtain ⟨p1, p2, p3⟩ := hskip hoff
  have hnewT : l1.displayListInstance.newTransform = transform :=
    (k2.newTransform.trans k1.newTransform).trans b10
  have hnewS : l1.displayListInstance.newScissorRect = s.scissorRect := by
    rw [r1, drawTexture_instance]
    rfl
  have hnewV : l1.displayListInstance.newViewportRect = s.viewportRect := by
    rw [r2, drawTexture_instance]
    rfl
  have hprevS : l1.displayListInstance.prevScissorRect = s.scissorRect :=
    p2.trans (k1.scissorRect.trans b3)
  have hprevV : l1.displayListInstance.prevViewportRect = s.viewportRect :=
    p3.trans (k1.viewportRect.trans b4)
  have hguard : (rotationGuard ext { l1.displayListInstance with desc := desc }).prevTransform
      = transform := by
    unfold rotationGuard
    simp only
    split
    · exact hnewT
    · exact p1
  obtain ⟨g1, g2, g3, _, _, g6, g7, g8, g9⟩ :=
    rotationGuard_fields ext { l1.displayListInstance with desc := desc }
  refine ⟨dl', _, hfind, hinst, p1, hnewT, hprevS, hnewS, hprevV, hnewV, ?_, ?_, ?_⟩
  · -- the mesh processing does not stage
    obtain ⟨f1, f2, _, _⟩ := drawDisplayList_facts s uid
    obtain ⟨_, hcase⟩ := process_mesh_cases ext sp2 _ _ _ _ _ _ _ _ _ _ hpm
    rcases hcase with ⟨old, _, _, _, hdl, _, _⟩ | ⟨old, hpv1, hi1, _⟩ | ⟨hc, _⟩
    · left
      rw [hmeshes, hdl]
      exact f2
    · rcases hoff with ho | ho
      · rw [ho] at hpv1; cases hpv1
      · rw [ho] at hi1; cases hi1
    · right
      obtain ⟨_, _, new, hslot, _, _, hv, _⟩ :=
        processMeshCreate_calls ext lib1 buf (ext.xxhash64 buf)
          (meshVertexCount ext sp2 buf.length) (meshVertexStride ext sp2) ((tris * 3) % UINT_MOD)
          (sp2.usedTextures0 || sp2.usedTextures1) rt
          { drawDisplayList s uid with newValid := true }
      rw [← hc] at hslot
      refine ⟨new, ?_, hv⟩
      rw [hmeshes]
      have : positionOf s uid = (drawDisplayList s uid).newCount := f1.symm
      rw [this]
      exact hslot
  · intro t
    refine ⟨?_, ?_, ?_, ?_, ?_, ?_, fun acc => rfl⟩
    · show gfx_rt64_lerp_matrix l1.displayListInstance.prevTransform
        l1.displayListInstance.newTransform t = transform
      rw [p1, hnewT, lerp_matrix_same]
    · show gfx_rt64_lerp_rect l1.displayListInstance.prevScissorRect
        l1.displayListInstance.newScissorRect t = s.scissorRect
      rw [hprevS, hnewS, lerp_rect_same]
    · show gfx_rt64_lerp_rect l1.displayListInstance.prevViewportRect
        l1.displayListInstance.newViewportRect t = s.viewportRect
      rw [hprevV, hnewV, lerp_rect_same]
    · show gfx_rt64_lerp_matrix
        (rotationGuard ext { l1.displayListInstance with desc := desc }).prevTransform
        (rotationGuard ext { l1.displayListInstance with desc := desc }).newTransform t
        = transform
      rw [hguard, g3]
      show gfx_rt64_lerp_matrix transform l1.displayListInstance.newTransform t = transform
      rw [hnewT, lerp_matrix_same]
    · show gfx_rt64_lerp_rect
        (rotationGuard ext { l1.displayListInstance with desc := desc }).prevScissorRect
        (rotationGuard ext { l1.displayListInstance with desc := desc }).newScissorRect t
        = s.scissorRect
      rw [g6, g7]
      show gfx_rt64_lerp_rect l1.displayListInstance.prevScissorRect
        l1.displayListInstance.newScissorRect t = s.scissorRect
      rw [hprevS, hnewS, lerp_rect_same]
    · show gfx_rt64_lerp_rect
        (rotationGuard ext { l1.displayListInstance with desc := desc }).prevViewportRect
        (rotationGuard ext { l1.displayListInstance with desc := desc }).newViewportRect t
        = s.viewportRect
      rw [g8, g9]
      show gfx_rt64_lerp_rect l1.displayListInstance.prevViewportRect
        l1.displayListInstance.newViewportRect t = s.viewportRect
      rw [hprevV, hnewV, lerp_rect_same]
  · intro ops s2 sL g ws t hops hl
    obtain ⟨dl3, c1, c2, c3⟩ := runOps_keeps_instance ext uid (positionOf s uid) _ ops s' s2 dl'
      hops hfind (by omega) hinst
    rw [← (end_frame_lights_frame ext g s2 sL hl).1] at c1
    have hpin := end_frame_process_pinned ext sL uid (positionOf s uid) dl3 _ transform
      s.scissorRect s.viewportRect c1 c2 c3 ⟨p1, hnewT, hprevS, hnewS, hprevV, hnewV⟩
    exact (draw_frame_pinned g _ t uid (positionOf s uid) transform s.scissorRect
      s.viewportRect (draw_frames_pinned g uid (positionOf s uid) transform s.scissorRect
        s.viewportRect ws _ hpin)).2

end BaselineClaim

/-- The first draw under identifier 5 in `loadedState`: there is no instance with valid
previous state, the previous transform of the new instance is the submitted identity
matrix, and the sub-frame at weight 1/2 gets the identity matrix. -/
theorem no_interpolation_without_baseline_witness :
    ∃ (s' : RT64State ℚ) (dl' : RecordedDisplayList ℚ) (inst : RecordedInstance ℚ),
      gfx_rt64_rapi_draw_triangles_common ratExtern loadedState identityMatrix triangleBuffer
        1 false true 5 = some s' ∧
      mapFind s'.displayLists 5 = some dl' ∧ dl'.instances[0]? = some inst ∧
      inst.prevTransform = identityMatrix ∧ inst.newTransform = identityMatrix ∧
      (frameInstance (1 / 2) inst).desc.transform = identityMatrix := by
  have hsome : (gfx_rt64_rapi_draw_triangles_common ratExtern loadedState identityMatrix
      triangleBuffer 1 false true 5).isSome = true := by decide!
  obtain ⟨s', hs'⟩ := Option.isSome_iff_exists.mp hsome
  obtain ⟨dl', inst, h1, h2, h3, h4, _, _, _, _, _, h10, _⟩ :=
    no_interpolation_without_baseline ratExtern loadedState s' identityMatrix triangleBuffer 1
      false true 5 plainProgram (by decide) hs'
      (Or.inr (Or.inl (fun i hi => by cases hi)))
  exact ⟨s', dl', inst, hs', h1, h2, h3, h4, (h10 (1 / 2)).1⟩

/-! ## Shader variant keys -/

section KeyProofs

theorem shaderVariantKey_eq (r : Bool) (f h v : Nat) (n s : Bool) (hf : f ≤ 1) (hh : h ≤ 2)
    (hv : v ≤ 2) :
    shaderVariantKey r f h v n s =
      (if r then 1 else 0) + 2 * f + 4 * h + 12 * v + (if n then 36 else 0) +
        (if s then 72 else 0) := by
  unfold shaderVariantKey U16_MOD
  cases r <;> cases n <;> cases s <;> simp <;> omega

end KeyProofs

/-- Claim C26.  For a filter in {0, 1} and addressing modes in {0, 1, 2} the key that
`shaderVariantKey` computes is at most 143, and two tuples of the domain with the same key
are equal in all six components; so storing a shader under the key of one tuple leaves the
entry that the variant map of the program has for the key of any other tuple. -/
theorem shaderVariantKey_injective (r1 r2 : Bool) (f1 h1 v1 f2 h2 v2 : Nat)
    (n1 s1 n2 s2 : Bool) (hf1 : f1 ≤ 1) (hh1 : h1 ≤ 2) (hv1 : v1 ≤ 2) (hf2 : f2 ≤ 1)
    (hh2 : h2 ≤ 2) (hv2 : v2 ≤ 2) :
    shaderVariantKey r1 f1 h1 v1 n1 s1 ≤ 143 ∧
    (shaderVariantKey r1 f1 h1 v1 n1 s1 = shaderVariantKey r2 f2 h2 v2 n2 s2 →
      r1 = r2 ∧ f1 = f2 ∧ h1 = h2 ∧ v1 = v2 ∧ n1 = n2 ∧ s1 = s2) ∧
    ((r1, f1, h1, v1, n1, s1) ≠ (r2, f2, h2, v2, n2, s2) →
      ∀ (m : List (Nat × Option Handle)) (shader : Option Handle),
        mapFind (mapInsert m (shaderVariantKey r1 f1 h1 v1 n1 s1) shader)
            (shaderVariantKey r2 f2 h2 v2 n2 s2) =
          mapFind m (shaderVariantKey r2 f2 h2 v2 n2 s2)) := by
  have e1 := shaderVariantKey_eq r1 f1 h1 v1 n1 s1 hf1 hh1 hv1
  have e2 := shaderVariantKey_eq r2 f2 h2 v2 n2 s2 hf2 hh2 hv2
  have hinj : shaderVariantKey r1 f1 h1 v1 n1 s1 = shaderVariantKey r2 f2 h2 v2 n2 s2 →
      r1 = r2 ∧ f1 = f2 ∧ h1 = h2 ∧ v1 = v2 ∧ n1 = n2 ∧ s1 = s2 := by
    intro h
    rw [e1, e2] at h
    cases r1 <;> cases r2 <;> cases n1 <;> cases n2 <;> cases s1 <;> cases s2 <;>
      simp at h ⊢ <;> omega
  refine ⟨?_, hinj, ?_⟩
  · rw [e1]
    cases r1 <;> cases n1 <;> cases s1 <;> simp <;> omega
  · intro hne m shader
    apply mapFind_mapInsert_ne
    intro hk
    obtain ⟨a, b, c, d, e, f⟩ := hinj hk
    exact hne (by rw [a, b, c, d, e, f])

/-- The raytraced variant with linear filter, clamped in both directions and with a
normal map has key 1 + 2 + 8 + 24 + 36 = 71; the same variant with a specular map instead
has key 107. -/
theorem shaderVariantKey_injective_witness :
    shaderVariantKey true 1 2 2 true false = 71 ∧
    shaderVariantKey true 1 2 2 false true = 107 ∧
    mapFind (mapInsert [(107, some 4)] (shaderVariantKey true 1 2 2 true false) (some 9))
        (shaderVariantKey true 1 2 2 false true) = some (some 4) := by
  have h := shaderVariantKey_injective true true 1 2 2 1 2 2 true false false true
    (by decide) (by decide) (by decide) (by decide) (by decide) (by decide)
  refine ⟨by decide, by decide, ?_⟩
  rw [h.2.2 (by decide) [(107, some 4)] (some 9)]
  decide

/-! ## Small motion -/

section SmallMotionClaim
variable {α : Type} [LinearOrderedField α] [FloorRing α]

end SmallMotionClaim

section BoundProofs
variable {α : Type}

theorem foldl_numInputs (f : ShaderProgram → Nat → ShaderProgram) (B : Nat)
    (hf : ∀ p c, p.numInputs ≤ B → (f p c).numInputs ≤ B) (l : List Nat) :
    ∀ p : ShaderProgram, p.numInputs ≤ B → (l.foldl f p).numInputs ≤ B := by
  induction l with
  | nil => intro p hp; exact hp
  | cons c r ih => intro p hp; exact ih _ (hf p c hp)

/-- The program that `gfx_rt64_rapi_create_and_load_new_shader` loads has at most
`SHADER_INPUT_4` inputs. -/
theorem create_shader_numInputs (ext : Extern α) (s : RT64State α) (shader_id : Nat)
    (sp : ShaderProgram)
    (hsp : currentShaderProgram (gfx_rt64_rapi_create_and_load_new_shader ext s shader_id).2
      = some sp) :
    sp.numInputs ≤ ext.SHADER_INPUT_4 := by
  unfold currentShaderProgram gfx_rt64_rapi_create_and_load_new_shader
    gfx_rt64_rapi_load_shader at hsp
  simp only [List.getElem?_append_right (le_refl _), Nat.sub_self, List.getElem?_cons_zero,
    Option.some.injEq] at hsp
  rw [← hsp]
  apply foldl_numInputs
  · intro p c hp
    split_ifs <;> first | exact hp | (show c ≤ _; omega)
  · exact Nat.zero_le _

theorem foldl_set_range_beyond {β : Type} (g : Nat → β) (n : Nat) (l : List β) (i : Nat)
    (hi : n ≤ i) :
    ((List.range n).foldl (fun temp f => temp.set f (g f)) l)[i]? = l[i]? := by
  induction n with
  | zero => rfl
  | succ k ih =>
    rw [List.range_succ, List.foldl_append]
    simp only [List.foldl_cons, List.foldl_nil]
    rw [List.getElem?_set_ne (by omega), ih (by omega)]

end BoundProofs

section BoundClaim
variable {α : Type} [LinearOrderedField α] [FloorRing α]

/-- Claim C30.  The program `sp` is the one that
`gfx_rt64_rapi_create_and_load_new_shader` decodes from a shader id, the constant
`SHADER_INPUT_4` being at most 4, and a buffer of `buf_vbo_len` floats is submitted.  Then
the program has at most 4 inputs; the vertex stride that `gfx_rt64_rapi_process_mesh`
computes is `28 + (useTexture ? 8 : 0) + numInputs * (useAlpha ? 16 : 12)` without
wrapping, a multiple of 4 between 28 and 100; `vertexCount * vertexStride` is at most
`4 * buf_vbo_len`; the float counts of the interpolation loop of `gfx_rt64_rapi_draw_frame`
and of the delta loop of `gfx_rt64_rapi_end_frame` are at most `buf_vbo_len`; a vertex has
at least 7 floats, and at least 9 with a texture.  For a staged mesh slot with this vertex
count and stride the two loops leave every float at an index from `buf_vbo_len` on as it
was. -/
theorem loop_index_bounds (ext : Extern α) (s : RT64State α) (shader_id : Nat)
    (sp : ShaderProgram) (buf_vbo_len : Nat) (hin : ext.SHADER_INPUT_4 ≤ 4)
    (hsp : currentShaderProgram (gfx_rt64_rapi_create_and_load_new_shader ext s shader_id).2
      = some sp) :
    sp.numInputs ≤ 4 ∧
    meshVertexStride ext sp =
      28 + (if sp.usedTextures0 || sp.usedTextures1 then 8 else 0) +
        sp.numInputs * (if (sp.shaderId &&& ext.SHADER_OPT_ALPHA) != 0 then 16 else 12) ∧
    4 ∣ meshVertexStride ext sp ∧ 28 ≤ meshVertexStride ext sp ∧
    meshVertexStride ext sp ≤ 100 ∧
    meshVertexCount ext sp buf_vbo_len * meshVertexStride ext sp ≤ 4 * buf_vbo_len ∧
    (meshVertexCount ext sp buf_vbo_len * meshVertexStride ext sp) % UINT_MOD / 4
      ≤ buf_vbo_len ∧
    meshVertexCount ext sp buf_vbo_len * (meshVertexStride ext sp / 4) ≤ buf_vbo_len ∧
    7 ≤ meshVertexStride ext sp / 4 ∧
    ((sp.usedTextures0 || sp.usedTextures1) = true → 9 ≤ meshVertexStride ext sp / 4) ∧
    ∀ m : RecordedMesh α, m.vertexCount = meshVertexCount ext sp buf_vbo_len →
      m.vertexStride = meshVertexStride ext sp → m.newVertexBufferValid = true →
      ∀ j, buf_vbo_len ≤ j →
        (∀ (t : α) (temp : List α),
          (interpolateFloats (m.prevVertexBuffer.getD []) (m.newVertexBuffer.getD []) t
            ((m.vertexCount * m.vertexStride) % UINT_MOD / 4) temp)[j]? = temp[j]?) ∧
        ((computeDelta m).prevVertexBuffer.getD [])[j]? = (m.prevVertexBuffer.getD [])[j]? ∧
        ((computeDelta m).deltaVertexBuffer.getD [])[j]? =
          (m.deltaVertexBuffer.getD [])[j]? := by
  have hn : sp.numInputs ≤ 4 := le_trans (create_shader_numInputs ext s shader_id sp hsp) hin
  have hstride : meshVertexStride ext sp =
      28 + (if sp.usedTextures0 || sp.usedTextures1 then 8 else 0) +
        sp.numInputs * (if (sp.shaderId &&& ext.SHADER_OPT_ALPHA) != 0 then 16 else 12) := by
    unfold meshVertexStride UINT_MOD
    simp only
    apply Nat.mod_eq_of_lt
    split_ifs <;> omega
  have hdvd : 4 ∣ meshVertexStride ext sp := by
    rw [hstride]
    split_ifs <;> omega
  have hlo : 28 ≤ meshVertexStride ext sp := by
    rw [hstride]
    omega
  have hhi : meshVertexStride ext sp ≤ 100 := by
    rw [hstride]
    split_ifs <;> omega
  have hcount : meshVertexCount ext sp buf_vbo_len * meshVertexStride ext sp
      ≤ 4 * buf_vbo_len := by
    unfold meshVertexCount
    calc (buf_vbo_len * 4) % SIZE_MOD / meshVertexStride ext sp % UINT_MOD *
          meshVertexStride ext sp
        ≤ (buf_vbo_len * 4) % SIZE_MOD / meshVertexStride ext sp * meshVertexStride ext sp :=
          Nat.mul_le_mul_right _ (Nat.mod_le _ _)
      _ ≤ (buf_vbo_len * 4) % SIZE_MOD := Nat.div_mul_le_self _ _
      _ ≤ buf_vbo_len * 4 := Nat.mod_le _ _
      _ = 4 * buf_vbo_len := Nat.mul_comm _ _
  have hdraw : (meshVertexCount ext sp buf_vbo_len * meshVertexStride ext sp) % UINT_MOD / 4
      ≤ buf_vbo_len := by
    have := Nat.mod_le (meshVertexCount ext sp buf_vbo_len * meshVertexStride ext sp) UINT_MOD
    omega
  have hdelta : meshVertexCount ext sp buf_vbo_len * (meshVertexStride ext sp / 4)
      ≤ buf_vbo_len := by
    obtain ⟨q, hq⟩ := hdvd
    rw [hq] at hcount
    rw [hq, Nat.mul_div_cancel_left q (by norm_num)]
    have : meshVertexCount ext sp buf_vbo_len * (4 * q) =
        4 * (meshVertexCount ext sp buf_vbo_len * q) := by ring
    omega
  have h7 : 7 ≤ meshVertexStride ext sp / 4 := by omega
  have h9 : (sp.usedTextures0 || sp.usedTextures1) = true → 9 ≤ meshVertexStride ext sp / 4 := by
    intro hu
    have : 36 ≤ meshVertexStride ext sp := by
      rw [hstride, if_pos hu]
      omega
    omega
  refine ⟨hn, hstride, hdvd, hlo, hhi, hcount, hdraw, hdelta, h7, h9, ?_⟩
  intro m hvc hvs hv j hj
  refine ⟨?_, ?_⟩
  · intro t temp
    unfold interpolateFloats
    apply foldl_set_range_beyond
    rw [hvc, hvs]
    omega
  · have hcd : computeDelta m =
        { m with
          prevVertexBuffer := m.prevVertexBuffer.map (fun _ =>
            ((List.range (m.vertexCount * (m.vertexStride / 4))).foldl
              (deltaStep m.useTexture (m.vertexStride / 4) (m.newVertexBuffer.getD []))
              { prev := m.prevVertexBuffer.getD [], delta := m.deltaVertexBuffer.getD [],
                i := 0 }).prev)
          deltaVertexBuffer := m.deltaVertexBuffer.map (fun _ =>
            ((List.range (m.vertexCount * (m.vertexStride / 4))).foldl
              (deltaStep m.useTexture (m.vertexStride / 4) (m.newVertexBuffer.getD []))
              { prev := m.prevVertexBuffer.getD [], delta := m.deltaVertexBuffer.getD [],
                i := 0 }).delta) } := by
      unfold computeDelta
      rw [hv]
      rfl
    obtain ⟨a1, a2⟩ := deltaFold_ahead m.useTexture (m.vertexStride / 4)
      (m.newVertexBuffer.getD [])
      { prev := m.prevVertexBuffer.getD [], delta := m.deltaVertexBuffer.getD [], i := 0 }
      (m.vertexCount * (m.vertexStride / 4)) j (by rw [hvc, hvs]; omega)
    rw [hcd]
    constructor
    · cases hb : m.prevVertexBuffer with
      | none => rfl
      | some b =>
        rw [hb] at a1
        simpa using a1
    · cases hb : m.deltaVertexBuffer with
      | none => rfl
      | some b =>
        rw [hb] at a2
        simpa using a2

end BoundClaim

/-- The shader id 0x1045045 (texture 0, one input, alpha) gives a stride of 52 bytes, 13
floats per vertex; a buffer of 40 floats holds 3 vertices, and the loops run over 39
floats. -/
theorem loop_index_bounds_witness :
    meshVertexStride ratExtern ⟨0x1045045, 1, true, false, []⟩ = 52 ∧
    meshVertexCount ratExtern ⟨0x1045045, 1, true, false, []⟩ 40 = 3 ∧
    meshVertexCount ratExtern ⟨0x1045045, 1, true, false, []⟩ 40 *
      (meshVertexStride ratExtern ⟨0x1045045, 1, true, false, []⟩ / 4) ≤ 40 ∧
    9 ≤ meshVertexStride ratExtern ⟨0x1045045, 1, true, false, []⟩ / 4 := by
  obtain ⟨_, _, _, _, _, _, _, h8, _, h10, _⟩ :=
    loop_index_bounds ratExtern emptyState 0x1045045 ⟨0x1045045, 1, true, false, []⟩ 40
      (by decide) (by decide)
  exact ⟨by decide, by decide, h8, h10 (by decide)⟩

/-! ## Emitted lights -/

section PlacedProofs
variable {α : Type} [LinearOrderedField α] [FloorRing α]

theorem configureLight_eq (ext : Extern α) (lightMod : RT64_LIGHT α)
    (transform : RT64_MATRIX4 α) :
    configureLight ext lightMod transform = placedLight ext lightMod transform :=
  rfl

theorem mulF32_one {x : α} (h : IsF32 x) : mulF32 x 1 = x := by
  unfold mulF32
  rw [mul_one]
  exact h

theorem mulF32_zero (x : α) : mulF32 x 0 = 0 := by
  unfold mulF32
  rw [mul_zero, roundF32_zero]

theorem addF32_zero {x : α} (h : IsF32 x) : addF32 x 0 = x := by
  unfold addF32
  rw [add_zero]
  exact h

theorem zero_addF32 {x : α} (h : IsF32 x) : addF32 0 x = x := by
  unfold addF32
  rw [zero_add]
  exact h

/-- The identity transform leaves a point with `float` coordinates where it is. -/
theorem transform_position_identity (v : RT64_VECTOR3 α) (hx : IsF32 v.x) (hy : IsF32 v.y)
    (hz : IsF32 v.z) : transform_position_affine identityMatrix v = v := by
  unfold transform_position_affine identityMatrix
  have h0 : IsF32 (0 : α) := roundF32_zero
  simp only [Fin.isValue, if_true, if_false, Fin.reduceEq, mulF32_one hx, mulF32_one hy,
    mulF32_one hz, mulF32_zero, addF32_zero hx, addF32_zero hy, addF32_zero hz,
    zero_addF32 hy, zero_addF32 hz, addF32_zero h0]

theorem lightScale_ratExtern :
    lightScale ratExtern identityMatrix = 1 ∧
    lightScale ratExtern (scaleMatrix 2) = 2 ∧
    lightScale ratExtern (scaleMatrix (-2)) = 2 ∧
    lightScale ratExtern (scaleMatrix (1 / 2)) = 1 / 2 ∧
    lightScale ratExtern (scaleMatrix 4) = 4 := by
  refine ⟨by decide!, by decide!, by decide!, by decide!, by decide!⟩

/-- For the identity transform the placed light is the light of the mod, when its
position and the three scaled fields are `float`s. -/
theorem placedLight_identity (lightMod : RT64_LIGHT ℚ)
    (hx : IsF32 lightMod.position.x) (hy : IsF32 lightMod.position.y)
    (hz : IsF32 lightMod.position.z) (ha : IsF32 lightMod.attenuationRadius)
    (hr : IsF32 lightMod.pointRadius) (ho : IsF32 lightMod.shadowOffset) :
    placedLight ratExtern lightMod identityMatrix = lightMod := by
  unfold placedLight
  rw [lightScale_ratExtern.1, transform_position_identity _ hx hy hz, mulF32_one ha,
    mulF32_one hr, mulF32_one ho]

theorem apply_mod_emits (ext : Extern α) (s t : RT64State α) (material : RT64_MATERIAL α)
    (normal specular : Option Handle) (interpolate : Bool) (mod : RecordedMod α)
    (lightMod : RT64_LIGHT α) (prevTransform newTransform : RT64_MATRIX4 α)
    (hmod : mod.lightMod = some lightMod)
    (ht : gfx_rt64_add_light ext s lightMod
      (if (if !mod.interpolationEnabled then false else interpolate) then prevTransform
        else newTransform) newTransform = some t) :
    ∃ r, gfx_rt64_rapi_apply_mod ext s material normal specular interpolate mod
        prevTransform newTransform true = some r ∧
      r.state = t ∧
      r.interpolate = (if !mod.interpolationEnabled then false else interpolate) := by
  unfold gfx_rt64_rapi_apply_mod
  simp only [hmod]
  rw [ht]
  exact ⟨_, rfl, rfl, rfl⟩

end PlacedProofs

section PlacedClaim
variable {α : Type} [LinearOrderedField α] [FloorRing α]

/-- Claim C27, amended.  The array of dynamic lights has its `MAX_DYNAMIC_LIGHTS`
elements, and `gfx_rt64_add_light` returns.  Then the element it fills holds, as previous
(resp. new) light, the light of the mod with the position transformed as a point by the
previous (resp. new) transform, with attenuation radius, point radius and shadow offset
multiplied by the factor `scale` for that transform `M`, and with the other fields
copied; all in `float` arithmetic, the factor being the length of `M * (1, 1, 1)`
divided by `sqrt(3)` in `double` and narrowed to `float`.  With the correctly rounded
square root: for the identity transform the placed light is the light of the mod
(whose fields are `float`s) and the factor is 1, and for the uniform scales by 2, -2,
1/2 and 4 the factor is 2, 2, 1/2 and 4.  When `gfx_rt64_rapi_apply_mod` emits the light
of a mod and interpolation is off (on entry, or because the mod disables it), both
versions are the one of the new transform; when it is on, they are those of the previous
and the new transform. -/
theorem emitted_light_placement (ext : Extern α) (s s' : RT64State α)
    (lightMod : RT64_LIGHT α) (prevTransform newTransform : RT64_MATRIX4 α)
    (hsize : s.dynamicLights.length = MAX_DYNAMIC_LIGHTS)
    (h : gfx_rt64_add_light ext s lightMod prevTransform newTransform = some s') :
    s'.dynamicLights[s.dynamicLightCount]? =
      some ⟨placedLight ext lightMod prevTransform, placedLight ext lightMod newTransform⟩ ∧
    s'.dynamicLightCount = s.dynamicLightCount + 1 ∧
    (∀ l : RT64_LIGHT ℚ, IsF32 l.position.x → IsF32 l.position.y → IsF32 l.position.z →
      IsF32 l.attenuationRadius → IsF32 l.pointRadius → IsF32 l.shadowOffset →
      placedLight ratExtern l identityMatrix = l) ∧
    (lightScale ratExtern identityMatrix = 1 ∧
      lightScale ratExtern (scaleMatrix 2) = 2 ∧
      lightScale ratExtern (scaleMatrix (-2)) = 2 ∧
      lightScale ratExtern (scaleMatrix (1 / 2)) = 1 / 2 ∧
      lightScale ratExtern (scaleMatrix 4) = 4) ∧
    ∀ (material : RT64_MATERIAL α) (normal specular : Option Handle) (interpolate : Bool)
      (mod : RecordedMod α),
      mod.lightMod = some lightMod →
      ∃ r, gfx_rt64_rapi_apply_mod ext s material normal specular interpolate mod
          prevTransform newTransform true = some r ∧
        r.interpolate = (interpolate && mod.interpolationEnabled) ∧
        (r.interpolate = false →
          r.state.dynamicLights[s.dynamicLightCount]? =
            some ⟨placedLight ext lightMod newTransform,
              placedLight ext lightMod newTransform⟩) ∧
        (r.interpolate = true →
          r.state.dynamicLights[s.dynamicLightCount]? =
            some ⟨placedLight ext lightMod prevTransform,
              placedLight ext lightMod newTransform⟩) := by
  have hlt : s.dynamicLightCount < MAX_DYNAMIC_LIGHTS := by
    unfold gfx_rt64_add_light at h
    by_contra hc
    rw [if_neg hc] at h
    cases h
  have hget : ∀ (p n : RT64_MATRIX4 α) (t : RT64State α),
      gfx_rt64_add_light ext s lightMod p n = some t →
      t.dynamicLights[s.dynamicLightCount]? =
        some ⟨placedLight ext lightMod p, placedLight ext lightMod n⟩ := by
    intro p n t ht
    obtain ⟨t', e1, _, e3⟩ := add_light_some ext s lightMod p n hlt
    rw [ht] at e1
    cases e1
    rw [e3, List.getElem?_set_self (by rw [hsize]; exact hlt)]
    rfl
  refine ⟨hget _ _ _ h, ?_, placedLight_identity, lightScale_ratExtern, ?_⟩
  · obtain ⟨t', e1, e2, _⟩ := add_light_some ext s lightMod prevTransform newTransform hlt
    rw [h] at e1
    cases e1
    exact e2
  · intro material normal specular interpolate mod hmod
    have hflag : (if !mod.interpolationEnabled then false else interpolate) =
        (interpolate && mod.interpolationEnabled) := by
      cases interpolate <;> cases mod.interpolationEnabled <;> rfl
    cases hi : (interpolate && mod.interpolationEnabled) with
    | false =>
      obtain ⟨t, ht, _, _⟩ := add_light_some ext s lightMod newTransform newTransform hlt
      obtain ⟨r, hr, hst, hint⟩ := apply_mod_emits ext s t material normal specular interpolate
        mod lightMod prevTransform newTransform hmod (by rw [hflag, hi]; exact ht)
      rw [hflag, hi] at hint
      refine ⟨r, hr, hint, ?_, ?_⟩
      · intro _
        rw [hst]
        exact hget _ _ _ ht
      · intro hc
        rw [hint] at hc
        cases hc
    | true =>
      obtain ⟨t, ht, _, _⟩ := add_light_some ext s lightMod prevTransform newTransform hlt
      obtain ⟨r, hr, hst, hint⟩ := apply_mod_emits ext s t material normal specular interpolate
        mod lightMod prevTransform newTransform hmod (by rw [hflag, hi]; exact ht)
      rw [hflag, hi] at hint
      refine ⟨r, hr, hint, ?_, ?_⟩
      · intro hc
        rw [hint] at hc
        cases hc
      · intro _
        rw [hst]
        exact hget _ _ _ ht

end PlacedClaim

/-- The light `lanternLight` emitted for the previous transform `I` and the new transform
`2 * I` keeps its values in the previous version; in the new version the position is
(2, 4, 6) and the attenuation radius, the point radius and the shadow offset are
doubled. -/
theorem emitted_light_placement_witness :
    ∃ s' : RT64State ℚ,
      gfx_rt64_add_light ratExtern emptyState lanternLight identityMatrix (scaleMatrix 2)
        = some s' ∧
      s'.dynamicLights[0]? =
        some ⟨lanternLight, placedLight ratExtern lanternLight (scaleMatrix 2)⟩ ∧
      placedLight ratExtern lanternLight (scaleMatrix 2) =
        { (lanternLight : RT64_LIGHT ℚ) with
          position := { x := 2, y := 4, z := 6 }
          attenuationRadius := 20
          pointRadius := 4
          shadowOffset := 8 } := by
  obtain ⟨s', hs', _, _⟩ := add_light_some ratExtern
    (emptyState : RT64State ℚ) lanternLight identityMatrix (scaleMatrix 2) (by decide)
  obtain ⟨h1, _, h3, _, _⟩ := emitted_light_placement ratExtern
    (emptyState : RT64State ℚ) s' lanternLight identityMatrix (scaleMatrix 2)
    (List.length_replicate _ _) hs'
  rw [h3 lanternLight (by decide!) (by decide!) (by decide!) (by decide!) (by decide!)
    (by decide!)] at h1
  exact ⟨s', hs', h1, by decide!⟩

/-- Against claim C27 as it is worded.  For the uniform scale `3 * I` the image of
(1, 1, 1) is (3, 3, 3), its `float` length is 10897121 / 2 ^ 21 and the factor is
`3 - 2 ^ (-22)`, not 3; for the scales by 5 and by 10 the factor is above 5 and 10.  The
light `lanternLight` with attenuation radius 10 is emitted with the radius
15728639 / 2 ^ 19, below 30. -/
theorem uniform_scale_factor_rounded :
    vector_length ratExtern
        (transform_direction_affine (scaleMatrix 3) { x := 1, y := 1, z := 1 }) =
      10897121 / 2097152 ∧
    lightScale ratExtern (scaleMatrix 3) = 3 - 1 / 4194304 ∧
    lightScale ratExtern (scaleMatrix 3) ≠ |3| ∧
    lightScale ratExtern (scaleMatrix 5) = 5 + 1 / 2097152 ∧
    lightScale ratExtern (scaleMatrix 10) = 10 + 1 / 1048576 ∧
    ((gfx_rt64_add_light ratExtern emptyState lanternLight identityMatrix (scaleMatrix 3)).map
      fun s' => (s'.dynamicLights.map fun l => l.newLight.attenuationRadius).take 1) =
        some [15728639 / 524288] ∧
    (15728639 / 524288 : ℚ) < 10 * 3 := by
  refine ⟨by decide!, by decide!, by decide!, by decide!, by decide!, by decide!, by norm_num⟩

/-! ## The frame condition of a sub-frame -/

section FrameLightProofs
variable {α : Type} [LinearOrderedField α]

theorem draw_frame_light_eq (s : RT64State α) (L : Nat) (t : α) (lights : List (RT64_LIGHT α))
    (i : Nat) :
    draw_frame_light s L t lights i =
      lights.set (L + i)
        (frameLight t (s.dynamicLights.getD i ⟨RT64_LIGHT.zero, RT64_LIGHT.zero⟩)
          (lights.getD (L + i) RT64_LIGHT.zero)) :=
  rfl

end FrameLightProofs

section FrameLightProofs
variable {α : Type} [LinearOrderedField α]

/-- The loop "Interpolate the dynamic lights" in closed form: the elements from
`L` to `L + n - 1` are interpolated, the others are left alone. -/
theorem draw_frame_lights_fold (s : RT64State α) (L : Nat) (t : α)
    (l0 : List (RT64_LIGHT α)) (n : Nat) :
    ((List.range n).foldl (draw_frame_light s L t) l0).length = l0.length ∧
    ∀ j, ((List.range n).foldl (draw_frame_light s L t) l0)[j]? =
      if L ≤ j ∧ j < L + n then
        (l0[j]?).map
          (frameLight t (s.dynamicLights.getD (j - L) ⟨RT64_LIGHT.zero, RT64_LIGHT.zero⟩))
      else l0[j]? := by
  induction n with
  | zero =>
    refine ⟨rfl, fun j => ?_⟩
    rw [if_neg (by omega)]
    rfl
  | succ n ih =>
    obtain ⟨ihl, ihg⟩ := ih
    rw [List.range_succ, List.foldl_append]
    simp only [List.foldl_cons, List.foldl_nil]
    rw [draw_frame_light_eq]
    refine ⟨by rw [List.length_set, ihl], fun j => ?_⟩
    by_cases hj : j = L + n
    · subst hj
      have hprev := ihg (L + n)
      rw [if_neg (by omega)] at hprev
      rw [if_pos (by omega)]
      by_cases hlen : L + n < l0.length
      · rw [List.getElem?_set_self (by rw [ihl]; exact hlen)]
        have hget : l0[L + n]? = some (l0[L + n]) := List.getElem?_eq_getElem hlen
        rw [hget] at hprev ⊢
        have hd : ((List.range n).foldl (draw_frame_light s L t) l0).getD (L + n)
            RT64_LIGHT.zero = l0[L + n] := by
          rw [List.getD_eq_getElem?_getD, hprev]
          rfl
        rw [hd, Nat.add_sub_cancel_left]
        rfl
      · have hnone : l0[L + n]? = none := List.getElem?_eq_none (by omega)
        rw [hnone]
        exact List.getElem?_eq_none (by rw [List.length_set, ihl]; omega)
    · rw [List.getElem?_set_ne (fun h => hj h.symm), ihg j]
      by_cases hc : L ≤ j ∧ j < L + n
      · rw [if_pos hc, if_pos (by omega)]
      · rw [if_neg hc, if_neg (by omega)]

end FrameLightProofs

section FrameLightProofs
variable {α : Type} [LinearOrderedField α]

theorem frameLight_congr (t : α) (d : RecordedLight α) (l l' : RT64_LIGHT α)
    (h1 : l.diffuseColor = l'.diffuseColor) (h2 : l.specularColor = l'.specularColor)
    (h3 : l.attenuationExponent = l'.attenuationExponent)
    (h4 : l.flickerIntensity = l'.flickerIntensity) (h5 : l.groupBits = l'.groupBits) :
    frameLight t d l = frameLight t d l' := by
  unfold frameLight
  simp only [h1, h2, h3, h4, h5]

end FrameLightProofs

section FrameClaim
variable {α : Type} [LinearOrderedField α] [FloorRing α]

/-- Claim C24.  For every weight, `gfx_rt64_rapi_draw_frame` changes the global state in
five fields only: the library (its call log), the display lists, the array of lights and
the temporal vertex buffer with its size; in particular the camera, the previous camera
and the dynamic lights are as before.  Of a display list it changes the instances only,
so every mesh slot is as before, and of an instance the description only, in its
transform, scissor rectangle and viewport rectangle.  The array of lights keeps its
length; an element outside the range of the dynamic lights is as before, and an element
in the range differs from the one before in position, attenuation radius, point radius
and shadow offset only. -/
theorem draw_frame_frame_condition (g : Game α) (s : RT64State α) (t : α) :
    (∃ (lib : Backend α) (tempVertexBuffer : List α) (tempVertexBufferSize : Nat),
      gfx_rt64_rapi_draw_frame g s t =
        { s with
          lib := lib
          displayLists := s.displayLists.map (fun e => (e.1, frameDisplayList t e.2))
          lights := frameLights s (s.levelLightCounts g.levelIndex g.areaIndex) t
          tempVertexBuffer := tempVertexBuffer
          tempVertexBufferSize := tempVertexBufferSize }) ∧
    (∀ dl : RecordedDisplayList α,
      frameDisplayList t dl = { dl with instances := dl.instances.map (frameInstance t) }) ∧
    (∀ i : RecordedInstance α,
      frameInstance t i =
        { i with
          desc :=
            { i.desc with
              transform := gfx_rt64_lerp_matrix i.prevTransform i.newTransform t
              scissorRect := gfx_rt64_lerp_rect i.prevScissorRect i.newScissorRect t
              viewportRect := gfx_rt64_lerp_rect i.prevViewportRect i.newViewportRect t } }) ∧
    (frameLights s (s.levelLightCounts g.levelIndex g.areaIndex) t).length = s.lights.length ∧
    ∀ (j : Nat) (l : RT64_LIGHT α), s.lights[j]? = some l →
      ∃ l', (frameLights s (s.levelLightCounts g.levelIndex g.areaIndex) t)[j]? = some l' ∧
        l'.diffuseColor = l.diffuseColor ∧ l'.specularColor = l.specularColor ∧
        l'.attenuationExponent = l.attenuationExponent ∧
        l'.flickerIntensity = l.flickerIntensity ∧ l'.groupBits = l.groupBits ∧
        (j < s.levelLightCounts g.levelIndex g.areaIndex ∨
          s.levelLightCounts g.levelIndex g.areaIndex + s.dynamicLightCount ≤ j → l' = l) := by
  obtain ⟨hlen, hget⟩ := draw_frame_lights_fold s (s.levelLightCounts g.levelIndex g.areaIndex)
    t s.lights s.dynamicLightCount
  refine ⟨⟨(gfx_rt64_rapi_draw_frame g s t).lib,
    (gfx_rt64_rapi_draw_frame g s t).tempVertexBuffer,
    (gfx_rt64_rapi_draw_frame g s t).tempVertexBufferSize, ?_⟩, fun _ => rfl, fun _ => rfl,
    hlen, ?_⟩
  · rw [← draw_frame_displayLists g s t]
    rfl
  · intro j l hl
    have h := hget j
    rw [hl] at h
    by_cases hc : s.levelLightCounts g.levelIndex g.areaIndex ≤ j ∧
        j < s.levelLightCounts g.levelIndex g.areaIndex + s.dynamicLightCount
    · rw [if_pos hc] at h
      refine ⟨_, h, rfl, rfl, rfl, rfl, rfl, ?_⟩
      intro hout
      omega
    · rw [if_neg hc] at h
      exact ⟨l, h, rfl, rfl, rfl, rfl, rfl, fun _ => rfl⟩

end FrameClaim

/-- The sub-frame at weight 1/2 of `stagedState`: the display list under identifier 5,
which has a staged mesh slot and no instance, is as before. -/
theorem draw_frame_frame_condition_witness :
    mapFind (gfx_rt64_rapi_draw_frame plainGame stagedState (1 / 2)).displayLists 5 =
      some stagedDisplayList := by
  obtain ⟨⟨lib, tempVertexBuffer, tempVertexBufferSize, h⟩, _⟩ :=
    draw_frame_frame_condition plainGame stagedState (1 / 2)
  rw [h]
  rfl

/-! ## The merged light list -/

section MergeProofs
variable {α : Type} [LinearOrderedField α] [FloorRing α]

theorem foldl_set_shift_get {β : Type} (g : Nat → β) (L n : Nat) (l : List β) :
    ((List.range n).foldl (fun temp i => temp.set (L + i) (g i)) l).length = l.length ∧
    ∀ j, ((List.range n).foldl (fun temp i => temp.set (L + i) (g i)) l)[j]? =
      if L ≤ j ∧ j < L + n ∧ j < l.length then some (g (j - L)) else l[j]? := by
  induction n with
  | zero =>
    refine ⟨rfl, fun j => ?_⟩
    rw [if_neg (by omega)]
    rfl
  | succ n ih =>
    obtain ⟨ihl, ihg⟩ := ih
    rw [List.range_succ, List.foldl_append]
    simp only [List.foldl_cons, List.foldl_nil]
    refine ⟨by rw [List.length_set, ihl], fun j => ?_⟩
    by_cases hj : j = L + n
    · subst hj
      by_cases hlen : L + n < l.length
      · rw [List.getElem?_set_self (by rw [ihl]; exact hlen), if_pos (by omega),
          Nat.add_sub_cancel_left]
      · rw [if_neg (by omega), List.getElem?_eq_none (by rw [List.length_set, ihl]; omega),
          List.getElem?_eq_none (by omega)]
    · rw [List.getElem?_set_ne (fun h => hj h.symm), ihg j]
      by_cases hc : L ≤ j ∧ j < L + n ∧ j < l.length
      · rw [if_pos hc, if_pos (by omega)]
      · rw [if_neg hc, if_neg (by omega)]

end MergeProofs

section MergeProofs
variable {α : Type} [LinearOrderedField α]

theorem special_stage_lights_fields (ext : Extern α) (g : Game α) (s : RT64State α)
    (levelIndex areaIndex : Nat) :
    (gfx_rt64_rapi_set_special_stage_lights ext g s levelIndex areaIndex).levelLightCounts
      = s.levelLightCounts ∧
    (gfx_rt64_rapi_set_special_stage_lights ext g s levelIndex areaIndex).levelLights
      = s.levelLights ∧
    (gfx_rt64_rapi_set_special_stage_lights ext g s levelIndex areaIndex).lights = s.lights ∧
    (gfx_rt64_rapi_set_special_stage_lights ext g s levelIndex areaIndex).dynamicLightCount
      ≤ s.dynamicLightCount + 1 := by
  unfold gfx_rt64_rapi_set_special_stage_lights
  split
  · exact ⟨rfl, rfl, rfl, Nat.mod_le _ _⟩
  · exact ⟨rfl, rfl, rfl, Nat.le_succ _⟩

end MergeProofs

section MergeProofs
variable {α : Type} [LinearOrderedField α]

/-- The first block of `gfx_rt64_rapi_end_frame` builds the merged light list. -/
theorem end_frame_lights_merged (ext : Extern α) (g : Game α) (s sL : RT64State α)
    (hlen : s.lights.length = MAX_LIGHTS)
    (hlevel : (s.levelLights g.levelIndex g.areaIndex).length = MAX_LEVEL_LIGHTS)
    (hL : s.levelLightCounts g.levelIndex g.areaIndex ≤ MAX_LEVEL_LIGHTS)
    (hcount : s.dynamicLightCount ≤ MAX_DYNAMIC_LIGHTS)
    (h : end_frame_lights ext g s = some sL) :
    sL.lightCount = s.levelLightCounts g.levelIndex g.areaIndex + sL.dynamicLightCount ∧
    sL.lightCount ≤ MAX_LIGHTS ∧
    sL.lights.length = MAX_LIGHTS ∧
    sL.levelLightCounts = s.levelLightCounts ∧
    (∀ j, j < s.levelLightCounts g.levelIndex g.areaIndex →
      sL.lights[j]? = (s.levelLights g.levelIndex g.areaIndex)[j]?) ∧
    ∀ i d, i < sL.dynamicLightCount → sL.dynamicLights[i]? = some d →
      sL.lights[s.levelLightCounts g.levelIndex g.areaIndex + i]? = some d.newLight := by
  obtain ⟨f1, f2, f3, f4⟩ :=
    special_stage_lights_fields ext g s g.levelIndex g.areaIndex
  have hML : MAX_LIGHTS = 512 := rfl
  have hMLL : MAX_LEVEL_LIGHTS = 128 := rfl
  have hMDL : MAX_DYNAMIC_LIGHTS = 384 := rfl
  have hUM : UINT_MOD = 4294967296 := by decide
  unfold end_frame_lights at h
  simp only at h
  generalize gfx_rt64_rapi_set_special_stage_lights ext g s g.levelIndex g.areaIndex = s1
    at h f1 f2 f3 f4
  rw [f1] at h
  have hnowrap : (s.levelLightCounts g.levelIndex g.areaIndex + s1.dynamicLightCount) % UINT_MOD
      = s.levelLightCounts g.levelIndex g.areaIndex + s1.dynamicLightCount :=
    Nat.mod_eq_of_lt (by omega)
  rw [hnowrap] at h
  split at h
  · rename_i hle
    cases h
    simp only
    rw [f2, f3]
    obtain ⟨a1, a2⟩ := foldl_set_shift_get
      (fun i => (s1.dynamicLights.getD i ⟨RT64_LIGHT.zero, RT64_LIGHT.zero⟩).newLight)
      (s.levelLightCounts g.levelIndex g.areaIndex) s1.dynamicLightCount
      ((List.range (s.levelLightCounts g.levelIndex g.areaIndex)).foldl
        (fun l j => l.set j ((s.levelLights g.levelIndex g.areaIndex).getD j RT64_LIGHT.zero))
        s.lights)
    have b1 := foldl_set_range_length
      (fun j => (s.levelLights g.levelIndex g.areaIndex).getD j RT64_LIGHT.zero)
      (s.levelLightCounts g.levelIndex g.areaIndex) s.lights
    refine ⟨trivial, hle, ?_, trivial, ?_, ?_⟩
    · rw [a1, b1, hlen]
    · intro j hj
      rw [a2 j, if_neg (by omega),
        foldl_set_range_get _ _ _ j hj (by rw [hlen]; omega)]
      have hjl : j < (s.levelLights g.levelIndex g.areaIndex).length := by
        rw [hlevel]; omega
      rw [List.getD_eq_getElem?_getD, List.getElem?_eq_getElem hjl]
      rfl
    · intro i d hi hd
      rw [a2 _, if_pos ⟨by omega, by omega, by rw [b1, hlen]; omega⟩, Nat.add_sub_cancel_left,
        List.getD_eq_getElem?_getD, hd]
      rfl
  · cases h

end MergeProofs

section MergeProofs
variable {α : Type} [LinearOrderedField α]

theorem end_frame_lights_temp (ext : Extern α) (g : Game α) (s sL : RT64State α)
    (h : end_frame_lights ext g s = some sL) :
    sL.tempVertexBuffer = s.tempVertexBuffer ∧
    sL.tempVertexBufferSize = s.tempVertexBufferSize := by
  have hs : (gfx_rt64_rapi_set_special_stage_lights ext g s g.levelIndex
      g.areaIndex).tempVertexBuffer = s.tempVertexBuffer ∧
      (gfx_rt64_rapi_set_special_stage_lights ext g s g.levelIndex
        g.areaIndex).tempVertexBufferSize = s.tempVertexBufferSize := by
    unfold gfx_rt64_rapi_set_special_stage_lights
    split <;> exact ⟨rfl, rfl⟩
  unfold end_frame_lights at h
  simp only at h
  split at h
  · cases h
    exact hs
  · cases h

end MergeProofs

section MergeFrameProofs
variable {α : Type} [LinearOrderedField α] [FloorRing α]

/-- The library call that hands the light list to the scene in a sub-frame. -/
theorem draw_frame_lights_call (g : Game α) (s : RT64State α) (t : α) :
    ∃ calls v, (gfx_rt64_rapi_draw_frame g s t).lib.calls =
      calls ++ [BackendCall.SetSceneLights (gfx_rt64_rapi_draw_frame g s t).lights s.lightCount,
        BackendCall.DrawDevice v] := by
  unfold gfx_rt64_rapi_draw_frame
  simp only
  generalize s.displayLists.foldl (draw_frame_display_list t) _ = p
  obtain ⟨a, temp⟩ := p
  exact ⟨temp.lib.calls, if s.turboMode then 0 else 1, by simp [Backend.call]⟩

/-- A sub-frame keeps the shape of the merged light list and interpolates the
elements of the dynamic lights. -/
theorem draw_frame_merged (g : Game α) (s : RT64State α) (t : α) (L count lightCount : Nat)
    (level : List (RT64_LIGHT α)) (dyn : List (RecordedLight α))
    (h : LightsMerged s g.levelIndex g.areaIndex L count lightCount level dyn) :
    LightsMerged (gfx_rt64_rapi_draw_frame g s t) g.levelIndex g.areaIndex L count lightCount
      level dyn ∧
    ∀ i d, i < count → dyn[i]? = some d →
      (gfx_rt64_rapi_draw_frame g s t).lights[L + i]? = some (frameLight t d d.newLight) := by
  obtain ⟨h1, h2, h3, h4, h5, h6⟩ := h
  obtain ⟨_, hget⟩ := draw_frame_lights_fold s L t s.lights count
  have hlights : (gfx_rt64_rapi_draw_frame g s t).lights =
      (List.range count).foldl (draw_frame_light s L t) s.lights := by
    show (List.range s.dynamicLightCount).foldl
      (draw_frame_light s (s.levelLightCounts g.levelIndex g.areaIndex) t) s.lights = _
    rw [h1, h3]
  have hdyn : ∀ i d, i < count → dyn[i]? = some d →
      (gfx_rt64_rapi_draw_frame g s t).lights[L + i]? = some (frameLight t d d.newLight) := by
    intro i d hi hd
    obtain ⟨l, a1, a2, a3, a4, a5, a6⟩ := h6 i d hi hd
    rw [hlights, hget, if_pos (by omega), a1, Nat.add_sub_cancel_left, h2,
      List.getD_eq_getElem?_getD, hd]
    show some (frameLight t d l) = _
    rw [frameLight_congr t d l d.newLight a2 a3 a4 a5 a6]
  refine ⟨⟨h1, h2, h3, h4, ?_, ?_⟩, hdyn⟩
  · intro j hj
    rw [hlights, hget, if_neg (by omega)]
    exact h5 j hj
  · intro i d hi hd
    exact ⟨_, hdyn i d hi hd, rfl, rfl, rfl, rfl, rfl⟩

theorem draw_frames_merged (g : Game α) (L count lightCount : Nat)
    (level : List (RT64_LIGHT α)) (dyn : List (RecordedLight α)) (ws : List α) :
    ∀ s : RT64State α, LightsMerged s g.levelIndex g.areaIndex L count lightCount level dyn →
      LightsMerged (ws.foldl (fun s w => gfx_rt64_rapi_draw_frame g s w) s) g.levelIndex
        g.areaIndex L count lightCount level dyn := by
  induction ws with
  | nil => intro s h; exact h
  | cons w r ih =>
    intro s h
    exact ih _ (draw_frame_merged g s w L count lightCount level dyn h).1

end MergeFrameProofs

section MergeClaim
variable {α : Type} [LinearOrderedField α] [FloorRing α]

/-- Claim C25.  The arrays have their declared sizes, the level light count `L` of the
current area is at most `MAX_LEVEL_LIGHTS`, the dynamic light count is at most
`MAX_DYNAMIC_LIGHTS`, and the first block of `gfx_rt64_rapi_end_frame` passes its
assertion, giving the state `sL`.  Then `lightCount = L + dynamicLightCount`, the elements
of `RT64.lights` below `L` are the level lights of the area, and element `L + i` is the
new version of dynamic light `i`.  In every sub-frame of the tick (after the processing
loop and any earlier sub-frames, at weight `t`) the elements below `L` are still the level
lights, element `L + i` has position, attenuation radius, point radius and shadow offset
`prev + t * (new - prev)` of dynamic light `i` and the other fields of its new version,
and this array is handed to the library with the light count. -/
theorem merged_light_list (ext : Extern α) (g : Game α) (s sL : RT64State α)
    (hlen : s.lights.length = MAX_LIGHTS)
    (hlevel : (s.levelLights g.levelIndex g.areaIndex).length = MAX_LEVEL_LIGHTS)
    (hL : s.levelLightCounts g.levelIndex g.areaIndex ≤ MAX_LEVEL_LIGHTS)
    (hcount : s.dynamicLightCount ≤ MAX_DYNAMIC_LIGHTS)
    (h : end_frame_lights ext g s = some sL) :
    sL.lightCount = s.levelLightCounts g.levelIndex g.areaIndex + sL.dynamicLightCount ∧
    sL.lightCount ≤ MAX_LIGHTS ∧
    (∀ j, j < s.levelLightCounts g.levelIndex g.areaIndex →
      sL.lights[j]? = (s.levelLights g.levelIndex g.areaIndex)[j]?) ∧
    (∀ i d, i < sL.dynamicLightCount → sL.dynamicLights[i]? = some d →
      sL.lights[s.levelLightCounts g.levelIndex g.areaIndex + i]? = some d.newLight) ∧
    ∀ (ws : List α) (t : α),
      (∀ j, j < s.levelLightCounts g.levelIndex g.areaIndex →
        (gfx_rt64_rapi_draw_frame g
          (ws.foldl (fun s w => gfx_rt64_rapi_draw_frame g s w) (end_frame_process ext sL))
          t).lights[j]? = (s.levelLights g.levelIndex g.areaIndex)[j]?) ∧
      (∀ i d, i < sL.dynamicLightCount → sL.dynamicLights[i]? = some d →
        (gfx_rt64_rapi_draw_frame g
          (ws.foldl (fun s w => gfx_rt64_rapi_draw_frame g s w) (end_frame_process ext sL))
          t).lights[s.levelLightCounts g.levelIndex g.areaIndex + i]? =
          some
            { position :=
                { x := d.prevLight.position.x +
                    t * (d.newLight.position.x - d.prevLight.position.x)
                  y := d.prevLight.position.y +
                    t * (d.newLight.position.y - d.prevLight.position.y)
                  z := d.prevLight.position.z +
                    t * (d.newLight.position.z - d.prevLight.position.z) }
              diffuseColor := d.newLight.diffuseColor
              attenuationRadius := d.prevLight.attenuationRadius +
                t * (d.newLight.attenuationRadius - d.prevLight.attenuationRadius)
              pointRadius := d.prevLight.pointRadius +
                t * (d.newLight.pointRadius - d.prevLight.pointRadius)
              specularColor := d.newLight.specularColor
              shadowOffset := d.prevLight.shadowOffset +
                t * (d.newLight.shadowOffset - d.prevLight.shadowOffset)
              attenuationExponent := d.newLight.attenuationExponent
              flickerIntensity := d.newLight.flickerIntensity
              groupBits := d.newLight.groupBits }) ∧
      ∃ calls v,
        (gfx_rt64_rapi_draw_frame g
          (ws.foldl (fun s w => gfx_rt64_rapi_draw_frame g s w) (end_frame_process ext sL))
          t).lib.calls =
          calls ++
            [BackendCall.SetSceneLights
              (gfx_rt64_rapi_draw_frame g
                (ws.foldl (fun s w => gfx_rt64_rapi_draw_frame g s w)
                  (end_frame_process ext sL)) t).lights sL.lightCount,
              BackendCall.DrawDevice v] := by
  obtain ⟨m1, m2, _, m4, m5, m6⟩ := end_frame_lights_merged ext g s sL hlen hlevel hL hcount h
  refine ⟨m1, m2, m5, m6, ?_⟩
  intro ws t
  have h0 : LightsMerged (end_frame_process ext sL) g.levelIndex g.areaIndex
      (s.levelLightCounts g.levelIndex g.areaIndex) sL.dynamicLightCount sL.lightCount
      (s.levelLights g.levelIndex g.areaIndex) sL.dynamicLights := by
    refine ⟨?_, ?_, ?_, ?_, ?_, ?_⟩
    · simp only [end_frame_process]
      rw [m4]
    · simp only [end_frame_process]
    · simp only [end_frame_process]
    · simp only [end_frame_process]
    · intro j hj
      simp only [end_frame_process]
      exact m5 j hj
    · intro i d hi hd
      simp only [end_frame_process]
      exact ⟨_, m6 i d hi hd, rfl, rfl, rfl, rfl, rfl⟩
  have hws := draw_frames_merged g _ _ _ _ _ ws _ h0
  obtain ⟨⟨_, _, _, k4, k5, _⟩, k7⟩ := draw_frame_merged g _ t _ _ _ _ _ hws
  refine ⟨k5, ?_, ?_⟩
  · intro i d hi hd
    rw [k7 i d hi hd]
    rfl
  · obtain ⟨calls, v, hc⟩ := draw_frame_lights_call g
      (ws.foldl (fun s w => gfx_rt64_rapi_draw_frame g s w) (end_frame_process ext sL)) t
    rw [hws.2.2.2.1] at hc
    exact ⟨calls, v, hc⟩

end MergeClaim

/-- The state `litState` in level 1, area 0, which has 2 level lights: the light count
is 3, and in the sub-frame at weight 1/2 element 2 of the light list is the lantern at
(2, 2, 3) with attenuation radius 15. -/
theorem merged_light_list_witness :
    ∃ (sL : RT64State ℚ) (l : RT64_LIGHT ℚ),
      end_frame_lights ratExtern plainGame litState = some sL ∧ sL.lightCount = 3 ∧
      (gfx_rt64_rapi_draw_frame plainGame (end_frame_process ratExtern sL) (1 / 2)).lights[2]?
        = some l ∧
      l.position = { x := 2, y := 2, z := 3 } ∧ l.attenuationRadius = 15 ∧
      l.pointRadius = 2 ∧ l.groupBits = 1 := by
  have hev : (end_frame_lights ratExtern plainGame litState).map
      (fun sL => (sL.dynamicLights[0]?, sL.dynamicLightCount)) =
      some (some ⟨lanternLight, movedLantern⟩, 1) := by decide!
  obtain ⟨sL, hs, hpair⟩ := Option.map_eq_some'.mp hev
  have hd : sL.dynamicLights[0]? = some ⟨lanternLight, movedLantern⟩ :=
    congrArg Prod.fst hpair
  have hc : sL.dynamicLightCount = 1 := congrArg Prod.snd hpair
  obtain ⟨h1, _, _, _, h5⟩ := merged_light_list ratExtern plainGame litState sL
    (List.length_replicate _ _) (List.length_replicate _ _) (by decide) (by decide) hs
  obtain ⟨_, h7, _⟩ := h5 [] (1 / 2)
  have h8 := h7 0 ⟨lanternLight, movedLantern⟩ (by rw [hc]; decide) hd
  refine ⟨sL, _, hs, ?_, h8, ?_, ?_, ?_, ?_⟩
  · rw [h1, hc]
    rfl
  · simp only [lanternLight, movedLantern]
    norm_num
  · simp only [lanternLight, movedLantern]
    norm_num
  · simp only [lanternLight, movedLantern]
    norm_num
  · rfl

/-! ## The order of the phases of the tick commit -/

section PhaseOrderProofs
variable {α : Type} [LinearOrderedField α] [FloorRing α]

/-- The sub-frames leave every instance as it was but for its description. -/
theorem framesDisplayList_instance (ws : List α) :
    ∀ (dl : RecordedDisplayList α) (k : Nat) (i : RecordedInstance α),
      dl.instances[k]? = some i →
      ∃ i' : RecordedInstance α, (framesDisplayList ws dl).instances[k]? = some i' ∧
        i'.instance_ = i.instance_ ∧
        i'.prevTransform = i.prevTransform ∧ i'.newTransform = i.newTransform ∧
        i'.prevScissorRect = i.prevScissorRect ∧ i'.newScissorRect = i.newScissorRect ∧
        i'.prevViewportRect = i.prevViewportRect ∧
        i'.newViewportRect = i.newViewportRect := by
  induction ws with
  | nil =>
    intro dl k i h
    exact ⟨i, h, rfl, rfl, rfl, rfl, rfl, rfl, rfl⟩
  | cons t r ih =>
    intro dl k i hi
    have hstep : framesDisplayList (t :: r) dl = framesDisplayList r (frameDisplayList t dl) :=
      rfl
    rw [hstep]
    have : (frameDisplayList t dl).instances[k]? = some (frameInstance t i) := by
      show (List.map _ _)[k]? = _
      rw [List.getElem?_map, hi]; rfl
    obtain ⟨i', c1, c2, c3, c4, c5, c6, c7, c8⟩ := ih _ k _ this
    exact ⟨i', c1, c2, c3, c4, c5, c6, c7, c8⟩

theorem draw_frames_allocated (g : Game α) (ws : List α) :
    ∀ s : RT64State α, s.tempVertexBufferSize / 4 ≤ s.tempVertexBuffer.length →
      (ws.foldl (fun s w => gfx_rt64_rapi_draw_frame g s w) s).tempVertexBufferSize / 4 ≤
        (ws.foldl (fun s w => gfx_rt64_rapi_draw_frame g s w) s).tempVertexBuffer.length := by
  induction ws with
  | nil => intro s h; exact h
  | cons w r ih =>
    intro s h
    exact ih _ (draw_frame_allocated g s w h)

/-- The phases of `gfx_rt64_rapi_end_frame` in their order. -/
theorem end_frame_phases (ext : Extern α) (g : Game α) (s sL : RT64State α)
    (h : end_frame_lights ext g s = some sL) :
    gfx_rt64_rapi_end_frame ext g s =
      some (end_frame_cleanup (end_frame_pick g
        ((frameWeights sL.targetFPS).foldl (fun s t => gfx_rt64_rapi_draw_frame g s t)
          (end_frame_process ext sL)))) := by
  unfold gfx_rt64_rapi_end_frame
  rw [h]
  simp only
  rw [end_frame_draw_frames_eq]
  have : (end_frame_process ext sL).targetFPS = sL.targetFPS := by
    simp only [end_frame_process]
  rw [this]

end PhaseOrderProofs

section PhaseOrderClaim
variable {α : Type} [LinearOrderedField α] [FloorRing α]

/-- Claim C21, amended.  The first block of `gfx_rt64_rapi_end_frame` gives the state
`sL`; the display list of `uid` has, within this tick's count, the instance `i` and the
staged mesh slot `m` at position `k`.  Then `gfx_rt64_rapi_end_frame` is the processing
loop (rotation guard, delta computation), then the sub-frames at the weights of the tick,
then the picking block and the cleanup.  In every
sub-frame (after any earlier ones, at weight `t`) the description of the instance has the
transform interpolated between the previous transform after the rotation guard and the new
transform, which is the new transform when the guard has fired; and the `SetMesh` call of
the slot has at float `f` the interpolation between float `f` of the previous buffer after
the delta computation and of the new buffer, which is the new value when the delta
computation has overwritten the previous one with it. -/
theorem sub_frames_follow_guards (ext : Extern α) (g : Game α) (s sL : RT64State α)
    (uid k : Nat) (dl : RecordedDisplayList α) (i : RecordedInstance α) (m : RecordedMesh α)
    (hl : end_frame_lights ext g s = some sL)
    (hdl : mapFind s.displayLists uid = some dl) (hk : k < dl.newCount)
    (hi : dl.instances[k]? = some i) (hm : dl.meshes[k]? = some m)
    (hv : m.newVertexBufferValid = true)
    (hrange : m.vertexCount * m.vertexStride < UINT_MOD)
    (halloc : s.tempVertexBufferSize / 4 ≤ s.tempVertexBuffer.length) :
    gfx_rt64_rapi_end_frame ext g s =
      some (end_frame_cleanup (end_frame_pick g
        ((frameWeights sL.targetFPS).foldl (fun s t => gfx_rt64_rapi_draw_frame g s t)
          (end_frame_process ext sL)))) ∧
    ∀ (ws : List α) (t : α),
      (∃ dl' i',
        mapFind (gfx_rt64_rapi_draw_frame g
          (ws.foldl (fun s w => gfx_rt64_rapi_draw_frame g s w) (end_frame_process ext sL))
          t).displayLists uid = some dl' ∧
        dl'.instances[k]? = some i' ∧
        i'.desc.transform =
          gfx_rt64_lerp_matrix (rotationGuard ext i).prevTransform i.newTransform t ∧
        ((rotationGuard ext i).prevTransform = i.newTransform →
          i'.desc.transform = i.newTransform)) ∧
      ∃ extra temp,
        (gfx_rt64_rapi_draw_frame g
          (ws.foldl (fun s w => gfx_rt64_rapi_draw_frame g s w) (end_frame_process ext sL))
          t).lib.calls =
          (ws.foldl (fun s w => gfx_rt64_rapi_draw_frame g s w)
            (end_frame_process ext sL)).lib.calls ++ extra ∧
        BackendCall.SetMesh m.mesh temp m.vertexCount m.vertexStride m.indexCount ∈ extra ∧
        (∀ f, f < m.vertexCount * m.vertexStride / 4 →
          temp[f]? = some (gfx_rt64_lerp_float
            (((computeDelta m).prevVertexBuffer.getD []).getD f 0)
            ((m.newVertexBuffer.getD []).getD f 0) t)) ∧
        ∀ f, f < m.vertexCount * m.vertexStride / 4 →
          ((computeDelta m).prevVertexBuffer.getD []).getD f 0 =
            (m.newVertexBuffer.getD []).getD f 0 →
          temp[f]? = some ((m.newVertexBuffer.getD []).getD f 0) := by
  obtain ⟨e1, _, _⟩ := end_frame_lights_frame ext g s sL hl
  obtain ⟨t1, t2⟩ := end_frame_lights_temp ext g s sL hl
  refine ⟨end_frame_phases ext g s sL hl, ?_⟩
  intro ws t
  -- the display list of `uid` before the sub-frame at weight `t`
  have hfindP : mapFind (ws.foldl (fun s w => gfx_rt64_rapi_draw_frame g s w)
      (end_frame_process ext sL)).displayLists uid =
      some (framesDisplayList ws (processDisplayList ext dl)) := by
    rw [draw_frames_displayLists, mapFind_map_values, (end_frame_process_eq ext sL).1,
      mapFind_map_values, e1, hdl]
    rfl
  obtain ⟨p1, p2, _, _⟩ := processDisplayList_slot ext dl k hk
  rw [hi] at p1
  rw [hm] at p2
  obtain ⟨f1, _, _, _, _, _⟩ := framesDisplayList_fields ws (processDisplayList ext dl)
  obtain ⟨i0, g1, _, g3, g4, _, _, _, _⟩ :=
    framesDisplayList_instance ws (processDisplayList ext dl) k (rotationGuard ext i) p1
  obtain ⟨c1, c2, c3, c4, c5, c6, c7, c8, _, _⟩ := computeDelta_fields m
  constructor
  · have hlerp : (frameInstance t i0).desc.transform =
        gfx_rt64_lerp_matrix (rotationGuard ext i).prevTransform i.newTransform t := by
      show gfx_rt64_lerp_matrix i0.prevTransform i0.newTransform t = _
      rw [g3, g4, (rotationGuard_fields ext i).2.2.1]
    refine ⟨frameDisplayList t (framesDisplayList ws (processDisplayList ext dl)),
      frameInstance t i0, ?_, ?_, hlerp, ?_⟩
    · rw [draw_frame_displayLists, mapFind_map_values, hfindP]
      rfl
    · show (List.map _ _)[k]? = _
      rw [List.getElem?_map, g1]
      rfl
    · intro hfire
      rw [hlerp, hfire, lerp_matrix_same]
  · have hmem : computeDelta m ∈ (framesDisplayList ws (processDisplayList ext dl)).meshes := by
      rw [f1]
      exact List.mem_iff_getElem?.mpr ⟨k, p2⟩
    have hallocP := draw_frames_allocated g ws (end_frame_process ext sL) (by
      simp only [end_frame_process]
      rw [t1, t2]
      exact halloc)
    obtain ⟨extra, temp, x1, x2, x3⟩ := draw_frame_sets_mesh g _ t uid _ (computeDelta m)
      (mapFind_mem _ _ _ hfindP) hmem (by rw [c4]; exact hv) (by rw [c6, c7]; exact hrange)
      hallocP
    rw [c1, c6, c7, c8] at x2
    rw [c6, c7, c5] at x3
    refine ⟨extra, temp, x1, x2, x3, ?_⟩
    intro f hf heq
    rw [x3 f hf, heq, lerp_float_same]

end PhaseOrderClaim

/-- C21 (counterexample): at 60 frames per second a triangle is submitted under identifier
5 with `triangleBuffer`, the tick is committed, and the triangle is submitted with
`movedBuffer`.  When the submissions of the second tick have finished, the slot is staged
with the previous buffer `triangleBuffer` (0 at float 0) and the new buffer `movedBuffer`
(100 at float 0), so the interpolation from these at weight 1/2 would be 50; but both
sub-frames of the tick hand 100 at float 0 to the library, because the delta computation
has overwritten the previous value before the sub-frames. -/
theorem guard_changes_sub_frame :
    ((submit ratExtern fastState triangleSubmission).bind fun s1 =>
      (gfx_rt64_rapi_end_frame ratExtern plainGame s1).bind fun s2 =>
        (submit ratExtern s2 movedSubmission).bind fun s3 =>
          (meshSlot s3 5 0).bind fun m =>
            (gfx_rt64_rapi_end_frame ratExtern plainGame s3).map fun s4 =>
              ([m.newVertexBufferValid, m.prevVertexBuffer == some triangleBuffer,
                m.newVertexBuffer == some movedBuffer],
                setMeshHeads (s4.lib.calls.drop s3.lib.calls.length)))
      = some ([true, true, true], [some 100, some 100]) ∧
    gfx_rt64_lerp_float (0 : ℚ) 100 (1 / 2) = 50 := by
  constructor
  · decide!
  · norm_num [gfx_rt64_lerp_float]

/-- The state `teleportState`: float 0 of the slot moves from 0 to 100, the delta
computation overwrites the previous value, and the sub-frame at weight 1/2 hands 100 at
float 0 to the library. -/
theorem sub_frames_follow_guards_witness :
    ∃ (sL : RT64State ℚ) (extra : List (BackendCall ℚ)) (temp : List ℚ),
      end_frame_lights ratExtern plainGame teleportState = some sL ∧
      (gfx_rt64_rapi_draw_frame plainGame (end_frame_process ratExtern sL) (1 / 2)).lib.calls =
        (end_frame_process ratExtern sL).lib.calls ++ extra ∧
      BackendCall.SetMesh (some 9) temp 1 36 3 ∈ extra ∧ temp[0]? = some 100 := by
  have hsome : (end_frame_lights ratExtern plainGame teleportState).isSome = true := by
    decide!
  obtain ⟨sL, hs⟩ := Option.isSome_iff_exists.mp hsome
  obtain ⟨_, h3⟩ := sub_frames_follow_guards ratExtern plainGame teleportState sL 5 0
    teleportDisplayList flippedInstance teleportMesh hs rfl (by decide) rfl rfl rfl
    (by decide) (by decide)
  obtain ⟨_, extra, temp, a1, a2, _, a4⟩ := h3 [] (1 / 2)
  exact ⟨sL, extra, temp, hs, a1, a2, a4 0 (by decide) (by decide!)⟩

/-! ## The slot counts -/

section KeyLemmas
variable {κ ν : Type} [DecidableEq κ]

theorem mem_mapInsert (l : List (κ × ν)) (k : κ) (v : ν) (e : κ × ν)
    (he : e ∈ mapInsert l k v) : e = (k, v) ∨ e ∈ l := by
  induction l with
  | nil =>
    rw [mapInsert_nil, List.mem_singleton] at he
    exact Or.inl he
  | cons p t ih =>
    obtain ⟨k', v'⟩ := p
    rw [mapInsert_cons] at he
    by_cases h : k' = k
    · rw [if_pos h] at he
      rcases List.mem_cons.mp he with rfl | he
      · exact Or.inl rfl
      · exact Or.inr (List.mem_cons_of_mem _ he)
    · rw [if_neg h] at he
      rcases List.mem_cons.mp he with rfl | he
      · exact Or.inr (List.mem_cons_self _ _)
      · rcases ih he with h1 | h1
        · exact Or.inl h1
        · exact Or.inr (List.mem_cons_of_mem _ h1)

theorem mapInsert_keys_nodup (l : List (κ × ν)) (k : κ) (v : ν)
    (h : (l.map Prod.fst).Nodup) : ((mapInsert l k v).map Prod.fst).Nodup := by
  induction l with
  | nil =>
    rw [mapInsert_nil]
    exact List.nodup_singleton _
  | cons p t ih =>
    obtain ⟨k', v'⟩ := p
    rw [List.map_cons, List.nodup_cons] at h
    rw [mapInsert_cons]
    by_cases hk : k' = k
    · rw [if_pos hk, List.map_cons, List.nodup_cons]
      subst hk
      exact h
    · rw [if_neg hk, List.map_cons, List.nodup_cons]
      refine ⟨?_, ih h.2⟩
      intro hmem
      obtain ⟨e, he, hfst⟩ := List.mem_map.mp hmem
      rcases mem_mapInsert t k v e he with h1 | h1
      · rw [h1] at hfst
        exact hk hfst.symm
      · exact h.1 (List.mem_map.mpr ⟨e, h1, hfst⟩)

theorem mapFind_of_mem (l : List (κ × ν)) (k : κ) (v : ν) (h : (l.map Prod.fst).Nodup)
    (hm : (k, v) ∈ l) : mapFind l k = some v := by
  induction l with
  | nil => cases hm
  | cons p t ih =>
    obtain ⟨k', v'⟩ := p
    rw [List.map_cons, List.nodup_cons] at h
    rw [mapFind_cons]
    rcases List.mem_cons.mp hm with heq | hm'
    · cases heq
      rw [if_pos rfl]
    · have hne : k' ≠ k := by
        intro hk
        subst hk
        exact h.1 (List.mem_map.mpr ⟨(k', v), hm', rfl⟩)
      rw [if_neg hne]
      exact ih h.2 hm'

end KeyLemmas

theorem filterMap_keys_nodup {κ ν : Type} (f : κ × ν → Option (κ × ν))
    (hf : ∀ e e', f e = some e' → e'.1 = e.1) (l : List (κ × ν))
    (h : (l.map Prod.fst).Nodup) : ((l.filterMap f).map Prod.fst).Nodup := by
  apply List.Nodup.sublist _ h
  induction l with
  | nil => exact List.Sublist.refl _
  | cons p t ih =>
    rw [List.map_cons, List.nodup_cons] at h
    rw [List.filterMap_cons]
    cases hp : f p with
    | none =>
      simp only
      exact List.Sublist.cons _ (ih h.2)
    | some q =>
      simp only
      rw [List.map_cons, List.map_cons, hf p q hp]
      exact List.Sublist.cons₂ _ (ih h.2)

theorem drawCount_cons {α : Type} (uid : Nat) (op : TickOp α) (rest : List (TickOp α)) :
    drawCount uid (op :: rest) =
      (if op.isDrawUnder uid then 1 else 0) + drawCount uid rest := by
  unfold drawCount
  rw [List.filter_cons]
  split
  · rw [List.length_cons]
    omega
  · omega

section SlotCountProofs
variable {α : Type} [LinearOrderedField α]

theorem positionOf_insert_self (s s' : RT64State α) (u : Nat) (dl : RecordedDisplayList α)
    (h : s'.displayLists = mapInsert s.displayLists u dl) : positionOf s' u = dl.newCount := by
  unfold positionOf mapGetOrCreate
  rw [h, mapFind_mapInsert_self]
  rfl

theorem positionOf_insert_ne (s s' : RT64State α) (u uid : Nat) (dl : RecordedDisplayList α)
    (h : s'.displayLists = mapInsert s.displayLists u dl) (hne : u ≠ uid) :
    positionOf s' uid = positionOf s uid := by
  unfold positionOf mapGetOrCreate
  rw [h, mapFind_mapInsert_ne _ _ _ _ hne]

theorem getOrCreate_fits (s : RT64State α) (u : Nat) (hfit : SlotsFit s) :
    (mapGetOrCreate s.displayLists u RecordedDisplayList.zero).newCount ≤
      (mapGetOrCreate s.displayLists u RecordedDisplayList.zero).instances.length ∧
    (mapGetOrCreate s.displayLists u RecordedDisplayList.zero).newCount ≤
      (mapGetOrCreate s.displayLists u RecordedDisplayList.zero).meshes.length := by
  unfold mapGetOrCreate
  cases hf : mapFind s.displayLists u with
  | none => exact ⟨Nat.le_refl _, Nat.le_refl _⟩
  | some dl => exact hfit.2 (u, dl) (mapFind_mem _ _ _ hf)

end SlotCountProofs

section SlotCountProofs
variable {α : Type} [LinearOrderedField α] [FloorRing α]

/-- What a draw submission does to the display list map: the entry of its identifier
is replaced by one whose counter is one higher and whose vectors reach the counter. -/
theorem submit_displayLists (ext : Extern α) (s s' : RT64State α) (d : Submission α)
    (h : submit ext s d = some s') :
    ∃ dl', s'.displayLists = mapInsert s.displayLists d.uid dl' ∧
      dl'.newCount = positionOf s d.uid + 1 ∧ dl'.newCount ≤ dl'.instances.length ∧
      dl'.newCount ≤ dl'.meshes.length := by
  obtain ⟨l, mesh, dl2, lib2, desc, hdl, _, _, _, _, _, hpm, _, _, hdls⟩ :=
    draw_inv ext s s' _ _ _ _ _ _ h
  obtain ⟨f1, _, f3, _⟩ := drawDisplayList_facts s d.uid
  obtain ⟨sp, hsp⟩ := process_mesh_some_program ext _ _ _ _ _ _ _ _ _ hpm
  rw [hsp] at hpm
  obtain ⟨g1, g2, _, _, _, _, _, new, g8, _⟩ :=
    process_mesh_frame ext sp _ _ _ _ _ _ _ _ _ _ hpm
  have hnc : dl2.newCount = positionOf s d.uid := by
    rw [g2, hdl]
    exact f1
  have hinst : dl2.newCount < dl2.instances.length := by
    rw [g1, g2, hdl]
    exact f3
  have hmesh : dl2.newCount < dl2.meshes.length := by
    have := (List.getElem?_eq_some.mp g8).1
    rw [g2]
    exact this
  refine ⟨_, hdls, ?_, ?_, ?_⟩
  · show dl2.newCount + 1 = _
    rw [hnc]
  · show dl2.newCount + 1 ≤ (dl2.instances.set _ _).length
    rw [List.length_set]
    exact hinst
  · exact hmesh

/-- What a graph node light build does to the display list map. -/
theorem build_graph_node_mod_insert (ext : Extern α) (s : RT64State α) (graphNode : Nat)
    (modelview_matrix : RT64_MATRIX4 α) (uid : Nat) (r : Option (RecordedMod α) × RT64State α)
    (h : gfx_rt64_rapi_build_graph_node_mod ext s graphNode modelview_matrix uid = some r) :
    r.2.displayLists = s.displayLists ∨
    ∃ dl', r.2.displayLists = mapInsert s.displayLists uid dl' ∧
      dl'.newCount = (mapGetOrCreate s.displayLists uid RecordedDisplayList.zero).newCount ∧
      dl'.instances = (mapGetOrCreate s.displayLists uid RecordedDisplayList.zero).instances ∧
      dl'.meshes = (mapGetOrCreate s.displayLists uid RecordedDisplayList.zero).meshes := by
  unfold gfx_rt64_rapi_build_graph_node_mod at h
  split at h
  · split at h
    · simp only at h
      split at h
      · rename_i s' hs'
        cases h
        obtain ⟨hd, _⟩ := add_light_frame ext _ s' _ _ _ hs'
        rw [hd]
        split
        · exact Or.inr ⟨_, rfl, rfl, rfl, rfl⟩
        · exact Or.inl rfl
      · cases h
    · cases h
      exact Or.inl rfl
  · cases h
    exact Or.inl rfl

theorem runOp_slots (ext : Extern α) (s s' : RT64State α) (op : TickOp α)
    (h : runOp ext s op = some s') (hfit : SlotsFit s) :
    SlotsFit s' ∧
    ∀ uid, positionOf s' uid = positionOf s uid + (if op.isDrawUnder uid then 1 else 0) := by
  have hins : ∀ (u : Nat) (dl' : RecordedDisplayList α),
      s'.displayLists = mapInsert s.displayLists u dl' →
      dl'.newCount ≤ dl'.instances.length → dl'.newCount ≤ dl'.meshes.length → SlotsFit s' := by
    intro u dl' hd h1 h2
    refine ⟨?_, ?_⟩
    · rw [hd]
      exact mapInsert_keys_nodup _ _ _ hfit.1
    · intro e he
      rw [hd] at he
      rcases mem_mapInsert _ _ _ _ he with heq | hmem
      · rw [heq]
        exact ⟨h1, h2⟩
      · exact hfit.2 e hmem
  have hsame : s'.displayLists = s.displayLists → SlotsFit s' ∧
      ∀ uid, positionOf s' uid = positionOf s uid := by
    intro hd
    refine ⟨?_, ?_⟩
    · unfold SlotsFit
      rw [hd]
      exact hfit
    · intro uid
      unfold positionOf
      rw [hd]
  cases op with
  | draw d =>
    obtain ⟨dl', a1, a2, a3, a4⟩ := submit_displayLists ext s s' d h
    refine ⟨hins _ _ a1 a3 a4, ?_⟩
    intro uid
    by_cases hu : d.uid = uid
    · subst hu
      rw [positionOf_insert_self s s' _ _ a1, a2]
      simp [TickOp.isDrawUnder]
    · rw [positionOf_insert_ne s s' _ _ _ a1 hu]
      simp [TickOp.isDrawUnder, hu]
  | buildGraphNodeMod graphNode mv u =>
    simp only [runOp, Option.map_eq_some'] at h
    obtain ⟨r, hr, rfl⟩ := h
    rcases build_graph_node_mod_insert ext s graphNode mv u r hr with hd | ⟨dl', a1, a2, a3, a4⟩
    · obtain ⟨b1, b2⟩ := hsame hd
      exact ⟨b1, fun uid => by rw [b2 uid]; simp [TickOp.isDrawUnder]⟩
    · obtain ⟨c1, c2⟩ := getOrCreate_fits s u hfit
      refine ⟨hins _ _ a1 (by rw [a2, a3]; exact c1) (by rw [a2, a4]; exact c2), ?_⟩
      intro uid
      by_cases hu : u = uid
      · subst hu
        rw [positionOf_insert_self s r.2 _ _ a1, a2]
        simp [TickOp.isDrawUnder, positionOf]
      · rw [positionOf_insert_ne s r.2 _ _ _ a1 hu]
        simp [TickOp.isDrawUnder]
  | setGraphNodeMod m =>
    simp only [runOp, Option.some.injEq] at h
    subst h
    obtain ⟨b1, b2⟩ := hsame rfl
    exact ⟨b1, fun uid => by rw [b2 uid]; simp [TickOp.isDrawUnder]⟩
  | registerLayoutGraphNode geoLayout graphNode =>
    simp only [runOp, Option.some.injEq] at h
    subst h
    obtain ⟨b1, b2⟩ := hsame (register_displayLists ext s geoLayout graphNode)
    exact ⟨b1, fun uid => by rw [b2 uid]; simp [TickOp.isDrawUnder]⟩

theorem runOps_slots (ext : Extern α) (ops : List (TickOp α)) :
    ∀ s s' : RT64State α, runOps ext s ops = some s' → SlotsFit s →
      SlotsFit s' ∧ ∀ uid, positionOf s' uid = positionOf s uid + drawCount uid ops := by
  induction ops with
  | nil =>
    intro s s' h hfit
    cases h
    exact ⟨hfit, fun uid => rfl⟩
  | cons op rest ih =>
    intro s s' h hfit
    unfold runOps at h
    split at h
    · rename_i s1 h1
      obtain ⟨a1, a2⟩ := runOp_slots ext s s1 op h1 hfit
      obtain ⟨b1, b2⟩ := ih s1 s' h a1
      refine ⟨b1, fun uid => ?_⟩
      rw [b2 uid, a2 uid, drawCount_cons]
      omega
    · cases h

end SlotCountProofs

section SlotCountCommit
variable {α : Type} [LinearOrderedField α] [FloorRing α]

/-- The commit trims the slot vectors of every display list that stays to the counter
of the tick and resets the counter. -/
theorem end_frame_slots (ext : Extern α) (g : Game α) (s1 s2 : RT64State α)
    (h : gfx_rt64_rapi_end_frame ext g s1 = some s2) (hfit : SlotsFit s1) :
    SlotsFit s2 ∧
    ∀ e ∈ s2.displayLists, e.2.instances.length = positionOf s1 e.1 ∧
      e.2.meshes.length = positionOf s1 e.1 ∧ e.2.newCount = 0 := by
  have hd := end_frame_displayLists ext g s1 s2 h
  have hentry : ∀ e ∈ s2.displayLists, e.2.instances.length = positionOf s1 e.1 ∧
      e.2.meshes.length = positionOf s1 e.1 ∧ e.2.newCount = 0 := by
    intro e he
    rw [hd] at he
    obtain ⟨a, ha, hc⟩ := List.mem_filterMap.mp he
    obtain ⟨e1, he1, rfl⟩ := List.mem_map.mp ha
    rw [end_frame_cleanup_display_list_eq] at hc
    split at hc
    · cases hc
      obtain ⟨k1, k2⟩ := hfit.2 e1 he1
      obtain ⟨f1, _, _, _, f5, _⟩ :=
        framesDisplayList_fields (frameWeights s1.targetFPS) (processDisplayList ext e1.2)
      have hpos : positionOf s1 e1.1 = e1.2.newCount := by
        unfold positionOf
        rw [mapGetOrCreate_of_find _ _ _ _ (mapFind_of_mem _ _ _ hfit.1 he1)]
      refine ⟨?_, ?_, rfl⟩
      · show (List.map commitInstance _).length = _
        rw [List.length_map, f5, hpos]
        show (List.map _ (List.take _ _)).length = _
        rw [List.length_map, List.length_take]
        omega
      · show (List.map commitMesh _).length = _
        rw [List.length_map, f1, hpos]
        show (List.map _ (List.take _ _)).length = _
        rw [List.length_map, List.length_take]
        omega
    · cases hc
  refine ⟨⟨?_, ?_⟩, hentry⟩
  · rw [hd]
    apply filterMap_keys_nodup
    · intro e e' he
      rw [end_frame_cleanup_display_list_eq] at he
      split at he
      · cases he
        rfl
      · cases he
    · rw [List.map_map]
      exact hfit.1
  · intro e he
    obtain ⟨_, _, a3⟩ := hentry e he
    rw [a3]
    exact ⟨Nat.zero_le _, Nat.zero_le _⟩

end SlotCountCommit

section SlotCountClaim
variable {α : Type} [LinearOrderedField α] [FloorRing α]

/-- Claim C22.  At the start of a tick the display list map has one entry per identifier
and every entry has the counter 0 (as after a commit, or in the empty map), and the
operations of the tick (draw submissions, graph node light builds, selections and
registrations of graph node mods) return.  Then, for every identifier, with `k` the
number of draw submissions under it so far: the counter of its display list is `k`, both
slot vectors have length at least `k`, and the entry exists when `k > 0`.  After
`gfx_rt64_rapi_end_frame`, every entry that is left in the map has exactly as many
instances and as many meshes as draw submissions were made under its identifier in the
tick, and the counter 0; and the map has again one entry per identifier. -/
theorem slot_count_invariant (ext : Extern α) (s0 s1 : RT64State α)
    (ops : List (TickOp α)) (uid : Nat)
    (hkeys : (s0.displayLists.map Prod.fst).Nodup)
    (hb : ∀ e ∈ s0.displayLists, e.2.newCount = 0)
    (hops : runOps ext s0 ops = some s1) :
    positionOf s1 uid = drawCount uid ops ∧
    (∀ dl, mapFind s1.displayLists uid = some dl →
      dl.newCount = drawCount uid ops ∧ drawCount uid ops ≤ dl.instances.length ∧
      drawCount uid ops ≤ dl.meshes.length) ∧
    (0 < drawCount uid ops → ∃ dl, mapFind s1.displayLists uid = some dl) ∧
    ∀ (g : Game α) (s2 : RT64State α), gfx_rt64_rapi_end_frame ext g s1 = some s2 →
      (s2.displayLists.map Prod.fst).Nodup ∧
      ∀ e ∈ s2.displayLists, e.2.instances.length = drawCount e.1 ops ∧
        e.2.meshes.length = drawCount e.1 ops ∧ e.2.newCount = 0 := by
  have hfit0 : SlotsFit s0 := by
    refine ⟨hkeys, fun e he => ?_⟩
    rw [hb e he]
    exact ⟨Nat.zero_le _, Nat.zero_le _⟩
  have hpos0 : ∀ u, positionOf s0 u = 0 := by
    intro u
    unfold positionOf mapGetOrCreate
    cases hf : mapFind s0.displayLists u with
    | none => rfl
    | some dl => exact hb (u, dl) (mapFind_mem _ _ _ hf)
  obtain ⟨hfit1, hpos1⟩ := runOps_slots ext ops s0 s1 hops hfit0
  have hpos : ∀ u, positionOf s1 u = drawCount u ops := by
    intro u
    rw [hpos1 u, hpos0 u, Nat.zero_add]
  refine ⟨hpos uid, ?_, ?_, ?_⟩
  · intro dl hdl
    have hnc : dl.newCount = drawCount uid ops := by
      rw [← hpos uid]
      unfold positionOf
      rw [mapGetOrCreate_of_find _ _ _ _ hdl]
    obtain ⟨k1, k2⟩ := hfit1.2 (uid, dl) (mapFind_mem _ _ _ hdl)
    exact ⟨hnc, by rw [← hnc]; exact k1, by rw [← hnc]; exact k2⟩
  · intro hk
    cases hf : mapFind s1.displayLists uid with
    | some dl => exact ⟨dl, rfl⟩
    | none =>
      have := hpos uid
      unfold positionOf mapGetOrCreate at this
      rw [hf] at this
      have h0 : drawCount uid ops = 0 := this.symm
      omega
  · intro g s2 hend
    obtain ⟨hfit2, hentry⟩ := end_frame_slots ext g s1 s2 hend hfit1
    refine ⟨hfit2.1, fun e he => ?_⟩
    obtain ⟨a1, a2, a3⟩ := hentry e he
    rw [← hpos e.1]
    exact ⟨a1, a2, a3⟩

end SlotCountClaim

/-- Two draw submissions under identifier 5 in `loadedState`: the counter is 2, and after
the commit the entry of 5 has 2 instances, 2 meshes and the counter 0. -/
theorem slot_count_invariant_witness :
    ∃ (s1 s2 : RT64State ℚ) (dl : RecordedDisplayList ℚ),
      runOps ratExtern loadedState
        [TickOp.draw triangleSubmission, TickOp.draw movedSubmission] = some s1 ∧
      positionOf s1 5 = 2 ∧
      gfx_rt64_rapi_end_frame ratExtern plainGame s1 = some s2 ∧
      mapFind s2.displayLists 5 = some dl ∧
      dl.instances.length = 2 ∧ dl.meshes.length = 2 ∧ dl.newCount = 0 := by
  have hsome : ((runOps ratExtern loadedState
      [TickOp.draw triangleSubmission, TickOp.draw movedSubmission]).bind fun s1 =>
      (gfx_rt64_rapi_end_frame ratExtern plainGame s1).bind fun s2 =>
        mapFind s2.displayLists 5).isSome = true := by decide!
  obtain ⟨dl, hdl⟩ := Option.isSome_iff_exists.mp hsome
  obtain ⟨s1, hs1, hdl⟩ := Option.bind_eq_some.mp hdl
  obtain ⟨s2, hs2, hdl⟩ := Option.bind_eq_some.mp hdl
  obtain ⟨h1, _, _, h4⟩ := slot_count_invariant ratExtern loadedState s1
    [TickOp.draw triangleSubmission, TickOp.draw movedSubmission] 5 List.nodup_nil
    (fun e he => by cases he) hs1
  obtain ⟨_, h5⟩ := h4 plainGame s2 hs2
  obtain ⟨a1, a2, a3⟩ := h5 (5, dl) (mapFind_mem _ _ _ hdl)
  exact ⟨s1, s2, dl, hs1, h1, hs2, hdl, a1, a2, a3⟩

/-! ## The commit swap -/

section SwapProofs
variable {α : Type} [LinearOrderedField α] [FloorRing α]

/-- The cleanup of `gfx_rt64_rapi_end_frame` for the display list of `uid` that was
touched in the tick.  A mesh slot within this tick's count that is staged gets the staged
buffer and the staged hash as previous buffer and hash, keeps the old previous buffer (as
the delta computation left it) and the old hash on the staged side, and is no longer
staged; a slot that is not staged stays as it is.  An instance within the count gets its
new transform and rectangles as previous ones, and valid previous state. -/
theorem commit_swaps_buffers (ext : Extern α) (g : Game α) (s s' : RT64State α) (uid : Nat)
    (dl : RecordedDisplayList α) (h : gfx_rt64_rapi_end_frame ext g s = some s')
    (hdl : mapFind s.displayLists uid = some dl) (hv : dl.newValid = true) :
    ∃ dl', mapFind s'.displayLists uid = some dl' ∧
      (∀ k m, k < dl.newCount → dl.meshes[k]? = some m →
        ∃ m', dl'.meshes[k]? = some m' ∧ m'.newVertexBufferValid = false ∧
          (m.newVertexBufferValid = true →
            m'.prevVertexBuffer = m.newVertexBuffer ∧
            m'.prevVertexBufferHash = m.newVertexBufferHash ∧
            m'.newVertexBuffer = (computeDelta m).prevVertexBuffer ∧
            m'.newVertexBufferHash = m.prevVertexBufferHash) ∧
          (m.newVertexBufferValid = false → m' = m)) ∧
      ∀ k i, k < dl.newCount → dl.instances[k]? = some i →
        ∃ i', dl'.instances[k]? = some i' ∧
          i'.prevTransform = i.newTransform ∧ i'.newTransform = i.newTransform ∧
          i'.prevScissorRect = i.newScissorRect ∧ i'.newScissorRect = i.newScissorRect ∧
          i'.prevViewportRect = i.newViewportRect ∧
          i'.newViewportRect = i.newViewportRect ∧ i'.prevValid = true := by
  obtain ⟨f1, f2, _, _, _, _⟩ :=
    framesDisplayList_fields (frameWeights s.targetFPS) (processDisplayList ext dl)
  have hfind : mapFind s'.displayLists uid =
      some (commitDisplayList
        (framesDisplayList (frameWeights s.targetFPS) (processDisplayList ext dl))) := by
    rw [end_frame_displayLists ext g s s' h]
    apply mapFind_cleanup_kept
    · rw [mapFind_map_values (fun d =>
        framesDisplayList (frameWeights s.targetFPS) (processDisplayList ext d)), hdl]
      rfl
    · rw [f2]
      exact hv
  refine ⟨_, hfind, ?_, ?_⟩
  · intro k m hk hm
    obtain ⟨_, p2, _, _⟩ := processDisplayList_slot ext dl k hk
    rw [hm] at p2
    obtain ⟨c1, c2, c3, c4, c5, _⟩ := computeDelta_fields m
    refine ⟨commitMesh (computeDelta m), ?_, (commitMesh_fields _).2.2, ?_, ?_⟩
    · show (List.map commitMesh _)[k]? = _
      rw [List.getElem?_map, f1, p2]
      rfl
    · intro hval
      have hcv : (computeDelta m).newVertexBufferValid = true := by rw [c4]; exact hval
      have hcm : commitMesh (computeDelta m) =
          { computeDelta m with
            prevVertexBuffer := (computeDelta m).newVertexBuffer
            prevVertexBufferHash := (computeDelta m).newVertexBufferHash
            newVertexBuffer := (computeDelta m).prevVertexBuffer
            newVertexBufferHash := (computeDelta m).prevVertexBufferHash
            newVertexBufferValid := false } := by
        unfold commitMesh
        rw [hcv]
        rfl
      rw [hcm]
      exact ⟨c5, c3, rfl, c2⟩
    · intro hval
      have hcd : computeDelta m = m := by
        unfold computeDelta
        simp [hval]
      rw [hcd]
      unfold commitMesh
      simp [hval]
  · intro k i hk hi
    obtain ⟨p1, _, _, _⟩ := processDisplayList_slot ext dl k hk
    rw [hi] at p1
    obtain ⟨i0, g1, _, _, g4, _, g6, _, g8⟩ :=
      framesDisplayList_instance (frameWeights s.targetFPS) (processDisplayList ext dl) k
        (rotationGuard ext i) p1
    obtain ⟨_, _, r3, _, _, _, r7, _, r9⟩ := rotationGuard_fields ext i
    refine ⟨commitInstance i0, ?_, ?_, ?_, ?_, ?_, ?_, ?_, rfl⟩
    · show (List.map commitInstance _)[k]? = _
      rw [List.getElem?_map, g1]
      rfl
    · show i0.newTransform = _
      rw [g4, r3]
    · show i0.newTransform = _
      rw [g4, r3]
    · show i0.newScissorRect = _
      rw [g6, r7]
    · show i0.newScissorRect = _
      rw [g6, r7]
    · show i0.newViewportRect = _
      rw [g8, r9]
    · show i0.newViewportRect = _
      rw [g8, r9]

end SwapProofs

/-- C23 (code bug): a triangle is submitted under identifier 5 with `triangleBuffer`, then
with `movedBuffer`, then with `triangleBuffer` again, and each tick is committed.  The
third submission stages the slot with the hash of `triangleBuffer` over a buffer that
holds `movedBuffer`, and the commit swaps this buffer and this hash into the previous
position.  At the tick boundary after the third commit the slot is not staged, its
previous buffer is `movedBuffer`, and its previous hash is the digest of
`triangleBuffer`, which is not the digest of its previous buffer. -/
theorem commit_leaves_wrong_hash :
    ((submit ratExtern loadedState triangleSubmission).bind fun s1 =>
      (gfx_rt64_rapi_end_frame ratExtern plainGame s1).bind fun s2 =>
        (submit ratExtern s2 movedSubmission).bind fun s3 =>
          (gfx_rt64_rapi_end_frame ratExtern plainGame s3).bind fun s4 =>
            (submit ratExtern s4 triangleSubmission).bind fun s5 =>
              (meshSlot s5 5 0).bind fun staged =>
                (gfx_rt64_rapi_end_frame ratExtern plainGame s5).bind fun s6 =>
                  (meshSlot s6 5 0).map fun slot =>
                    ([staged.newVertexBufferValid,
                      staged.newVertexBufferHash == ratDigest triangleBuffer,
                      staged.newVertexBuffer == some movedBuffer,
                      slot.newVertexBufferValid == false,
                      slot.prevVertexBufferHash == staged.newVertexBufferHash,
                      slot.prevVertexBuffer == staged.newVertexBuffer,
                      slot.prevVertexBufferHash == ratDigest triangleBuffer,
                      slot.prevVertexBuffer == some movedBuffer],
                     slot.prevVertexBuffer.map ratDigest == some slot.prevVertexBufferHash))
      = some ([true, true, true, true, true, true, true, true], false) := by
  decide!

/-! ## Persisted map references -/

/-- C28 (code bug).  The texture mod file `specularDocument` is loaded: the mod of "lava"
has the hash of "lava_spec", a registered non-empty name, as specular map hash, and no
normal map.  `gfx_rt64_save_texture_mods` then writes an element without the entry
"specularMapMod", and loading the saved document leaves the mod of "lava" with the
specular map hash 0.  For `normalDocument`, where the mod has a normal map only and
hash 0 has no registered name, the saved element has both entries.  And
`gfx_rt64_save_geo_layout_mods` writes no "specularMapMod" for the geo layout mod of
`geoState`, whose specular map has a registered name. -/
theorem specular_map_lost_on_save :
    ((gfx_rt64_load_texture_mods ratExtern emptyState specularDocument).bind fun s1 =>
      (gfx_rt64_load_texture_mods ratExtern (gfx_rt64_save_texture_mods ratExtern s1).2
        (gfx_rt64_save_texture_mods ratExtern s1).1).map fun s3 =>
        (modMapHashes s1 "lava",
          mapFind s1.texNameMap (nameHash "lava_spec") == some "lava_spec",
          savedMapEntries (gfx_rt64_save_texture_mods ratExtern s1).1 "textures",
          modMapHashes s3 "lava"))
      = some ([0, nameHash "lava_spec"], true, [false, false], [0, 0]) ∧
    nameHash "lava_spec" ≠ 0 ∧
    ((gfx_rt64_load_texture_mods ratExtern emptyState normalDocument).map fun s1 =>
        (modMapHashes s1 "lava", (mapFind s1.texNameMap 0).isNone,
          savedMapEntries (gfx_rt64_save_texture_mods ratExtern s1).1 "textures"))
      = some ([nameHash "lava_norm", 0], true, [true, true]) ∧
    savedMapEntries (gfx_rt64_save_geo_layout_mods ratExtern geoState).1 "geoLayouts"
      = [false, false] := by
  refine ⟨?_, ?_, ?_, ?_⟩
  · decide!
  · decide
  · decide!
  · decide!

end RT64
